import Mathlib

/-! AG SCO control: a shallow embedding of `bta/ag/bta_ag_sco.cc`

The global control block `bta_ag_cb` becomes the record `World`: the pool of
service control blocks (`scb`, addressed by pool position; the handle of
position `i` is `i + 1`), the SCO control block (`sco`), the sequence of calls
made to the controller, the system manager, the call-outs and the application
callback (`out`), and the lines written by `APPL_TRACE_EVENT` and
`APPL_TRACE_WARNING` (`log`).

A pointer `tBTA_AG_SCB*` is a pool position; `NULL` is `none`.  A function of
the source that dereferences a pointer which is `NULL` returns `none`.

The file is embedded for `BTM_SCO_HCI_INCLUDED == FALSE` and
`BTA_AG_SCO_DEBUG == FALSE`; `BTM_WBS_INCLUDED` is the flag
`Cfg.BTM_WBS_INCLUDED`.  Constants, tables and types that are declared in
headers outside the embedded sources are fields of `Cfg`.
-/

namespace BtaAgSco

/-! ## Data model -/

/-- States of the SCO state machine (`BTA_AG_SCO_*_ST`). -/
inductive ScoState where
  | BTA_AG_SCO_SHUTDOWN_ST
  | BTA_AG_SCO_LISTEN_ST
  | BTA_AG_SCO_CODEC_ST
  | BTA_AG_SCO_OPENING_ST
  | BTA_AG_SCO_OPEN_CL_ST
  | BTA_AG_SCO_OPEN_XFER_ST
  | BTA_AG_SCO_OPEN_ST
  | BTA_AG_SCO_CLOSING_ST
  | BTA_AG_SCO_CLOSE_OP_ST
  | BTA_AG_SCO_CLOSE_XFER_ST
  | BTA_AG_SCO_SHUTTING_ST
deriving DecidableEq, Repr

/-- Events of the SCO state machine (the `enum` at the top of the file). -/
inductive ScoEvent where
  | BTA_AG_SCO_LISTEN_E
  | BTA_AG_SCO_OPEN_E
  | BTA_AG_SCO_OPEN_PENDING_E
  | BTA_AG_SCO_XFER_E
  | BTA_AG_SCO_CN_DONE_E
  | BTA_AG_SCO_REOPEN_E
  | BTA_AG_SCO_CLOSE_E
  | BTA_AG_SCO_SHUTDOWN_E
  | BTA_AG_SCO_CONN_OPEN_E
  | BTA_AG_SCO_CONN_CLOSE_E
  | BTA_AG_SCO_CI_DATA_E
deriving DecidableEq, Repr

/-- Peer codec (`tBTA_AG_PEER_CODEC`); the `BTM_SCO_CODEC_*` names used in two
comparisons of the source denote the same values. -/
inductive tBTA_AG_PEER_CODEC where
  | BTA_AG_CODEC_NONE
  | BTA_AG_CODEC_CVSD
  | BTA_AG_CODEC_MSBC
deriving DecidableEq, Repr

/-- The two mSBC settings (`codec_msbc_settings`). -/
inductive tBTA_AG_SCO_MSBC_SETTINGS where
  | BTA_AG_SCO_MSBC_SETTINGS_T1
  | BTA_AG_SCO_MSBC_SETTINGS_T2
deriving DecidableEq, Repr

/-- Index of an eSCO parameter set (`esco_codec_t`). -/
inductive esco_codec_t where
  | ESCO_CODEC_CVSD
  | ESCO_CODEC_MSBC_T1
  | ESCO_CODEC_MSBC_T2
deriving DecidableEq, Repr

/-- Retransmission effort of a parameter set; only `ESCO_RETRANSMISSION_POWER`
is named in the source. -/
inductive esco_retransmission_effort_t where
  | ESCO_RETRANSMISSION_OFF
  | ESCO_RETRANSMISSION_POWER
  | ESCO_RETRANSMISSION_QUALITY
  | ESCO_RETRANSMISSION_DONT_CARE
deriving DecidableEq, Repr

/-- The fields of `enh_esco_params_t` that the source reads or writes. -/
structure enh_esco_params_t where
  packet_types : Nat
  max_latency_ms : Nat
  retransmission_effort : esco_retransmission_effort_t
  input_data_path : Nat
deriving DecidableEq, Repr

/-- Status returned by the controller primitives (`tBTM_STATUS`); every value
that the source does not name is `BTM_OTHER`. -/
inductive tBTM_STATUS where
  | BTM_SUCCESS
  | BTM_CMD_STARTED
  | BTM_UNKNOWN_ADDR
  | BTM_OTHER
deriving DecidableEq, Repr

/-- Service of the connection (`conn_service`). -/
inductive tBTA_SERVICE where
  | BTA_AG_HSP
  | BTA_AG_HFP
deriving DecidableEq, Repr

/-- Audio state reported to the call-out `bta_ag_co_audio_state`. -/
inductive sco_state_t where
  | SCO_STATE_OFF
  | SCO_STATE_OFF_TRANSFER
  | SCO_STATE_ON
  | SCO_STATE_SETUP
deriving DecidableEq, Repr

/-- HCI status given to `BTM_EScoConnRsp`. -/
inductive HciStatus where
  | HCI_SUCCESS
  | HCI_ERR_HOST_REJECT_RESOURCES
deriving DecidableEq, Repr

/-- Voice setting given to `BTM_WriteVoiceSettings`. -/
inductive VoiceSetting where
  | BTM_VOICE_SETTING_CVSD
  | BTM_VOICE_SETTING_TRANS
deriving DecidableEq, Repr

/-- Messages posted with `bta_sys_sendmsg`. -/
inductive AgMsg where
  | BTA_AG_SCO_OPEN_EVT
  | BTA_AG_SCO_CLOSE_EVT
deriving DecidableEq, Repr

/-- Events of the application callback. -/
inductive AgCbackEvt where
  | BTA_AG_AUDIO_OPEN_EVT
  | BTA_AG_AUDIO_CLOSE_EVT
deriving DecidableEq, Repr

/-- Events of the eSCO callback (`tBTM_ESCO_EVT`). -/
inductive tBTM_ESCO_EVT where
  | BTM_ESCO_CHG_EVT
  | BTM_ESCO_CONN_REQ_EVT
  | BTM_ESCO_OTHER_EVT
deriving DecidableEq, Repr

/-- Data of a connection request (`tBTM_ESCO_CONN_REQ_EVT_DATA`). -/
structure tBTM_ESCO_CONN_REQ_EVT_DATA where
  sco_inx : Nat
  bd_addr : Nat
  link_type : Nat
deriving DecidableEq, Repr

/-- `BTM_INVALID_SCO_INDEX`; the source itself writes it as `0xFFFF` in
`bta_ag_sco_disc_cback`. -/
def BTM_INVALID_SCO_INDEX : Nat := 0xFFFF

/-- Service control block: the fields of `tBTA_AG_SCB` used by the file.
`state` is the state of the AG service state machine (a `uint8_t`), and
`codec_negotiation_timer` tells whether the alarm of the block is set. -/
structure tBTA_AG_SCB where
  in_use : Bool
  svc_conn : Bool
  state : Nat
  sco_idx : Nat
  app_id : Nat
  peer_addr : Nat
  conn_service : tBTA_SERVICE
  peer_version : Nat
  features : Nat
  peer_features : Nat
  sco_codec : tBTA_AG_PEER_CODEC
  inuse_codec : tBTA_AG_PEER_CODEC
  codec_updated : Bool
  codec_fallback : Bool
  codec_msbc_settings : tBTA_AG_SCO_MSBC_SETTINGS
  retry_with_sco_only : Bool
  call_ind : Nat
  callsetup_ind : Nat
  post_sco : Nat
  codec_negotiation_timer : Bool
deriving DecidableEq, Repr

/-- SCO control block (`tBTA_AG_SCO_CB`). -/
structure tBTA_AG_SCO_CB where
  state : ScoState
  p_curr_scb : Option Nat
  p_xfer_scb : Option Nat
  cur_idx : Nat
  is_local : Bool
  conn_data : tBTM_ESCO_CONN_REQ_EVT_DATA
  set_audio_status : Nat
deriving DecidableEq, Repr

/-- Calls that leave the file, in the order in which they are made. -/
inductive Action where
  | BTM_CreateSco (peer_addr : Nat) (is_orig : Bool) (packet_types : Nat)
  | BTM_RegForEScoEvts (sco_idx : Nat)
  | BTM_RemoveSco (sco_idx : Nat)
  | BTM_SetEScoMode (params : enh_esco_params_t)
  | BTM_EScoConnRsp (sco_idx : Nat) (status : HciStatus) (params : Option enh_esco_params_t)
  | BTM_WriteVoiceSettings (setting : VoiceSetting)
  | bta_sys_sendmsg (event : AgMsg) (layer_specific : Nat)
  | bta_sys_sco_use (app_id : Nat) (peer_addr : Nat)
  | bta_sys_sco_unuse (app_id : Nat) (peer_addr : Nat)
  | bta_sys_sco_open (app_id : Nat) (peer_addr : Nat)
  | bta_sys_sco_close (app_id : Nat) (peer_addr : Nat)
  | bta_sys_busy (app_id : Nat) (peer_addr : Nat)
  | bta_ag_co_audio_state (handle : Nat) (app_id : Nat) (state : sco_state_t)
      (codec : Option tBTA_AG_PEER_CODEC)
  | bta_ag_send_bcs (handle : Nat)
  | alarm_set_on_queue (handle : Nat) (interval_ms : Nat)
  | p_cback (event : AgCbackEvt) (handle : Nat) (app_id : Nat)
deriving DecidableEq, Repr

/-- Lines written by `APPL_TRACE_EVENT` at the head of `bta_ag_sco_event` and by
the `APPL_TRACE_WARNING` calls of the file. -/
inductive LogEntry where
  | sco_evt (hdl : Nat) (state : ScoState) (event : ScoEvent)
  | ignoring (state : ScoState) (event : ScoEvent)
  | already_in_use (sco_idx : Nat)
  | no_scb_for_connreq
deriving DecidableEq, Repr

/-- The control block `bta_ag_cb` together with what the file has emitted. -/
structure World where
  scb : Nat → tBTA_AG_SCB
  sco : tBTA_AG_SCO_CB
  out : List Action
  log : List LogEntry

/-- Constants, tables and build flags declared outside the embedded sources. -/
structure Cfg where
  BTM_WBS_INCLUDED : Bool
  BTA_AG_NUM_SCB : Nat
  BTA_AG_OPEN_ST : Nat
  BTA_AG_SCO_CODEC_ST : Nat
  BTA_AG_SUCCESS : Nat
  HFP_VERSION_1_5 : Nat
  BTA_AG_FEAT_ESCO : Nat
  BTA_AG_PEER_FEAT_ESCO : Nat
  BTA_AG_PEER_FEAT_CODEC : Nat
  BTA_AG_CALL_INACTIVE : Nat
  BTA_AG_CALLSETUP_NONE : Nat
  BTA_AG_POST_SCO_CALL_END : Nat
  sco_pkt_types : Nat
  ESCO_PKT_TYPES_MASK_NO_2_EV3 : Nat
  ESCO_PKT_TYPES_MASK_NO_3_EV3 : Nat
  ESCO_PKT_TYPES_MASK_NO_2_EV5 : Nat
  ESCO_PKT_TYPES_MASK_NO_3_EV5 : Nat
  BTM_ESCO_LINK_ONLY_MASK : Nat
  BTM_SCO_LINK_ONLY_MASK : Nat
  esco_parameters_for_codec : esco_codec_t → enh_esco_params_t
  supports_enhanced_setup_synchronous_connection : Bool

/-- Answers of the controller to the calls one entry point makes: every entry
point of the file calls `BTM_CreateSco` at most once, asks for the status of
`BTM_RemoveSco` at most once and calls `BTM_ReadScoBdAddr` at most once. -/
structure Ctl where
  create_status : tBTM_STATUS
  create_idx : Nat
  remove_status : tBTM_STATUS
  read_bd_addr : Option Nat
deriving DecidableEq, Repr

open ScoState ScoEvent tBTA_AG_PEER_CODEC tBTA_AG_SCO_MSBC_SETTINGS esco_codec_t
open esco_retransmission_effort_t tBTM_STATUS tBTA_SERVICE sco_state_t HciStatus VoiceSetting
open AgMsg AgCbackEvt tBTM_ESCO_EVT

/-- Append a call to the output of the file. -/
@[simp]
def World.emit (w : World) (a : Action) : World :=
  { w with out := w.out ++ [a] }

/-- Append a line to the trace. -/
@[simp]
def World.trace (w : World) (l : LogEntry) : World :=
  { w with log := w.log ++ [l] }

/-- Store a control block at a pool position. -/
@[simp]
def World.setScb (w : World) (p : Nat) (s : tBTA_AG_SCB) : World :=
  { w with scb := Function.update w.scb p s }

/-- Assign `bta_ag_cb.sco.state`. -/
@[simp]
def World.setState (w : World) (st : ScoState) : World :=
  { w with sco := { w.sco with state := st } }

/-- Assign `bta_ag_cb.sco.p_curr_scb`. -/
@[simp]
def World.setCurr (w : World) (c : Option Nat) : World :=
  { w with sco := { w.sco with p_curr_scb := c } }

/-- Assign `bta_ag_cb.sco.p_xfer_scb`. -/
@[simp]
def World.setXfer (w : World) (x : Option Nat) : World :=
  { w with sco := { w.sco with p_xfer_scb := x } }

/-- `BTA_AG_NO_EDR_ESCO`. -/
def BTA_AG_NO_EDR_ESCO (cfg : Cfg) : Nat :=
  cfg.ESCO_PKT_TYPES_MASK_NO_2_EV3 ||| cfg.ESCO_PKT_TYPES_MASK_NO_3_EV3 |||
    cfg.ESCO_PKT_TYPES_MASK_NO_2_EV5 ||| cfg.ESCO_PKT_TYPES_MASK_NO_3_EV5

/-! ## The registry of control blocks -/

/-- Modelled from the spec: `bta_ag_scb_to_idx` is defined outside the embedded
sources; handles are the stable indices of the pool and index 0 is reserved for
"none", so the block at position `p` has handle `p + 1`. -/
def bta_ag_scb_to_idx (p : Nat) : Nat := p + 1

/-- Modelled from the spec: `bta_ag_scb_by_idx` is defined outside the embedded
sources; `by_index` resolves a handle of the fixed-size pool to its block, and
to nothing when the handle is out of range or the block is not in use. -/
def bta_ag_scb_by_idx (cfg : Cfg) (scb : Nat → tBTA_AG_SCB) (idx : Nat) : Option Nat :=
  if 0 < idx ∧ idx ≤ cfg.BTA_AG_NUM_SCB then
    if (scb (idx - 1)).in_use then some (idx - 1) else none
  else none

/-- Modelled from the spec: `bta_ag_idx_by_bdaddr` is defined outside the
embedded sources; `by_addr` returns the first in-use block whose `peer_addr`
matches, as a handle, and 0 when there is none or no address is given. -/
def bta_ag_idx_by_bdaddr (cfg : Cfg) (scb : Nat → tBTA_AG_SCB) (addr : Option Nat) : Nat :=
  match addr with
  | none => 0
  | some a =>
    match (List.range cfg.BTA_AG_NUM_SCB).find?
        (fun i => (scb i).in_use && (scb i).peer_addr == a) with
    | some i => bta_ag_scb_to_idx i
    | none => 0

/-- Modelled from the spec: `bta_ag_scb_open` is defined outside the embedded
sources; a block is open when it is in use and its service state machine is in
the open state. -/
def bta_ag_scb_open (cfg : Cfg) (scb : Nat → tBTA_AG_SCB) (p : Nat) : Bool :=
  (scb p).in_use && (scb p).state == cfg.BTA_AG_OPEN_ST

/-- Modelled from the spec: `bta_ag_other_scb_open` is defined outside the
embedded sources; it tells whether a block of the pool other than `p` is open
("last SCO instance" when there is none). -/
def bta_ag_other_scb_open (cfg : Cfg) (scb : Nat → tBTA_AG_SCB) (p : Nat) : Bool :=
  (List.range cfg.BTA_AG_NUM_SCB).any
    (fun i => (scb i).in_use && (i != p) && (scb i).state == cfg.BTA_AG_OPEN_ST)

/-! ## Helpers of the state machine -/

/-- `bta_ag_sco_is_open`. -/
def bta_ag_sco_is_open (w : World) (p : Nat) : Bool :=
  decide (w.sco.state = BTA_AG_SCO_OPEN_ST) && decide (w.sco.p_curr_scb = some p)

/-- `bta_ag_sco_is_opening`. -/
def bta_ag_sco_is_opening (w : World) (p : Nat) : Bool :=
  decide (w.sco.state = BTA_AG_SCO_OPENING_ST) && decide (w.sco.p_curr_scb = some p)

/-- `bta_ag_remove_sco`: the world afterwards and whether removal was started;
`status` is the controller's answer to `BTM_RemoveSco`. -/
def bta_ag_remove_sco (status : tBTM_STATUS) (w : World) (p : Nat) (only_active : Bool) :
    World × Bool :=
  if (w.scb p).sco_idx ≠ BTM_INVALID_SCO_INDEX then
    if only_active = false ∨ (w.scb p).sco_idx = w.sco.cur_idx then
      let w1 := w.emit (Action.BTM_RemoveSco (w.scb p).sco_idx)
      match status with
      | BTM_CMD_STARTED => (w1.setCurr (some p), true)
      | BTM_SUCCESS => (w1.setScb p { w1.scb p with sco_idx := BTM_INVALID_SCO_INDEX }, false)
      | BTM_UNKNOWN_ADDR =>
        (w1.setScb p { w1.scb p with sco_idx := BTM_INVALID_SCO_INDEX }, false)
      | BTM_OTHER => (w1, false)
    else (w, false)
  else (w, false)

/-- `bta_ag_cback_sco`: call the application callback with an SCO event. -/
def bta_ag_cback_sco (w : World) (p : Nat) (event : AgCbackEvt) : World :=
  w.emit (Action.p_cback event (bta_ag_scb_to_idx p) (w.scb p).app_id)

/-- The test `!(features & BTA_AG_FEAT_ESCO) || !(peer_features & BTA_AG_PEER_FEAT_ESCO)`. -/
def lacks_esco (cfg : Cfg) (s : tBTA_AG_SCB) : Bool :=
  (s.features &&& cfg.BTA_AG_FEAT_ESCO == 0) ||
    (s.peer_features &&& cfg.BTA_AG_PEER_FEAT_ESCO == 0)

/-- The assignments `max_latency_ms = 10; retransmission_effort = POWER`, made
when either side lacks eSCO. -/
def limit_for_sco (cfg : Cfg) (s : tBTA_AG_SCB) (params : enh_esco_params_t) :
    enh_esco_params_t :=
  if lacks_esco cfg s then
    { params with max_latency_ms := 10, retransmission_effort := ESCO_RETRANSMISSION_POWER }
  else params

/-- Codec chosen by `bta_ag_create_sco` (`esco_codec`). -/
def create_sco_codec (cfg : Cfg) (s : tBTA_AG_SCB) : tBTA_AG_PEER_CODEC :=
  if cfg.BTM_WBS_INCLUDED = true ∧ s.sco_codec = BTA_AG_CODEC_MSBC ∧
      s.codec_fallback = false ∧ s.retry_with_sco_only = false then
    BTA_AG_CODEC_MSBC
  else BTA_AG_CODEC_CVSD

/-- The block `if (p_scb->codec_fallback)` of `bta_ag_create_sco`, compiled when
wideband is built in: the fallback flag is consumed and `codec_updated` is set. -/
def create_sco_fallback (cfg : Cfg) (s : tBTA_AG_SCB) : tBTA_AG_SCB :=
  if cfg.BTM_WBS_INCLUDED = true ∧ s.codec_fallback = true then
    { s with codec_fallback := false, codec_updated := true }
  else s

/-- Parameter set index chosen by `bta_ag_create_sco` (`codec_index`). -/
def create_sco_codec_index (s : tBTA_AG_SCB) (esco_codec : tBTA_AG_PEER_CODEC) : esco_codec_t :=
  if esco_codec = BTA_AG_CODEC_MSBC then
    if s.codec_msbc_settings = BTA_AG_SCO_MSBC_SETTINGS_T2 then ESCO_CODEC_MSBC_T2
    else ESCO_CODEC_MSBC_T1
  else ESCO_CODEC_CVSD

/-- Parameters built by `bta_ag_create_sco` (`params`); both operands of the
`|` are `uint16_t`. -/
def create_sco_params (cfg : Cfg) (s : tBTA_AG_SCB) (esco_codec : tBTA_AG_PEER_CODEC) :
    enh_esco_params_t :=
  let params := cfg.esco_parameters_for_codec (create_sco_codec_index s esco_codec)
  if esco_codec = BTA_AG_CODEC_CVSD then
    limit_for_sco cfg s
      { params with
        packet_types := cfg.sco_pkt_types ||| cfg.ESCO_PKT_TYPES_MASK_NO_3_EV3 }
  else params

/-- The test "ESCO or EDR ESCO" of `bta_ag_create_sco` on the packet types; the
complement is taken on `int`. -/
def esco_or_edr_esco (cfg : Cfg) (packet_types : Nat) : Bool :=
  (packet_types &&& cfg.BTM_ESCO_LINK_ONLY_MASK != 0) ||
    ((packet_types &&&
        (0xFFFFFFFF ^^^ (cfg.BTM_ESCO_LINK_ONLY_MASK ||| cfg.BTM_SCO_LINK_ONLY_MASK))) ^^^
      BTA_AG_NO_EDR_ESCO cfg == 0)

/-- Codec argument of `bta_ag_co_audio_state`, present when wideband is built in. -/
def co_codec (cfg : Cfg) (c : tBTA_AG_PEER_CODEC) : Option tBTA_AG_PEER_CODEC :=
  if cfg.BTM_WBS_INCLUDED then some c else none

/-- `bta_ag_create_sco`. -/
def bta_ag_create_sco (cfg : Cfg) (ctl : Ctl) (w : World) (p : Nat) (is_orig : Bool) : World :=
  let p_scb := w.scb p
  if p_scb.sco_idx ≠ BTM_INVALID_SCO_INDEX then
    w.trace (LogEntry.already_in_use p_scb.sco_idx)
  else
    let esco_codec := create_sco_codec cfg p_scb
    let scb1 := create_sco_fallback cfg p_scb
    let params := create_sco_params cfg scb1 esco_codec
    if is_orig then
      let w1 : World := { w with sco := { w.sco with is_local := true } }
      let scb2 : tBTA_AG_SCB :=
        if scb1.conn_service = BTA_AG_HFP ∧ cfg.HFP_VERSION_1_5 ≤ scb1.peer_version ∧
            scb1.retry_with_sco_only = false then
          if esco_or_edr_esco cfg params.packet_types then
            if cfg.BTM_WBS_INCLUDED then
              if esco_codec ≠ BTA_AG_CODEC_MSBC then { scb1 with retry_with_sco_only := true }
              else { scb1 with retry_with_sco_only := false }
            else { scb1 with retry_with_sco_only := true }
          else scb1
        else { scb1 with retry_with_sco_only := false }
      let w2 := w1.emit (Action.BTM_SetEScoMode params)
      let w3 := w2.setCurr (some p)
      let scb3 : tBTA_AG_SCB := { scb2 with inuse_codec := esco_codec }
      let w4 := w3.setScb p scb3
      let w5 := w4.emit (Action.bta_sys_sco_use scb3.app_id scb3.peer_addr)
      w5.emit (Action.bta_ag_co_audio_state (bta_ag_scb_to_idx p) scb3.app_id SCO_STATE_SETUP
        (co_codec cfg esco_codec))
    else
      let scb2 : tBTA_AG_SCB := { scb1 with retry_with_sco_only := false }
      let w1 := w.emit (Action.BTM_CreateSco scb2.peer_addr is_orig params.packet_types)
      let w2 := w1.setScb p { scb2 with sco_idx := ctl.create_idx }
      if ctl.create_status = BTM_CMD_STARTED then
        w2.emit (Action.BTM_RegForEScoEvts ctl.create_idx)
      else w2

/-- `bta_ag_create_pending_sco`. -/
def bta_ag_create_pending_sco (cfg : Cfg) (ctl : Ctl) (w : World) (p : Nat) (is_local : Bool) :
    World :=
  let p_scb := w.scb p
  let esco_codec := p_scb.inuse_codec
  let w0 : World :=
    { w with sco := { w.sco with p_curr_scb := some p, cur_idx := p_scb.sco_idx } }
  if is_local then
    if w0.sco.set_audio_status = cfg.BTA_AG_SUCCESS then
      let params : enh_esco_params_t :=
        if esco_codec = BTA_AG_CODEC_MSBC then
          if cfg.BTM_WBS_INCLUDED = true ∧
              p_scb.codec_msbc_settings = BTA_AG_SCO_MSBC_SETTINGS_T2 then
            cfg.esco_parameters_for_codec ESCO_CODEC_MSBC_T2
          else cfg.esco_parameters_for_codec ESCO_CODEC_MSBC_T1
        else limit_for_sco cfg p_scb (cfg.esco_parameters_for_codec ESCO_CODEC_CVSD)
      let w1 : World :=
        if cfg.BTM_WBS_INCLUDED = true ∧
            cfg.supports_enhanced_setup_synchronous_connection = false then
          if esco_codec = BTA_AG_CODEC_MSBC then
            w0.emit (Action.BTM_WriteVoiceSettings BTM_VOICE_SETTING_TRANS)
          else w0.emit (Action.BTM_WriteVoiceSettings BTM_VOICE_SETTING_CVSD)
        else w0
      let w2 := w1.emit (Action.BTM_CreateSco p_scb.peer_addr true params.packet_types)
      let w3 := w2.setScb p { p_scb with sco_idx := ctl.create_idx }
      if ctl.create_status = BTM_CMD_STARTED then
        { w3 with sco := { w3.sco with cur_idx := ctl.create_idx } }
      else w3
    else
      bta_ag_create_sco cfg ctl (w0.setState BTA_AG_SCO_LISTEN_ST) p false
  else
    let params := limit_for_sco cfg p_scb (cfg.esco_parameters_for_codec ESCO_CODEC_CVSD)
    if w0.sco.set_audio_status = cfg.BTA_AG_SUCCESS then
      w0.emit (Action.BTM_EScoConnRsp p_scb.sco_idx HCI_SUCCESS (some params))
    else
      w0.emit (Action.BTM_EScoConnRsp p_scb.sco_idx HCI_ERR_HOST_REJECT_RESOURCES (some params))

/-- `bta_ag_attempt_msbc_safe_settings`. -/
def bta_ag_attempt_msbc_safe_settings (s : tBTA_AG_SCB) : Bool :=
  s.svc_conn && decide (s.sco_codec = BTA_AG_CODEC_MSBC) &&
    decide (s.codec_msbc_settings = BTA_AG_SCO_MSBC_SETTINGS_T1)

/-- `bta_ag_sco_conn_rsp`; the request data is not read by the function. -/
def bta_ag_sco_conn_rsp (cfg : Cfg) (w : World) (p : Nat)
    (_p_data : tBTM_ESCO_CONN_REQ_EVT_DATA) : World :=
  let w1 : World := { w with sco := { w.sco with is_local := false } }
  let w2 : World :=
    if w1.sco.state = BTA_AG_SCO_LISTEN_ST ∨ w1.sco.state = BTA_AG_SCO_CLOSE_XFER_ST ∨
        w1.sco.state = BTA_AG_SCO_OPEN_XFER_ST then
      (w1.emit (Action.bta_sys_sco_use (w1.scb p).app_id (w1.scb p).peer_addr)).emit
        (Action.bta_ag_co_audio_state (bta_ag_scb_to_idx p) (w1.scb p).app_id SCO_STATE_SETUP
          (co_codec cfg BTA_AG_CODEC_CVSD))
    else w1
  if cfg.BTM_WBS_INCLUDED then
    w2.setScb p { w2.scb p with inuse_codec := BTA_AG_CODEC_NONE }
  else w2

/-! ## The state machine -/

/-- `BTA_AG_CODEC_NEGOTIATION_TIMEOUT_MS`. -/
def BTA_AG_CODEC_NEGOTIATION_TIMEOUT_MS : Nat := 3 * 1000

/-- The `default:` branch of the inner switches: warn and ignore. -/
def sco_ignore (w : World) (event : ScoEvent) : Option (World × Option Nat) :=
  some (w.trace (LogEntry.ignoring w.sco.state event), none)

/-- `case BTA_AG_SCO_SHUTDOWN_ST`. -/
def sco_shutdown_st (cfg : Cfg) (ctl : Ctl) (w : World) (p : Nat) (event : ScoEvent) :
    Option (World × Option Nat) :=
  match event with
  | BTA_AG_SCO_LISTEN_E =>
    some ((bta_ag_create_sco cfg ctl w p false).setState BTA_AG_SCO_LISTEN_ST, none)
  | _ => sco_ignore w event

/-- The `BTA_AG_SCO_SHUTDOWN_E` branch shared, text for text, by the listen and
codec states. -/
def sco_shutdown_listening (cfg : Cfg) (ctl : Ctl) (w : World) (p : Nat) : World :=
  let w1 := (bta_ag_remove_sco ctl.remove_status w p false).1
  let w2 := if w1.sco.p_curr_scb = some p then w1.setCurr none else w1
  if bta_ag_other_scb_open cfg w2.scb p = false then w2.setState BTA_AG_SCO_SHUTDOWN_ST else w2

/-- `case BTA_AG_SCO_LISTEN_ST`. -/
def sco_listen_st (cfg : Cfg) (ctl : Ctl) (w : World) (p : Nat) (event : ScoEvent) :
    Option (World × Option Nat) :=
  match event with
  | BTA_AG_SCO_LISTEN_E => some (bta_ag_create_sco cfg ctl w p false, none)
  | BTA_AG_SCO_OPEN_E =>
    let w1 := (bta_ag_remove_sco ctl.remove_status w p false).1
    if cfg.BTM_WBS_INCLUDED then some (w1.setState BTA_AG_SCO_CODEC_ST, some p)
    else some ((bta_ag_create_sco cfg ctl w1 p true).setState BTA_AG_SCO_OPENING_ST, none)
  | BTA_AG_SCO_SHUTDOWN_E => some (sco_shutdown_listening cfg ctl w p, none)
  | BTA_AG_SCO_CLOSE_E => sco_ignore w event
  | BTA_AG_SCO_CONN_CLOSE_E =>
    some ((bta_ag_create_sco cfg ctl w p false).setState BTA_AG_SCO_LISTEN_ST, none)
  | _ => sco_ignore w event

/-- `case BTA_AG_SCO_CODEC_ST` (compiled when wideband is built in). -/
def sco_codec_st (cfg : Cfg) (ctl : Ctl) (w : World) (p : Nat) (event : ScoEvent) :
    Option (World × Option Nat) :=
  match event with
  | BTA_AG_SCO_LISTEN_E => some (bta_ag_create_sco cfg ctl w p false, none)
  | BTA_AG_SCO_CN_DONE_E =>
    some ((bta_ag_create_sco cfg ctl w p true).setState BTA_AG_SCO_OPENING_ST, none)
  | BTA_AG_SCO_XFER_E => some ((w.setXfer (some p)).setState BTA_AG_SCO_CLOSE_XFER_ST, none)
  | BTA_AG_SCO_SHUTDOWN_E => some (sco_shutdown_listening cfg ctl w p, none)
  | BTA_AG_SCO_CLOSE_E => some (w.setState BTA_AG_SCO_LISTEN_ST, none)
  | BTA_AG_SCO_CONN_CLOSE_E =>
    some ((bta_ag_create_sco cfg ctl w p false).setState BTA_AG_SCO_LISTEN_ST, none)
  | _ => sco_ignore w event

/-- The `BTA_AG_SCO_LISTEN_E` branch of the states with a current block: listen
on an additional channel unless the block is the current one. -/
def sco_listen_additional (cfg : Cfg) (ctl : Ctl) (w : World) (p : Nat) : World :=
  if w.sco.p_curr_scb ≠ some p then bta_ag_create_sco cfg ctl w p false else w

/-- The `BTA_AG_SCO_SHUTDOWN_E` branch shared by the opening, open-while-closing
and closing states. -/
def sco_shutdown_or_remove (ctl : Ctl) (w : World) (p : Nat) : World :=
  if w.sco.p_curr_scb ≠ some p then (bta_ag_remove_sco ctl.remove_status w p false).1
  else w.setState BTA_AG_SCO_SHUTTING_ST

/-- `case BTA_AG_SCO_OPENING_ST`. -/
def sco_opening_st (cfg : Cfg) (ctl : Ctl) (w : World) (p : Nat) (event : ScoEvent) :
    Option (World × Option Nat) :=
  match event with
  | BTA_AG_SCO_LISTEN_E => some (sco_listen_additional cfg ctl w p, none)
  | BTA_AG_SCO_REOPEN_E =>
    if cfg.BTM_WBS_INCLUDED then some (w.setState BTA_AG_SCO_CODEC_ST, some p)
    else sco_ignore w event
  | BTA_AG_SCO_OPEN_PENDING_E =>
    some (bta_ag_create_pending_sco cfg ctl w p w.sco.is_local, none)
  | BTA_AG_SCO_XFER_E => some ((w.setXfer (some p)).setState BTA_AG_SCO_CLOSE_XFER_ST, none)
  | BTA_AG_SCO_CLOSE_E => some (w.setState BTA_AG_SCO_OPEN_CL_ST, none)
  | BTA_AG_SCO_SHUTDOWN_E => some (sco_shutdown_or_remove ctl w p, none)
  | BTA_AG_SCO_CONN_OPEN_E => some (w.setState BTA_AG_SCO_OPEN_ST, none)
  | BTA_AG_SCO_CONN_CLOSE_E =>
    some ((bta_ag_create_sco cfg ctl w p false).setState BTA_AG_SCO_LISTEN_ST, none)
  | _ => sco_ignore w event

/-- `case BTA_AG_SCO_OPEN_CL_ST`. -/
def sco_open_cl_st (ctl : Ctl) (w : World) (p : Nat) (event : ScoEvent) :
    Option (World × Option Nat) :=
  match event with
  | BTA_AG_SCO_XFER_E => some ((w.setXfer (some p)).setState BTA_AG_SCO_CLOSE_XFER_ST, none)
  | BTA_AG_SCO_OPEN_E => some (w.setState BTA_AG_SCO_OPENING_ST, none)
  | BTA_AG_SCO_SHUTDOWN_E => some (sco_shutdown_or_remove ctl w p, none)
  | BTA_AG_SCO_CONN_OPEN_E =>
    some ((bta_ag_remove_sco ctl.remove_status w p true).1.setState BTA_AG_SCO_CLOSING_ST, none)
  | BTA_AG_SCO_CONN_CLOSE_E => some (w.setState BTA_AG_SCO_LISTEN_ST, none)
  | _ => sco_ignore w event

/-- `case BTA_AG_SCO_OPEN_XFER_ST`; the close event of the connection reads
through `p_xfer_scb`. -/
def sco_open_xfer_st (cfg : Cfg) (ctl : Ctl) (w : World) (p : Nat) (event : ScoEvent) :
    Option (World × Option Nat) :=
  match event with
  | BTA_AG_SCO_CLOSE_E =>
    some ((bta_ag_remove_sco ctl.remove_status w p true).1.setState BTA_AG_SCO_CLOSING_ST, none)
  | BTA_AG_SCO_SHUTDOWN_E =>
    some ((bta_ag_remove_sco ctl.remove_status w p false).1.setState BTA_AG_SCO_SHUTTING_ST, none)
  | BTA_AG_SCO_CONN_CLOSE_E =>
    let w1 := bta_ag_create_sco cfg ctl w p false
    match w1.sco.p_xfer_scb with
    | none => none
    | some x =>
      let w2 := bta_ag_sco_conn_rsp cfg w1 x w1.sco.conn_data
      let w3 := w2.setState BTA_AG_SCO_OPENING_ST
      some ({ w3 with sco := { w3.sco with
                p_curr_scb := some x, cur_idx := (w3.scb x).sco_idx, p_xfer_scb := none } },
            none)
  | _ => sco_ignore w event

/-- `case BTA_AG_SCO_OPEN_ST`; the transfer event reads through `p_curr_scb`. -/
def sco_open_st (cfg : Cfg) (ctl : Ctl) (w : World) (p : Nat) (event : ScoEvent) :
    Option (World × Option Nat) :=
  match event with
  | BTA_AG_SCO_LISTEN_E => some (sco_listen_additional cfg ctl w p, none)
  | BTA_AG_SCO_XFER_E =>
    match w.sco.p_curr_scb with
    | none => none
    | some c =>
      let w1 := (bta_ag_remove_sco ctl.remove_status w c true).1
      some ((w1.setXfer (some p)).setState BTA_AG_SCO_CLOSE_XFER_ST, none)
  | BTA_AG_SCO_CLOSE_E =>
    let r := bta_ag_remove_sco ctl.remove_status w p true
    if r.2 then some (r.1.setState BTA_AG_SCO_CLOSING_ST, none) else some (r.1, none)
  | BTA_AG_SCO_SHUTDOWN_E =>
    let w1 := (bta_ag_remove_sco ctl.remove_status w p false).1
    if w1.sco.p_curr_scb = some p then some (w1.setState BTA_AG_SCO_SHUTTING_ST, none)
    else some (w1, none)
  | BTA_AG_SCO_CONN_CLOSE_E =>
    some ((bta_ag_create_sco cfg ctl w p false).setState BTA_AG_SCO_LISTEN_ST, none)
  | _ => sco_ignore w event

/-- `case BTA_AG_SCO_CLOSING_ST`. -/
def sco_closing_st (cfg : Cfg) (ctl : Ctl) (w : World) (p : Nat) (event : ScoEvent) :
    Option (World × Option Nat) :=
  match event with
  | BTA_AG_SCO_LISTEN_E => some (sco_listen_additional cfg ctl w p, none)
  | BTA_AG_SCO_OPEN_E => some (w.setState BTA_AG_SCO_CLOSE_OP_ST, none)
  | BTA_AG_SCO_XFER_E => some ((w.setXfer (some p)).setState BTA_AG_SCO_CLOSE_XFER_ST, none)
  | BTA_AG_SCO_SHUTDOWN_E => some (sco_shutdown_or_remove ctl w p, none)
  | BTA_AG_SCO_CONN_CLOSE_E =>
    some ((bta_ag_create_sco cfg ctl w p false).setState BTA_AG_SCO_LISTEN_ST, none)
  | _ => sco_ignore w event

/-- `case BTA_AG_SCO_CLOSE_OP_ST`. -/
def sco_close_op_st (cfg : Cfg) (ctl : Ctl) (w : World) (p : Nat) (event : ScoEvent) :
    Option (World × Option Nat) :=
  match event with
  | BTA_AG_SCO_CLOSE_E => some (w.setState BTA_AG_SCO_CLOSING_ST, none)
  | BTA_AG_SCO_SHUTDOWN_E => some (w.setState BTA_AG_SCO_SHUTTING_ST, none)
  | BTA_AG_SCO_CONN_CLOSE_E =>
    if cfg.BTM_WBS_INCLUDED then some (w.setState BTA_AG_SCO_CODEC_ST, some p)
    else some ((bta_ag_create_sco cfg ctl w p true).setState BTA_AG_SCO_OPENING_ST, none)
  | BTA_AG_SCO_LISTEN_E => some (sco_listen_additional cfg ctl w p, none)
  | _ => sco_ignore w event

/-- `case BTA_AG_SCO_CLOSE_XFER_ST`; the close event of the connection reads
through `p_xfer_scb`. -/
def sco_close_xfer_st (cfg : Cfg) (ctl : Ctl) (w : World) (p : Nat) (event : ScoEvent) :
    Option (World × Option Nat) :=
  match event with
  | BTA_AG_SCO_CONN_OPEN_E => some ((bta_ag_remove_sco ctl.remove_status w p true).1, none)
  | BTA_AG_SCO_CLOSE_E => some ((w.setXfer none).setState BTA_AG_SCO_CLOSING_ST, none)
  | BTA_AG_SCO_SHUTDOWN_E => some ((w.setXfer none).setState BTA_AG_SCO_SHUTTING_ST, none)
  | BTA_AG_SCO_CONN_CLOSE_E =>
    let w1 := bta_ag_create_sco cfg ctl w p false
    match w1.sco.p_xfer_scb with
    | none => none
    | some x =>
      let w2 := (bta_ag_remove_sco ctl.remove_status w1 x false).1
      if cfg.BTM_WBS_INCLUDED then
        some ((w2.setState BTA_AG_SCO_CODEC_ST).setXfer none, w2.sco.p_xfer_scb)
      else
        match w2.sco.p_xfer_scb with
        | none => none
        | some x2 =>
          some (((bta_ag_create_sco cfg ctl w2 x2 true).setXfer none).setState
            BTA_AG_SCO_OPENING_ST, none)
  | _ => sco_ignore w event

/-- The two branches of the connection-close and shutdown events in the
shutting state: the next state, by whether another block is open. -/
def sco_shutting_next (cfg : Cfg) (w : World) (p : Nat) : World :=
  if bta_ag_other_scb_open cfg w.scb p = false then w.setState BTA_AG_SCO_SHUTDOWN_ST
  else w.setState BTA_AG_SCO_LISTEN_ST

/-- The tail of the same two branches: forget the current block when it is `p`. -/
def sco_shutting_clear (w : World) (p : Nat) : World :=
  if w.sco.p_curr_scb = some p then
    (w.setScb p { w.scb p with sco_idx := BTM_INVALID_SCO_INDEX }).setCurr none
  else w

/-- `case BTA_AG_SCO_SHUTTING_ST`. -/
def sco_shutting_st (cfg : Cfg) (ctl : Ctl) (w : World) (p : Nat) (event : ScoEvent) :
    Option (World × Option Nat) :=
  match event with
  | BTA_AG_SCO_CONN_OPEN_E => some ((bta_ag_remove_sco ctl.remove_status w p true).1, none)
  | BTA_AG_SCO_CONN_CLOSE_E =>
    let w1 := sco_shutting_next cfg w p
    let w2 :=
      if bta_ag_scb_open cfg w1.scb p then
        (bta_ag_create_sco cfg ctl w1 p false).setState BTA_AG_SCO_LISTEN_ST
      else w1
    some (sco_shutting_clear w2 p, none)
  | BTA_AG_SCO_LISTEN_E => some (sco_listen_additional cfg ctl w p, none)
  | BTA_AG_SCO_SHUTDOWN_E => some (sco_shutting_clear (sco_shutting_next cfg w p) p, none)
  | _ => sco_ignore w event

/-- The `switch (p_sco->state)` of `bta_ag_sco_event`: the world afterwards and
the local `p_cn_scb` (the block for which codec negotiation is to be started);
`none` when a `NULL` pointer is dereferenced.  Without wideband the codec state
does not exist and falls to the outer `default:`. -/
def sco_event_switch (cfg : Cfg) (ctl : Ctl) (w : World) (p : Nat) (event : ScoEvent) :
    Option (World × Option Nat) :=
  match w.sco.state with
  | BTA_AG_SCO_SHUTDOWN_ST => sco_shutdown_st cfg ctl w p event
  | BTA_AG_SCO_LISTEN_ST => sco_listen_st cfg ctl w p event
  | BTA_AG_SCO_CODEC_ST =>
    if cfg.BTM_WBS_INCLUDED then sco_codec_st cfg ctl w p event else some (w, none)
  | BTA_AG_SCO_OPENING_ST => sco_opening_st cfg ctl w p event
  | BTA_AG_SCO_OPEN_CL_ST => sco_open_cl_st ctl w p event
  | BTA_AG_SCO_OPEN_XFER_ST => sco_open_xfer_st cfg ctl w p event
  | BTA_AG_SCO_OPEN_ST => sco_open_st cfg ctl w p event
  | BTA_AG_SCO_CLOSING_ST => sco_closing_st cfg ctl w p event
  | BTA_AG_SCO_CLOSE_OP_ST => sco_close_op_st cfg ctl w p event
  | BTA_AG_SCO_CLOSE_XFER_ST => sco_close_xfer_st cfg ctl w p event
  | BTA_AG_SCO_SHUTTING_ST => sco_shutting_st cfg ctl w p event

/-- The `APPL_TRACE_EVENT` at the head of `bta_ag_sco_event`. -/
def sco_event_head (w : World) (p : Nat) (event : ScoEvent) : World :=
  if event ≠ BTA_AG_SCO_CI_DATA_E then
    w.trace (LogEntry.sco_evt (w.scb p).sco_idx w.sco.state event)
  else w

/-- `bta_ag_sco_event` as it runs when it is entered from
`bta_ag_sco_codec_nego` inside a codec negotiation that `bta_ag_sco_event`
itself has started: the event is then `BTA_AG_SCO_CN_DONE_E` (or
`BTA_AG_SCO_CLOSE_E`), for which the switch leaves `p_cn_scb` at `NULL`
(`sco_event_switch_no_cn`), so the tail of the function does nothing
(`bta_ag_sco_event_eq_nested`). -/
def sco_event_nested (cfg : Cfg) (ctl : Ctl) (w : World) (p : Nat) (event : ScoEvent) :
    Option World :=
  (sco_event_switch cfg ctl (sco_event_head w p event) p event).map Prod.fst

/-- Body of `bta_ag_sco_codec_nego`; `deliver` is `bta_ag_sco_event`. -/
def sco_codec_nego_via (deliver : World → Nat → ScoEvent → Option World)
    (w : World) (p : Nat) (result : Bool) : Option World :=
  if result = true then
    deliver (w.setScb p { w.scb p with codec_updated := false }) p BTA_AG_SCO_CN_DONE_E
  else deliver w p BTA_AG_SCO_CLOSE_E

/-- The test of `bta_ag_codec_negotiate`: the codec was updated or the fallback
flag is set, and the peer supports codec negotiation. -/
def codec_nego_needed (cfg : Cfg) (s : tBTA_AG_SCB) : Bool :=
  (s.codec_updated || s.codec_fallback) &&
    (s.peer_features &&& cfg.BTA_AG_PEER_FEAT_CODEC != 0)

/-- Body of `bta_ag_codec_negotiate`; `deliver` is `bta_ag_sco_event`. -/
def codec_negotiate_via (deliver : World → Nat → ScoEvent → Option World)
    (cfg : Cfg) (w : World) (p : Nat) : Option World :=
  let w1 := w.setCurr (some p)
  if codec_nego_needed cfg (w1.scb p) then
    let w2 := w1.emit (Action.bta_sys_busy (w1.scb p).app_id (w1.scb p).peer_addr)
    let w3 := w2.emit (Action.bta_ag_send_bcs (bta_ag_scb_to_idx p))
    let w4 := w3.emit
      (Action.alarm_set_on_queue (bta_ag_scb_to_idx p) BTA_AG_CODEC_NEGOTIATION_TIMEOUT_MS)
    some (w4.setScb p { w4.scb p with codec_negotiation_timer := true })
  else sco_codec_nego_via deliver w1 p true

/-- `bta_ag_sco_event`. -/
def bta_ag_sco_event (cfg : Cfg) (ctl : Ctl) (w : World) (p : Nat) (event : ScoEvent) :
    Option World :=
  match sco_event_switch cfg ctl (sco_event_head w p event) p event with
  | none => none
  | some (w1, none) => some w1
  | some (w1, some p_cn_scb) => codec_negotiate_via (sco_event_nested cfg ctl) cfg w1 p_cn_scb

/-- `bta_ag_sco_codec_nego`. -/
def bta_ag_sco_codec_nego (cfg : Cfg) (ctl : Ctl) (w : World) (p : Nat) (result : Bool) :
    Option World :=
  sco_codec_nego_via (bta_ag_sco_event cfg ctl) w p result

/-- `bta_ag_codec_negotiate`. -/
def bta_ag_codec_negotiate (cfg : Cfg) (ctl : Ctl) (w : World) (p : Nat) : Option World :=
  codec_negotiate_via (bta_ag_sco_event cfg ctl) cfg w p

/-- `bta_ag_codec_negotiation_timer_cback`. -/
def bta_ag_codec_negotiation_timer_cback (cfg : Cfg) (ctl : Ctl) (w : World) (p : Nat) :
    Option World :=
  (bta_ag_sco_codec_nego cfg ctl w p false).map
    (fun w1 => bta_ag_cback_sco w1 p BTA_AG_AUDIO_CLOSE_EVT)

/-! ## Entry points -/

/-- `bta_ag_sco_listen`. -/
def bta_ag_sco_listen (cfg : Cfg) (ctl : Ctl) (w : World) (p : Nat) : Option World :=
  bta_ag_sco_event cfg ctl w p BTA_AG_SCO_LISTEN_E

/-- `bta_ag_sco_open`. -/
def bta_ag_sco_open (cfg : Cfg) (ctl : Ctl) (w : World) (p : Nat) : Option World :=
  if w.sco.p_curr_scb ≠ none ∧ w.sco.p_curr_scb ≠ some p then
    bta_ag_sco_event cfg ctl w p BTA_AG_SCO_XFER_E
  else bta_ag_sco_event cfg ctl w p BTA_AG_SCO_OPEN_E

/-- `bta_ag_ci_sco_open_continue`; `result` is `p_data->api_result.result`. -/
def bta_ag_ci_sco_open_continue (cfg : Cfg) (ctl : Ctl) (w : World) (p : Nat) (result : Nat) :
    Option World :=
  bta_ag_sco_event cfg ctl { w with sco := { w.sco with set_audio_status := result } } p
    BTA_AG_SCO_OPEN_PENDING_E

/-- `bta_ag_sco_close`. -/
def bta_ag_sco_close (cfg : Cfg) (ctl : Ctl) (w : World) (p : Nat) : Option World :=
  if (w.scb p).sco_idx ≠ BTM_INVALID_SCO_INDEX ∨
      (cfg.BTM_WBS_INCLUDED = true ∧ w.sco.state = BTA_AG_SCO_CODEC_ST) then
    bta_ag_sco_event cfg ctl w p BTA_AG_SCO_CLOSE_E
  else some w

/-- `bta_ag_sco_shutdown`. -/
def bta_ag_sco_shutdown (cfg : Cfg) (ctl : Ctl) (w : World) (p : Nat) : Option World :=
  bta_ag_sco_event cfg ctl w p BTA_AG_SCO_SHUTDOWN_E

/-- `bta_ag_sco_conn_open`. -/
def bta_ag_sco_conn_open (cfg : Cfg) (ctl : Ctl) (w : World) (p : Nat) : Option World :=
  (bta_ag_sco_event cfg ctl w p BTA_AG_SCO_CONN_OPEN_E).map fun w1 =>
    let w2 := w1.emit (Action.bta_sys_sco_open (w1.scb p).app_id (w1.scb p).peer_addr)
    let w3 := w2.emit (Action.bta_ag_co_audio_state (bta_ag_scb_to_idx p) (w2.scb p).app_id
      SCO_STATE_ON (co_codec cfg (w2.scb p).inuse_codec))
    let w4 := bta_ag_cback_sco w3 p BTA_AG_AUDIO_OPEN_EVT
    let w5 := w4.setScb p { w4.scb p with retry_with_sco_only := false }
    if cfg.BTM_WBS_INCLUDED then
      w5.setScb p { w5.scb p with codec_msbc_settings := BTA_AG_SCO_MSBC_SETTINGS_T2 }
    else w5

/-- The last branch of `bta_ag_sco_conn_close`: report the closing, deliver
`BTA_AG_SCO_CONN_CLOSE_E` and call the application callback. -/
def sco_conn_close_report (cfg : Cfg) (ctl : Ctl) (w : World) (p : Nat) : Option World :=
  let sco_state := if w.sco.p_xfer_scb ≠ none then SCO_STATE_OFF_TRANSFER else SCO_STATE_OFF
  let w1 := w.emit (Action.bta_ag_co_audio_state (bta_ag_scb_to_idx p) (w.scb p).app_id
    sco_state (co_codec cfg (w.scb p).inuse_codec))
  (bta_ag_sco_event cfg ctl w1 p BTA_AG_SCO_CONN_CLOSE_E).map fun w2 =>
    let w3 := w2.emit (Action.bta_sys_sco_close (w2.scb p).app_id (w2.scb p).peer_addr)
    let w4 :=
      if ((w3.scb p).call_ind = cfg.BTA_AG_CALL_INACTIVE ∧
            (w3.scb p).callsetup_ind = cfg.BTA_AG_CALLSETUP_NONE) ∨
          (w3.scb p).post_sco = cfg.BTA_AG_POST_SCO_CALL_END then
        w3.emit (Action.bta_sys_sco_unuse (w3.scb p).app_id (w3.scb p).peer_addr)
      else w3
    let w5 := bta_ag_cback_sco w4 p BTA_AG_AUDIO_CLOSE_EVT
    if cfg.BTM_WBS_INCLUDED then
      w5.setScb p { w5.scb p with codec_msbc_settings := BTA_AG_SCO_MSBC_SETTINGS_T2 }
    else w5

/-- `bta_ag_sco_conn_close`. -/
def bta_ag_sco_conn_close (cfg : Cfg) (ctl : Ctl) (w : World) (p : Nat) : Option World :=
  let w0 := w.setCurr none
  let w1 := w0.setScb p { w0.scb p with sco_idx := BTM_INVALID_SCO_INDEX }
  let r : Option World :=
    if cfg.BTM_WBS_INCLUDED = true ∧
        ((((w1.scb p).codec_fallback = true ∧ (w1.scb p).svc_conn = true)) ∨
          bta_ag_attempt_msbc_safe_settings (w1.scb p) = true) then
      bta_ag_sco_event cfg ctl w1 p BTA_AG_SCO_REOPEN_E
    else if (w1.scb p).retry_with_sco_only = true ∧ (w1.scb p).svc_conn = true then
      some (bta_ag_create_sco cfg ctl w1 p true)
    else sco_conn_close_report cfg ctl w1 p
  r.map fun w2 => w2.setScb p { w2.scb p with retry_with_sco_only := false }

/-- `bta_ag_ci_sco_data`: empty when SCO data is not routed through the host. -/
def bta_ag_ci_sco_data (w : World) (_p : Nat) : World := w

/-! ## Controller callbacks -/

/-- `bta_ag_sco_conn_cback`. -/
def bta_ag_sco_conn_cback (cfg : Cfg) (ctl : Ctl) (w : World) (sco_idx : Nat) : World :=
  let handle : Nat :=
    match w.sco.p_curr_scb with
    | some c =>
      if (w.scb c).in_use then bta_ag_scb_to_idx c
      else
        let h := bta_ag_idx_by_bdaddr cfg w.scb ctl.read_bd_addr
        match bta_ag_scb_by_idx cfg w.scb h with
        | some q => if (w.scb q).svc_conn = false then 0 else h
        | none => h
    | none =>
      let h := bta_ag_idx_by_bdaddr cfg w.scb ctl.read_bd_addr
      match bta_ag_scb_by_idx cfg w.scb h with
      | some q => if (w.scb q).svc_conn = false then 0 else h
      | none => h
  if handle ≠ 0 then w.emit (Action.bta_sys_sendmsg BTA_AG_SCO_OPEN_EVT handle)
  else ((w.setCurr none).setState BTA_AG_SCO_SHUTDOWN_ST).emit (Action.BTM_RemoveSco sco_idx)

/-- The matching at the head of `bta_ag_sco_disc_cback`: `none` when the
function returns at once, otherwise the local `handle`. -/
def sco_disc_cback_handle (w : World) (sco_idx : Nat) : Option Nat :=
  match w.sco.p_curr_scb with
  | some c =>
    if (w.scb c).in_use then
      if (w.scb c).sco_idx ≠ sco_idx ∧ (w.scb c).sco_idx ≠ 0xFFFF then none
      else some (bta_ag_scb_to_idx c)
    else some 0
  | none => some 0

/-- The "restore settings" block of `bta_ag_sco_disc_cback` on the current
block `c`, compiled when wideband is built in. -/
def sco_disc_cback_restore (cfg : Cfg) (w : World) (c : Nat) : World :=
  let w3 : World :=
    if (w.scb c).inuse_codec = BTA_AG_CODEC_MSBC then
      let w1 : World :=
        if cfg.supports_enhanced_setup_synchronous_connection = false then
          w.emit (Action.BTM_WriteVoiceSettings BTM_VOICE_SETTING_CVSD)
        else w
      if bta_ag_sco_is_opening w1 c then
        let w2 := w1.setScb c { w1.scb c with state := cfg.BTA_AG_SCO_CODEC_ST }
        if (w2.scb c).codec_msbc_settings = BTA_AG_SCO_MSBC_SETTINGS_T2 then
          w2.setScb c { w2.scb c with codec_msbc_settings := BTA_AG_SCO_MSBC_SETTINGS_T1 }
        else w2.setScb c { w2.scb c with codec_fallback := true }
      else w1
    else w
  w3.setScb c { w3.scb c with inuse_codec := BTA_AG_CODEC_NONE }

/-- `bta_ag_sco_disc_cback`. -/
def bta_ag_sco_disc_cback (cfg : Cfg) (w : World) (sco_idx : Nat) : World :=
  match sco_disc_cback_handle w sco_idx with
  | none => w
  | some handle =>
    if handle ≠ 0 then
      match w.sco.p_curr_scb with
      | some c =>
        let w1 := if cfg.BTM_WBS_INCLUDED then sco_disc_cback_restore cfg w c else w
        w1.emit (Action.bta_sys_sendmsg BTA_AG_SCO_CLOSE_EVT handle)
      | none => w
    else
      match w.sco.p_curr_scb with
      | some c =>
        ((w.setScb c { w.scb c with sco_idx := BTM_INVALID_SCO_INDEX }).setCurr none).setState
          BTA_AG_SCO_SHUTDOWN_ST
      | none => w

/-- The connection-request branch of `bta_ag_esco_connreq_cback` for a request
resolved to the block `q`. -/
def esco_connreq_accept (cfg : Cfg) (ctl : Ctl) (w : World) (q : Nat)
    (conn_evt : tBTM_ESCO_CONN_REQ_EVT_DATA) : World :=
  let w1 := w.setScb q { w.scb q with sco_idx := conn_evt.sco_inx }
  match w1.sco.p_curr_scb with
  | none =>
    let w2 := bta_ag_sco_conn_rsp cfg w1 q conn_evt
    { w2 with sco := { w2.sco with
        state := BTA_AG_SCO_OPENING_ST, p_curr_scb := some q, cur_idx := (w2.scb q).sco_idx } }
  | some c =>
    let w2 : World := { w1 with sco := { w1.sco with
        p_xfer_scb := some q, conn_data := conn_evt, state := BTA_AG_SCO_OPEN_XFER_ST } }
    let r := bta_ag_remove_sco ctl.remove_status w2 c true
    if r.2 = false then
      bta_ag_sco_conn_rsp cfg ((r.1.setXfer none).setState BTA_AG_SCO_LISTEN_ST) q conn_evt
    else r.1

/-- `bta_ag_esco_connreq_cback`; `conn_evt` is `p_data->conn_evt`. -/
def bta_ag_esco_connreq_cback (cfg : Cfg) (ctl : Ctl) (w : World) (event : tBTM_ESCO_EVT)
    (conn_evt : tBTM_ESCO_CONN_REQ_EVT_DATA) : World :=
  if event = BTM_ESCO_CONN_REQ_EVT then
    let handle := bta_ag_idx_by_bdaddr cfg w.scb ctl.read_bd_addr
    if handle ≠ 0 then
      match bta_ag_scb_by_idx cfg w.scb handle with
      | some q =>
        if (w.scb q).svc_conn then esco_connreq_accept cfg ctl w q conn_evt
        else (w.trace LogEntry.no_scb_for_connreq).emit
          (Action.BTM_EScoConnRsp conn_evt.sco_inx HCI_ERR_HOST_REJECT_RESOURCES none)
      | none => (w.trace LogEntry.no_scb_for_connreq).emit
          (Action.BTM_EScoConnRsp conn_evt.sco_inx HCI_ERR_HOST_REJECT_RESOURCES none)
    else (w.trace LogEntry.no_scb_for_connreq).emit
      (Action.BTM_EScoConnRsp conn_evt.sco_inx HCI_ERR_HOST_REJECT_RESOURCES none)
  else w

/-! ## Operations of the file as data -/

/-- The operations of the file: the entry points called by the AG, the
controller callbacks, and the internal routines. -/
inductive Op where
  | sco_listen (p : Nat)
  | sco_open (p : Nat)
  | ci_sco_open_continue (p : Nat) (result : Nat)
  | sco_close (p : Nat)
  | sco_codec_nego (p : Nat) (result : Bool)
  | sco_shutdown (p : Nat)
  | sco_conn_open (p : Nat)
  | sco_conn_close (p : Nat)
  | sco_conn_rsp (p : Nat) (p_data : tBTM_ESCO_CONN_REQ_EVT_DATA)
  | ci_sco_data (p : Nat)
  | codec_negotiate (p : Nat)
  | codec_negotiation_timer_cback (p : Nat)
  | sco_conn_cback (sco_idx : Nat)
  | sco_disc_cback (sco_idx : Nat)
  | esco_connreq_cback (event : tBTM_ESCO_EVT) (conn_evt : tBTM_ESCO_CONN_REQ_EVT_DATA)
  | sco_event (p : Nat) (event : ScoEvent)
  | create_sco (p : Nat) (is_orig : Bool)
  | create_pending_sco (p : Nat) (is_local : Bool)
  | remove_sco (p : Nat) (only_active : Bool)
deriving DecidableEq, Repr

/-- Run one operation; `ctl` holds the controller's answers during it. -/
def applyOp (cfg : Cfg) (ctl : Ctl) (w : World) : Op → Option World
  | Op.sco_listen p => bta_ag_sco_listen cfg ctl w p
  | Op.sco_open p => bta_ag_sco_open cfg ctl w p
  | Op.ci_sco_open_continue p result => bta_ag_ci_sco_open_continue cfg ctl w p result
  | Op.sco_close p => bta_ag_sco_close cfg ctl w p
  | Op.sco_codec_nego p result => bta_ag_sco_codec_nego cfg ctl w p result
  | Op.sco_shutdown p => bta_ag_sco_shutdown cfg ctl w p
  | Op.sco_conn_open p => bta_ag_sco_conn_open cfg ctl w p
  | Op.sco_conn_close p => bta_ag_sco_conn_close cfg ctl w p
  | Op.sco_conn_rsp p p_data => some (bta_ag_sco_conn_rsp cfg w p p_data)
  | Op.ci_sco_data p => some (bta_ag_ci_sco_data w p)
  | Op.codec_negotiate p => bta_ag_codec_negotiate cfg ctl w p
  | Op.codec_negotiation_timer_cback p => bta_ag_codec_negotiation_timer_cback cfg ctl w p
  | Op.sco_conn_cback sco_idx => some (bta_ag_sco_conn_cback cfg ctl w sco_idx)
  | Op.sco_disc_cback sco_idx => some (bta_ag_sco_disc_cback cfg w sco_idx)
  | Op.esco_connreq_cback event conn_evt =>
    some (bta_ag_esco_connreq_cback cfg ctl w event conn_evt)
  | Op.sco_event p event => bta_ag_sco_event cfg ctl w p event
  | Op.create_sco p is_orig => some (bta_ag_create_sco cfg ctl w p is_orig)
  | Op.create_pending_sco p is_local => some (bta_ag_create_pending_sco cfg ctl w p is_local)
  | Op.remove_sco p only_active => some (bta_ag_remove_sco ctl.remove_status w p only_active).1

/-- Run a sequence of operations, each with the controller's answers during it. -/
def runOps (cfg : Cfg) : World → List (Ctl × Op) → Option World
  | w, [] => some w
  | w, (ctl, op) :: rest =>
    match applyOp cfg ctl w op with
    | none => none
    | some w1 => runOps cfg w1 rest

/-- The SCO control block at start-up: the control block is zeroed, so the
state is `BTA_AG_SCO_SHUTDOWN_ST` and both pointers are `NULL`. -/
def initialSco : tBTA_AG_SCO_CB :=
  { state := BTA_AG_SCO_SHUTDOWN_ST, p_curr_scb := none, p_xfer_scb := none, cur_idx := 0,
    is_local := false, conn_data := { sco_inx := 0, bd_addr := 0, link_type := 0 },
    set_audio_status := 0 }

/-- The world at start-up over a pool of control blocks. -/
def initialWorld (scb : Nat → tBTA_AG_SCB) : World :=
  { scb := scb, sco := initialSco, out := [], log := [] }

/-! ## Definitions used to state the properties -/

/-- The transition table of section 4.4 of the specification, read off row by
row: the events for which the row of a state has an entry (the entry "ignore"
of the listen row included).  `CiData` has no column. -/
def specTableRow : ScoState → List ScoEvent
  | BTA_AG_SCO_SHUTDOWN_ST => [BTA_AG_SCO_LISTEN_E]
  | BTA_AG_SCO_LISTEN_ST =>
    [BTA_AG_SCO_LISTEN_E, BTA_AG_SCO_OPEN_E, BTA_AG_SCO_CLOSE_E, BTA_AG_SCO_SHUTDOWN_E,
      BTA_AG_SCO_CONN_CLOSE_E]
  | BTA_AG_SCO_CODEC_ST =>
    [BTA_AG_SCO_LISTEN_E, BTA_AG_SCO_XFER_E, BTA_AG_SCO_CN_DONE_E, BTA_AG_SCO_CLOSE_E,
      BTA_AG_SCO_SHUTDOWN_E, BTA_AG_SCO_CONN_CLOSE_E]
  | BTA_AG_SCO_OPENING_ST =>
    [BTA_AG_SCO_LISTEN_E, BTA_AG_SCO_OPEN_PENDING_E, BTA_AG_SCO_XFER_E, BTA_AG_SCO_REOPEN_E,
      BTA_AG_SCO_CLOSE_E, BTA_AG_SCO_SHUTDOWN_E, BTA_AG_SCO_CONN_OPEN_E,
      BTA_AG_SCO_CONN_CLOSE_E]
  | BTA_AG_SCO_OPEN_CL_ST =>
    [BTA_AG_SCO_OPEN_E, BTA_AG_SCO_XFER_E, BTA_AG_SCO_SHUTDOWN_E, BTA_AG_SCO_CONN_OPEN_E,
      BTA_AG_SCO_CONN_CLOSE_E]
  | BTA_AG_SCO_OPEN_XFER_ST =>
    [BTA_AG_SCO_CLOSE_E, BTA_AG_SCO_SHUTDOWN_E, BTA_AG_SCO_CONN_CLOSE_E]
  | BTA_AG_SCO_OPEN_ST =>
    [BTA_AG_SCO_LISTEN_E, BTA_AG_SCO_XFER_E, BTA_AG_SCO_CLOSE_E, BTA_AG_SCO_SHUTDOWN_E,
      BTA_AG_SCO_CONN_CLOSE_E]
  | BTA_AG_SCO_CLOSING_ST =>
    [BTA_AG_SCO_LISTEN_E, BTA_AG_SCO_OPEN_E, BTA_AG_SCO_XFER_E, BTA_AG_SCO_SHUTDOWN_E,
      BTA_AG_SCO_CONN_CLOSE_E]
  | BTA_AG_SCO_CLOSE_OP_ST =>
    [BTA_AG_SCO_LISTEN_E, BTA_AG_SCO_CLOSE_E, BTA_AG_SCO_SHUTDOWN_E, BTA_AG_SCO_CONN_CLOSE_E]
  | BTA_AG_SCO_CLOSE_XFER_ST =>
    [BTA_AG_SCO_CLOSE_E, BTA_AG_SCO_SHUTDOWN_E, BTA_AG_SCO_CONN_OPEN_E,
      BTA_AG_SCO_CONN_CLOSE_E]
  | BTA_AG_SCO_SHUTTING_ST =>
    [BTA_AG_SCO_LISTEN_E, BTA_AG_SCO_SHUTDOWN_E, BTA_AG_SCO_CONN_OPEN_E,
      BTA_AG_SCO_CONN_CLOSE_E]

/-- Whether the transition table of the specification has an entry for a state
and an event. -/
def specTransitionTable (state : ScoState) (event : ScoEvent) : Bool :=
  decide (event ∈ specTableRow state)

/-- An example build: wideband built in, a pool of two blocks, and the values
customary for the constants of the headers. -/
def exampleCfg : Cfg :=
  { BTM_WBS_INCLUDED := true
    BTA_AG_NUM_SCB := 2
    BTA_AG_OPEN_ST := 2
    BTA_AG_SCO_CODEC_ST := 2
    BTA_AG_SUCCESS := 0
    HFP_VERSION_1_5 := 0x0105
    BTA_AG_FEAT_ESCO := 0x0800
    BTA_AG_PEER_FEAT_ESCO := 0x0200
    BTA_AG_PEER_FEAT_CODEC := 0x0080
    BTA_AG_CALL_INACTIVE := 0
    BTA_AG_CALLSETUP_NONE := 0
    BTA_AG_POST_SCO_CALL_END := 2
    sco_pkt_types := 0x03BF
    ESCO_PKT_TYPES_MASK_NO_2_EV3 := 0x0040
    ESCO_PKT_TYPES_MASK_NO_3_EV3 := 0x0080
    ESCO_PKT_TYPES_MASK_NO_2_EV5 := 0x0100
    ESCO_PKT_TYPES_MASK_NO_3_EV5 := 0x0200
    BTM_ESCO_LINK_ONLY_MASK := 0x0038
    BTM_SCO_LINK_ONLY_MASK := 0x0007
    esco_parameters_for_codec := fun c =>
      match c with
      | ESCO_CODEC_CVSD =>
        { packet_types := 0x03BF, max_latency_ms := 12,
          retransmission_effort := ESCO_RETRANSMISSION_OFF, input_data_path := 1 }
      | ESCO_CODEC_MSBC_T1 =>
        { packet_types := 0x03C8, max_latency_ms := 8,
          retransmission_effort := ESCO_RETRANSMISSION_QUALITY, input_data_path := 1 }
      | ESCO_CODEC_MSBC_T2 =>
        { packet_types := 0x0388, max_latency_ms := 13,
          retransmission_effort := ESCO_RETRANSMISSION_QUALITY, input_data_path := 1 }
    supports_enhanced_setup_synchronous_connection := true }

/-- A freshly initialised control block of a connected HFP 1.6 peer that
prefers mSBC and supports codec negotiation and eSCO. -/
def exampleScb : tBTA_AG_SCB :=
  { in_use := true, svc_conn := true, state := 2, sco_idx := BTM_INVALID_SCO_INDEX,
    app_id := 1, peer_addr := 0xA0, conn_service := BTA_AG_HFP, peer_version := 0x0106,
    features := 0x0800, peer_features := 0x0280, sco_codec := BTA_AG_CODEC_MSBC,
    inuse_codec := BTA_AG_CODEC_NONE, codec_updated := false, codec_fallback := false,
    codec_msbc_settings := BTA_AG_SCO_MSBC_SETTINGS_T2, retry_with_sco_only := false,
    call_ind := 0, callsetup_ind := 0, post_sco := 0, codec_negotiation_timer := false }

/-- A pool with two connected peers: position 0 and position 1 differ by
address and application id. -/
def examplePool : Nat → tBTA_AG_SCB :=
  fun i => if i = 0 then exampleScb else { exampleScb with app_id := 2, peer_addr := 0xB0 }

/-- Controller answers: connections are started with the given index, removal
is started. -/
def ctlStarted (idx : Nat) : Ctl :=
  { create_status := BTM_CMD_STARTED, create_idx := idx, remove_status := BTM_CMD_STARTED,
    read_bd_addr := none }

/-- Controller answers: the link to remove is already gone. -/
def ctlGone (idx : Nat) : Ctl :=
  { create_status := BTM_CMD_STARTED, create_idx := idx, remove_status := BTM_SUCCESS,
    read_bd_addr := none }

/-- Controller answers: everything is started, and the peer of the request has
the given address. -/
def ctlFrom (idx : Nat) (addr : Nat) : Ctl :=
  { create_status := BTM_CMD_STARTED, create_idx := idx, remove_status := BTM_CMD_STARTED,
    read_bd_addr := some addr }

/-- What is observed of a run: the state and the two slots of the SCO control
block. -/
def observeSco (w : Option World) : Option (ScoState × Option Nat × Option Nat) :=
  w.map fun w => (w.sco.state, w.sco.p_curr_scb, w.sco.p_xfer_scb)

/-- What is observed of a block after a run: the state of its service state
machine and its retry settings. -/
def observeScb (w : Option World) (p : Nat) :
    Option (Nat × tBTA_AG_PEER_CODEC × tBTA_AG_SCO_MSBC_SETTINGS × Bool × Bool) :=
  w.map fun w => ((w.scb p).state, (w.scb p).inuse_codec, (w.scb p).codec_msbc_settings,
    (w.scb p).codec_fallback, (w.scb p).retry_with_sco_only)

/-- A run up to an open link on block 0: listen, open (codec negotiation is
skipped, the originate chooses mSBC T2), the pre-SCO set-up completes, the
controller reports the connection. -/
def runToOpen : List (Ctl × Op) :=
  [(ctlStarted 5, Op.sco_listen 0), (ctlGone 5, Op.sco_open 0),
    (ctlStarted 6, Op.ci_sco_open_continue 0 0), (ctlStarted 6, Op.sco_conn_open 0)]

/-- A run that leaves the transfer slot set outside the transfer states: block
0 is open, the peer of block 1 requests a connection (removal of the link of
block 0 is started, the machine is in `BTA_AG_SCO_OPEN_XFER_ST`), and block 0
is closed by the application. -/
def runStaleXfer : List (Ctl × Op) :=
  runToOpen ++
    [(ctlFrom 9 0xB0, Op.esco_connreq_cback BTM_ESCO_CONN_REQ_EVT
        { sco_inx := 7, bd_addr := 0xB0, link_type := 2 }),
      (ctlStarted 6, Op.sco_close 0)]

/-- A run up to the opening state on block 0 with mSBC T2 in use: listen, open,
the pre-SCO set-up completes and the connection is requested with index 6. -/
def runToOpening : List (Ctl × Op) :=
  [(ctlStarted 5, Op.sco_listen 0), (ctlGone 5, Op.sco_open 0),
    (ctlStarted 6, Op.ci_sco_open_continue 0 0)]

/-- A run that leaves the machine in `BTA_AG_SCO_OPEN_CL_ST` without a current
block: the mSBC T2 attempt on block 0 fails and is retried with T1, the
application closes block 0 while the retry is opening, and the retry fails. -/
def runLostCurrent : List (Ctl × Op) :=
  runToOpening ++
    [(ctlStarted 6, Op.sco_disc_cback 6), (ctlStarted 6, Op.sco_conn_close 0),
      (ctlStarted 7, Op.ci_sco_open_continue 0 0), (ctlStarted 7, Op.sco_close 0),
      (ctlStarted 7, Op.sco_disc_cback 7), (ctlStarted 7, Op.sco_conn_close 0)]

/-- The world in which the controller reports the end of the mSBC T2 attempt
of block 0 while the machine is opening it. -/
def worldOpeningMsbc : World :=
  { scb := fun i =>
      if i = 0 then
        { exampleScb with sco_idx := 6, inuse_codec := BTA_AG_CODEC_MSBC }
      else { exampleScb with app_id := 2, peer_addr := 0xB0 }
    sco := { initialSco with
      state := BTA_AG_SCO_OPENING_ST, p_curr_scb := some 0, cur_idx := 6, is_local := true }
    out := []
    log := [] }

/-- The world in which block 0, current and open, has been deallocated: it is
no longer in use. -/
def worldCurrentFreed : World :=
  { scb := fun i =>
      if i = 0 then { exampleScb with in_use := false, sco_idx := 6 }
      else { exampleScb with app_id := 2, peer_addr := 0xB0 }
    sco := { initialSco with
      state := BTA_AG_SCO_OPEN_ST, p_curr_scb := some 0, cur_idx := 6, is_local := true }
    out := []
    log := [] }

/-- A pool in which no block is open any more: the service state machines of
both blocks have left the open state. -/
def closingPool : Nat → tBTA_AG_SCB :=
  fun i => { examplePool i with state := 3 }

/-- A world with an open link on block 0 of the closing pool. -/
def worldOpenClosing : World :=
  { scb := fun i => { closingPool i with sco_idx := if i = 0 then 6 else BTM_INVALID_SCO_INDEX }
    sco := { initialSco with
      state := BTA_AG_SCO_OPEN_ST, p_curr_scb := some 0, cur_idx := 6, is_local := true }
    out := []
    log := [] }

/-- A run on block 0 up to the failure of the CVSD attempt with eSCO packet
types: the mSBC T2 attempt fails, the mSBC T1 attempt fails, the codec is
renegotiated and the peer answers `AT+BCS` twice (the second answer is ignored
by the state machine in `BTA_AG_SCO_OPENING_ST` but clears `codec_updated`),
the CVSD attempt is made with eSCO packet types and fails too. -/
def runCvsdEscoFailed : List (Ctl × Op) :=
  runToOpening ++
    [(ctlStarted 6, Op.sco_disc_cback 6), (ctlStarted 6, Op.sco_conn_close 0),
      (ctlStarted 7, Op.ci_sco_open_continue 0 0),
      (ctlStarted 7, Op.sco_disc_cback 7), (ctlStarted 7, Op.sco_conn_close 0),
      (ctlStarted 7, Op.sco_codec_nego 0 true), (ctlStarted 7, Op.sco_codec_nego 0 true),
      (ctlStarted 8, Op.ci_sco_open_continue 0 0), (ctlStarted 8, Op.sco_disc_cback 8)]

/-- The run continued up to the CVSD attempt that consumes
`retry_with_sco_only`: the failure of the eSCO attempt is handled and the
pre-SCO set-up of the new attempt completes. -/
def runScoOnlyAttempt : List (Ctl × Op) :=
  runCvsdEscoFailed ++
    [(ctlStarted 8, Op.sco_conn_close 0), (ctlStarted 9, Op.ci_sco_open_continue 0 0)]

/-- The handling of a failed attempt with link index `idx` on block `p`: the
controller reports the disconnection and the AG state machine calls
`bta_ag_sco_conn_close`. -/
def failureHandling (idx p : Nat) : List (Ctl × Op) :=
  [(ctlStarted idx, Op.sco_disc_cback idx), (ctlStarted idx, Op.sco_conn_close p)]

/-- What a block looks like to the retry policy: the codec in use, the mSBC
settings, and the flags `codec_fallback`, `retry_with_sco_only` and
`codec_updated`. -/
def observeRetry (w : Option World) (p : Nat) :
    Option (tBTA_AG_PEER_CODEC × tBTA_AG_SCO_MSBC_SETTINGS × Bool × Bool × Bool) :=
  w.map fun w => ((w.scb p).inuse_codec, (w.scb p).codec_msbc_settings,
    (w.scb p).codec_fallback, (w.scb p).retry_with_sco_only, (w.scb p).codec_updated)

/-- The calls and trace lines that the operations `ops` add when they are run
after the operations `before`, from the start-up world. -/
def producedBy (cfg : Cfg) (scb : Nat → tBTA_AG_SCB) (before ops : List (Ctl × Op)) :
    Option (List Action × List LogEntry) :=
  match runOps cfg (initialWorld scb) before, runOps cfg (initialWorld scb) (before ++ ops) with
  | some a, some b => some (b.out.drop a.out.length, b.log.drop a.log.length)
  | _, _ => none

/-- A build whose configured packet types hold the SCO types and allow the EDR
eSCO type 2-EV3, and no basic-rate eSCO type: `sco_pkt_types` is
`HV1 | HV2 | HV3 | NO_3_EV3 | NO_2_EV5 | NO_3_EV5`. -/
def edrOnlyCfg : Cfg :=
  { exampleCfg with sco_pkt_types := 0x0387 }

/-- A pool whose blocks are connected HFP 1.6 peers that prefer CVSD. -/
def cvsdPool : Nat → tBTA_AG_SCB :=
  fun i => { examplePool i with sco_codec := BTA_AG_CODEC_CVSD }

/-- A pool whose blocks are connected HFP 1.5 peers without wideband speech:
they use CVSD and do not support codec negotiation. -/
def hfp15Pool : Nat → tBTA_AG_SCB :=
  fun i => { examplePool i with
    peer_version := 0x0105, peer_features := 0x0200, sco_codec := BTA_AG_CODEC_CVSD }

/-- A pool whose blocks have `codec_updated` set: the codec is to be negotiated
before the next connection. -/
def updatedPool : Nat → tBTA_AG_SCB :=
  fun i => { examplePool i with codec_updated := true }

/-- A run up to the codec state on block 0: listen, then open. -/
def runToCodec : List (Ctl × Op) :=
  [(ctlStarted 5, Op.sco_listen 0), (ctlGone 5, Op.sco_open 0)]

/-- A connection request with link index 7 from the peer of block 1, while the
controller starts the removal of the current link. -/
def transferRequest : Ctl × Op :=
  (ctlFrom 9 0xB0, Op.esco_connreq_cback BTM_ESCO_CONN_REQ_EVT
    { sco_inx := 7, bd_addr := 0xB0, link_type := 2 })

/-- The transfer branch of `bta_ag_esco_connreq_cback` ("Begin a transfer") for
a request resolved to the block `q` while `c` is the current block, run on the
world in which the index of the request has been stored. -/
def connreq_transfer (cfg : Cfg) (ctl : Ctl) (w1 : World) (c q : Nat)
    (conn_evt : tBTM_ESCO_CONN_REQ_EVT_DATA) : World :=
  let w2 : World := { w1 with sco := { w1.sco with
      p_xfer_scb := some q, conn_data := conn_evt, state := BTA_AG_SCO_OPEN_XFER_ST } }
  let r := bta_ag_remove_sco ctl.remove_status w2 c true
  if r.2 = false then
    bta_ag_sco_conn_rsp cfg ((r.1.setXfer none).setState BTA_AG_SCO_LISTEN_ST) q conn_evt
  else r.1

/-- A world in the listen state over the pool whose blocks have
`codec_updated` set; no block is current and no timer is armed. -/
def worldListenUpdated : World :=
  { scb := updatedPool
    sco := { initialSco with state := BTA_AG_SCO_LISTEN_ST }
    out := []
    log := [] }

/-- A run in which a connection is reported open just before its failure: the
mSBC T2 attempt on block 0 fails and is retried with T1; the controller reports
the T1 link connected (the message for `bta_ag_sco_conn_open` is posted) and at
once disconnected (the callback sets `codec_fallback` and posts the message for
`bta_ag_sco_conn_close`). -/
def runConnectedThenLost : List (Ctl × Op) :=
  runToOpening ++
    [(ctlStarted 6, Op.sco_disc_cback 6), (ctlStarted 6, Op.sco_conn_close 0),
      (ctlStarted 7, Op.ci_sco_open_continue 0 0), (ctlStarted 7, Op.sco_conn_cback 7),
      (ctlStarted 7, Op.sco_disc_cback 7)]

/-- The world after zero or one run of `bta_ag_sco_disc_cback`. -/
def discThen (cfg : Cfg) (w : World) : Option Nat → World
  | none => w
  | some idx => bta_ag_sco_disc_cback cfg w idx

/-- The world reached when the mSBC T1 attempt of block 0 is reported connected
and at once lost (`codec_fallback` is set while the open message is queued, as
in `runConnectedThenLost`), both service connections being closed by the AG:
no block is open any more. -/
def worldOpeningFallback : World :=
  { scb := fun i =>
      if i = 0 then
        { closingPool 0 with
          sco_idx := 7, codec_msbc_settings := BTA_AG_SCO_MSBC_SETTINGS_T1,
          codec_fallback := true }
      else closingPool i
    sco := { initialSco with
      state := BTA_AG_SCO_OPENING_ST, p_curr_scb := some 0, cur_idx := 7, is_local := true }
    out := []
    log := [] }

/-- The first two calls of the connection-close event in the close-transfer
state: "place old sco in listen mode, take current sco out of listen", run
after the trace at the head of `bta_ag_sco_event`; `x` is `p_xfer_scb`. -/
def close_xfer_handover (cfg : Cfg) (ctl : Ctl) (w : World) (p x : Nat) : World :=
  (bta_ag_remove_sco ctl.remove_status
    (bta_ag_create_sco cfg ctl (sco_event_head w p BTA_AG_SCO_CONN_CLOSE_E) p false) x false).1

/-- A world in the close-transfer state: the link of block 0 has been closed
for a transfer to block 1, which still has its listening connection 5. -/
def worldCloseXfer : World :=
  { scb := fun i =>
      if i = 0 then exampleScb
      else { exampleScb with app_id := 2, peer_addr := 0xB0, sco_idx := 5 }
    sco := { initialSco with
      state := BTA_AG_SCO_CLOSE_XFER_ST, p_xfer_scb := some 1, cur_idx := 6, is_local := true }
    out := []
    log := [] }

/-- A world with an open link 6 on block 0 while block 1 has the listening
connection 5. -/
def worldOpenListening : World :=
  { scb := fun i =>
      if i = 0 then { exampleScb with sco_idx := 6 }
      else { exampleScb with app_id := 2, peer_addr := 0xB0, sco_idx := 5 }
    sco := { initialSco with
      state := BTA_AG_SCO_OPEN_ST, p_curr_scb := some 0, cur_idx := 6, is_local := true }
    out := []
    log := [] }

/-- A world in which the attempt of block 0 has failed with `codec_fallback`
set, for a peer that does not support codec negotiation. -/
def worldFallbackSkipped : World :=
  { scb := fun i =>
      if i = 0 then
        { exampleScb with
          sco_idx := 7, peer_features := 0x0200,
          codec_msbc_settings := BTA_AG_SCO_MSBC_SETTINGS_T1, codec_fallback := true }
      else { exampleScb with app_id := 2, peer_addr := 0xB0 }
    sco := { initialSco with
      state := BTA_AG_SCO_OPENING_ST, p_curr_scb := some 0, cur_idx := 7, is_local := true }
    out := []
    log := [] }

/-- A world in the shutting state in which the CVSD attempt of block 0 with
eSCO packet types has failed: `retry_with_sco_only` is set. -/
def worldShuttingRetry : World :=
  { scb := fun i =>
      if i = 0 then
        { exampleScb with
          sco_idx := 7, sco_codec := BTA_AG_CODEC_CVSD, retry_with_sco_only := true }
      else { exampleScb with app_id := 2, peer_addr := 0xB0 }
    sco := { initialSco with
      state := BTA_AG_SCO_SHUTTING_ST, p_curr_scb := some 0, cur_idx := 7, is_local := true }
    out := []
    log := [] }

/-- The example build without wideband speech. -/
def narrowbandCfg : Cfg :=
  { exampleCfg with BTM_WBS_INCLUDED := false }

/-- A world in the shutting state over the example pool, whose blocks are both
open: no block is current and no block has a connection, as when
`bta_ag_sco_conn_close` delivers the connection-close event. -/
def worldShuttingOpen : World :=
  { scb := examplePool
    sco := { initialSco with state := BTA_AG_SCO_SHUTTING_ST, is_local := true }
    out := []
    log := [] }

/-- The invariant "mSBC is never retried with SCO-only packet types" on one
control block: if `inuse_codec` is mSBC then `retry_with_sco_only` is clear. -/
def BlockOk (s : tBTA_AG_SCB) : Prop :=
  s.inuse_codec = BTA_AG_CODEC_MSBC → s.retry_with_sco_only = false

/-- The invariant on every control block of a world. -/
def MsbcNeverScoOnly (w : World) : Prop :=
  ∀ q, BlockOk (w.scb q)

/-- A property of the world returned by an operation, when it returns. -/
def WhenSome (P : World → Prop) : Option World → Prop
  | none => True
  | some w => P w

/-- A property of the world left by the switch of `bta_ag_sco_event`, when it
returns. -/
def WhenSwitched (P : World → Prop) : Option (World × Option Nat) → Prop
  | none => True
  | some r => P r.1

/-- The codec-negotiation timer of a control block has the given setting. -/
def TimerIs (b : Bool) (s : tBTA_AG_SCB) : Prop :=
  s.codec_negotiation_timer = b

/-- What an operation may do to the timer of the block `q` that was at `b`:
leave it as it was, or arm it and leave the machine in the codec state. -/
def ArmedInCodec (b : Bool) (q : Nat) (w1 : World) : Prop :=
  TimerIs b (w1.scb q) ∨ (TimerIs true (w1.scb q) ∧ w1.sco.state = BTA_AG_SCO_CODEC_ST)

/-- Whether a call is a call of the application callback. -/
def IsCback (a : Action) : Bool :=
  match a with
  | Action.p_cback _ _ _ => true
  | _ => false

/-- The calls `l` are the calls `base` followed by calls none of which is a call
of the application callback. -/
def Grows (base l : List Action) : Prop :=
  ∃ l2, l = base ++ l2 ∧ l2.filter IsCback = []

/-- The control block `t` has the fields that the file never writes as they are
in `s`. -/
def SameStatic (s t : tBTA_AG_SCB) : Prop :=
  t.in_use = s.in_use ∧ t.svc_conn = s.svc_conn ∧ t.app_id = s.app_id ∧
    t.peer_addr = s.peer_addr ∧ t.conn_service = s.conn_service ∧
    t.peer_version = s.peer_version ∧ t.features = s.features ∧
    t.peer_features = s.peer_features ∧ t.sco_codec = s.sco_codec ∧
    t.call_ind = s.call_ind ∧ t.callsetup_ind = s.callsetup_ind ∧ t.post_sco = s.post_sco

/-- A field of a world chosen by a condition is the field chosen by the condition. -/
@[simp]
theorem ite_world (c : Prop) [Decidable c] (a b : World) :
    (if c then a else b).scb = (if c then a.scb else b.scb) ∧
    (if c then a else b).sco = (if c then a.sco else b.sco) ∧
    (if c then a else b).out = (if c then a.out else b.out) ∧
    (if c then a else b).log = (if c then a.log else b.log) := by
  split_ifs <;> simp

/-- A field of an SCO control block chosen by a condition is the field chosen by the condition. -/
@[simp]
theorem ite_sco_cb (c : Prop) [Decidable c] (a b : tBTA_AG_SCO_CB) :
    (if c then a else b).state = (if c then a.state else b.state) ∧
    (if c then a else b).p_curr_scb = (if c then a.p_curr_scb else b.p_curr_scb) ∧
    (if c then a else b).p_xfer_scb = (if c then a.p_xfer_scb else b.p_xfer_scb) ∧
    (if c then a else b).cur_idx = (if c then a.cur_idx else b.cur_idx) ∧
    (if c then a else b).is_local = (if c then a.is_local else b.is_local) ∧
    (if c then a else b).conn_data = (if c then a.conn_data else b.conn_data) ∧
    (if c then a else b).set_audio_status = (if c then a.set_audio_status else b.set_audio_status) := by
  split_ifs <;> simp

/-- A field of a control block chosen by a condition is the field chosen by the condition. -/
@[simp]
theorem ite_scb (c : Prop) [Decidable c] (a b : tBTA_AG_SCB) :
    (if c then a else b).in_use = (if c then a.in_use else b.in_use) ∧
    (if c then a else b).svc_conn = (if c then a.svc_conn else b.svc_conn) ∧
    (if c then a else b).state = (if c then a.state else b.state) ∧
    (if c then a else b).sco_idx = (if c then a.sco_idx else b.sco_idx) ∧
    (if c then a else b).app_id = (if c then a.app_id else b.app_id) ∧
    (if c then a else b).peer_addr = (if c then a.peer_addr else b.peer_addr) ∧
    (if c then a else b).conn_service = (if c then a.conn_service else b.conn_service) ∧
    (if c then a else b).peer_version = (if c then a.peer_version else b.peer_version) ∧
    (if c then a else b).features = (if c then a.features else b.features) ∧
    (if c then a else b).peer_features = (if c then a.peer_features else b.peer_features) ∧
    (if c then a else b).sco_codec = (if c then a.sco_codec else b.sco_codec) ∧
    (if c then a else b).inuse_codec = (if c then a.inuse_codec else b.inuse_codec) ∧
    (if c then a else b).codec_updated = (if c then a.codec_updated else b.codec_updated) ∧
    (if c then a else b).codec_fallback = (if c then a.codec_fallback else b.codec_fallback) ∧
    (if c then a else b).codec_msbc_settings = (if c then a.codec_msbc_settings else b.codec_msbc_settings) ∧
    (if c then a else b).retry_with_sco_only = (if c then a.retry_with_sco_only else b.retry_with_sco_only) ∧
    (if c then a else b).call_ind = (if c then a.call_ind else b.call_ind) ∧
    (if c then a else b).callsetup_ind = (if c then a.callsetup_ind else b.callsetup_ind) ∧
    (if c then a else b).post_sco = (if c then a.post_sco else b.post_sco) ∧
    (if c then a else b).codec_negotiation_timer = (if c then a.codec_negotiation_timer else b.codec_negotiation_timer) := by
  split_ifs <;> simp

/-- A block of a pool chosen by a condition. -/
@[simp]
theorem ite_pool (c : Prop) [Decidable c] (f g : Nat → tBTA_AG_SCB) (q : Nat) :
    (if c then f else g) q = (if c then f q else g q) := by
  split_ifs <;> rfl

/-! ## Effect of the leaf routines, field by field -/

/-- Effect of `bta_ag_create_sco` on the SCO control block: only `p_curr_scb` and
`is_local` are written, and only by an originate that is not refused. -/
@[simp]
theorem create_sco_sco (cfg : Cfg) (ctl : Ctl) (w : World) (p : Nat) (o : Bool) :
    (bta_ag_create_sco cfg ctl w p o).sco.state = w.sco.state ∧
    (bta_ag_create_sco cfg ctl w p o).sco.p_xfer_scb = w.sco.p_xfer_scb ∧
    (bta_ag_create_sco cfg ctl w p o).sco.cur_idx = w.sco.cur_idx ∧
    (bta_ag_create_sco cfg ctl w p o).sco.conn_data = w.sco.conn_data ∧
    (bta_ag_create_sco cfg ctl w p o).sco.set_audio_status = w.sco.set_audio_status ∧
    (bta_ag_create_sco cfg ctl w p o).sco.p_curr_scb =
      (if o = true ∧ (w.scb p).sco_idx = BTM_INVALID_SCO_INDEX then some p
        else w.sco.p_curr_scb) ∧
    (bta_ag_create_sco cfg ctl w p o).sco.is_local =
      (if o = true ∧ (w.scb p).sco_idx = BTM_INVALID_SCO_INDEX then true
        else w.sco.is_local) := by
  unfold bta_ag_create_sco create_sco_fallback
  cases o <;> simp <;> (try split_ifs) <;> (try simp_all)

/-- Fields of the control blocks that `bta_ag_create_sco` never writes. -/
@[simp]
theorem create_sco_scb_static (cfg : Cfg) (ctl : Ctl) (w : World) (p : Nat) (o : Bool)
    (q : Nat) :
    ((bta_ag_create_sco cfg ctl w p o).scb q).in_use = (w.scb q).in_use ∧
    ((bta_ag_create_sco cfg ctl w p o).scb q).svc_conn = (w.scb q).svc_conn ∧
    ((bta_ag_create_sco cfg ctl w p o).scb q).state = (w.scb q).state ∧
    ((bta_ag_create_sco cfg ctl w p o).scb q).app_id = (w.scb q).app_id ∧
    ((bta_ag_create_sco cfg ctl w p o).scb q).peer_addr = (w.scb q).peer_addr ∧
    ((bta_ag_create_sco cfg ctl w p o).scb q).conn_service = (w.scb q).conn_service ∧
    ((bta_ag_create_sco cfg ctl w p o).scb q).peer_version = (w.scb q).peer_version ∧
    ((bta_ag_create_sco cfg ctl w p o).scb q).features = (w.scb q).features ∧
    ((bta_ag_create_sco cfg ctl w p o).scb q).peer_features = (w.scb q).peer_features ∧
    ((bta_ag_create_sco cfg ctl w p o).scb q).sco_codec = (w.scb q).sco_codec ∧
    ((bta_ag_create_sco cfg ctl w p o).scb q).codec_msbc_settings = (w.scb q).codec_msbc_settings ∧
    ((bta_ag_create_sco cfg ctl w p o).scb q).call_ind = (w.scb q).call_ind ∧
    ((bta_ag_create_sco cfg ctl w p o).scb q).callsetup_ind = (w.scb q).callsetup_ind ∧
    ((bta_ag_create_sco cfg ctl w p o).scb q).post_sco = (w.scb q).post_sco ∧
    ((bta_ag_create_sco cfg ctl w p o).scb q).codec_negotiation_timer = (w.scb q).codec_negotiation_timer := by
  unfold bta_ag_create_sco create_sco_fallback
  by_cases hq : q = p
  · subst hq
    cases o <;> simp <;> (try split_ifs) <;> (try simp_all)
  · cases o <;> simp <;> (try split_ifs) <;> (try simp_all [Function.update_noteq])

/-- `bta_ag_create_sco` leaves every control block other than its own alone. -/
theorem create_sco_scb_ne (cfg : Cfg) (ctl : Ctl) (w : World) (p : Nat) (o : Bool) (q : Nat)
    (hq : q ≠ p) : (bta_ag_create_sco cfg ctl w p o).scb q = w.scb q := by
  unfold bta_ag_create_sco create_sco_fallback
  cases o <;> simp <;> (try split_ifs) <;> (try simp_all [Function.update_noteq])

/-- A refused `bta_ag_create_sco` (index already in use) only writes a warning. -/
theorem create_sco_in_use (cfg : Cfg) (ctl : Ctl) (w : World) (p : Nat) (o : Bool)
    (h : (w.scb p).sco_idx ≠ BTM_INVALID_SCO_INDEX) :
    bta_ag_create_sco cfg ctl w p o = w.trace (LogEntry.already_in_use (w.scb p).sco_idx) := by
  unfold bta_ag_create_sco create_sco_fallback
  simp [h]

/-- The fallback flag after `bta_ag_create_sco`: cleared on its own block when
wideband is built in and the call is not refused. -/
theorem create_sco_codec_fallback (cfg : Cfg) (ctl : Ctl) (w : World) (p : Nat) (o : Bool)
    (q : Nat) :
    ((bta_ag_create_sco cfg ctl w p o).scb q).codec_fallback =
      (if q = p ∧ (w.scb p).sco_idx = BTM_INVALID_SCO_INDEX ∧ cfg.BTM_WBS_INCLUDED = true
        then false else (w.scb q).codec_fallback) := by
  unfold bta_ag_create_sco create_sco_fallback
  by_cases hq : q = p
  · subst hq
    cases o <;> simp <;> (try split_ifs) <;> (try simp_all) <;>
      (cases hw : cfg.BTM_WBS_INCLUDED <;> cases hf : (w.scb q).codec_fallback <;> simp_all)
  · cases o <;> simp <;> (try split_ifs) <;> (try simp_all [Function.update_noteq])

/-- `bta_ag_create_sco` never sets the fallback flag. -/
theorem create_sco_codec_fallback_false (cfg : Cfg) (ctl : Ctl) (w : World) (p : Nat)
    (o : Bool) (q : Nat) (h : (w.scb q).codec_fallback = false) :
    ((bta_ag_create_sco cfg ctl w p o).scb q).codec_fallback = false := by
  rw [create_sco_codec_fallback]
  split_ifs <;> simp [h]

/-- A listen (`is_orig` false) clears `retry_with_sco_only`, stores the index
given by the controller and leaves `inuse_codec` alone. -/
theorem create_sco_listen_scb (cfg : Cfg) (ctl : Ctl) (w : World) (p : Nat) (q : Nat) :
    ((bta_ag_create_sco cfg ctl w p false).scb q).retry_with_sco_only =
      (if q = p ∧ (w.scb p).sco_idx = BTM_INVALID_SCO_INDEX then false
        else (w.scb q).retry_with_sco_only) ∧
    ((bta_ag_create_sco cfg ctl w p false).scb q).sco_idx =
      (if q = p ∧ (w.scb p).sco_idx = BTM_INVALID_SCO_INDEX then ctl.create_idx
        else (w.scb q).sco_idx) ∧
    ((bta_ag_create_sco cfg ctl w p false).scb q).inuse_codec = (w.scb q).inuse_codec := by
  unfold bta_ag_create_sco create_sco_fallback
  by_cases hq : q = p
  · subst hq
    simp <;> (try split_ifs) <;> (try simp_all)
  · simp <;> (try split_ifs) <;> (try simp_all [Function.update_noteq])

/-- An originate (`is_orig` true) leaves the index alone and records the chosen
codec in `inuse_codec`. -/
theorem create_sco_orig_scb (cfg : Cfg) (ctl : Ctl) (w : World) (p : Nat) (q : Nat) :
    ((bta_ag_create_sco cfg ctl w p true).scb q).sco_idx = (w.scb q).sco_idx ∧
    ((bta_ag_create_sco cfg ctl w p true).scb q).inuse_codec =
      (if q = p ∧ (w.scb p).sco_idx = BTM_INVALID_SCO_INDEX then create_sco_codec cfg (w.scb p)
        else (w.scb q).inuse_codec) := by
  unfold bta_ag_create_sco create_sco_fallback
  by_cases hq : q = p
  · subst hq
    simp <;> (try split_ifs) <;> (try simp_all)
  · simp <;> (try split_ifs) <;> (try simp_all [Function.update_noteq])

/-- An originate that chooses mSBC leaves `retry_with_sco_only` clear. -/
theorem create_sco_orig_retry_msbc (cfg : Cfg) (ctl : Ctl) (w : World) (p : Nat)
    (hidx : (w.scb p).sco_idx = BTM_INVALID_SCO_INDEX)
    (hc : create_sco_codec cfg (w.scb p) = BTA_AG_CODEC_MSBC) :
    ((bta_ag_create_sco cfg ctl w p true).scb p).retry_with_sco_only = false := by
  have hr : cfg.BTM_WBS_INCLUDED = true ∧ (w.scb p).retry_with_sco_only = false := by
    unfold create_sco_codec at hc
    split_ifs at hc with h
    exact ⟨h.1, h.2.2.2⟩
  unfold bta_ag_create_sco create_sco_fallback
  simp [hidx, hc, hr.1]
  (try split_ifs) <;> (try simp_all)

/-- What an originate that is not refused sends out: the parameters to the
controller, the "in use" notice and the pre-SCO set-up call-out. -/
theorem create_sco_orig_out (cfg : Cfg) (ctl : Ctl) (w : World) (p : Nat)
    (hidx : (w.scb p).sco_idx = BTM_INVALID_SCO_INDEX) :
    (bta_ag_create_sco cfg ctl w p true).out =
      w.out ++
        [Action.BTM_SetEScoMode
            (create_sco_params cfg (create_sco_fallback cfg (w.scb p))
              (create_sco_codec cfg (w.scb p))),
          Action.bta_sys_sco_use (w.scb p).app_id (w.scb p).peer_addr,
          Action.bta_ag_co_audio_state (bta_ag_scb_to_idx p) (w.scb p).app_id SCO_STATE_SETUP
            (co_codec cfg (create_sco_codec cfg (w.scb p)))] ∧
    (bta_ag_create_sco cfg ctl w p true).log = w.log := by
  unfold bta_ag_create_sco create_sco_fallback
  simp only [hidx, ne_eq, not_true_eq_false, ↓reduceIte, World.emit, World.setCurr, World.setScb]
  by_cases h1 : cfg.BTM_WBS_INCLUDED = true ∧ (w.scb p).codec_fallback = true
  · simp only [h1, and_self, ↓reduceIte]
    (try split_ifs) <;> (try simp)
  · simp only [h1, ↓reduceIte]
    (try split_ifs) <;> (try simp)

/-- What a listen sends out: nothing when refused, otherwise the request to
the controller and, when it is started, the registration for eSCO events. -/
theorem create_sco_listen_out (cfg : Cfg) (ctl : Ctl) (w : World) (p : Nat) :
    (bta_ag_create_sco cfg ctl w p false).out =
      (if (w.scb p).sco_idx ≠ BTM_INVALID_SCO_INDEX then w.out
        else if ctl.create_status = BTM_CMD_STARTED then
          w.out ++ [Action.BTM_CreateSco (w.scb p).peer_addr false
              (create_sco_params cfg (create_sco_fallback cfg (w.scb p))
                (create_sco_codec cfg (w.scb p))).packet_types,
            Action.BTM_RegForEScoEvts ctl.create_idx]
        else
          w.out ++ [Action.BTM_CreateSco (w.scb p).peer_addr false
              (create_sco_params cfg (create_sco_fallback cfg (w.scb p))
                (create_sco_codec cfg (w.scb p))).packet_types]) := by
  unfold bta_ag_create_sco create_sco_fallback
  simp only [Bool.false_eq_true, ↓reduceIte, World.emit, World.setScb, World.trace]
  (try split_ifs) <;> (try simp)

/-- Effect of `bta_ag_remove_sco` on the SCO control block: `p_curr_scb` becomes
the block when removal is started, nothing else is written. -/
@[simp]
theorem remove_sco_sco (st : tBTM_STATUS) (w : World) (p : Nat) (a : Bool) :
    (bta_ag_remove_sco st w p a).1.sco.state = w.sco.state ∧
    (bta_ag_remove_sco st w p a).1.sco.p_xfer_scb = w.sco.p_xfer_scb ∧
    (bta_ag_remove_sco st w p a).1.sco.cur_idx = w.sco.cur_idx ∧
    (bta_ag_remove_sco st w p a).1.sco.conn_data = w.sco.conn_data ∧
    (bta_ag_remove_sco st w p a).1.sco.set_audio_status = w.sco.set_audio_status ∧
    (bta_ag_remove_sco st w p a).1.sco.is_local = w.sco.is_local ∧
    (bta_ag_remove_sco st w p a).1.sco.p_curr_scb =
      (if (bta_ag_remove_sco st w p a).2 = true then some p else w.sco.p_curr_scb) ∧
    (bta_ag_remove_sco st w p a).1.log = w.log := by
  unfold bta_ag_remove_sco
  by_cases h1 : (w.scb p).sco_idx ≠ BTM_INVALID_SCO_INDEX <;>
    by_cases h2 : (a = false ∨ (w.scb p).sco_idx = w.sco.cur_idx) <;>
    cases st <;> simp [h1, h2]

/-- `bta_ag_remove_sco` writes no field of a control block but `sco_idx`. -/
@[simp]
theorem remove_sco_scb_static (st : tBTM_STATUS) (w : World) (p : Nat) (a : Bool) (q : Nat) :
    ((bta_ag_remove_sco st w p a).1.scb q).in_use = (w.scb q).in_use ∧
    ((bta_ag_remove_sco st w p a).1.scb q).svc_conn = (w.scb q).svc_conn ∧
    ((bta_ag_remove_sco st w p a).1.scb q).state = (w.scb q).state ∧
    ((bta_ag_remove_sco st w p a).1.scb q).app_id = (w.scb q).app_id ∧
    ((bta_ag_remove_sco st w p a).1.scb q).peer_addr = (w.scb q).peer_addr ∧
    ((bta_ag_remove_sco st w p a).1.scb q).conn_service = (w.scb q).conn_service ∧
    ((bta_ag_remove_sco st w p a).1.scb q).peer_version = (w.scb q).peer_version ∧
    ((bta_ag_remove_sco st w p a).1.scb q).features = (w.scb q).features ∧
    ((bta_ag_remove_sco st w p a).1.scb q).peer_features = (w.scb q).peer_features ∧
    ((bta_ag_remove_sco st w p a).1.scb q).sco_codec = (w.scb q).sco_codec ∧
    ((bta_ag_remove_sco st w p a).1.scb q).inuse_codec = (w.scb q).inuse_codec ∧
    ((bta_ag_remove_sco st w p a).1.scb q).codec_updated = (w.scb q).codec_updated ∧
    ((bta_ag_remove_sco st w p a).1.scb q).codec_fallback = (w.scb q).codec_fallback ∧
    ((bta_ag_remove_sco st w p a).1.scb q).codec_msbc_settings = (w.scb q).codec_msbc_settings ∧
    ((bta_ag_remove_sco st w p a).1.scb q).retry_with_sco_only = (w.scb q).retry_with_sco_only ∧
    ((bta_ag_remove_sco st w p a).1.scb q).call_ind = (w.scb q).call_ind ∧
    ((bta_ag_remove_sco st w p a).1.scb q).callsetup_ind = (w.scb q).callsetup_ind ∧
    ((bta_ag_remove_sco st w p a).1.scb q).post_sco = (w.scb q).post_sco ∧
    ((bta_ag_remove_sco st w p a).1.scb q).codec_negotiation_timer = (w.scb q).codec_negotiation_timer := by
  unfold bta_ag_remove_sco
  by_cases hq : q = p
  · subst hq
    (try split_ifs) <;> cases st <;> (try simp)
  · (try split_ifs) <;> cases st <;> (try simp [Function.update_noteq hq])

/-- The index after `bta_ag_remove_sco`: reset on the block itself when the
controller was asked and reported the link gone or the address unknown. -/
theorem remove_sco_sco_idx (st : tBTM_STATUS) (w : World) (p : Nat) (a : Bool) (q : Nat) :
    ((bta_ag_remove_sco st w p a).1.scb q).sco_idx =
      (if q = p ∧ (w.scb p).sco_idx ≠ BTM_INVALID_SCO_INDEX ∧
          (a = false ∨ (w.scb p).sco_idx = w.sco.cur_idx) ∧
          (st = BTM_SUCCESS ∨ st = BTM_UNKNOWN_ADDR)
        then BTM_INVALID_SCO_INDEX else (w.scb q).sco_idx) := by
  unfold bta_ag_remove_sco
  by_cases hq : q = p
  · subst hq
    (try split_ifs) <;> cases st <;> (try simp_all)
  · (try split_ifs) <;> cases st <;> (try simp_all [Function.update_noteq hq])

/-- When `bta_ag_remove_sco` reports that removal was started. -/
theorem remove_sco_started (st : tBTM_STATUS) (w : World) (p : Nat) (a : Bool) :
    (bta_ag_remove_sco st w p a).2 = true ↔
      ((w.scb p).sco_idx ≠ BTM_INVALID_SCO_INDEX ∧
        (a = false ∨ (w.scb p).sco_idx = w.sco.cur_idx) ∧ st = BTM_CMD_STARTED) := by
  unfold bta_ag_remove_sco
  (try split_ifs) <;> cases st <;> (try simp_all)

/-- What `bta_ag_remove_sco` sends out: at most the removal request. -/
theorem remove_sco_out (st : tBTM_STATUS) (w : World) (p : Nat) (a : Bool) :
    (bta_ag_remove_sco st w p a).1.out =
      (if (w.scb p).sco_idx ≠ BTM_INVALID_SCO_INDEX ∧
          (a = false ∨ (w.scb p).sco_idx = w.sco.cur_idx)
        then w.out ++ [Action.BTM_RemoveSco (w.scb p).sco_idx] else w.out) := by
  unfold bta_ag_remove_sco
  (try split_ifs) <;> cases st <;> (try simp_all)

/-- Effect of `bta_ag_sco_conn_rsp` on the SCO control block: `is_local` is
cleared, nothing else is written. -/
@[simp]
theorem conn_rsp_sco (cfg : Cfg) (w : World) (p : Nat) (d : tBTM_ESCO_CONN_REQ_EVT_DATA) :
    (bta_ag_sco_conn_rsp cfg w p d).sco.state = w.sco.state ∧
    (bta_ag_sco_conn_rsp cfg w p d).sco.p_curr_scb = w.sco.p_curr_scb ∧
    (bta_ag_sco_conn_rsp cfg w p d).sco.p_xfer_scb = w.sco.p_xfer_scb ∧
    (bta_ag_sco_conn_rsp cfg w p d).sco.cur_idx = w.sco.cur_idx ∧
    (bta_ag_sco_conn_rsp cfg w p d).sco.conn_data = w.sco.conn_data ∧
    (bta_ag_sco_conn_rsp cfg w p d).sco.set_audio_status = w.sco.set_audio_status ∧
    (bta_ag_sco_conn_rsp cfg w p d).sco.is_local = false ∧
    (bta_ag_sco_conn_rsp cfg w p d).log = w.log := by
  unfold bta_ag_sco_conn_rsp
  simp only []
  (try split_ifs) <;> (try simp)

/-- `bta_ag_sco_conn_rsp` writes no field of a control block but `inuse_codec`. -/
@[simp]
theorem conn_rsp_scb_static (cfg : Cfg) (w : World) (p : Nat)
    (d : tBTM_ESCO_CONN_REQ_EVT_DATA) (q : Nat) :
    ((bta_ag_sco_conn_rsp cfg w p d).scb q).in_use = (w.scb q).in_use ∧
    ((bta_ag_sco_conn_rsp cfg w p d).scb q).svc_conn = (w.scb q).svc_conn ∧
    ((bta_ag_sco_conn_rsp cfg w p d).scb q).state = (w.scb q).state ∧
    ((bta_ag_sco_conn_rsp cfg w p d).scb q).sco_idx = (w.scb q).sco_idx ∧
    ((bta_ag_sco_conn_rsp cfg w p d).scb q).app_id = (w.scb q).app_id ∧
    ((bta_ag_sco_conn_rsp cfg w p d).scb q).peer_addr = (w.scb q).peer_addr ∧
    ((bta_ag_sco_conn_rsp cfg w p d).scb q).conn_service = (w.scb q).conn_service ∧
    ((bta_ag_sco_conn_rsp cfg w p d).scb q).peer_version = (w.scb q).peer_version ∧
    ((bta_ag_sco_conn_rsp cfg w p d).scb q).features = (w.scb q).features ∧
    ((bta_ag_sco_conn_rsp cfg w p d).scb q).peer_features = (w.scb q).peer_features ∧
    ((bta_ag_sco_conn_rsp cfg w p d).scb q).sco_codec = (w.scb q).sco_codec ∧
    ((bta_ag_sco_conn_rsp cfg w p d).scb q).codec_updated = (w.scb q).codec_updated ∧
    ((bta_ag_sco_conn_rsp cfg w p d).scb q).codec_fallback = (w.scb q).codec_fallback ∧
    ((bta_ag_sco_conn_rsp cfg w p d).scb q).codec_msbc_settings = (w.scb q).codec_msbc_settings ∧
    ((bta_ag_sco_conn_rsp cfg w p d).scb q).retry_with_sco_only = (w.scb q).retry_with_sco_only ∧
    ((bta_ag_sco_conn_rsp cfg w p d).scb q).call_ind = (w.scb q).call_ind ∧
    ((bta_ag_sco_conn_rsp cfg w p d).scb q).callsetup_ind = (w.scb q).callsetup_ind ∧
    ((bta_ag_sco_conn_rsp cfg w p d).scb q).post_sco = (w.scb q).post_sco ∧
    ((bta_ag_sco_conn_rsp cfg w p d).scb q).codec_negotiation_timer = (w.scb q).codec_negotiation_timer := by
  unfold bta_ag_sco_conn_rsp
  by_cases hq : q = p
  · subst hq
    simp only []
    (try split_ifs) <;> (try simp)
  · simp only []
    (try split_ifs) <;> (try simp [Function.update_noteq hq])

/-- `inuse_codec` after `bta_ag_sco_conn_rsp`: cleared on the block itself when
wideband is built in. -/
theorem conn_rsp_inuse_codec (cfg : Cfg) (w : World) (p : Nat)
    (d : tBTM_ESCO_CONN_REQ_EVT_DATA) (q : Nat) :
    ((bta_ag_sco_conn_rsp cfg w p d).scb q).inuse_codec =
      (if q = p ∧ cfg.BTM_WBS_INCLUDED = true then BTA_AG_CODEC_NONE
        else (w.scb q).inuse_codec) := by
  unfold bta_ag_sco_conn_rsp
  by_cases hq : q = p
  · subst hq
    simp only []
    (try split_ifs) <;> (try simp_all)
  · simp only []
    (try split_ifs) <;> (try simp_all [Function.update_noteq hq])

/-- Effect of `bta_ag_create_pending_sco` on the SCO control block. -/
@[simp]
theorem create_pending_sco_sco (cfg : Cfg) (ctl : Ctl) (w : World) (p : Nat) (l : Bool) :
    (bta_ag_create_pending_sco cfg ctl w p l).sco.state =
      (if l = true ∧ w.sco.set_audio_status ≠ cfg.BTA_AG_SUCCESS then BTA_AG_SCO_LISTEN_ST
        else w.sco.state) ∧
    (bta_ag_create_pending_sco cfg ctl w p l).sco.p_curr_scb = some p ∧
    (bta_ag_create_pending_sco cfg ctl w p l).sco.p_xfer_scb = w.sco.p_xfer_scb ∧
    (bta_ag_create_pending_sco cfg ctl w p l).sco.conn_data = w.sco.conn_data ∧
    (bta_ag_create_pending_sco cfg ctl w p l).sco.set_audio_status = w.sco.set_audio_status ∧
    (bta_ag_create_pending_sco cfg ctl w p l).sco.is_local = w.sco.is_local := by
  unfold bta_ag_create_pending_sco
  cases l <;> simp <;> (try split_ifs) <;> (try simp_all)

/-- Fields of the control blocks that `bta_ag_create_pending_sco` never writes. -/
@[simp]
theorem create_pending_sco_scb_static (cfg : Cfg) (ctl : Ctl) (w : World) (p : Nat) (l : Bool)
    (q : Nat) :
    ((bta_ag_create_pending_sco cfg ctl w p l).scb q).in_use = (w.scb q).in_use ∧
    ((bta_ag_create_pending_sco cfg ctl w p l).scb q).svc_conn = (w.scb q).svc_conn ∧
    ((bta_ag_create_pending_sco cfg ctl w p l).scb q).state = (w.scb q).state ∧
    ((bta_ag_create_pending_sco cfg ctl w p l).scb q).app_id = (w.scb q).app_id ∧
    ((bta_ag_create_pending_sco cfg ctl w p l).scb q).peer_addr = (w.scb q).peer_addr ∧
    ((bta_ag_create_pending_sco cfg ctl w p l).scb q).conn_service = (w.scb q).conn_service ∧
    ((bta_ag_create_pending_sco cfg ctl w p l).scb q).peer_version = (w.scb q).peer_version ∧
    ((bta_ag_create_pending_sco cfg ctl w p l).scb q).features = (w.scb q).features ∧
    ((bta_ag_create_pending_sco cfg ctl w p l).scb q).peer_features = (w.scb q).peer_features ∧
    ((bta_ag_create_pending_sco cfg ctl w p l).scb q).sco_codec = (w.scb q).sco_codec ∧
    ((bta_ag_create_pending_sco cfg ctl w p l).scb q).codec_msbc_settings = (w.scb q).codec_msbc_settings ∧
    ((bta_ag_create_pending_sco cfg ctl w p l).scb q).call_ind = (w.scb q).call_ind ∧
    ((bta_ag_create_pending_sco cfg ctl w p l).scb q).callsetup_ind = (w.scb q).callsetup_ind ∧
    ((bta_ag_create_pending_sco cfg ctl w p l).scb q).post_sco = (w.scb q).post_sco ∧
    ((bta_ag_create_pending_sco cfg ctl w p l).scb q).codec_negotiation_timer = (w.scb q).codec_negotiation_timer := by
  unfold bta_ag_create_pending_sco
  by_cases hq : q = p
  · subst hq
    cases l <;> simp <;> (try split_ifs) <;> (try simp_all)
  · cases l <;> simp <;> (try split_ifs) <;> (try simp_all [Function.update_noteq])

/-- The flags after `bta_ag_create_pending_sco`: `inuse_codec` is kept, the
fallback flag is never set, and `retry_with_sco_only` is never set. -/
theorem create_pending_sco_flags (cfg : Cfg) (ctl : Ctl) (w : World) (p : Nat) (l : Bool)
    (q : Nat) :
    ((bta_ag_create_pending_sco cfg ctl w p l).scb q).inuse_codec = (w.scb q).inuse_codec ∧
    (((bta_ag_create_pending_sco cfg ctl w p l).scb q).codec_fallback = true → (w.scb q).codec_fallback = true) ∧
    (((bta_ag_create_pending_sco cfg ctl w p l).scb q).retry_with_sco_only = true → (w.scb q).retry_with_sco_only = true) := by
  unfold bta_ag_create_pending_sco
  by_cases hq : q = p
  · subst hq
    cases l <;> simp <;> (try split_ifs) <;>
      (try simp_all [create_sco_listen_scb, create_sco_codec_fallback])
  · cases l <;> simp <;> (try split_ifs) <;>
      (try simp_all [Function.update_noteq, create_sco_listen_scb, create_sco_codec_fallback])

/-! ## Which blocks are open is not changed by the leaf routines -/

/-- Whether another block is open is read off `in_use` and `state` of the pool. -/
theorem other_scb_open_congr (cfg : Cfg) (f g : Nat → tBTA_AG_SCB) (p : Nat)
    (h : ∀ q, (g q).in_use = (f q).in_use ∧ (g q).state = (f q).state) :
    bta_ag_other_scb_open cfg g p = bta_ag_other_scb_open cfg f p := by
  unfold bta_ag_other_scb_open
  congr 1
  funext i
  rw [(h i).1, (h i).2]

/-- Whether a block is open is read off its `in_use` and `state`. -/
theorem scb_open_congr (cfg : Cfg) (f g : Nat → tBTA_AG_SCB) (p : Nat)
    (h : (g p).in_use = (f p).in_use ∧ (g p).state = (f p).state) :
    bta_ag_scb_open cfg g p = bta_ag_scb_open cfg f p := by
  unfold bta_ag_scb_open
  rw [h.1, h.2]

/-- Storing a block with the same `in_use` and `state` does not change whether
another block is open. -/
@[simp]
theorem other_scb_open_update (cfg : Cfg) (f : Nat → tBTA_AG_SCB) (q : Nat) (s : tBTA_AG_SCB)
    (p : Nat) (h1 : s.in_use = (f q).in_use) (h2 : s.state = (f q).state) :
    bta_ag_other_scb_open cfg (Function.update f q s) p = bta_ag_other_scb_open cfg f p := by
  apply other_scb_open_congr
  intro r
  by_cases hr : r = q
  · subst hr
    simp [h1, h2]
  · simp [Function.update_noteq hr]

/-- Storing a block with the same `in_use` and `state` does not change whether
a block is open. -/
@[simp]
theorem scb_open_update (cfg : Cfg) (f : Nat → tBTA_AG_SCB) (q : Nat) (s : tBTA_AG_SCB)
    (p : Nat) (h1 : s.in_use = (f q).in_use) (h2 : s.state = (f q).state) :
    bta_ag_scb_open cfg (Function.update f q s) p = bta_ag_scb_open cfg f p := by
  apply scb_open_congr
  by_cases hr : p = q
  · subst hr
    simp [h1, h2]
  · simp [Function.update_noteq hr]

/-- `bta_ag_create_sco` does not change whether another block is open. -/
@[simp]
theorem other_scb_open_create_sco (cfg : Cfg) (ctl : Ctl) (w : World) (p : Nat) (o : Bool) (r : Nat) :
    bta_ag_other_scb_open cfg (bta_ag_create_sco cfg ctl w p o).scb r = bta_ag_other_scb_open cfg w.scb r :=
  other_scb_open_congr cfg _ _ r (fun q => by simp)

/-- `bta_ag_create_sco` does not change whether a block is open. -/
@[simp]
theorem scb_open_create_sco (cfg : Cfg) (ctl : Ctl) (w : World) (p : Nat) (o : Bool) (r : Nat) :
    bta_ag_scb_open cfg (bta_ag_create_sco cfg ctl w p o).scb r = bta_ag_scb_open cfg w.scb r :=
  scb_open_congr cfg _ _ r (by simp)

/-- `bta_ag_remove_sco` does not change whether another block is open. -/
@[simp]
theorem other_scb_open_remove_sco (cfg : Cfg) (st : tBTM_STATUS) (w : World) (p : Nat) (a : Bool) (r : Nat) :
    bta_ag_other_scb_open cfg (bta_ag_remove_sco st w p a).1.scb r = bta_ag_other_scb_open cfg w.scb r :=
  other_scb_open_congr cfg _ _ r (fun q => by simp)

/-- `bta_ag_remove_sco` does not change whether a block is open. -/
@[simp]
theorem scb_open_remove_sco (cfg : Cfg) (st : tBTM_STATUS) (w : World) (p : Nat) (a : Bool) (r : Nat) :
    bta_ag_scb_open cfg (bta_ag_remove_sco st w p a).1.scb r = bta_ag_scb_open cfg w.scb r :=
  scb_open_congr cfg _ _ r (by simp)

/-- `bta_ag_sco_conn_rsp` does not change whether another block is open. -/
@[simp]
theorem other_scb_open_conn_rsp (cfg : Cfg) (w : World) (p : Nat) (d : tBTM_ESCO_CONN_REQ_EVT_DATA) (r : Nat) :
    bta_ag_other_scb_open cfg (bta_ag_sco_conn_rsp cfg w p d).scb r = bta_ag_other_scb_open cfg w.scb r :=
  other_scb_open_congr cfg _ _ r (fun q => by simp)

/-- `bta_ag_sco_conn_rsp` does not change whether a block is open. -/
@[simp]
theorem scb_open_conn_rsp (cfg : Cfg) (w : World) (p : Nat) (d : tBTM_ESCO_CONN_REQ_EVT_DATA) (r : Nat) :
    bta_ag_scb_open cfg (bta_ag_sco_conn_rsp cfg w p d).scb r = bta_ag_scb_open cfg w.scb r :=
  scb_open_congr cfg _ _ r (by simp)

/-- `bta_ag_create_pending_sco` does not change whether another block is open. -/
@[simp]
theorem other_scb_open_create_pending_sco (cfg : Cfg) (ctl : Ctl) (w : World) (p : Nat) (l : Bool) (r : Nat) :
    bta_ag_other_scb_open cfg (bta_ag_create_pending_sco cfg ctl w p l).scb r = bta_ag_other_scb_open cfg w.scb r :=
  other_scb_open_congr cfg _ _ r (fun q => by simp)

/-- `bta_ag_create_pending_sco` does not change whether a block is open. -/
@[simp]
theorem scb_open_create_pending_sco (cfg : Cfg) (ctl : Ctl) (w : World) (p : Nat) (l : Bool) (r : Nat) :
    bta_ag_scb_open cfg (bta_ag_create_pending_sco cfg ctl w p l).scb r = bta_ag_scb_open cfg w.scb r :=
  scb_open_congr cfg _ _ r (by simp)

/-- `bta_ag_remove_sco` does not change whether codec negotiation is needed. -/
@[simp]
theorem codec_nego_needed_remove_sco (cfg : Cfg) (st : tBTM_STATUS) (w : World) (p : Nat)
    (a : Bool) (q : Nat) :
    codec_nego_needed cfg ((bta_ag_remove_sco st w p a).1.scb q) =
      codec_nego_needed cfg (w.scb q) := by
  simp [codec_nego_needed]

/-- The originate parameters for a block that prefers mSBC and has neither the
fallback nor the SCO-only flag set: the mSBC parameter set of its settings,
unmodified. -/
theorem create_sco_params_msbc (cfg : Cfg) (s : tBTA_AG_SCB)
    (hw : cfg.BTM_WBS_INCLUDED = true) (hc : s.sco_codec = BTA_AG_CODEC_MSBC)
    (hf : s.codec_fallback = false) (hr : s.retry_with_sco_only = false) :
    create_sco_codec cfg s = BTA_AG_CODEC_MSBC ∧
    create_sco_fallback cfg s = s ∧
    create_sco_params cfg s BTA_AG_CODEC_MSBC =
      cfg.esco_parameters_for_codec
        (if s.codec_msbc_settings = BTA_AG_SCO_MSBC_SETTINGS_T2 then ESCO_CODEC_MSBC_T2
          else ESCO_CODEC_MSBC_T1) := by
  simp [create_sco_codec, create_sco_fallback, create_sco_params, create_sco_codec_index, hw,
    hc, hf, hr]

/-! ## The nested delivery of events -/

/-- For `BTA_AG_SCO_CN_DONE_E` and `BTA_AG_SCO_CLOSE_E` the switch of
`bta_ag_sco_event` leaves `p_cn_scb` at `NULL`. -/
theorem sco_event_switch_no_cn (cfg : Cfg) (ctl : Ctl) (w : World) (p : Nat) (event : ScoEvent)
    (hev : event = BTA_AG_SCO_CN_DONE_E ∨ event = BTA_AG_SCO_CLOSE_E)
    (w1 : World) (cn : Option Nat)
    (h : sco_event_switch cfg ctl w p event = some (w1, cn)) : cn = none := by
  unfold sco_event_switch at h
  rcases hev with rfl | rfl <;> cases hs : w.sco.state <;> simp only [hs] at h <;>
    simp [sco_shutdown_st, sco_listen_st, sco_codec_st, sco_opening_st, sco_open_cl_st,
      sco_open_xfer_st, sco_open_st, sco_closing_st, sco_close_op_st, sco_close_xfer_st,
      sco_shutting_st, sco_ignore] at h <;>
    first
      | exact h.2.symm
      | (split at h <;> simp at h <;> exact h.2.symm)

/-- For the two events that `bta_ag_sco_codec_nego` delivers, `bta_ag_sco_event`
is its switch: the tail that starts codec negotiation does nothing. -/
theorem bta_ag_sco_event_eq_nested (cfg : Cfg) (ctl : Ctl) (w : World) (p : Nat)
    (event : ScoEvent) (hev : event = BTA_AG_SCO_CN_DONE_E ∨ event = BTA_AG_SCO_CLOSE_E) :
    bta_ag_sco_event cfg ctl w p event = sco_event_nested cfg ctl w p event := by
  unfold bta_ag_sco_event sco_event_nested
  cases h : sco_event_switch cfg ctl (sco_event_head w p event) p event with
  | none => rfl
  | some r =>
    obtain ⟨w1, cn⟩ := r
    have := sco_event_switch_no_cn cfg ctl _ p event hev w1 cn h
    subst this
    rfl

/-- The codec negotiation started by `bta_ag_sco_event` delivers its event
through `bta_ag_sco_event` itself, as in the source. -/
theorem codec_negotiate_via_nested (cfg : Cfg) (ctl : Ctl) (w : World) (p : Nat) :
    codec_negotiate_via (sco_event_nested cfg ctl) cfg w p = bta_ag_codec_negotiate cfg ctl w p := by
  unfold bta_ag_codec_negotiate codec_negotiate_via sco_codec_nego_via
  simp [bta_ag_sco_event_eq_nested]

/-- The body of `bta_ag_sco_event`, as written in the source: the trace, the
switch, and codec negotiation for the block left in `p_cn_scb`. -/
theorem bta_ag_sco_event_body (cfg : Cfg) (ctl : Ctl) (w : World) (p : Nat) (event : ScoEvent) :
    bta_ag_sco_event cfg ctl w p event =
      (match sco_event_switch cfg ctl (sco_event_head w p event) p event with
        | none => none
        | some (w1, none) => some w1
        | some (w1, some p_cn_scb) => bta_ag_codec_negotiate cfg ctl w1 p_cn_scb) := by
  unfold bta_ag_sco_event
  cases sco_event_switch cfg ctl (sco_event_head w p event) p event with
  | none => rfl
  | some r =>
    obtain ⟨w1, cn⟩ := r
    cases cn
    · rfl
    · exact codec_negotiate_via_nested cfg ctl w1 _

/-! ## C2: events outside the transition table -/

/-- C2: for a state and an event that have no entry in the transition table of
section 4.4, `bta_ag_sco_event` returns, leaves the SCO control block (state,
`p_curr_scb`, `p_xfer_scb`, `cur_idx` and the rest) and every control block
unchanged, and calls nothing: only the trace grows. -/
theorem out_of_table_event_ignored (cfg : Cfg) (ctl : Ctl) (w : World) (p : Nat)
    (event : ScoEvent) (h : specTransitionTable w.sco.state event = false) :
    ∃ w1, bta_ag_sco_event cfg ctl w p event = some w1 ∧
      w1.sco = w.sco ∧ w1.scb = w.scb ∧ w1.out = w.out := by
  cases hs : w.sco.state <;> cases event <;>
    simp [hs, specTransitionTable, specTableRow] at h <;>
    simp [bta_ag_sco_event, sco_event_switch, sco_event_head, hs,
      sco_shutdown_st, sco_listen_st, sco_codec_st, sco_opening_st, sco_open_cl_st,
      sco_open_xfer_st, sco_open_st, sco_closing_st, sco_close_op_st, sco_close_xfer_st,
      sco_shutting_st, sco_ignore] <;>
    cases cfg.BTM_WBS_INCLUDED <;> simp

/-- Witness for C2: an open request in the shutdown state is ignored. -/
theorem out_of_table_event_ignored_witness :
    specTransitionTable (initialWorld examplePool).sco.state BTA_AG_SCO_OPEN_E = false ∧
    ∃ w1, bta_ag_sco_event exampleCfg (ctlStarted 5) (initialWorld examplePool) 0
        BTA_AG_SCO_OPEN_E = some w1 ∧
      w1.sco = (initialWorld examplePool).sco ∧ w1.scb = (initialWorld examplePool).scb ∧
      w1.out = (initialWorld examplePool).out :=
  ⟨by decide, out_of_table_event_ignored exampleCfg (ctlStarted 5) (initialWorld examplePool) 0
    BTA_AG_SCO_OPEN_E (by decide)⟩

/-! ## C1: the round trip listen, open, connection open, close, connection close -/

/-- First step of the round trip: a listen request in the shutdown state. -/
theorem roundtrip_listen (cfg : Cfg) (ctl : Ctl) (w : World) (A : Nat)
    (hs : w.sco.state = BTA_AG_SCO_SHUTDOWN_ST) (hc : w.sco.p_curr_scb = none)
    (hx : w.sco.p_xfer_scb = none) (hfb : (w.scb A).codec_fallback = false) :
    ∃ w1, bta_ag_sco_listen cfg ctl w A = some w1 ∧
      w1.sco.state = BTA_AG_SCO_LISTEN_ST ∧ w1.sco.p_curr_scb = none ∧
      w1.sco.p_xfer_scb = none ∧ (w1.scb A).codec_fallback = false := by
  simp [bta_ag_sco_listen, bta_ag_sco_event, sco_event_switch, sco_event_head, hs,
      sco_shutdown_st, hc, hx, create_sco_codec_fallback, hfb]

/-- Second step: an open request in the listen state with no current block
starts codec negotiation or the originate. -/
theorem roundtrip_open (cfg : Cfg) (ctl : Ctl) (w : World) (A : Nat)
    (hs : w.sco.state = BTA_AG_SCO_LISTEN_ST) (hc : w.sco.p_curr_scb = none)
    (hx : w.sco.p_xfer_scb = none) (hfb : (w.scb A).codec_fallback = false) :
    ∃ w1, bta_ag_sco_open cfg ctl w A = some w1 ∧
      ((w1.sco.state = BTA_AG_SCO_CODEC_ST ∧ cfg.BTM_WBS_INCLUDED = true) ∨
        w1.sco.state = BTA_AG_SCO_OPENING_ST) ∧
      w1.sco.p_xfer_scb = none ∧ (w1.scb A).codec_fallback = false := by
  cases hw : cfg.BTM_WBS_INCLUDED
  · simp [bta_ag_sco_open, hc, bta_ag_sco_event, sco_event_switch, sco_event_head, hs,
        sco_listen_st, hw, hx, create_sco_codec_fallback, hfb]
  · have hk : ∀ st : tBTM_STATUS, ∀ w0 : World, w0.scb = w.scb →
        codec_nego_needed cfg ((bta_ag_remove_sco st w0 A false).1.scb A) =
          codec_nego_needed cfg (w.scb A) := by
      intro st w0 h0
      simp [codec_nego_needed, h0]
    cases hn : codec_nego_needed cfg (w.scb A)
    · simp [bta_ag_sco_open, hc, bta_ag_sco_event, sco_event_switch, sco_event_head, hs,
          sco_listen_st, hw, codec_negotiate_via, hk, hn, sco_codec_nego_via, sco_event_nested,
          sco_codec_st]
      simp [hx, create_sco_codec_fallback, hfb]
    · simp [bta_ag_sco_open, hc, bta_ag_sco_event, sco_event_switch, sco_event_head, hs,
          sco_listen_st, hw, codec_negotiate_via, hk, hn]
      simp [hx, hfb]

/-- Third step: the connection-open entry point, in the codec or opening state. -/
theorem roundtrip_conn_open (cfg : Cfg) (ctl : Ctl) (w : World) (A : Nat)
    (hs : (w.sco.state = BTA_AG_SCO_CODEC_ST ∧ cfg.BTM_WBS_INCLUDED = true) ∨
      w.sco.state = BTA_AG_SCO_OPENING_ST)
    (hx : w.sco.p_xfer_scb = none) (hfb : (w.scb A).codec_fallback = false) :
    ∃ w1, bta_ag_sco_conn_open cfg ctl w A = some w1 ∧
      ((w1.sco.state = BTA_AG_SCO_CODEC_ST ∧ cfg.BTM_WBS_INCLUDED = true) ∨
        w1.sco.state = BTA_AG_SCO_OPEN_ST) ∧
      w1.sco.p_xfer_scb = none ∧ (w1.scb A).codec_fallback = false ∧
      (w1.scb A).retry_with_sco_only = false ∧
      (cfg.BTM_WBS_INCLUDED = true →
        (w1.scb A).codec_msbc_settings = BTA_AG_SCO_MSBC_SETTINGS_T2) := by
  rcases hs with ⟨hs, hw⟩ | hs
  · simp [bta_ag_sco_conn_open, bta_ag_sco_event, sco_event_switch, sco_event_head, hs, hw,
      sco_codec_st, sco_ignore, bta_ag_cback_sco, hx, hfb]
  · cases hw : cfg.BTM_WBS_INCLUDED <;>
    simp [bta_ag_sco_conn_open, bta_ag_sco_event, sco_event_switch, sco_event_head, hs, hw,
      sco_opening_st, bta_ag_cback_sco, hx, hfb]

/-- Fourth step: the close entry point, in the codec or open state. -/
theorem roundtrip_close (cfg : Cfg) (ctl : Ctl) (w : World) (A : Nat)
    (hs : (w.sco.state = BTA_AG_SCO_CODEC_ST ∧ cfg.BTM_WBS_INCLUDED = true) ∨
      w.sco.state = BTA_AG_SCO_OPEN_ST)
    (hx : w.sco.p_xfer_scb = none) (hfb : (w.scb A).codec_fallback = false)
    (hr : (w.scb A).retry_with_sco_only = false)
    (ht : cfg.BTM_WBS_INCLUDED = true →
        (w.scb A).codec_msbc_settings = BTA_AG_SCO_MSBC_SETTINGS_T2) :
    ∃ w1, bta_ag_sco_close cfg ctl w A = some w1 ∧
      (w1.sco.state = BTA_AG_SCO_LISTEN_ST ∨ w1.sco.state = BTA_AG_SCO_OPEN_ST ∨
        w1.sco.state = BTA_AG_SCO_CLOSING_ST) ∧
      w1.sco.p_xfer_scb = none ∧ (w1.scb A).codec_fallback = false ∧
      (w1.scb A).retry_with_sco_only = false ∧
      (cfg.BTM_WBS_INCLUDED = true →
        (w1.scb A).codec_msbc_settings = BTA_AG_SCO_MSBC_SETTINGS_T2) := by
  rcases hs with ⟨hs, hw⟩ | hs
  · simp [bta_ag_sco_close, bta_ag_sco_event, sco_event_switch, sco_event_head, hs, hw,
      sco_codec_st, hx, hfb, hr]
    simpa [hw] using ht
  · unfold bta_ag_sco_close
    split_ifs with hc
    · simp only [bta_ag_sco_event, sco_event_switch, sco_event_head, hs, sco_open_st,
        World.trace, ne_eq, reduceCtorEq, not_false_eq_true, ↓reduceIte, World.setState]
      split_ifs <;> simp [hx, hfb, hr, hs] <;> exact ht
    · exact ⟨w, rfl, Or.inr (Or.inl hs), hx, hfb, hr, ht⟩

/-- Last step: the connection-close entry point for a block whose retry flags
are clear, in the listen, open or closing state. -/
theorem roundtrip_conn_close (cfg : Cfg) (ctl : Ctl) (w : World) (A : Nat)
    (hs : w.sco.state = BTA_AG_SCO_LISTEN_ST ∨ w.sco.state = BTA_AG_SCO_OPEN_ST ∨
        w.sco.state = BTA_AG_SCO_CLOSING_ST)
    (hx : w.sco.p_xfer_scb = none) (hfb : (w.scb A).codec_fallback = false)
    (hr : (w.scb A).retry_with_sco_only = false)
    (ht : cfg.BTM_WBS_INCLUDED = true →
        (w.scb A).codec_msbc_settings = BTA_AG_SCO_MSBC_SETTINGS_T2) :
    ∃ w1, bta_ag_sco_conn_close cfg ctl w A = some w1 ∧
      w1.sco.state = BTA_AG_SCO_LISTEN_ST ∧ w1.sco.p_curr_scb = none ∧
      w1.sco.p_xfer_scb = none := by
  cases hw : cfg.BTM_WBS_INCLUDED
  · rcases hs with hs | hs | hs <;>
      simp [bta_ag_sco_conn_close, hfb, hr, hw, sco_conn_close_report, bta_ag_sco_event,
        sco_event_switch, sco_event_head, hs, sco_listen_st, sco_open_st, sco_closing_st,
        bta_ag_cback_sco, hx] <;>
      split_ifs <;> simp [hx]
  · rcases hs with hs | hs | hs <;>
      simp [bta_ag_sco_conn_close, hfb, hr, hw, sco_conn_close_report, bta_ag_sco_event,
        sco_event_switch, sco_event_head, hs, sco_listen_st, sco_open_st, sco_closing_st,
        bta_ag_cback_sco, hx, bta_ag_attempt_msbc_safe_settings, ht hw] <;>
      split_ifs <;> simp [hx]

/-- C1: from the initial state (shutdown, no current and no transfer block),
for a control block `A` whose fallback flag is clear (as it is in a freshly
initialised block), the sequence `bta_ag_sco_listen`, `bta_ag_sco_open`,
`bta_ag_sco_conn_open`, `bta_ag_sco_close`, `bta_ag_sco_conn_close` on `A`
returns and ends in the listen state with `p_curr_scb` and `p_xfer_scb` both
`NULL`, whatever the controller answers (`c1` to `c5`), for every build
configuration and every content of the pool. -/
theorem listen_open_close_roundtrip (cfg : Cfg) (c1 c2 c3 c4 c5 : Ctl)
    (scb : Nat → tBTA_AG_SCB) (A : Nat) (hfb : (scb A).codec_fallback = false) :
    ∃ w, runOps cfg (initialWorld scb)
        [(c1, Op.sco_listen A), (c2, Op.sco_open A), (c3, Op.sco_conn_open A),
          (c4, Op.sco_close A), (c5, Op.sco_conn_close A)] = some w ∧
      w.sco.state = BTA_AG_SCO_LISTEN_ST ∧ w.sco.p_curr_scb = none ∧
      w.sco.p_xfer_scb = none := by
  obtain ⟨w1, e1, s1, k1, x1, f1⟩ :=
    roundtrip_listen cfg c1 (initialWorld scb) A rfl rfl rfl hfb
  obtain ⟨w2, e2, s2, x2, f2⟩ := roundtrip_open cfg c2 w1 A s1 k1 x1 f1
  obtain ⟨w3, e3, s3, x3, f3, r3, t3⟩ := roundtrip_conn_open cfg c3 w2 A s2 x2 f2
  obtain ⟨w4, e4, s4, x4, f4, r4, t4⟩ := roundtrip_close cfg c4 w3 A s3 x3 f3 r3 t3
  obtain ⟨w5, e5, s5, k5, x5⟩ := roundtrip_conn_close cfg c5 w4 A s4 x4 f4 r4 t4
  exact ⟨w5, by simp [runOps, applyOp, e1, e2, e3, e4, e5], s5, k5, x5⟩

/-- Witness for C1: the round trip on the example pool. -/
theorem listen_open_close_roundtrip_witness :
    (examplePool 0).codec_fallback = false ∧
    ∃ w, runOps exampleCfg (initialWorld examplePool)
        [(ctlStarted 5, Op.sco_listen 0), (ctlGone 5, Op.sco_open 0),
          (ctlStarted 6, Op.sco_conn_open 0), (ctlStarted 6, Op.sco_close 0),
          (ctlStarted 7, Op.sco_conn_close 0)] = some w ∧
      w.sco.state = BTA_AG_SCO_LISTEN_ST ∧ w.sco.p_curr_scb = none ∧
      w.sco.p_xfer_scb = none :=
  ⟨by decide, listen_open_close_roundtrip exampleCfg _ _ _ _ _ examplePool 0 (by decide)⟩

/-! ## C5: shutdown followed by the close of the connection -/

/-- C5: for every state and for the block `A` that is the current block, with
no other block open and `A` itself no longer open, the shutdown entry point
followed by the delivery of the connection-close event for `A` ends in the
shutdown state; from the listen, codec and shutting states the shutdown alone
already reaches it.  (The codec state exists only when wideband is built in.) -/
theorem shutdown_then_conn_close_reaches_shutdown (cfg : Cfg) (c1 c2 : Ctl) (w : World)
    (A : Nat) (hcur : w.sco.p_curr_scb = some A)
    (hother : bta_ag_other_scb_open cfg w.scb A = false)
    (hopen : bta_ag_scb_open cfg w.scb A = false)
    (hcodec : w.sco.state = BTA_AG_SCO_CODEC_ST → cfg.BTM_WBS_INCLUDED = true) :
    ∃ w1, bta_ag_sco_shutdown cfg c1 w A = some w1 ∧
      ((w.sco.state = BTA_AG_SCO_LISTEN_ST ∨ w.sco.state = BTA_AG_SCO_CODEC_ST ∨
          w.sco.state = BTA_AG_SCO_SHUTTING_ST) → w1.sco.state = BTA_AG_SCO_SHUTDOWN_ST) ∧
      ∃ w2, bta_ag_sco_event cfg c2 w1 A BTA_AG_SCO_CONN_CLOSE_E = some w2 ∧
        w2.sco.state = BTA_AG_SCO_SHUTDOWN_ST := by
  cases hs : w.sco.state
  case BTA_AG_SCO_CODEC_ST =>
    simp [bta_ag_sco_shutdown, bta_ag_sco_event, sco_event_switch, sco_event_head, hs,
      hcodec hs, sco_codec_st, sco_shutdown_listening, hother, sco_shutdown_st, sco_ignore]
  all_goals
    simp [bta_ag_sco_shutdown, bta_ag_sco_event, sco_event_switch, sco_event_head, hs,
      sco_shutdown_st, sco_listen_st, sco_opening_st, sco_open_cl_st, sco_open_xfer_st,
      sco_open_st, sco_closing_st, sco_close_op_st, sco_close_xfer_st, sco_shutting_st,
      sco_ignore, sco_shutdown_or_remove, sco_shutting_next, sco_shutting_clear, hcur,
      sco_shutdown_listening, hother, hopen]

/-- Witness for C5: shutdown of the open link of block 0 when no block is open
any more. -/
theorem shutdown_then_conn_close_reaches_shutdown_witness :
    worldOpenClosing.sco.p_curr_scb = some 0 ∧
    bta_ag_other_scb_open exampleCfg worldOpenClosing.scb 0 = false ∧
    bta_ag_scb_open exampleCfg worldOpenClosing.scb 0 = false ∧
    ∃ w1, bta_ag_sco_shutdown exampleCfg (ctlStarted 6) worldOpenClosing 0 = some w1 ∧
      ((worldOpenClosing.sco.state = BTA_AG_SCO_LISTEN_ST ∨
          worldOpenClosing.sco.state = BTA_AG_SCO_CODEC_ST ∨
          worldOpenClosing.sco.state = BTA_AG_SCO_SHUTTING_ST) →
        w1.sco.state = BTA_AG_SCO_SHUTDOWN_ST) ∧
      ∃ w2, bta_ag_sco_event exampleCfg (ctlStarted 6) w1 0 BTA_AG_SCO_CONN_CLOSE_E = some w2 ∧
        w2.sco.state = BTA_AG_SCO_SHUTDOWN_ST :=
  ⟨rfl, by decide, by decide,
    shutdown_then_conn_close_reaches_shutdown exampleCfg (ctlStarted 6) (ctlStarted 6)
      worldOpenClosing 0 rfl (by decide) (by decide) (fun _ => rfl)⟩

/-! ## C6: the retry ladder after the SCO-only attempt -/

/-- C6: evaluation of the code on a run in which every attempt on block 0 fails.
When the CVSD attempt with eSCO packet types has failed, the retry flag is set
and the mSBC settings are still T1; the handling of that failure originates the
CVSD attempt that consumes `retry_with_sco_only`.  When this attempt fails too,
`bta_ag_sco_disc_cback` followed by `bta_ag_sco_conn_close` delivers
`BTA_AG_SCO_REOPEN_E` and originates a new mSBC T1 attempt: no
`BTA_AG_SCO_CONN_CLOSE_E` is delivered and no `BTA_AG_AUDIO_CLOSE_EVT` is
emitted, and the block is again where it was after the failure of mSBC T2. -/
theorem sco_only_failure_restarts_msbc_t1 :
    observeRetry (runOps exampleCfg (initialWorld examplePool) runCvsdEscoFailed) 0 =
        some (BTA_AG_CODEC_NONE, BTA_AG_SCO_MSBC_SETTINGS_T1, false, true, false) ∧
      observeRetry (runOps exampleCfg (initialWorld examplePool) runScoOnlyAttempt) 0 =
        some (BTA_AG_CODEC_CVSD, BTA_AG_SCO_MSBC_SETTINGS_T1, false, false, false) ∧
      producedBy exampleCfg examplePool runScoOnlyAttempt (failureHandling 9 0) =
        some
          ([Action.bta_sys_sendmsg BTA_AG_SCO_CLOSE_EVT 1,
            Action.BTM_SetEScoMode (exampleCfg.esco_parameters_for_codec ESCO_CODEC_MSBC_T1),
            Action.bta_sys_sco_use 1 0xA0,
            Action.bta_ag_co_audio_state 1 1 SCO_STATE_SETUP (some BTA_AG_CODEC_MSBC)],
           [LogEntry.sco_evt BTM_INVALID_SCO_INDEX BTA_AG_SCO_OPENING_ST BTA_AG_SCO_REOPEN_E,
            LogEntry.sco_evt BTM_INVALID_SCO_INDEX BTA_AG_SCO_CODEC_ST BTA_AG_SCO_CN_DONE_E]) ∧
      observeRetry (runOps exampleCfg (initialWorld examplePool)
          (runScoOnlyAttempt ++ failureHandling 9 0)) 0 =
        some (BTA_AG_CODEC_MSBC, BTA_AG_SCO_MSBC_SETTINGS_T1, false, false, false) ∧
      observeRetry (runOps exampleCfg (initialWorld examplePool)
          (runToOpening ++ failureHandling 6 0)) 0 =
        some (BTA_AG_CODEC_MSBC, BTA_AG_SCO_MSBC_SETTINGS_T1, false, false, false) := by
  refine ⟨?_, ?_, ?_, ?_, ?_⟩ <;> decide

/-! ## C3, C4, C8: runs on which the code leaves the stated behaviour -/

/-- C3, evaluated: after `runStaleXfer` the machine is in
`BTA_AG_SCO_CLOSING_ST` and `p_xfer_scb` still points to block 1; before the
last step it was in `BTA_AG_SCO_OPEN_XFER_ST`. -/
theorem xfer_slot_stale_after_close_in_open_xfer :
    observeSco (runOps exampleCfg (initialWorld examplePool) runStaleXfer) =
        some (BTA_AG_SCO_CLOSING_ST, some 0, some 1) ∧
      observeSco (runOps exampleCfg (initialWorld examplePool) (runStaleXfer.take 5)) =
        some (BTA_AG_SCO_OPEN_XFER_ST, some 0, some 1) := by
  constructor <;> rfl

/-- C4, evaluated: after `runLostCurrent` the machine is in
`BTA_AG_SCO_OPEN_CL_ST` and `p_curr_scb` is `NULL`: the reopen request of the
last `bta_ag_sco_conn_close` was ignored. -/
theorem curr_slot_null_in_open_cl :
    observeSco (runOps exampleCfg (initialWorld examplePool) runLostCurrent) =
        some (BTA_AG_SCO_OPEN_CL_ST, none, none) ∧
      ((runOps exampleCfg (initialWorld examplePool) runLostCurrent).map fun w =>
          w.log.getLast?) =
        some (some (LogEntry.ignoring BTA_AG_SCO_OPEN_CL_ST BTA_AG_SCO_REOPEN_E)) := by
  constructor <;> rfl

/-- C8, evaluated: `bta_ag_sco_disc_cback` for the mSBC attempt of the current
block in the opening state leaves `bta_ag_cb.sco.state` at
`BTA_AG_SCO_OPENING_ST`; the value of `BTA_AG_SCO_CODEC_ST` is stored in the
`state` field of the control block instead. -/
theorem disc_cback_leaves_sco_state_opening :
    worldOpeningMsbc.sco.state = BTA_AG_SCO_OPENING_ST ∧
      worldOpeningMsbc.sco.p_curr_scb = some 0 ∧
      (worldOpeningMsbc.scb 0).inuse_codec = BTA_AG_CODEC_MSBC ∧
      (bta_ag_sco_disc_cback exampleCfg worldOpeningMsbc 6).sco.state =
        BTA_AG_SCO_OPENING_ST ∧
      ((bta_ag_sco_disc_cback exampleCfg worldOpeningMsbc 6).scb 0).state =
        exampleCfg.BTA_AG_SCO_CODEC_ST ∧
      observeSco (runOps exampleCfg (initialWorld examplePool)
          (runToOpening ++ [(ctlStarted 6, Op.sco_disc_cback 6)])) =
        some (BTA_AG_SCO_OPENING_ST, some 0, none) := by
  refine ⟨rfl, rfl, rfl, rfl, rfl, rfl⟩

/-! ## C7: the disconnect callback on the current block -/

/-- The disconnect callback matches the current block when that block is in
use and its index is the reported one or `0xFFFF`; the handle is then not 0. -/
theorem sco_disc_cback_handle_matched (w : World) (idx c : Nat)
    (hcur : w.sco.p_curr_scb = some c) (hin : (w.scb c).in_use = true)
    (hidx : (w.scb c).sco_idx = idx ∨ (w.scb c).sco_idx = 0xFFFF) :
    sco_disc_cback_handle w idx = some (bta_ag_scb_to_idx c) := by
  unfold sco_disc_cback_handle
  rcases hidx with h | h <;> simp [hcur, hin, h]

/-- The disconnect callback on a matched current block, with wideband built
in: the settings are restored and the close message is posted. -/
theorem sco_disc_cback_matched (cfg : Cfg) (w : World) (idx c : Nat)
    (hwbs : cfg.BTM_WBS_INCLUDED = true)
    (hcur : w.sco.p_curr_scb = some c) (hin : (w.scb c).in_use = true)
    (hidx : (w.scb c).sco_idx = idx ∨ (w.scb c).sco_idx = 0xFFFF) :
    bta_ag_sco_disc_cback cfg w idx =
      (sco_disc_cback_restore cfg w c).emit
        (Action.bta_sys_sendmsg BTA_AG_SCO_CLOSE_EVT (bta_ag_scb_to_idx c)) := by
  unfold bta_ag_sco_disc_cback
  rw [sco_disc_cback_handle_matched w idx c hcur hin hidx]
  simp [bta_ag_scb_to_idx, hcur, hwbs]

/-- The close of the connection for a block that prefers mSBC with settings
T1 (fallback and SCO-only flags clear) while the machine is opening: the
reopen request takes the machine to the codec state, and when codec
negotiation is skipped the new attempt is set up at once with the mSBC T1
parameter set. -/
theorem conn_close_reopens_with_t1 (cfg : Cfg) (ctl : Ctl) (v : World) (A : Nat)
    (hwbs : cfg.BTM_WBS_INCLUDED = true) (hs : v.sco.state = BTA_AG_SCO_OPENING_ST)
    (hsvc : (v.scb A).svc_conn = true) (hc : (v.scb A).sco_codec = BTA_AG_CODEC_MSBC)
    (ht : (v.scb A).codec_msbc_settings = BTA_AG_SCO_MSBC_SETTINGS_T1)
    (hf : (v.scb A).codec_fallback = false) (hr : (v.scb A).retry_with_sco_only = false) :
    ∃ w2, bta_ag_sco_conn_close cfg ctl v A = some w2 ∧
      w2.sco.p_curr_scb = some A ∧
      (w2.scb A).codec_msbc_settings = BTA_AG_SCO_MSBC_SETTINGS_T1 ∧
      (w2.scb A).sco_codec = BTA_AG_CODEC_MSBC ∧
      (w2.scb A).codec_fallback = false ∧ (w2.scb A).retry_with_sco_only = false ∧
      (w2.scb A).sco_idx = BTM_INVALID_SCO_INDEX ∧
      (w2.scb A).app_id = (v.scb A).app_id ∧ (w2.scb A).peer_addr = (v.scb A).peer_addr ∧
      (codec_nego_needed cfg (v.scb A) = false →
        w2.sco.state = BTA_AG_SCO_OPENING_ST ∧
        w2.log = v.log ++
          [LogEntry.sco_evt BTM_INVALID_SCO_INDEX BTA_AG_SCO_OPENING_ST BTA_AG_SCO_REOPEN_E,
            LogEntry.sco_evt BTM_INVALID_SCO_INDEX BTA_AG_SCO_CODEC_ST BTA_AG_SCO_CN_DONE_E] ∧
        w2.out = v.out ++
          [Action.BTM_SetEScoMode (cfg.esco_parameters_for_codec ESCO_CODEC_MSBC_T1),
            Action.bta_sys_sco_use (v.scb A).app_id (v.scb A).peer_addr,
            Action.bta_ag_co_audio_state (bta_ag_scb_to_idx A) (v.scb A).app_id SCO_STATE_SETUP
              (some BTA_AG_CODEC_MSBC)] ∧
        (w2.scb A).inuse_codec = BTA_AG_CODEC_MSBC) ∧
      (codec_nego_needed cfg (v.scb A) = true →
        w2.sco.state = BTA_AG_SCO_CODEC_ST ∧
        w2.log = v.log ++
          [LogEntry.sco_evt BTM_INVALID_SCO_INDEX BTA_AG_SCO_OPENING_ST BTA_AG_SCO_REOPEN_E] ∧
        w2.out = v.out ++
          [Action.bta_sys_busy (v.scb A).app_id (v.scb A).peer_addr,
            Action.bta_ag_send_bcs (bta_ag_scb_to_idx A),
            Action.alarm_set_on_queue (bta_ag_scb_to_idx A)
              BTA_AG_CODEC_NEGOTIATION_TIMEOUT_MS]) := by
  have hk : ∀ s : tBTA_AG_SCB, s.codec_updated = (v.scb A).codec_updated →
      s.codec_fallback = (v.scb A).codec_fallback →
      s.peer_features = (v.scb A).peer_features →
      codec_nego_needed cfg s = codec_nego_needed cfg (v.scb A) := by
    intro s h1 h2 h3
    simp [codec_nego_needed, h1, h2, h3]
  have hsafe : ∀ s : tBTA_AG_SCB, s.svc_conn = true → s.sco_codec = BTA_AG_CODEC_MSBC →
      s.codec_msbc_settings = BTA_AG_SCO_MSBC_SETTINGS_T1 →
      bta_ag_attempt_msbc_safe_settings s = true := by
    intro s h1 h2 h3
    simp [bta_ag_attempt_msbc_safe_settings, h1, h2, h3]
  cases hn : codec_nego_needed cfg (v.scb A)
  · simp [bta_ag_sco_conn_close, hwbs, hsafe, hsvc, hc, ht, bta_ag_sco_event, sco_event_switch,
      sco_event_head, hs, sco_opening_st, codec_negotiate_via, hk, hn, sco_codec_nego_via,
      sco_event_nested, sco_codec_st]
    simp [create_sco_codec_fallback, create_sco_orig_scb, create_sco_orig_out,
      create_sco_params_msbc, create_sco_orig_retry_msbc, hf, hr, hwbs, co_codec]
  · simp [bta_ag_sco_conn_close, hwbs, hsafe, hsvc, hc, ht, bta_ag_sco_event, sco_event_switch,
      sco_event_head, hs, sco_opening_st, codec_negotiate_via, hk, hn, hf]

/-- The reply to the codec selection for a block that prefers mSBC with
settings T1, in the codec state: the originate is set up with the mSBC T1
parameter set and the machine is opening. -/
theorem codec_nego_done_originates_t1 (cfg : Cfg) (ctl : Ctl) (v : World) (A : Nat)
    (hwbs : cfg.BTM_WBS_INCLUDED = true) (hs : v.sco.state = BTA_AG_SCO_CODEC_ST)
    (hi : (v.scb A).sco_idx = BTM_INVALID_SCO_INDEX)
    (hc : (v.scb A).sco_codec = BTA_AG_CODEC_MSBC)
    (ht : (v.scb A).codec_msbc_settings = BTA_AG_SCO_MSBC_SETTINGS_T1)
    (hf : (v.scb A).codec_fallback = false) (hr : (v.scb A).retry_with_sco_only = false) :
    ∃ w3, bta_ag_sco_codec_nego cfg ctl v A true = some w3 ∧
      w3.sco.state = BTA_AG_SCO_OPENING_ST ∧ w3.sco.p_curr_scb = some A ∧
      (w3.scb A).inuse_codec = BTA_AG_CODEC_MSBC ∧
      (w3.scb A).codec_msbc_settings = BTA_AG_SCO_MSBC_SETTINGS_T1 ∧
      w3.out = v.out ++
        [Action.BTM_SetEScoMode (cfg.esco_parameters_for_codec ESCO_CODEC_MSBC_T1),
          Action.bta_sys_sco_use (v.scb A).app_id (v.scb A).peer_addr,
          Action.bta_ag_co_audio_state (bta_ag_scb_to_idx A) (v.scb A).app_id SCO_STATE_SETUP
            (some BTA_AG_CODEC_MSBC)] := by
  simp [bta_ag_sco_codec_nego, sco_codec_nego_via, bta_ag_sco_event, sco_event_switch,
    sco_event_head, hs, hwbs, sco_codec_st]
  simp [create_sco_orig_scb, create_sco_orig_out, create_sco_params_msbc, hi, hc, ht, hf, hr,
    hwbs, co_codec]

/-- C9 (scenario 2): for a block `A` in use with `svc_conn` set that prefers
mSBC with settings T2 and is the current block in the opening state with
`inuse_codec` mSBC (fallback and SCO-only flags clear, as they are after the
originate that chose mSBC), `bta_ag_sco_disc_cback` for its index followed by
`bta_ag_sco_conn_close` returns, leaves the settings at T1, delivers the reopen
request in the opening state (which takes the machine to the codec state),
makes `A` the current block again and emits no `BTA_AG_AUDIO_CLOSE_EVT`.  When
codec negotiation is skipped the new attempt is set up at once with the mSBC
T1 parameter set and the machine is opening again; when it is needed the codec
selection is sent and the attempt set up by the reply `bta_ag_sco_codec_nego`
uses the mSBC T1 parameter set. -/
theorem msbc_t2_failure_retries_with_t1 (cfg : Cfg) (ctl c3 : Ctl) (w : World) (A idx : Nat)
    (hwbs : cfg.BTM_WBS_INCLUDED = true) (hs : w.sco.state = BTA_AG_SCO_OPENING_ST)
    (hcur : w.sco.p_curr_scb = some A) (hin : (w.scb A).in_use = true)
    (hidx : (w.scb A).sco_idx = idx ∨ (w.scb A).sco_idx = 0xFFFF)
    (hsvc : (w.scb A).svc_conn = true) (hc : (w.scb A).sco_codec = BTA_AG_CODEC_MSBC)
    (ht : (w.scb A).codec_msbc_settings = BTA_AG_SCO_MSBC_SETTINGS_T2)
    (hu : (w.scb A).inuse_codec = BTA_AG_CODEC_MSBC)
    (hf : (w.scb A).codec_fallback = false) (hr : (w.scb A).retry_with_sco_only = false) :
    ∃ w2, bta_ag_sco_conn_close cfg ctl (bta_ag_sco_disc_cback cfg w idx) A = some w2 ∧
      (w2.scb A).codec_msbc_settings = BTA_AG_SCO_MSBC_SETTINGS_T1 ∧
      w2.sco.p_curr_scb = some A ∧
      LogEntry.sco_evt BTM_INVALID_SCO_INDEX BTA_AG_SCO_OPENING_ST BTA_AG_SCO_REOPEN_E ∈
        w2.log ∧
      (∀ h a, Action.p_cback BTA_AG_AUDIO_CLOSE_EVT h a ∈ w2.out →
        Action.p_cback BTA_AG_AUDIO_CLOSE_EVT h a ∈ w.out) ∧
      (codec_nego_needed cfg (w.scb A) = false →
        w2.sco.state = BTA_AG_SCO_OPENING_ST ∧
        (w2.scb A).inuse_codec = BTA_AG_CODEC_MSBC ∧
        w2.out = (bta_ag_sco_disc_cback cfg w idx).out ++
          [Action.BTM_SetEScoMode (cfg.esco_parameters_for_codec ESCO_CODEC_MSBC_T1),
            Action.bta_sys_sco_use (w.scb A).app_id (w.scb A).peer_addr,
            Action.bta_ag_co_audio_state (bta_ag_scb_to_idx A) (w.scb A).app_id
              SCO_STATE_SETUP (some BTA_AG_CODEC_MSBC)]) ∧
      (codec_nego_needed cfg (w.scb A) = true →
        w2.sco.state = BTA_AG_SCO_CODEC_ST ∧
        Action.bta_ag_send_bcs (bta_ag_scb_to_idx A) ∈ w2.out ∧
        ∃ w3, bta_ag_sco_codec_nego cfg c3 w2 A true = some w3 ∧
          w3.sco.state = BTA_AG_SCO_OPENING_ST ∧
          (w3.scb A).inuse_codec = BTA_AG_CODEC_MSBC ∧
          (w3.scb A).codec_msbc_settings = BTA_AG_SCO_MSBC_SETTINGS_T1 ∧
          w3.out = w2.out ++
            [Action.BTM_SetEScoMode (cfg.esco_parameters_for_codec ESCO_CODEC_MSBC_T1),
              Action.bta_sys_sco_use (w.scb A).app_id (w.scb A).peer_addr,
              Action.bta_ag_co_audio_state (bta_ag_scb_to_idx A) (w.scb A).app_id
                SCO_STATE_SETUP (some BTA_AG_CODEC_MSBC)]) := by
  have hd := sco_disc_cback_matched cfg w idx A hwbs hcur hin hidx
  -- the world left by the disconnect callback
  have e_state : (bta_ag_sco_disc_cback cfg w idx).sco.state = BTA_AG_SCO_OPENING_ST := by
    rw [hd]; simp [sco_disc_cback_restore, bta_ag_sco_is_opening, hu, hs, hcur, ht]
  have e_scb : (bta_ag_sco_disc_cback cfg w idx).scb A =
      { w.scb A with state := cfg.BTA_AG_SCO_CODEC_ST,
                     codec_msbc_settings := BTA_AG_SCO_MSBC_SETTINGS_T1,
                     inuse_codec := BTA_AG_CODEC_NONE } := by
    rw [hd]; simp [sco_disc_cback_restore, bta_ag_sco_is_opening, hu, hs, hcur, ht]
  have e_log : (bta_ag_sco_disc_cback cfg w idx).log = w.log := by
    rw [hd]; simp [sco_disc_cback_restore, bta_ag_sco_is_opening, hu, hs, hcur, ht]
  have e_out : ∀ h a, Action.p_cback BTA_AG_AUDIO_CLOSE_EVT h a ∈
      (bta_ag_sco_disc_cback cfg w idx).out → Action.p_cback BTA_AG_AUDIO_CLOSE_EVT h a ∈ w.out := by
    intro h a
    rw [hd]
    simp [sco_disc_cback_restore, bta_ag_sco_is_opening, hu, hs, hcur, ht]
    split_ifs <;> simp
  have e_need : codec_nego_needed cfg ((bta_ag_sco_disc_cback cfg w idx).scb A) =
      codec_nego_needed cfg (w.scb A) := by
    rw [e_scb]; simp [codec_nego_needed]
  obtain ⟨w2, h2, k2, t2, c2, f2, r2, i2, a2, p2, n2, y2⟩ :=
    conn_close_reopens_with_t1 cfg ctl (bta_ag_sco_disc_cback cfg w idx) A hwbs e_state
      (by rw [e_scb]; exact hsvc) (by rw [e_scb]; exact hc) (by rw [e_scb])
      (by rw [e_scb]; exact hf) (by rw [e_scb]; exact hr)
  rw [e_need, e_log] at n2 y2
  rw [e_scb] at n2 y2
  refine ⟨w2, h2, t2, k2, ?_, ?_, ?_, ?_⟩
  · cases hn : codec_nego_needed cfg (w.scb A)
    · rw [(n2 hn).2.1]; simp
    · rw [(y2 hn).2.1]; simp
  · intro h a hm
    cases hn : codec_nego_needed cfg (w.scb A)
    · rw [(n2 hn).2.2.1] at hm
      simp at hm
      exact e_out h a hm
    · rw [(y2 hn).2.2] at hm
      simp at hm
      exact e_out h a hm
  · intro hn
    exact ⟨(n2 hn).1, (n2 hn).2.2.2, (n2 hn).2.2.1⟩
  · intro hn
    refine ⟨(y2 hn).1, ?_, ?_⟩
    · rw [(y2 hn).2.2]; simp
    · obtain ⟨w3, h3, s3, _, u3, t3, o3⟩ :=
        codec_nego_done_originates_t1 cfg c3 w2 A hwbs (y2 hn).1 i2 c2 t2 f2 r2
      rw [e_scb] at a2 p2
      exact ⟨w3, h3, s3, u3, t3, by rw [o3, a2, p2]⟩

/-- Witness for C9: the end of the mSBC T2 attempt of block 0 while it is
opening. -/
theorem msbc_t2_failure_retries_with_t1_witness :
    ∃ w2, bta_ag_sco_conn_close exampleCfg (ctlStarted 7)
        (bta_ag_sco_disc_cback exampleCfg worldOpeningMsbc 6) 0 = some w2 ∧
      (w2.scb 0).codec_msbc_settings = BTA_AG_SCO_MSBC_SETTINGS_T1 ∧
      w2.sco.p_curr_scb = some 0 ∧
      LogEntry.sco_evt BTM_INVALID_SCO_INDEX BTA_AG_SCO_OPENING_ST BTA_AG_SCO_REOPEN_E ∈
        w2.log := by
  obtain ⟨w2, h, t, k, l, _⟩ :=
    msbc_t2_failure_retries_with_t1 exampleCfg (ctlStarted 7) (ctlStarted 7) worldOpeningMsbc 0 6
      rfl rfl rfl rfl (Or.inl rfl) rfl rfl rfl rfl rfl rfl
  exact ⟨w2, h, t, k, l⟩

/-! ## C10: mSBC is never retried with SCO-only packet types -/

@[simp]
theorem whenSome_none (P : World → Prop) : WhenSome P none = True := rfl

@[simp]
theorem whenSome_some (P : World → Prop) (w : World) : WhenSome P (some w) = P w := rfl

@[simp]
theorem whenSome_ite (P : World → Prop) (c : Prop) [Decidable c] (a b : Option World) :
    WhenSome P (if c then a else b) = (if c then WhenSome P a else WhenSome P b) := by
  split_ifs <;> rfl

@[simp]
theorem whenSome_map (P : World → Prop) (f : World → World) (r : Option World) :
    WhenSome P (r.map f) = WhenSome (fun w => P (f w)) r := by
  cases r <;> rfl

@[simp]
theorem whenSwitched_none (P : World → Prop) : WhenSwitched P none = True := rfl

@[simp]
theorem whenSwitched_some (P : World → Prop) (w : World) (c : Option Nat) :
    WhenSwitched P (some (w, c)) = P w := rfl

@[simp]
theorem whenSwitched_ite (P : World → Prop) (c : Prop) [Decidable c]
    (a b : Option (World × Option Nat)) :
    WhenSwitched P (if c then a else b) =
      (if c then WhenSwitched P a else WhenSwitched P b) := by
  split_ifs <;> rfl

/-- A property that holds whenever an operation returns holds of what it
returns. -/
theorem whenSome_elim {P : World → Prop} {r : Option World} (h : WhenSome P r) (w : World)
    (hr : r = some w) : P w := by
  subst hr
  exact h

/-- `bta_ag_create_sco` keeps the invariant on every block. -/
theorem create_sco_keeps_inv (cfg : Cfg) (ctl : Ctl) (w : World) (p : Nat) (o : Bool) (q : Nat)
    (h : BlockOk (w.scb q)) : BlockOk ((bta_ag_create_sco cfg ctl w p o).scb q) := by
  unfold BlockOk at *
  by_cases hq : q = p
  · subst hq
    by_cases hi : (w.scb q).sco_idx = BTM_INVALID_SCO_INDEX
    · cases o
      · simp [create_sco_listen_scb, hi]
      · intro hm
        rw [(create_sco_orig_scb cfg ctl w q q).2] at hm
        simp [hi] at hm
        exact create_sco_orig_retry_msbc cfg ctl w q hi hm
    · rw [create_sco_in_use cfg ctl w q o hi]
      simpa using h
  · rw [create_sco_scb_ne cfg ctl w p o q hq]
    exact h

/-- `bta_ag_remove_sco` keeps the invariant on every block. -/
theorem remove_sco_keeps_inv (st : tBTM_STATUS) (w : World) (p : Nat) (a : Bool) (q : Nat)
    (h : BlockOk (w.scb q)) : BlockOk ((bta_ag_remove_sco st w p a).1.scb q) := by
  unfold BlockOk at *
  simpa using h

/-- `bta_ag_sco_conn_rsp` keeps the invariant on every block. -/
theorem conn_rsp_keeps_inv (cfg : Cfg) (w : World) (p : Nat)
    (d : tBTM_ESCO_CONN_REQ_EVT_DATA) (q : Nat)
    (h : BlockOk (w.scb q)) : BlockOk ((bta_ag_sco_conn_rsp cfg w p d).scb q) := by
  unfold BlockOk at *
  rw [conn_rsp_inuse_codec]
  split_ifs <;> simp
  exact h

/-- `bta_ag_create_pending_sco` keeps the invariant on every block. -/
theorem create_pending_sco_keeps_inv (cfg : Cfg) (ctl : Ctl) (w : World) (p : Nat) (l : Bool)
    (q : Nat) (h : BlockOk (w.scb q)) :
    BlockOk ((bta_ag_create_pending_sco cfg ctl w p l).scb q) := by
  unfold BlockOk at *
  intro hm
  have hf := create_pending_sco_flags cfg ctl w p l q
  rw [hf.1] at hm
  have := h hm
  cases hr : ((bta_ag_create_pending_sco cfg ctl w p l).scb q).retry_with_sco_only
  · rfl
  · rw [hf.2.2 hr] at this
    cases this

/-- Writing a field other than `inuse_codec` and `retry_with_sco_only`, clearing
`retry_with_sco_only`, or clearing `inuse_codec` keeps the invariant on the
block. -/
theorem blockOk_update (f : Nat → tBTA_AG_SCB) (p q : Nat) (s : tBTA_AG_SCB)
    (hs : BlockOk (f p) → BlockOk s) (h : BlockOk (f q)) :
    BlockOk (Function.update f p s q) := by
  by_cases hq : q = p
  · subst hq
    simpa using hs h
  · simpa [Function.update_noteq hq] using h

/-- The switch of `bta_ag_sco_event` keeps the invariant on every block. -/
theorem sco_event_switch_keeps_inv (cfg : Cfg) (ctl : Ctl) (w : World) (p : Nat)
    (event : ScoEvent) (q : Nat) (h : BlockOk (w.scb q)) :
    WhenSwitched (fun w1 => BlockOk (w1.scb q)) (sco_event_switch cfg ctl w p event) := by
  unfold sco_event_switch
  cases hs : w.sco.state <;> simp only [hs] <;> cases event <;>
    simp [sco_shutdown_st, sco_listen_st, sco_codec_st, sco_opening_st, sco_open_cl_st,
      sco_open_xfer_st, sco_open_st, sco_closing_st, sco_close_op_st, sco_close_xfer_st,
      sco_shutting_st, sco_ignore, sco_shutdown_listening, sco_shutdown_or_remove,
      sco_shutting_next, sco_shutting_clear, sco_listen_additional, h]
  all_goals
    repeat' (first
      | exact h
      | trivial
      | apply create_sco_keeps_inv
      | apply remove_sco_keeps_inv
      | apply conn_rsp_keeps_inv
      | apply create_pending_sco_keeps_inv
      | refine blockOk_update _ _ _ _ ?_ ?_
      | (intro hb; simpa [BlockOk] using hb)
      | split
      | intro _)

/-- The trace at the head of `bta_ag_sco_event` leaves the pool alone. -/
theorem sco_event_head_scb (w : World) (p : Nat) (event : ScoEvent) :
    (sco_event_head w p event).scb = w.scb := by
  unfold sco_event_head
  split_ifs <;> rfl

/-- The nested delivery keeps the invariant on every block. -/
theorem sco_event_nested_keeps_inv (cfg : Cfg) (ctl : Ctl) (w : World) (p : Nat)
    (event : ScoEvent) (q : Nat) (h : BlockOk (w.scb q)) :
    WhenSome (fun w1 => BlockOk (w1.scb q)) (sco_event_nested cfg ctl w p event) := by
  have hh : BlockOk ((sco_event_head w p event).scb q) := by
    rw [sco_event_head_scb]; exact h
  have := sco_event_switch_keeps_inv cfg ctl (sco_event_head w p event) p event q hh
  unfold sco_event_nested
  cases hr : sco_event_switch cfg ctl (sco_event_head w p event) p event with
  | none => trivial
  | some r =>
    rw [hr] at this
    exact this

/-- The body of `bta_ag_sco_codec_nego` keeps the invariant when the delivery
does. -/
theorem sco_codec_nego_via_keeps_inv (deliver : World → Nat → ScoEvent → Option World)
    (q : Nat)
    (hd : ∀ w p e, BlockOk (w.scb q) → WhenSome (fun w1 => BlockOk (w1.scb q)) (deliver w p e))
    (w : World) (p : Nat) (result : Bool) (h : BlockOk (w.scb q)) :
    WhenSome (fun w1 => BlockOk (w1.scb q)) (sco_codec_nego_via deliver w p result) := by
  unfold sco_codec_nego_via
  split_ifs
  · apply hd
    simp only [World.setScb]
    exact blockOk_update _ _ _ _ (fun hb => by simpa [BlockOk] using hb) h
  · exact hd _ _ _ h

/-- The body of `bta_ag_codec_negotiate` keeps the invariant when the delivery
does. -/
theorem codec_negotiate_via_keeps_inv (deliver : World → Nat → ScoEvent → Option World)
    (q : Nat)
    (hd : ∀ w p e, BlockOk (w.scb q) → WhenSome (fun w1 => BlockOk (w1.scb q)) (deliver w p e))
    (cfg : Cfg) (w : World) (p : Nat) (h : BlockOk (w.scb q)) :
    WhenSome (fun w1 => BlockOk (w1.scb q)) (codec_negotiate_via deliver cfg w p) := by
  unfold codec_negotiate_via
  simp only []
  split_ifs
  · simp only [World.setScb, World.emit, World.setCurr, whenSome_some]
    exact blockOk_update _ _ _ _ (fun hb => by simpa [BlockOk] using hb) h
  · exact sco_codec_nego_via_keeps_inv deliver q hd _ _ _ h

/-- `bta_ag_sco_event` keeps the invariant on every block. -/
theorem sco_event_keeps_inv (cfg : Cfg) (ctl : Ctl) (q : Nat) (w : World) (p : Nat)
    (event : ScoEvent) (h : BlockOk (w.scb q)) :
    WhenSome (fun w1 => BlockOk (w1.scb q)) (bta_ag_sco_event cfg ctl w p event) := by
  have hh : BlockOk ((sco_event_head w p event).scb q) := by
    rw [sco_event_head_scb]; exact h
  have := sco_event_switch_keeps_inv cfg ctl (sco_event_head w p event) p event q hh
  unfold bta_ag_sco_event
  cases hr : sco_event_switch cfg ctl (sco_event_head w p event) p event with
  | none => trivial
  | some r =>
    rw [hr] at this
    obtain ⟨w1, cn⟩ := r
    cases cn with
    | none => exact this
    | some c =>
      exact codec_negotiate_via_keeps_inv _ q
        (fun w2 p2 e2 h2 => sco_event_nested_keeps_inv cfg ctl w2 p2 e2 q h2) cfg w1 c this

/-- A world-to-world step that keeps the invariant keeps it under `Option.map`. -/
theorem whenSome_map_of (P Q : World → Prop) (f : World → World) (r : Option World)
    (hr : WhenSome P r) (hf : ∀ w, P w → Q (f w)) : WhenSome Q (r.map f) := by
  cases r with
  | none => trivial
  | some w => exact hf w hr

/-- `bta_ag_sco_conn_open` keeps the invariant on every block. -/
theorem conn_open_keeps_inv (cfg : Cfg) (ctl : Ctl) (q : Nat) (w : World) (p : Nat)
    (h : BlockOk (w.scb q)) :
    WhenSome (fun w1 => BlockOk (w1.scb q)) (bta_ag_sco_conn_open cfg ctl w p) := by
  unfold bta_ag_sco_conn_open
  refine whenSome_map_of _ _ _ _ (sco_event_keeps_inv cfg ctl q w p _ h) ?_
  intro w1 h1
  simp only [World.setScb, World.emit, bta_ag_cback_sco]
  split_ifs
  · refine blockOk_update _ _ _ _ (fun hb => by simpa [BlockOk] using hb) ?_
    exact blockOk_update _ _ _ _ (fun hb => by simp [BlockOk]) h1
  · exact blockOk_update _ _ _ _ (fun hb => by simp [BlockOk]) h1

/-- The reporting branch of `bta_ag_sco_conn_close` keeps the invariant on every
block. -/
theorem conn_close_report_keeps_inv (cfg : Cfg) (ctl : Ctl) (q : Nat) (w : World) (p : Nat)
    (h : BlockOk (w.scb q)) :
    WhenSome (fun w1 => BlockOk (w1.scb q)) (sco_conn_close_report cfg ctl w p) := by
  unfold sco_conn_close_report
  refine whenSome_map_of _ _ _ _ (sco_event_keeps_inv cfg ctl q _ p _ h) ?_
  intro w1 h1
  simp only [World.setScb, World.emit, bta_ag_cback_sco]
  split_ifs <;>
    first
    | exact h1
    | exact blockOk_update _ _ _ _ (fun hb => by simpa [BlockOk] using hb) h1

/-- `bta_ag_sco_conn_close` keeps the invariant on every block. -/
theorem conn_close_keeps_inv (cfg : Cfg) (ctl : Ctl) (q : Nat) (w : World) (p : Nat)
    (h : BlockOk (w.scb q)) :
    WhenSome (fun w1 => BlockOk (w1.scb q)) (bta_ag_sco_conn_close cfg ctl w p) := by
  unfold bta_ag_sco_conn_close
  have h0 : BlockOk (((w.setCurr none).setScb p
      { (w.setCurr none).scb p with sco_idx := BTM_INVALID_SCO_INDEX }).scb q) := by
    simp only [World.setScb, World.setCurr]
    exact blockOk_update _ _ _ _ (fun hb => by simpa [BlockOk] using hb) h
  have hf : ∀ w2 : World, BlockOk (w2.scb q) →
      BlockOk ((w2.setScb p { w2.scb p with retry_with_sco_only := false }).scb q) := by
    intro w2 h2
    simp only [World.setScb]
    exact blockOk_update _ _ _ _ (fun hb => by simp [BlockOk]) h2
  simp only []
  refine whenSome_map_of _ _ _ _ ?_ hf
  split_ifs
  · exact sco_event_keeps_inv cfg ctl q _ p _ h0
  · exact create_sco_keeps_inv cfg ctl _ p true q h0
  · exact conn_close_report_keeps_inv cfg ctl q _ p h0

/-- `bta_ag_sco_conn_cback` leaves the pool alone. -/
theorem conn_cback_scb (cfg : Cfg) (ctl : Ctl) (w : World) (i : Nat) :
    (bta_ag_sco_conn_cback cfg ctl w i).scb = w.scb := by
  unfold bta_ag_sco_conn_cback
  simp only []
  split_ifs <;> rfl

/-- The restore block of `bta_ag_sco_disc_cback` keeps the invariant on every
block. -/
theorem disc_cback_restore_keeps_inv (cfg : Cfg) (w : World) (c q : Nat)
    (h : BlockOk (w.scb q)) : BlockOk ((sco_disc_cback_restore cfg w c).scb q) := by
  unfold sco_disc_cback_restore
  simp only [World.setScb]
  exact blockOk_update _ _ _ _ (fun _ => by simp [BlockOk]) (by
    split_ifs <;> (try simp only [World.setScb, World.emit]) <;>
      first
      | exact h
      | exact blockOk_update _ _ _ _ (fun hb => by simpa [BlockOk] using hb) h
      | (refine blockOk_update _ _ _ _ (fun hb => by simpa [BlockOk] using hb) ?_
         exact blockOk_update _ _ _ _ (fun hb => by simpa [BlockOk] using hb) h))

/-- `bta_ag_sco_disc_cback` keeps the invariant on every block. -/
theorem disc_cback_keeps_inv (cfg : Cfg) (w : World) (i q : Nat)
    (h : BlockOk (w.scb q)) : BlockOk ((bta_ag_sco_disc_cback cfg w i).scb q) := by
  unfold bta_ag_sco_disc_cback
  cases sco_disc_cback_handle w i with
  | none => exact h
  | some handle =>
    simp only []
    cases w.sco.p_curr_scb with
    | none => split_ifs <;> exact h
    | some c =>
      split_ifs
      · exact disc_cback_restore_keeps_inv cfg w c q h
      · exact h
      · simp only [World.setScb, World.setCurr, World.setState]
        exact blockOk_update _ _ _ _ (fun hb => by simpa [BlockOk] using hb) h

/-- The accepting branch of `bta_ag_esco_connreq_cback` keeps the invariant on
every block. -/
theorem connreq_accept_keeps_inv (cfg : Cfg) (ctl : Ctl) (w : World) (p : Nat)
    (d : tBTM_ESCO_CONN_REQ_EVT_DATA) (q : Nat) (h : BlockOk (w.scb q)) :
    BlockOk ((esco_connreq_accept cfg ctl w p d).scb q) := by
  have h1 : BlockOk ((w.setScb p { w.scb p with sco_idx := d.sco_inx }).scb q) := by
    simp only [World.setScb]
    exact blockOk_update _ _ _ _ (fun hb => by simpa [BlockOk] using hb) h
  unfold esco_connreq_accept
  simp only []
  cases hc : (w.setScb p { w.scb p with sco_idx := d.sco_inx }).sco.p_curr_scb with
  | none =>
    simp only []
    exact conn_rsp_keeps_inv cfg _ p d q h1
  | some c =>
    simp only []
    split_ifs
    · apply conn_rsp_keeps_inv
      simp only [World.setXfer, World.setState]
      exact remove_sco_keeps_inv _ _ c true q h1
    · exact remove_sco_keeps_inv _ _ c true q h1

/-- `bta_ag_esco_connreq_cback` keeps the invariant on every block. -/
theorem connreq_cback_keeps_inv (cfg : Cfg) (ctl : Ctl) (w : World) (e : tBTM_ESCO_EVT)
    (d : tBTM_ESCO_CONN_REQ_EVT_DATA) (q : Nat) (h : BlockOk (w.scb q)) :
    BlockOk ((bta_ag_esco_connreq_cback cfg ctl w e d).scb q) := by
  unfold bta_ag_esco_connreq_cback
  simp only []
  split_ifs
  · cases bta_ag_scb_by_idx cfg w.scb (bta_ag_idx_by_bdaddr cfg w.scb ctl.read_bd_addr) with
    | none => exact h
    | some c =>
      simp only []
      split_ifs
      · exact connreq_accept_keeps_inv cfg ctl w c d q h
      · exact h
  · exact h
  · exact h

/-- C10: for every control block, the predicate "`inuse_codec` is mSBC implies
`retry_with_sco_only` is clear" is preserved by every operation of the file
that returns: the entry points, the controller callbacks, `bta_ag_sco_event`,
`bta_ag_create_sco`, `bta_ag_create_pending_sco`, `bta_ag_remove_sco`,
`bta_ag_sco_conn_open`, `bta_ag_sco_conn_close` and `bta_ag_sco_conn_rsp`, in
every build, for every answer of the controller. -/
theorem msbc_never_sco_only_preserved (cfg : Cfg) (ctl : Ctl) (w : World) (op : Op) (q : Nat)
    (h : BlockOk (w.scb q)) (w1 : World) (hr : applyOp cfg ctl w op = some w1) :
    BlockOk (w1.scb q) := by
  have key : WhenSome (fun w2 => BlockOk (w2.scb q)) (applyOp cfg ctl w op) := by
    cases op with
    | sco_listen p => exact sco_event_keeps_inv cfg ctl q w p _ h
    | sco_open p =>
      simp only [applyOp, bta_ag_sco_open]
      split_ifs <;> exact sco_event_keeps_inv cfg ctl q w p _ h
    | ci_sco_open_continue p result => exact sco_event_keeps_inv cfg ctl q _ p _ h
    | sco_close p =>
      simp only [applyOp, bta_ag_sco_close]
      split_ifs
      · exact sco_event_keeps_inv cfg ctl q w p _ h
      · exact h
    | sco_codec_nego p result =>
      exact sco_codec_nego_via_keeps_inv _ q
        (fun w2 p2 e2 h2 => sco_event_keeps_inv cfg ctl q w2 p2 e2 h2) w p result h
    | sco_shutdown p => exact sco_event_keeps_inv cfg ctl q w p _ h
    | sco_conn_open p => exact conn_open_keeps_inv cfg ctl q w p h
    | sco_conn_close p => exact conn_close_keeps_inv cfg ctl q w p h
    | sco_conn_rsp p d => exact conn_rsp_keeps_inv cfg w p d q h
    | ci_sco_data p => exact h
    | codec_negotiate p =>
      exact codec_negotiate_via_keeps_inv _ q
        (fun w2 p2 e2 h2 => sco_event_keeps_inv cfg ctl q w2 p2 e2 h2) cfg w p h
    | codec_negotiation_timer_cback p =>
      simp only [applyOp, bta_ag_codec_negotiation_timer_cback]
      refine whenSome_map_of _ _ _ _
        (sco_codec_nego_via_keeps_inv _ q
          (fun w2 p2 e2 h2 => sco_event_keeps_inv cfg ctl q w2 p2 e2 h2) w p false h) ?_
      intro w2 h2
      exact h2
    | sco_conn_cback i =>
      simp only [applyOp, whenSome_some, conn_cback_scb]
      exact h
    | sco_disc_cback i => exact disc_cback_keeps_inv cfg w i q h
    | esco_connreq_cback e d => exact connreq_cback_keeps_inv cfg ctl w e d q h
    | sco_event p e => exact sco_event_keeps_inv cfg ctl q w p e h
    | create_sco p o => exact create_sco_keeps_inv cfg ctl w p o q h
    | create_pending_sco p l => exact create_pending_sco_keeps_inv cfg ctl w p l q h
    | remove_sco p a => exact remove_sco_keeps_inv _ w p a q h
  exact whenSome_elim key w1 hr

/-- Witness for C10: the controller reports the connection of the mSBC attempt
of block 0; the block still uses mSBC afterwards and the flag is clear. -/
theorem msbc_never_sco_only_preserved_witness :
    BlockOk (worldOpeningMsbc.scb 0) ∧
      ∃ w1, applyOp exampleCfg (ctlStarted 6) worldOpeningMsbc (Op.sco_conn_open 0) = some w1 ∧
        (w1.scb 0).inuse_codec = BTA_AG_CODEC_MSBC ∧ BlockOk (w1.scb 0) := by
  have hb : BlockOk (worldOpeningMsbc.scb 0) := fun _ => rfl
  have hm : (applyOp exampleCfg (ctlStarted 6) worldOpeningMsbc (Op.sco_conn_open 0)).map
      (fun w => (w.scb 0).inuse_codec) = some BTA_AG_CODEC_MSBC := by decide
  cases hr : applyOp exampleCfg (ctlStarted 6) worldOpeningMsbc (Op.sco_conn_open 0) with
  | none => rw [hr] at hm; cases hm
  | some w1 =>
    rw [hr] at hm
    exact ⟨hb, w1, rfl, by simpa using hm,
      msbc_never_sco_only_preserved exampleCfg (ctlStarted 6) worldOpeningMsbc
        (Op.sco_conn_open 0) 0 hb w1 hr⟩

/-! ## C11, C12, C13: the originate policy of `bta_ag_create_sco` -/

/-- C11: an originate (`is_orig` true, index invalid on entry, wideband built
in) chooses mSBC exactly when `sco_codec` is mSBC and neither `codec_fallback`
nor `retry_with_sco_only` is set on entry, and CVSD otherwise.  Afterwards
`inuse_codec` is the chosen codec, `p_curr_scb` is the block and `is_local` is
true; the calls made are `BTM_SetEScoMode` with the chosen parameter set, the
"in use" notice and the pre-SCO set-up call-out with the chosen codec.  When
mSBC is chosen the parameter set is that of mSBC T2 if `codec_msbc_settings` is
T2 and that of mSBC T1 otherwise. -/
theorem originate_codec_selection (cfg : Cfg) (ctl : Ctl) (w : World) (p : Nat)
    (hwbs : cfg.BTM_WBS_INCLUDED = true)
    (hidx : (w.scb p).sco_idx = BTM_INVALID_SCO_INDEX) :
    ∃ chosen prm,
      (chosen = BTA_AG_CODEC_MSBC ∨ chosen = BTA_AG_CODEC_CVSD) ∧
      (chosen = BTA_AG_CODEC_MSBC ↔
        ((w.scb p).sco_codec = BTA_AG_CODEC_MSBC ∧ (w.scb p).codec_fallback = false ∧
          (w.scb p).retry_with_sco_only = false)) ∧
      (chosen = BTA_AG_CODEC_MSBC →
        prm = cfg.esco_parameters_for_codec
          (if (w.scb p).codec_msbc_settings = BTA_AG_SCO_MSBC_SETTINGS_T2 then ESCO_CODEC_MSBC_T2
            else ESCO_CODEC_MSBC_T1)) ∧
      ((bta_ag_create_sco cfg ctl w p true).scb p).inuse_codec = chosen ∧
      (bta_ag_create_sco cfg ctl w p true).sco.p_curr_scb = some p ∧
      (bta_ag_create_sco cfg ctl w p true).sco.is_local = true ∧
      (bta_ag_create_sco cfg ctl w p true).out =
        w.out ++
          [Action.BTM_SetEScoMode prm,
            Action.bta_sys_sco_use (w.scb p).app_id (w.scb p).peer_addr,
            Action.bta_ag_co_audio_state (bta_ag_scb_to_idx p) (w.scb p).app_id SCO_STATE_SETUP
              (some chosen)] := by
  refine ⟨create_sco_codec cfg (w.scb p),
    create_sco_params cfg (create_sco_fallback cfg (w.scb p)) (create_sco_codec cfg (w.scb p)),
    ?_, ?_, ?_, ?_, ?_, ?_, ?_⟩
  · unfold create_sco_codec
    split_ifs <;> simp
  · unfold create_sco_codec
    simp [hwbs]
  · intro hc
    rw [hc]
    have hf : (w.scb p).codec_fallback = false := by
      unfold create_sco_codec at hc
      split_ifs at hc with h
      exact h.2.2.1
    simp [create_sco_params, create_sco_fallback, create_sco_codec_index, hf]
  · rw [(create_sco_orig_scb cfg ctl w p p).2]
    simp [hidx]
  · simp [(create_sco_sco cfg ctl w p true).2.2.2.2.2.1, hidx]
  · simp [(create_sco_sco cfg ctl w p true).2.2.2.2.2.2, hidx]
  · rw [(create_sco_orig_out cfg ctl w p hidx).1]
    simp [co_codec, hwbs]

/-- Witness for C11: the originate on block 0 of the example pool chooses
mSBC. -/
theorem originate_codec_selection_witness :
    ∃ chosen prm,
      (chosen = BTA_AG_CODEC_MSBC ∨ chosen = BTA_AG_CODEC_CVSD) ∧
      (chosen = BTA_AG_CODEC_MSBC ↔
        (((initialWorld examplePool).scb 0).sco_codec = BTA_AG_CODEC_MSBC ∧
          ((initialWorld examplePool).scb 0).codec_fallback = false ∧
          ((initialWorld examplePool).scb 0).retry_with_sco_only = false)) ∧
      ((bta_ag_create_sco exampleCfg (ctlStarted 5) (initialWorld examplePool) 0 true).scb
        0).inuse_codec = chosen ∧
      (bta_ag_create_sco exampleCfg (ctlStarted 5) (initialWorld examplePool) 0 true).out =
        [Action.BTM_SetEScoMode prm, Action.bta_sys_sco_use 1 0xA0,
          Action.bta_ag_co_audio_state 1 1 SCO_STATE_SETUP (some chosen)] := by
  obtain ⟨chosen, prm, h1, h2, _, h4, _, _, h7⟩ :=
    originate_codec_selection exampleCfg (ctlStarted 5) (initialWorld examplePool) 0 rfl rfl
  exact ⟨chosen, prm, h1, h2, h4, h7⟩

/-- C12, evaluated: an originate to an HFP 1.6 peer that prefers CVSD, with
`retry_with_sco_only` clear on entry, in a build whose packet types allow the
EDR eSCO type 2-EV3 and no basic-rate eSCO type.  CVSD is chosen and
`BTM_SetEScoMode` is called with these packet types, yet
`retry_with_sco_only` is still clear afterwards; with the packet types of the
example build, which hold basic-rate eSCO types, the flag is set. -/
theorem originate_keeps_retry_clear_for_edr_types :
    ((initialWorld cvsdPool).scb 0).conn_service = BTA_AG_HFP ∧
      edrOnlyCfg.HFP_VERSION_1_5 ≤ ((initialWorld cvsdPool).scb 0).peer_version ∧
      ((initialWorld cvsdPool).scb 0).retry_with_sco_only = false ∧
      ((initialWorld cvsdPool).scb 0).sco_idx = BTM_INVALID_SCO_INDEX ∧
      (edrOnlyCfg.sco_pkt_types ||| edrOnlyCfg.ESCO_PKT_TYPES_MASK_NO_3_EV3) &&&
        edrOnlyCfg.ESCO_PKT_TYPES_MASK_NO_2_EV3 = 0 ∧
      (bta_ag_create_sco edrOnlyCfg (ctlStarted 5) (initialWorld cvsdPool) 0 true).out =
        [Action.BTM_SetEScoMode
            { packet_types := 0x0387, max_latency_ms := 12,
              retransmission_effort := ESCO_RETRANSMISSION_OFF, input_data_path := 1 },
          Action.bta_sys_sco_use 1 0xA0,
          Action.bta_ag_co_audio_state 1 1 SCO_STATE_SETUP (some BTA_AG_CODEC_CVSD)] ∧
      ((bta_ag_create_sco edrOnlyCfg (ctlStarted 5) (initialWorld cvsdPool) 0 true).scb
        0).inuse_codec = BTA_AG_CODEC_CVSD ∧
      ((bta_ag_create_sco edrOnlyCfg (ctlStarted 5) (initialWorld cvsdPool) 0 true).scb
        0).retry_with_sco_only = false ∧
      ((bta_ag_create_sco exampleCfg (ctlStarted 5) (initialWorld cvsdPool) 0 true).scb
        0).retry_with_sco_only = true := by
  refine ⟨?_, ?_, ?_, ?_, ?_, ?_, ?_, ?_, ?_⟩ <;> decide

/-- The flag `codec_updated` after `bta_ag_create_sco`: set on its own block
when the fallback flag is consumed, otherwise left as it was. -/
theorem create_sco_codec_updated (cfg : Cfg) (ctl : Ctl) (w : World) (p : Nat) (o : Bool)
    (q : Nat) :
    ((bta_ag_create_sco cfg ctl w p o).scb q).codec_updated =
      (if q = p ∧ (w.scb p).sco_idx = BTM_INVALID_SCO_INDEX ∧ cfg.BTM_WBS_INCLUDED = true ∧
          (w.scb p).codec_fallback = true
        then true else (w.scb q).codec_updated) := by
  unfold bta_ag_create_sco create_sco_fallback
  by_cases hq : q = p
  · subst hq
    cases o <;> simp <;> (try split_ifs) <;> (try simp_all)
  · cases o <;> simp <;> (try split_ifs) <;> (try simp_all [Function.update_noteq])

/-- The packet types of the parameter set that `bta_ag_create_sco` builds for
CVSD. -/
theorem create_sco_params_cvsd (cfg : Cfg) (s : tBTA_AG_SCB) :
    (create_sco_params cfg s BTA_AG_CODEC_CVSD).packet_types =
      cfg.sco_pkt_types ||| cfg.ESCO_PKT_TYPES_MASK_NO_3_EV3 := by
  unfold create_sco_params limit_for_sco
  simp
  split_ifs <;> rfl

/-- C13: after `bta_ag_create_sco` runs with the index invalid on entry (the
fallback block is compiled when wideband is built in; without it the flag is
taken to be clear), `codec_fallback` is false.  If it was set on entry then
`codec_updated` is true afterwards and the attempt uses CVSD: an originate
records CVSD in `inuse_codec` and passes the CVSD packet types to
`BTM_SetEScoMode`, a listen passes them to `BTM_CreateSco`.  If it was clear on
entry `codec_updated` is unchanged. -/
theorem create_sco_consumes_fallback (cfg : Cfg) (ctl : Ctl) (w : World) (p : Nat)
    (is_orig : Bool) (hidx : (w.scb p).sco_idx = BTM_INVALID_SCO_INDEX)
    (hwbs : cfg.BTM_WBS_INCLUDED = true ∨ (w.scb p).codec_fallback = false) :
    ((bta_ag_create_sco cfg ctl w p is_orig).scb p).codec_fallback = false ∧
    ((w.scb p).codec_fallback = true →
      ((bta_ag_create_sco cfg ctl w p is_orig).scb p).codec_updated = true ∧
      (is_orig = true →
        ((bta_ag_create_sco cfg ctl w p is_orig).scb p).inuse_codec = BTA_AG_CODEC_CVSD ∧
        ∃ prm, Action.BTM_SetEScoMode prm ∈ (bta_ag_create_sco cfg ctl w p is_orig).out ∧
          prm.packet_types = cfg.sco_pkt_types ||| cfg.ESCO_PKT_TYPES_MASK_NO_3_EV3) ∧
      (is_orig = false →
        Action.BTM_CreateSco (w.scb p).peer_addr false
            (cfg.sco_pkt_types ||| cfg.ESCO_PKT_TYPES_MASK_NO_3_EV3) ∈
          (bta_ag_create_sco cfg ctl w p is_orig).out)) ∧
    ((w.scb p).codec_fallback = false →
      ((bta_ag_create_sco cfg ctl w p is_orig).scb p).codec_updated =
        (w.scb p).codec_updated) := by
  refine ⟨?_, ?_, ?_⟩
  · rw [create_sco_codec_fallback]
    rcases hwbs with h | h
    · simp [hidx, h]
    · simp [h]
  · intro hf
    have hw : cfg.BTM_WBS_INCLUDED = true := by
      rcases hwbs with h | h
      · exact h
      · rw [hf] at h; cases h
    have hc : create_sco_codec cfg (w.scb p) = BTA_AG_CODEC_CVSD := by
      simp [create_sco_codec, hf]
    refine ⟨?_, ?_, ?_⟩
    · rw [create_sco_codec_updated]
      simp [hidx, hw, hf]
    · intro ho
      subst ho
      refine ⟨?_, _, ?_, create_sco_params_cvsd cfg (create_sco_fallback cfg (w.scb p))⟩
      · rw [(create_sco_orig_scb cfg ctl w p p).2]
        simp [hidx, hc]
      · rw [(create_sco_orig_out cfg ctl w p hidx).1, hc]
        simp
    · intro ho
      subst ho
      rw [create_sco_listen_out, hc, create_sco_params_cvsd]
      simp only [hidx, ne_eq, not_true_eq_false, ↓reduceIte]
      split_ifs <;> simp
  · intro hf
    rw [create_sco_codec_updated]
    simp [hf]

/-- Witness for C13: a listen on block 0 of the example pool, whose fallback
flag has been set. -/
theorem create_sco_consumes_fallback_witness :
    ((bta_ag_create_sco exampleCfg (ctlStarted 5)
        (initialWorld fun i => { examplePool i with codec_fallback := true }) 0 false).scb
      0).codec_fallback = false ∧
    ((bta_ag_create_sco exampleCfg (ctlStarted 5)
        (initialWorld fun i => { examplePool i with codec_fallback := true }) 0 false).scb
      0).codec_updated = true :=
  have h := create_sco_consumes_fallback exampleCfg (ctlStarted 5)
    (initialWorld fun i => { examplePool i with codec_fallback := true }) 0 false rfl
    (Or.inl rfl)
  ⟨h.1, (h.2.1 rfl).1⟩

/-! ## C14, C15, C16: connection requests from the peer -/

/-- A connection request that resolves to a connected block is handled by the
accepting branch. -/
theorem connreq_cback_resolved (cfg : Cfg) (ctl : Ctl) (w : World)
    (d : tBTM_ESCO_CONN_REQ_EVT_DATA) (P : Nat)
    (hh : bta_ag_idx_by_bdaddr cfg w.scb ctl.read_bd_addr ≠ 0)
    (hP : bta_ag_scb_by_idx cfg w.scb (bta_ag_idx_by_bdaddr cfg w.scb ctl.read_bd_addr) =
      some P)
    (hsvc : (w.scb P).svc_conn = true) :
    bta_ag_esco_connreq_cback cfg ctl w BTM_ESCO_CONN_REQ_EVT d =
      esco_connreq_accept cfg ctl w P d := by
  unfold bta_ag_esco_connreq_cback
  simp [hh, hP, hsvc]

/-- When `bta_ag_remove_sco` reports that removal was not started. -/
theorem remove_sco_not_started (st : tBTM_STATUS) (w : World) (p : Nat) (a : Bool) :
    (bta_ag_remove_sco st w p a).2 = false ↔
      ¬((w.scb p).sco_idx ≠ BTM_INVALID_SCO_INDEX ∧
        (a = false ∨ (w.scb p).sco_idx = w.sco.cur_idx) ∧ st = BTM_CMD_STARTED) := by
  rw [← remove_sco_started]
  simp

/-- The transfer branch when removal starts. -/
theorem connreq_transfer_started (cfg : Cfg) (ctl : Ctl) (w : World) (c P : Nat)
    (d : tBTM_ESCO_CONN_REQ_EVT_DATA)
    (h : (w.scb c).sco_idx ≠ BTM_INVALID_SCO_INDEX ∧ (w.scb c).sco_idx = w.sco.cur_idx ∧
      ctl.remove_status = BTM_CMD_STARTED) :
    (connreq_transfer cfg ctl w c P d).sco.state = BTA_AG_SCO_OPEN_XFER_ST ∧
    (connreq_transfer cfg ctl w c P d).sco.p_xfer_scb = some P ∧
    (connreq_transfer cfg ctl w c P d).sco.conn_data = d ∧
    (connreq_transfer cfg ctl w c P d).sco.p_curr_scb = some c ∧
    ((connreq_transfer cfg ctl w c P d).scb P).sco_idx = (w.scb P).sco_idx ∧
    (connreq_transfer cfg ctl w c P d).out = w.out ++ [Action.BTM_RemoveSco w.sco.cur_idx] ∧
    (connreq_transfer cfg ctl w c P d).scb = w.scb := by
  have hs : (bta_ag_remove_sco ctl.remove_status
      { w with sco := { w.sco with
        p_xfer_scb := some P, conn_data := d, state := BTA_AG_SCO_OPEN_XFER_ST } } c true).2 =
      true := by
    rw [remove_sco_started]
    exact ⟨h.1, Or.inr h.2.1, h.2.2⟩
  unfold connreq_transfer
  simp only [hs, Bool.true_eq_false, ↓reduceIte]
  refine ⟨by simp, by simp, by simp, by simp [hs], ?_, ?_, ?_⟩
  · rw [remove_sco_sco_idx]
    simp [h.2.2]
  · rw [remove_sco_out]
    have h1 := h.1
    rw [h.2.1] at h1
    simp [h.2.1, h1]
  · unfold bta_ag_remove_sco
    have h1 := h.1
    rw [h.2.1] at h1
    simp [h.2.1, h.2.2, h1]

/-- The transfer branch when removal does not start. -/
theorem connreq_transfer_refused (cfg : Cfg) (ctl : Ctl) (w : World) (c P : Nat)
    (d : tBTM_ESCO_CONN_REQ_EVT_DATA)
    (h : ¬((w.scb c).sco_idx ≠ BTM_INVALID_SCO_INDEX ∧ (w.scb c).sco_idx = w.sco.cur_idx ∧
      ctl.remove_status = BTM_CMD_STARTED)) :
    (connreq_transfer cfg ctl w c P d).sco.state = BTA_AG_SCO_LISTEN_ST ∧
    (connreq_transfer cfg ctl w c P d).sco.p_xfer_scb = none ∧
    (connreq_transfer cfg ctl w c P d).sco.is_local = false ∧
    (connreq_transfer cfg ctl w c P d).out.getLast? =
      some (Action.bta_ag_co_audio_state (bta_ag_scb_to_idx P) (w.scb P).app_id
        SCO_STATE_SETUP (co_codec cfg BTA_AG_CODEC_CVSD)) ∧
    (((connreq_transfer cfg ctl w c P d).scb P).sco_idx = (w.scb P).sco_idx ∨
      (c = P ∧ ((connreq_transfer cfg ctl w c P d).scb P).sco_idx = BTM_INVALID_SCO_INDEX)) := by
  have hs : (bta_ag_remove_sco ctl.remove_status
      { w with sco := { w.sco with
        p_xfer_scb := some P, conn_data := d, state := BTA_AG_SCO_OPEN_XFER_ST } } c true).2 =
      false := by
    rw [remove_sco_not_started]
    intro hh
    exact h ⟨hh.1, by simpa using hh.2.1, hh.2.2⟩
  unfold connreq_transfer
  simp only [hs, ↓reduceIte]
  refine ⟨by simp, by simp, by simp, ?_, ?_⟩
  · simp [bta_ag_sco_conn_rsp]
  · simp only [conn_rsp_scb_static, World.setXfer, World.setState]
    rw [remove_sco_sco_idx]
    by_cases hcp : P = c
    · subst hcp
      simp only [Bool.true_eq_false, false_or, true_and]
      split_ifs
      · right; trivial
      · left; rfl
    · left
      simp [hcp]

/-- C14: `bta_ag_esco_connreq_cback`, for a connection request resolved to a
block `P` with `svc_conn` set, records the index of the request in
`P.sco_idx` and then: if there is no current block, ends in the opening state
with `P` current and `cur_idx` the index; otherwise, if the removal of the
link of the current block `c` starts (its index is valid and equal to
`cur_idx`, and the controller answers `BTM_CMD_STARTED`), ends in the
open-transfer state with `p_xfer_scb = P`, `conn_data` the request and the
removal requested; and if removal does not start, ends in the listen state
with `p_xfer_scb` `NULL` after the response routine has run on `P`
(`is_local` cleared, pre-SCO set-up called for `P` with CVSD).  `P.sco_idx` is
the index of the request afterwards, unless `P` is itself the current block and
the controller reported its link gone, which resets it. -/
theorem connreq_accepts_or_transfers (cfg : Cfg) (ctl : Ctl) (w : World)
    (d : tBTM_ESCO_CONN_REQ_EVT_DATA) (P : Nat)
    (hh : bta_ag_idx_by_bdaddr cfg w.scb ctl.read_bd_addr ≠ 0)
    (hP : bta_ag_scb_by_idx cfg w.scb (bta_ag_idx_by_bdaddr cfg w.scb ctl.read_bd_addr) =
      some P)
    (hsvc : (w.scb P).svc_conn = true) :
    (w.sco.p_curr_scb = none →
      (bta_ag_esco_connreq_cback cfg ctl w BTM_ESCO_CONN_REQ_EVT d).sco.state =
        BTA_AG_SCO_OPENING_ST ∧
      (bta_ag_esco_connreq_cback cfg ctl w BTM_ESCO_CONN_REQ_EVT d).sco.p_curr_scb = some P ∧
      (bta_ag_esco_connreq_cback cfg ctl w BTM_ESCO_CONN_REQ_EVT d).sco.cur_idx = d.sco_inx ∧
      ((bta_ag_esco_connreq_cback cfg ctl w BTM_ESCO_CONN_REQ_EVT d).scb P).sco_idx =
        d.sco_inx) ∧
    (∀ c, w.sco.p_curr_scb = some c →
      (((Function.update w.scb P { w.scb P with sco_idx := d.sco_inx } c).sco_idx ≠
            BTM_INVALID_SCO_INDEX ∧
          (Function.update w.scb P { w.scb P with sco_idx := d.sco_inx } c).sco_idx =
            w.sco.cur_idx ∧
          ctl.remove_status = BTM_CMD_STARTED) →
        (bta_ag_esco_connreq_cback cfg ctl w BTM_ESCO_CONN_REQ_EVT d).sco.state =
          BTA_AG_SCO_OPEN_XFER_ST ∧
        (bta_ag_esco_connreq_cback cfg ctl w BTM_ESCO_CONN_REQ_EVT d).sco.p_xfer_scb =
          some P ∧
        (bta_ag_esco_connreq_cback cfg ctl w BTM_ESCO_CONN_REQ_EVT d).sco.conn_data = d ∧
        (bta_ag_esco_connreq_cback cfg ctl w BTM_ESCO_CONN_REQ_EVT d).sco.p_curr_scb =
          some c ∧
        ((bta_ag_esco_connreq_cback cfg ctl w BTM_ESCO_CONN_REQ_EVT d).scb P).sco_idx =
          d.sco_inx ∧
        (bta_ag_esco_connreq_cback cfg ctl w BTM_ESCO_CONN_REQ_EVT d).out =
          w.out ++ [Action.BTM_RemoveSco w.sco.cur_idx]) ∧
      (¬((Function.update w.scb P { w.scb P with sco_idx := d.sco_inx } c).sco_idx ≠
            BTM_INVALID_SCO_INDEX ∧
          (Function.update w.scb P { w.scb P with sco_idx := d.sco_inx } c).sco_idx =
            w.sco.cur_idx ∧
          ctl.remove_status = BTM_CMD_STARTED) →
        (bta_ag_esco_connreq_cback cfg ctl w BTM_ESCO_CONN_REQ_EVT d).sco.state =
          BTA_AG_SCO_LISTEN_ST ∧
        (bta_ag_esco_connreq_cback cfg ctl w BTM_ESCO_CONN_REQ_EVT d).sco.p_xfer_scb = none ∧
        (bta_ag_esco_connreq_cback cfg ctl w BTM_ESCO_CONN_REQ_EVT d).sco.is_local = false ∧
        (bta_ag_esco_connreq_cback cfg ctl w BTM_ESCO_CONN_REQ_EVT d).out.getLast? =
          some (Action.bta_ag_co_audio_state (bta_ag_scb_to_idx P) (w.scb P).app_id
            SCO_STATE_SETUP (co_codec cfg BTA_AG_CODEC_CVSD)) ∧
        (((bta_ag_esco_connreq_cback cfg ctl w BTM_ESCO_CONN_REQ_EVT d).scb P).sco_idx =
            d.sco_inx ∨
          (c = P ∧
            ((bta_ag_esco_connreq_cback cfg ctl w BTM_ESCO_CONN_REQ_EVT d).scb P).sco_idx =
              BTM_INVALID_SCO_INDEX)))) := by
  rw [connreq_cback_resolved cfg ctl w d P hh hP hsvc]
  refine ⟨?_, ?_⟩
  · intro hc
    unfold esco_connreq_accept
    simp [hc]
  · intro c hc
    have e : esco_connreq_accept cfg ctl w P d =
        connreq_transfer cfg ctl (w.setScb P { w.scb P with sco_idx := d.sco_inx }) c P d := by
      unfold esco_connreq_accept connreq_transfer
      simp only [World.setScb, hc]
    rw [e]
    constructor
    · intro h
      have := connreq_transfer_started cfg ctl
        (w.setScb P { w.scb P with sco_idx := d.sco_inx }) c P d h
      obtain ⟨t1, t2, t3, t4, t5, t6, _⟩ := this
      exact ⟨t1, t2, t3, t4, by simpa using t5, t6⟩
    · intro h
      have := connreq_transfer_refused cfg ctl
        (w.setScb P { w.scb P with sco_idx := d.sco_inx }) c P d h
      simpa using this

/-- Witness for C14: a request from the peer of block 1 while there is no
current block. -/
theorem connreq_accepts_or_transfers_witness :
    (bta_ag_esco_connreq_cback exampleCfg (ctlFrom 9 0xB0) (initialWorld examplePool)
        BTM_ESCO_CONN_REQ_EVT { sco_inx := 7, bd_addr := 0xB0, link_type := 2 }).sco.state =
      BTA_AG_SCO_OPENING_ST ∧
    (bta_ag_esco_connreq_cback exampleCfg (ctlFrom 9 0xB0) (initialWorld examplePool)
        BTM_ESCO_CONN_REQ_EVT
        { sco_inx := 7, bd_addr := 0xB0, link_type := 2 }).sco.p_curr_scb = some 1 ∧
    (bta_ag_esco_connreq_cback exampleCfg (ctlFrom 9 0xB0) (initialWorld examplePool)
        BTM_ESCO_CONN_REQ_EVT { sco_inx := 7, bd_addr := 0xB0, link_type := 2 }).sco.cur_idx =
      7 :=
  have h := (connreq_accepts_or_transfers exampleCfg (ctlFrom 9 0xB0)
    (initialWorld examplePool) { sco_inx := 7, bd_addr := 0xB0, link_type := 2 } 1
    (by decide) (by decide) rfl).1 rfl
  ⟨h.1, h.2.1, h.2.2.1⟩

/-- The connection-close entry point in the open-transfer state, for a block
`A` whose retry flags are clear and with another block `B` in the transfer
slot: the listen of `A` is created again, the response routine runs on `B`, and
`B` becomes the current block in the opening state. -/
theorem conn_close_in_open_xfer (cfg : Cfg) (ctl : Ctl) (w : World) (A B : Nat)
    (hs : w.sco.state = BTA_AG_SCO_OPEN_XFER_ST) (hx : w.sco.p_xfer_scb = some B)
    (hAB : B ≠ A) (hfb : (w.scb A).codec_fallback = false)
    (hr : (w.scb A).retry_with_sco_only = false)
    (ht : cfg.BTM_WBS_INCLUDED = true →
      (w.scb A).codec_msbc_settings = BTA_AG_SCO_MSBC_SETTINGS_T2) :
    ∃ w2, bta_ag_sco_conn_close cfg ctl w A = some w2 ∧
      w2.sco.state = BTA_AG_SCO_OPENING_ST ∧ w2.sco.p_curr_scb = some B ∧
      w2.sco.p_xfer_scb = none ∧ w2.sco.cur_idx = (w.scb B).sco_idx ∧
      (∃ pt, Action.BTM_CreateSco (w.scb A).peer_addr false pt ∈ w2.out) ∧
      Action.bta_ag_co_audio_state (bta_ag_scb_to_idx B) (w.scb B).app_id SCO_STATE_SETUP
        (co_codec cfg BTA_AG_CODEC_CVSD) ∈ w2.out := by
  have hBA : ¬ A = B := fun h => hAB h.symm
  cases hw : cfg.BTM_WBS_INCLUDED
  · simp [bta_ag_sco_conn_close, hfb, hr, hw, sco_conn_close_report, bta_ag_sco_event,
      sco_event_switch, sco_event_head, hs, sco_open_xfer_st, bta_ag_cback_sco, hx,
      create_sco_scb_ne, hAB, hBA, create_sco_listen_out, bta_ag_sco_conn_rsp]
    split_ifs <;> simp
  · simp [bta_ag_sco_conn_close, hfb, hr, hw, sco_conn_close_report, bta_ag_sco_event,
      sco_event_switch, sco_event_head, hs, sco_open_xfer_st, bta_ag_cback_sco, hx,
      bta_ag_attempt_msbc_safe_settings, ht hw,
      create_sco_scb_ne, hAB, hBA, create_sco_listen_out, bta_ag_sco_conn_rsp]
    split_ifs <;> simp

/-- C15, the claim as stated fails: with block 0 open and current, the
connection request from the peer of block 1 takes the machine to
`BTA_AG_SCO_OPEN_XFER_ST`, not to `BTA_AG_SCO_CLOSE_XFER_ST`. -/
theorem transfer_request_enters_open_xfer_not_close_xfer :
    observeSco (runOps exampleCfg (initialWorld examplePool) runToOpen) =
        some (BTA_AG_SCO_OPEN_ST, some 0, none) ∧
      observeSco (runOps exampleCfg (initialWorld examplePool)
          (runToOpen ++ [transferRequest])) =
        some (BTA_AG_SCO_OPEN_XFER_ST, some 0, some 1) ∧
      ¬ (runOps exampleCfg (initialWorld examplePool) (runToOpen ++ [transferRequest])).map
          (fun w => w.sco.state) = some BTA_AG_SCO_CLOSE_XFER_ST := by
  refine ⟨?_, ?_, ?_⟩ <;> decide

/-- C15 (scenario 3), amended: with `A` the current block, as it is in the
open state (`A.sco_idx` equal to `cur_idx` and valid, retry flags of `A` as
`bta_ag_sco_conn_open` leaves them; the callback does not read the state), and
the controller starting the removal, a connection request resolved to another
block `B` with `svc_conn` set moves the machine to `BTA_AG_SCO_OPEN_XFER_ST`,
stashes `B` and the request, and requests the removal of the link of `A`; the following
`bta_ag_sco_conn_close` on `A` returns, creates the listen of `A` again, runs
the response routine on `B` and ends in the opening state with `p_curr_scb = B`,
`cur_idx` the index of the request and `p_xfer_scb` `NULL`. -/
theorem transfer_request_then_conn_close (cfg : Cfg) (c1 c2 : Ctl) (w : World)
    (d : tBTM_ESCO_CONN_REQ_EVT_DATA) (A B : Nat)
    (hcur : w.sco.p_curr_scb = some A)
    (hidx : (w.scb A).sco_idx = w.sco.cur_idx) (hval : w.sco.cur_idx ≠ BTM_INVALID_SCO_INDEX)
    (hrem : c1.remove_status = BTM_CMD_STARTED)
    (hh : bta_ag_idx_by_bdaddr cfg w.scb c1.read_bd_addr ≠ 0)
    (hB : bta_ag_scb_by_idx cfg w.scb (bta_ag_idx_by_bdaddr cfg w.scb c1.read_bd_addr) =
      some B)
    (hsvc : (w.scb B).svc_conn = true) (hAB : B ≠ A)
    (hfb : (w.scb A).codec_fallback = false) (hr : (w.scb A).retry_with_sco_only = false)
    (ht : cfg.BTM_WBS_INCLUDED = true →
      (w.scb A).codec_msbc_settings = BTA_AG_SCO_MSBC_SETTINGS_T2) :
    (bta_ag_esco_connreq_cback cfg c1 w BTM_ESCO_CONN_REQ_EVT d).sco.state =
      BTA_AG_SCO_OPEN_XFER_ST ∧
    (bta_ag_esco_connreq_cback cfg c1 w BTM_ESCO_CONN_REQ_EVT d).sco.p_xfer_scb = some B ∧
    (bta_ag_esco_connreq_cback cfg c1 w BTM_ESCO_CONN_REQ_EVT d).sco.conn_data = d ∧
    (bta_ag_esco_connreq_cback cfg c1 w BTM_ESCO_CONN_REQ_EVT d).out =
      w.out ++ [Action.BTM_RemoveSco (w.scb A).sco_idx] ∧
    ∃ w2, bta_ag_sco_conn_close cfg c2
        (bta_ag_esco_connreq_cback cfg c1 w BTM_ESCO_CONN_REQ_EVT d) A = some w2 ∧
      w2.sco.state = BTA_AG_SCO_OPENING_ST ∧ w2.sco.p_curr_scb = some B ∧
      w2.sco.p_xfer_scb = none ∧ w2.sco.cur_idx = d.sco_inx ∧
      (∃ pt, Action.BTM_CreateSco (w.scb A).peer_addr false pt ∈ w2.out) ∧
      Action.bta_ag_co_audio_state (bta_ag_scb_to_idx B) (w.scb B).app_id SCO_STATE_SETUP
        (co_codec cfg BTA_AG_CODEC_CVSD) ∈ w2.out := by
  have hAB2 : ¬ A = B := fun h => hAB h.symm
  have e : bta_ag_esco_connreq_cback cfg c1 w BTM_ESCO_CONN_REQ_EVT d =
      connreq_transfer cfg c1 (w.setScb B { w.scb B with sco_idx := d.sco_inx }) A B d := by
    rw [connreq_cback_resolved cfg c1 w d B hh hB hsvc]
    unfold esco_connreq_accept connreq_transfer
    simp only [World.setScb, hcur]
  have hst : ((w.setScb B { w.scb B with sco_idx := d.sco_inx }).scb A).sco_idx ≠
        BTM_INVALID_SCO_INDEX ∧
      ((w.setScb B { w.scb B with sco_idx := d.sco_inx }).scb A).sco_idx =
        (w.setScb B { w.scb B with sco_idx := d.sco_inx }).sco.cur_idx ∧
      c1.remove_status = BTM_CMD_STARTED := by
    simp [hAB2, hidx, hval, hrem]
  obtain ⟨t1, t2, t3, _, _, t6, t7⟩ := connreq_transfer_started cfg c1
    (w.setScb B { w.scb B with sco_idx := d.sco_inx }) A B d hst
  rw [e]
  refine ⟨t1, t2, t3, by rw [t6, hidx]; rfl, ?_⟩
  obtain ⟨w2, h2, s2, c2, x2, i2, l2, a2⟩ :=
    conn_close_in_open_xfer cfg c2
      (connreq_transfer cfg c1 (w.setScb B { w.scb B with sco_idx := d.sco_inx }) A B d) A B
      t1 t2 hAB (by rw [t7]; simpa [hAB2] using hfb) (by rw [t7]; simpa [hAB2] using hr)
      (by rw [t7]; simpa [hAB2] using ht)
  rw [t7] at i2 l2 a2
  refine ⟨w2, h2, s2, c2, x2, by simpa using i2, ?_, by simpa using a2⟩
  simpa [hAB2] using l2

/-- Witness for C15: block 0 of the closing pool is open with link index 6; the
peer of block 1 requests a connection with index 7. -/
theorem transfer_request_then_conn_close_witness :
    (bta_ag_esco_connreq_cback exampleCfg (ctlFrom 9 0xB0) worldOpenClosing
        BTM_ESCO_CONN_REQ_EVT { sco_inx := 7, bd_addr := 0xB0, link_type := 2 }).sco.state =
      BTA_AG_SCO_OPEN_XFER_ST ∧
    ∃ w2, bta_ag_sco_conn_close exampleCfg (ctlStarted 8)
        (bta_ag_esco_connreq_cback exampleCfg (ctlFrom 9 0xB0) worldOpenClosing
          BTM_ESCO_CONN_REQ_EVT { sco_inx := 7, bd_addr := 0xB0, link_type := 2 }) 0 =
        some w2 ∧
      w2.sco.state = BTA_AG_SCO_OPENING_ST ∧ w2.sco.p_curr_scb = some 1 ∧
      w2.sco.p_xfer_scb = none ∧ w2.sco.cur_idx = 7 := by
  obtain ⟨h1, _, _, _, w2, h2, s2, c2, x2, i2, _⟩ :=
    transfer_request_then_conn_close exampleCfg (ctlFrom 9 0xB0) (ctlStarted 8)
      worldOpenClosing { sco_inx := 7, bd_addr := 0xB0, link_type := 2 } 0 1
      rfl rfl (by decide) rfl (by decide) (by decide) rfl (by decide) rfl rfl (fun _ => rfl)
  exact ⟨h1, w2, h2, s2, c2, x2, i2⟩

/-- C16: when a connection request resolves to no block (no handle for the
address, or no block for the handle) or to a block whose `svc_conn` is false,
`bta_ag_esco_connreq_cback` answers the controller with
`HCI_ERR_HOST_REJECT_RESOURCES` for the index of the request and leaves the SCO
control block (state, `p_curr_scb`, `p_xfer_scb`, `cur_idx`) and every control
block unchanged. -/
theorem connreq_rejected_on_resources (cfg : Cfg) (ctl : Ctl) (w : World)
    (d : tBTM_ESCO_CONN_REQ_EVT_DATA)
    (h : bta_ag_idx_by_bdaddr cfg w.scb ctl.read_bd_addr = 0 ∨
      bta_ag_scb_by_idx cfg w.scb (bta_ag_idx_by_bdaddr cfg w.scb ctl.read_bd_addr) = none ∨
      ∃ q, bta_ag_scb_by_idx cfg w.scb (bta_ag_idx_by_bdaddr cfg w.scb ctl.read_bd_addr) =
          some q ∧ (w.scb q).svc_conn = false) :
    (bta_ag_esco_connreq_cback cfg ctl w BTM_ESCO_CONN_REQ_EVT d).out =
      w.out ++ [Action.BTM_EScoConnRsp d.sco_inx HCI_ERR_HOST_REJECT_RESOURCES none] ∧
    (bta_ag_esco_connreq_cback cfg ctl w BTM_ESCO_CONN_REQ_EVT d).sco = w.sco ∧
    (bta_ag_esco_connreq_cback cfg ctl w BTM_ESCO_CONN_REQ_EVT d).scb = w.scb := by
  unfold bta_ag_esco_connreq_cback
  rcases h with h | h | ⟨q, h, hq⟩
  · simp [h]
  · by_cases h0 : bta_ag_idx_by_bdaddr cfg w.scb ctl.read_bd_addr = 0
    · simp [h0]
    · simp [h0, h]
  · by_cases h0 : bta_ag_idx_by_bdaddr cfg w.scb ctl.read_bd_addr = 0
    · simp [h0]
    · simp [h0, h, hq]

/-- Witness for C16: a request from an address that belongs to no block, while
block 0 is open. -/
theorem connreq_rejected_on_resources_witness :
    (bta_ag_esco_connreq_cback exampleCfg (ctlFrom 9 0xC0) worldOpenClosing
        BTM_ESCO_CONN_REQ_EVT { sco_inx := 7, bd_addr := 0xC0, link_type := 2 }).out =
      [Action.BTM_EScoConnRsp 7 HCI_ERR_HOST_REJECT_RESOURCES none] ∧
    (bta_ag_esco_connreq_cback exampleCfg (ctlFrom 9 0xC0) worldOpenClosing
        BTM_ESCO_CONN_REQ_EVT { sco_inx := 7, bd_addr := 0xC0, link_type := 2 }).sco.state =
      BTA_AG_SCO_OPEN_ST :=
  have h := connreq_rejected_on_resources exampleCfg (ctlFrom 9 0xC0) worldOpenClosing
    { sco_inx := 7, bd_addr := 0xC0, link_type := 2 } (Or.inl (by decide))
  ⟨h.1, by rw [h.2.1]; rfl⟩

/-! ## C17, C18, C19, C20: codec negotiation and its timer -/

/-- The test of `bta_ag_codec_negotiate`, spelled out. -/
theorem codec_nego_needed_iff (cfg : Cfg) (s : tBTA_AG_SCB) :
    codec_nego_needed cfg s = true ↔
      ((s.codec_updated = true ∨ s.codec_fallback = true) ∧
        s.peer_features &&& cfg.BTA_AG_PEER_FEAT_CODEC ≠ 0) := by
  simp [codec_nego_needed]

/-- The event `BTA_AG_SCO_CN_DONE_E`: acted upon in the codec state, ignored
elsewhere. -/
theorem cn_done_event (cfg : Cfg) (ctl : Ctl) (w : World) (p : Nat) :
    bta_ag_sco_event cfg ctl w p BTA_AG_SCO_CN_DONE_E =
      some
        (if w.sco.state = BTA_AG_SCO_CODEC_ST then
          if cfg.BTM_WBS_INCLUDED = true then
            (bta_ag_create_sco cfg ctl
              (w.trace (LogEntry.sco_evt (w.scb p).sco_idx w.sco.state BTA_AG_SCO_CN_DONE_E))
              p true).setState BTA_AG_SCO_OPENING_ST
          else w.trace (LogEntry.sco_evt (w.scb p).sco_idx w.sco.state BTA_AG_SCO_CN_DONE_E)
        else
          (w.trace (LogEntry.sco_evt (w.scb p).sco_idx w.sco.state BTA_AG_SCO_CN_DONE_E)).trace
            (LogEntry.ignoring w.sco.state BTA_AG_SCO_CN_DONE_E)) := by
  cases hw : cfg.BTM_WBS_INCLUDED <;> cases hs : w.sco.state <;>
    simp [bta_ag_sco_event, sco_event_switch, sco_event_head, hs, hw,
      sco_shutdown_st, sco_listen_st, sco_codec_st, sco_opening_st, sco_open_cl_st,
      sco_open_xfer_st, sco_open_st, sco_closing_st, sco_close_op_st, sco_close_xfer_st,
      sco_shutting_st, sco_ignore]

/-- C17: `bta_ag_codec_negotiate` makes the block current and starts a
negotiation exactly when `codec_updated` or `codec_fallback` is set and the
peer features include codec negotiation: it then signals "busy", sends `+BCS`
and arms the timer with 3000 ms, and delivers no event to the state machine
(trace and state unchanged).  Otherwise it arms no timer and delivers
`BTA_AG_SCO_CN_DONE_E` at once with `codec_updated` cleared; in the codec state
(wideband built in, index invalid) this starts the originate and moves to the
opening state, and `codec_updated` is set afterwards only if the originate
consumed the fallback flag. -/
theorem codec_negotiate_starts_or_skips (cfg : Cfg) (ctl : Ctl) (w : World) (p : Nat) :
    (((w.scb p).codec_updated = true ∨ (w.scb p).codec_fallback = true) ∧
        (w.scb p).peer_features &&& cfg.BTA_AG_PEER_FEAT_CODEC ≠ 0 →
      ∃ w1, bta_ag_codec_negotiate cfg ctl w p = some w1 ∧
        w1.out = w.out ++
          [Action.bta_sys_busy (w.scb p).app_id (w.scb p).peer_addr,
            Action.bta_ag_send_bcs (bta_ag_scb_to_idx p),
            Action.alarm_set_on_queue (bta_ag_scb_to_idx p) 3000] ∧
        w1.log = w.log ∧ w1.sco.state = w.sco.state ∧ w1.sco.p_curr_scb = some p ∧
        (w1.scb p).codec_negotiation_timer = true) ∧
    (¬(((w.scb p).codec_updated = true ∨ (w.scb p).codec_fallback = true) ∧
        (w.scb p).peer_features &&& cfg.BTA_AG_PEER_FEAT_CODEC ≠ 0) →
      bta_ag_codec_negotiate cfg ctl w p =
        bta_ag_sco_event cfg ctl
          ((w.setCurr (some p)).setScb p { w.scb p with codec_updated := false }) p
          BTA_AG_SCO_CN_DONE_E ∧
      ∃ w1, bta_ag_codec_negotiate cfg ctl w p = some w1 ∧
        (∀ h t, Action.alarm_set_on_queue h t ∈ w1.out →
          Action.alarm_set_on_queue h t ∈ w.out) ∧
        (w1.scb p).codec_negotiation_timer = (w.scb p).codec_negotiation_timer ∧
        LogEntry.sco_evt (w.scb p).sco_idx w.sco.state BTA_AG_SCO_CN_DONE_E ∈ w1.log ∧
        ((w1.scb p).codec_updated = true → (w.scb p).codec_fallback = true) ∧
        (cfg.BTM_WBS_INCLUDED = true ∧ w.sco.state = BTA_AG_SCO_CODEC_ST ∧
            (w.scb p).sco_idx = BTM_INVALID_SCO_INDEX →
          w1.sco.state = BTA_AG_SCO_OPENING_ST ∧ w1.sco.p_curr_scb = some p ∧
          (w1.scb p).inuse_codec = create_sco_codec cfg (w.scb p) ∧
          ∃ prm, w1.out = w.out ++
            [Action.BTM_SetEScoMode prm,
              Action.bta_sys_sco_use (w.scb p).app_id (w.scb p).peer_addr,
              Action.bta_ag_co_audio_state (bta_ag_scb_to_idx p) (w.scb p).app_id
                SCO_STATE_SETUP (some (create_sco_codec cfg (w.scb p)))])) := by
  constructor
  · intro h
    have hn : codec_nego_needed cfg (w.scb p) = true := (codec_nego_needed_iff cfg _).2 h
    simp [bta_ag_codec_negotiate, codec_negotiate_via, hn, BTA_AG_CODEC_NEGOTIATION_TIMEOUT_MS]
  · intro h
    have hn : codec_nego_needed cfg (w.scb p) = false := by
      cases hb : codec_nego_needed cfg (w.scb p)
      · rfl
      · exact absurd ((codec_nego_needed_iff cfg _).1 hb) h
    have e : bta_ag_codec_negotiate cfg ctl w p =
        bta_ag_sco_event cfg ctl
          ((w.setCurr (some p)).setScb p { w.scb p with codec_updated := false }) p
          BTA_AG_SCO_CN_DONE_E := by
      simp [bta_ag_codec_negotiate, codec_negotiate_via, hn, sco_codec_nego_via]
    refine ⟨e, ?_⟩
    rw [e, cn_done_event]
    refine ⟨_, rfl, ?_, ?_, ?_, ?_, ?_⟩
    · intro a t
      split_ifs
      · by_cases hi : (w.scb p).sco_idx = BTM_INVALID_SCO_INDEX
        · simp [create_sco_orig_out, hi]
        · simp [create_sco_in_use, hi]
      · simp
      · simp
    · split_ifs <;> simp
    · split_ifs
      · by_cases hi : (w.scb p).sco_idx = BTM_INVALID_SCO_INDEX
        · simp [create_sco_orig_out, hi]
        · simp [create_sco_in_use, hi]
      · simp
      · simp
    · split_ifs with h1 h2
      · intro hu
        simp only [World.setState] at hu
        rw [create_sco_codec_updated] at hu
        simp at hu
        exact hu.2.2
      · simp
      · simp
    · rintro ⟨hw, hs, hi⟩
      simp only [hs, hw, World.setCurr, World.setScb, World.trace, ↓reduceIte, World.setState]
      refine ⟨trivial, ?_, ?_,
        create_sco_params cfg (create_sco_fallback cfg { w.scb p with codec_updated := false })
          (create_sco_codec cfg (w.scb p)), ?_⟩
      · simp [(create_sco_sco _ _ _ _ _).2.2.2.2.2.1, hi]
      · rw [(create_sco_orig_scb _ _ _ _ _).2]
        simp [hi, create_sco_codec]
      · simp [create_sco_orig_out, hi, co_codec, hw, create_sco_codec]

/-- Witness for C17: block 0 of the pool whose blocks have `codec_updated` set
and a peer that supports codec negotiation. -/
theorem codec_negotiate_starts_or_skips_witness :
    ∃ w1, bta_ag_codec_negotiate exampleCfg (ctlStarted 5) (initialWorld updatedPool) 0 =
        some w1 ∧
      w1.out = [Action.bta_sys_busy 1 0xA0, Action.bta_ag_send_bcs 1,
        Action.alarm_set_on_queue 1 3000] ∧
      w1.sco.p_curr_scb = some 0 := by
  obtain ⟨w1, h, o, _, _, c, _⟩ :=
    (codec_negotiate_starts_or_skips exampleCfg (ctlStarted 5) (initialWorld updatedPool) 0).1
      (by decide)
  exact ⟨w1, h, o, c⟩

/-- The timer callback: the close event, then the application callback. -/
theorem timer_cback_body (cfg : Cfg) (ctl : Ctl) (w : World) (p : Nat) :
    bta_ag_codec_negotiation_timer_cback cfg ctl w p =
      (bta_ag_sco_event cfg ctl w p BTA_AG_SCO_CLOSE_E).map
        (fun w1 => bta_ag_cback_sco w1 p BTA_AG_AUDIO_CLOSE_EVT) := by
  simp [bta_ag_codec_negotiation_timer_cback, bta_ag_sco_codec_nego, sco_codec_nego_via]

/-- C18 (scenario 5): when the codec-negotiation timer expires for the block
`A` while the machine is in the codec state (wideband built in), the machine
receives `BTA_AG_SCO_CLOSE_E` and ends in the listen state, and exactly one
call is made: the application callback with `BTA_AG_AUDIO_CLOSE_EVT`, the
handle of `A` and its `app_id`.  The control blocks and the two slots are
unchanged. -/
theorem negotiation_timeout_closes (cfg : Cfg) (ctl : Ctl) (w : World) (A : Nat)
    (hwbs : cfg.BTM_WBS_INCLUDED = true) (hs : w.sco.state = BTA_AG_SCO_CODEC_ST) :
    ∃ w1, bta_ag_codec_negotiation_timer_cback cfg ctl w A = some w1 ∧
      w1.sco.state = BTA_AG_SCO_LISTEN_ST ∧
      w1.log = w.log ++ [LogEntry.sco_evt (w.scb A).sco_idx BTA_AG_SCO_CODEC_ST
        BTA_AG_SCO_CLOSE_E] ∧
      w1.out = w.out ++
        [Action.p_cback BTA_AG_AUDIO_CLOSE_EVT (bta_ag_scb_to_idx A) (w.scb A).app_id] ∧
      w1.scb = w.scb ∧ w1.sco.p_curr_scb = w.sco.p_curr_scb ∧
      w1.sco.p_xfer_scb = w.sco.p_xfer_scb := by
  simp [timer_cback_body, bta_ag_sco_event, sco_event_switch, sco_event_head, hs, hwbs,
    sco_codec_st, bta_ag_cback_sco]

/-- Witness for C18: the timer of block 0 expires after the negotiation was
started by listen and open on the pool whose blocks have `codec_updated` set. -/
theorem negotiation_timeout_closes_witness :
    ∃ w1, bta_ag_codec_negotiation_timer_cback exampleCfg (ctlStarted 5)
        { worldOpeningMsbc with sco := { worldOpeningMsbc.sco with
            state := BTA_AG_SCO_CODEC_ST } } 0 = some w1 ∧
      w1.sco.state = BTA_AG_SCO_LISTEN_ST ∧
      w1.out = [Action.p_cback BTA_AG_AUDIO_CLOSE_EVT 1 1] := by
  obtain ⟨w1, h, s, _, o, _⟩ :=
    negotiation_timeout_closes exampleCfg (ctlStarted 5)
      { worldOpeningMsbc with sco := { worldOpeningMsbc.sco with
          state := BTA_AG_SCO_CODEC_ST } } 0 rfl rfl
  exact ⟨w1, h, s, o⟩

/-- C19, the claim as stated fails: when the timer of block 0 fires while the
machine is opening its link, the close event is acted upon and the machine
moves to `BTA_AG_SCO_OPEN_CL_ST`. -/
theorem stale_timer_fire_in_opening_changes_state :
    worldOpeningMsbc.sco.state = BTA_AG_SCO_OPENING_ST ∧
      (bta_ag_codec_negotiation_timer_cback exampleCfg (ctlStarted 6) worldOpeningMsbc 0).map
          (fun w => w.sco.state) = some BTA_AG_SCO_OPEN_CL_ST ∧
      observeSco (runOps exampleCfg (initialWorld examplePool)
          (runToOpening ++ [(ctlStarted 6, Op.codec_negotiation_timer_cback 0)])) =
        some (BTA_AG_SCO_OPEN_CL_ST, some 0, none) := by
  refine ⟨?_, ?_, ?_⟩ <;> decide

/-- C19, amended: in the states in which the close event has no transition
(shutdown, listen, open with close pending, closing, shutting),
`bta_ag_codec_negotiation_timer_cback` returns and leaves the SCO control
block (state, `p_curr_scb`, `p_xfer_scb` and the rest) and every control block
unchanged; the application callback is still called with
`BTA_AG_AUDIO_CLOSE_EVT`. -/
theorem stale_timer_fire_is_ignored (cfg : Cfg) (ctl : Ctl) (w : World) (p : Nat)
    (hs : w.sco.state = BTA_AG_SCO_SHUTDOWN_ST ∨ w.sco.state = BTA_AG_SCO_LISTEN_ST ∨
      w.sco.state = BTA_AG_SCO_OPEN_CL_ST ∨ w.sco.state = BTA_AG_SCO_CLOSING_ST ∨
      w.sco.state = BTA_AG_SCO_SHUTTING_ST) :
    ∃ w1, bta_ag_codec_negotiation_timer_cback cfg ctl w p = some w1 ∧
      w1.sco = w.sco ∧ w1.scb = w.scb ∧
      w1.out = w.out ++
        [Action.p_cback BTA_AG_AUDIO_CLOSE_EVT (bta_ag_scb_to_idx p) (w.scb p).app_id] := by
  rcases hs with hs | hs | hs | hs | hs <;>
    simp [timer_cback_body, bta_ag_sco_event, sco_event_switch, sco_event_head, hs,
      sco_shutdown_st, sco_listen_st, sco_open_cl_st, sco_closing_st, sco_shutting_st,
      sco_ignore, bta_ag_cback_sco]

/-- Witness for C19: the timer of block 0 fires in the listen state. -/
theorem stale_timer_fire_is_ignored_witness :
    ∃ w1, bta_ag_codec_negotiation_timer_cback exampleCfg (ctlStarted 5)
        { worldOpeningMsbc with sco := { worldOpeningMsbc.sco with
            state := BTA_AG_SCO_LISTEN_ST } } 0 = some w1 ∧
      w1.sco.state = BTA_AG_SCO_LISTEN_ST ∧ w1.sco.p_curr_scb = some 0 := by
  obtain ⟨w1, h, s, _, _⟩ :=
    stale_timer_fire_is_ignored exampleCfg (ctlStarted 5)
      { worldOpeningMsbc with sco := { worldOpeningMsbc.sco with
          state := BTA_AG_SCO_LISTEN_ST } } 0 (Or.inr (Or.inl rfl))
  exact ⟨w1, h, by rw [s], by rw [s]; rfl⟩

/-- `bta_ag_create_sco` leaves every timer as it is. -/
theorem create_sco_keeps_timer (cfg : Cfg) (ctl : Ctl) (w : World) (p : Nat) (o : Bool)
    (b : Bool) (q : Nat) (h : TimerIs b (w.scb q)) :
    TimerIs b ((bta_ag_create_sco cfg ctl w p o).scb q) := by
  unfold TimerIs at *
  simpa using h

/-- `bta_ag_remove_sco` leaves every timer as it is. -/
theorem remove_sco_keeps_timer (st : tBTM_STATUS) (w : World) (p : Nat) (a : Bool)
    (b : Bool) (q : Nat) (h : TimerIs b (w.scb q)) :
    TimerIs b ((bta_ag_remove_sco st w p a).1.scb q) := by
  unfold TimerIs at *
  simpa using h

/-- `bta_ag_sco_conn_rsp` leaves every timer as it is. -/
theorem conn_rsp_keeps_timer (cfg : Cfg) (w : World) (p : Nat)
    (d : tBTM_ESCO_CONN_REQ_EVT_DATA) (b : Bool) (q : Nat) (h : TimerIs b (w.scb q)) :
    TimerIs b ((bta_ag_sco_conn_rsp cfg w p d).scb q) := by
  unfold TimerIs at *
  simpa using h

/-- `bta_ag_create_pending_sco` leaves every timer as it is. -/
theorem create_pending_sco_keeps_timer (cfg : Cfg) (ctl : Ctl) (w : World) (p : Nat)
    (l : Bool) (b : Bool) (q : Nat) (h : TimerIs b (w.scb q)) :
    TimerIs b ((bta_ag_create_pending_sco cfg ctl w p l).scb q) := by
  unfold TimerIs at *
  simpa using h

/-- Writing a control block without touching its timer leaves every timer as
it is. -/
theorem timerIs_update (f : Nat → tBTA_AG_SCB) (p : Nat) (b : Bool) (q : Nat) (s : tBTA_AG_SCB)
    (hs : TimerIs b (f p) → TimerIs b s) (h : TimerIs b (f q)) :
    TimerIs b (Function.update f p s q) := by
  by_cases hq : q = p
  · subst hq
    simpa using hs h
  · simpa [Function.update_noteq hq] using h

/-- The switch of `bta_ag_sco_event` leaves every timer as it is. -/
theorem sco_event_switch_keeps_timer (cfg : Cfg) (ctl : Ctl) (w : World) (p : Nat)
    (event : ScoEvent) (b : Bool) (q : Nat) (h : TimerIs b (w.scb q)) :
    WhenSwitched (fun w1 => TimerIs b (w1.scb q)) (sco_event_switch cfg ctl w p event) := by
  unfold sco_event_switch
  cases hs : w.sco.state <;> simp only [hs] <;> cases event <;>
    simp [sco_shutdown_st, sco_listen_st, sco_codec_st, sco_opening_st, sco_open_cl_st,
      sco_open_xfer_st, sco_open_st, sco_closing_st, sco_close_op_st, sco_close_xfer_st,
      sco_shutting_st, sco_ignore, sco_shutdown_listening, sco_shutdown_or_remove,
      sco_shutting_next, sco_shutting_clear, sco_listen_additional, h]
  all_goals
    repeat' (first
      | exact h
      | trivial
      | apply create_sco_keeps_timer
      | apply remove_sco_keeps_timer
      | apply conn_rsp_keeps_timer
      | apply create_pending_sco_keeps_timer
      | refine timerIs_update _ _ _ _ _ ?_ ?_
      | (intro hb; simpa [TimerIs] using hb)
      | split
      | intro _)

/-- When the switch of `bta_ag_sco_event` asks for codec negotiation it has
moved the machine to the codec state. -/
theorem sco_event_switch_cn_codec (cfg : Cfg) (ctl : Ctl) (w : World) (p : Nat)
    (event : ScoEvent) (w1 : World) (c : Nat)
    (h : sco_event_switch cfg ctl w p event = some (w1, some c)) :
    w1.sco.state = BTA_AG_SCO_CODEC_ST := by
  unfold sco_event_switch at h
  cases hw : cfg.BTM_WBS_INCLUDED <;> cases hs : w.sco.state <;> simp only [hs] at h <;>
    cases event <;>
    simp [sco_shutdown_st, sco_listen_st, sco_codec_st, sco_opening_st, sco_open_cl_st,
      sco_open_xfer_st, sco_open_st, sco_closing_st, sco_close_op_st, sco_close_xfer_st,
      sco_shutting_st, sco_ignore, sco_shutdown_listening, sco_shutdown_or_remove,
      sco_shutting_next, sco_shutting_clear, sco_listen_additional, hw] at h
  all_goals (first | (obtain ⟨h1, h2⟩ := h; subst h1; rfl) | skip)
  all_goals (try (split at h))
  all_goals (try (split at h))
  all_goals (try (simp at h))
  all_goals (try (obtain ⟨h1, h2⟩ := h; subst h1; rfl))

/-- A property of what an operation returns may be weakened. -/
theorem whenSome_mono (P Q : World → Prop) (r : Option World) (hr : WhenSome P r)
    (hf : ∀ w, P w → Q w) : WhenSome Q r := by
  cases r with
  | none => trivial
  | some w => exact hf w hr

/-- The nested delivery leaves every timer as it is. -/
theorem sco_event_nested_keeps_timer (cfg : Cfg) (ctl : Ctl) (w : World) (p : Nat)
    (event : ScoEvent) (b : Bool) (q : Nat) (h : TimerIs b (w.scb q)) :
    WhenSome (fun w1 => TimerIs b (w1.scb q)) (sco_event_nested cfg ctl w p event) := by
  have hh : TimerIs b ((sco_event_head w p event).scb q) := by
    rw [sco_event_head_scb]; exact h
  have := sco_event_switch_keeps_timer cfg ctl (sco_event_head w p event) p event b q hh
  unfold sco_event_nested
  cases hr : sco_event_switch cfg ctl (sco_event_head w p event) p event with
  | none => trivial
  | some r =>
    rw [hr] at this
    exact this

/-- Codec negotiation started by the state machine, which is then in the codec
state: the timer of the block is armed, or nothing happens to the timers. -/
theorem codec_negotiate_nested_armed (cfg : Cfg) (ctl : Ctl) (w : World) (c : Nat)
    (b : Bool) (q : Nat) (h : TimerIs b (w.scb q))
    (hs : w.sco.state = BTA_AG_SCO_CODEC_ST) :
    WhenSome (ArmedInCodec b q) (codec_negotiate_via (sco_event_nested cfg ctl) cfg w c) := by
  unfold codec_negotiate_via
  simp only []
  split_ifs
  · simp only [World.setScb, World.emit, World.setCurr, whenSome_some]
    by_cases hq : q = c
    · subst hq
      right
      exact ⟨by simp [TimerIs], hs⟩
    · left
      simpa [TimerIs, Function.update_noteq hq] using h
  · unfold sco_codec_nego_via
    simp only [↓reduceIte]
    refine whenSome_mono _ _ _ (sco_event_nested_keeps_timer cfg ctl _ c _ b q ?_)
      (fun w1 h1 => Or.inl h1)
    simp only [World.setScb, World.setCurr]
    exact timerIs_update _ _ _ _ _ (fun hb => by simpa [TimerIs] using hb) h

/-- `bta_ag_sco_event` arms a timer only when it leaves the machine in the
codec state, and otherwise leaves every timer as it is. -/
theorem sco_event_armed (cfg : Cfg) (ctl : Ctl) (b : Bool) (q : Nat) (w : World) (p : Nat)
    (event : ScoEvent) (h : TimerIs b (w.scb q)) :
    WhenSome (ArmedInCodec b q) (bta_ag_sco_event cfg ctl w p event) := by
  have hh : TimerIs b ((sco_event_head w p event).scb q) := by
    rw [sco_event_head_scb]; exact h
  have := sco_event_switch_keeps_timer cfg ctl (sco_event_head w p event) p event b q hh
  unfold bta_ag_sco_event
  cases hr : sco_event_switch cfg ctl (sco_event_head w p event) p event with
  | none => trivial
  | some r =>
    rw [hr] at this
    obtain ⟨w1, cn⟩ := r
    cases cn with
    | none => exact Or.inl this
    | some c =>
      exact codec_negotiate_nested_armed cfg ctl w1 c b q this
        (sco_event_switch_cn_codec cfg ctl _ p event w1 c hr)

/-- A step that touches neither the timers nor the state keeps what
`bta_ag_sco_event` has established. -/
theorem armedInCodec_map (b : Bool) (q : Nat) (f : World → World) (r : Option World)
    (hr : WhenSome (ArmedInCodec b q) r)
    (hf : ∀ w, (f w).sco.state = w.sco.state ∧
      ((f w).scb q).codec_negotiation_timer = (w.scb q).codec_negotiation_timer) :
    WhenSome (ArmedInCodec b q) (r.map f) := by
  cases r with
  | none => trivial
  | some w =>
    have h : ArmedInCodec b q w := hr
    show ArmedInCodec b q (f w)
    unfold ArmedInCodec TimerIs at *
    rw [(hf w).1, (hf w).2]
    exact h

/-- The body of `bta_ag_sco_codec_nego` with `bta_ag_sco_event` as delivery. -/
theorem sco_codec_nego_armed (cfg : Cfg) (ctl : Ctl) (b : Bool) (q : Nat) (w : World) (p : Nat)
    (result : Bool) (h : TimerIs b (w.scb q)) :
    WhenSome (ArmedInCodec b q) (bta_ag_sco_codec_nego cfg ctl w p result) := by
  unfold bta_ag_sco_codec_nego sco_codec_nego_via
  split_ifs
  · apply sco_event_armed
    simp only [World.setScb]
    exact timerIs_update _ _ _ _ _ (fun hb => by simpa [TimerIs] using hb) h
  · exact sco_event_armed cfg ctl b q w p _ h

/-- `bta_ag_sco_conn_open`: the event, then steps that touch no timer. -/
theorem conn_open_armed (cfg : Cfg) (ctl : Ctl) (b : Bool) (q : Nat) (w : World) (p : Nat)
    (h : TimerIs b (w.scb q)) :
    WhenSome (ArmedInCodec b q) (bta_ag_sco_conn_open cfg ctl w p) := by
  unfold bta_ag_sco_conn_open
  refine armedInCodec_map b q _ _ (sco_event_armed cfg ctl b q w p _ h) ?_
  intro w1
  simp only [World.setScb, World.emit, bta_ag_cback_sco]
  by_cases hq : q = p
  · subst hq
    split_ifs <;> simp
  · split_ifs <;> simp [Function.update_noteq hq]

/-- The reporting branch of `bta_ag_sco_conn_close`: the event, then steps that
touch no timer. -/
theorem conn_close_report_armed (cfg : Cfg) (ctl : Ctl) (b : Bool) (q : Nat) (w : World)
    (p : Nat) (h : TimerIs b (w.scb q)) :
    WhenSome (ArmedInCodec b q) (sco_conn_close_report cfg ctl w p) := by
  unfold sco_conn_close_report
  refine armedInCodec_map b q _ _ (sco_event_armed cfg ctl b q _ p _ h) ?_
  intro w1
  simp only [World.setScb, World.emit, bta_ag_cback_sco]
  by_cases hq : q = p
  · subst hq
    split_ifs <;> simp
  · split_ifs <;> simp [Function.update_noteq hq]

/-- `bta_ag_sco_conn_close` arms a timer only when its reopen request leaves
the machine in the codec state. -/
theorem conn_close_armed (cfg : Cfg) (ctl : Ctl) (b : Bool) (q : Nat) (w : World) (p : Nat)
    (h : TimerIs b (w.scb q)) :
    WhenSome (ArmedInCodec b q) (bta_ag_sco_conn_close cfg ctl w p) := by
  unfold bta_ag_sco_conn_close
  have h0 : TimerIs b (((w.setCurr none).setScb p
      { (w.setCurr none).scb p with sco_idx := BTM_INVALID_SCO_INDEX }).scb q) := by
    simp only [World.setScb, World.setCurr]
    exact timerIs_update _ _ _ _ _ (fun hb => by simpa [TimerIs] using hb) h
  simp only []
  refine armedInCodec_map b q _ _ ?_ ?_
  · split_ifs
    · exact sco_event_armed cfg ctl b q _ p _ h0
    · exact Or.inl (create_sco_keeps_timer cfg ctl _ p true b q h0)
    · exact conn_close_report_armed cfg ctl b q _ p h0
  · intro w2
    simp only [World.setScb]
    by_cases hq : q = p
    · subst hq
      simp
    · simp [Function.update_noteq hq]

/-- `bta_ag_sco_disc_cback` leaves every timer as it is. -/
theorem disc_cback_keeps_timer (cfg : Cfg) (w : World) (i : Nat) (b : Bool) (q : Nat)
    (h : TimerIs b (w.scb q)) : TimerIs b ((bta_ag_sco_disc_cback cfg w i).scb q) := by
  unfold bta_ag_sco_disc_cback
  cases sco_disc_cback_handle w i with
  | none => exact h
  | some handle =>
    simp only []
    cases w.sco.p_curr_scb with
    | none => split_ifs <;> exact h
    | some c =>
      split_ifs
      · unfold sco_disc_cback_restore
        simp only [World.setScb, World.emit]
        refine timerIs_update _ _ _ _ _ (fun hb => by simpa [TimerIs] using hb) ?_
        split_ifs <;> (try simp only [World.setScb, World.emit]) <;>
          first
          | exact h
          | exact timerIs_update _ _ _ _ _ (fun hb => by simpa [TimerIs] using hb) h
          | (refine timerIs_update _ _ _ _ _ (fun hb => by simpa [TimerIs] using hb) ?_
             exact timerIs_update _ _ _ _ _ (fun hb => by simpa [TimerIs] using hb) h)
      · exact h
      · simp only [World.setScb, World.setCurr, World.setState]
        exact timerIs_update _ _ _ _ _ (fun hb => by simpa [TimerIs] using hb) h

/-- `bta_ag_esco_connreq_cback` leaves every timer as it is. -/
theorem connreq_cback_keeps_timer (cfg : Cfg) (ctl : Ctl) (w : World) (e : tBTM_ESCO_EVT)
    (d : tBTM_ESCO_CONN_REQ_EVT_DATA) (b : Bool) (q : Nat) (h : TimerIs b (w.scb q)) :
    TimerIs b ((bta_ag_esco_connreq_cback cfg ctl w e d).scb q) := by
  have hacc : ∀ p, TimerIs b ((esco_connreq_accept cfg ctl w p d).scb q) := by
    intro p
    have h1 : TimerIs b ((w.setScb p { w.scb p with sco_idx := d.sco_inx }).scb q) := by
      simp only [World.setScb]
      exact timerIs_update _ _ _ _ _ (fun hb => by simpa [TimerIs] using hb) h
    unfold esco_connreq_accept
    simp only []
    cases hc : (w.setScb p { w.scb p with sco_idx := d.sco_inx }).sco.p_curr_scb with
    | none =>
      simp only []
      exact conn_rsp_keeps_timer cfg _ p d b q h1
    | some c =>
      simp only []
      split_ifs
      · apply conn_rsp_keeps_timer
        simp only [World.setXfer, World.setState]
        exact remove_sco_keeps_timer _ _ c true b q h1
      · exact remove_sco_keeps_timer _ _ c true b q h1
  unfold bta_ag_esco_connreq_cback
  simp only []
  split_ifs
  · cases bta_ag_scb_by_idx cfg w.scb (bta_ag_idx_by_bdaddr cfg w.scb ctl.read_bd_addr) with
    | none => exact h
    | some c =>
      simp only []
      split_ifs
      · exact hacc c
      · exact h
  · exact h
  · exact h

/-- C20, the claim as stated fails: after listen and open on block 0 of the
pool whose blocks have `codec_updated` set, the machine is in the codec state
with the timer of block 0 armed; a close request, or an open request for block
1, then leaves the codec state with the timer still armed. -/
theorem timer_stays_armed_after_leaving_codec :
    (runOps exampleCfg (initialWorld updatedPool) runToCodec).map
        (fun w => (w.sco.state, (w.scb 0).codec_negotiation_timer)) =
      some (BTA_AG_SCO_CODEC_ST, true) ∧
    (runOps exampleCfg (initialWorld updatedPool)
        (runToCodec ++ [(ctlStarted 5, Op.sco_close 0)])).map
        (fun w => (w.sco.state, (w.scb 0).codec_negotiation_timer)) =
      some (BTA_AG_SCO_LISTEN_ST, true) ∧
    (runOps exampleCfg (initialWorld updatedPool)
        (runToCodec ++ [(ctlStarted 5, Op.sco_open 1)])).map
        (fun w => (w.sco.state, (w.scb 0).codec_negotiation_timer)) =
      some (BTA_AG_SCO_CLOSE_XFER_ST, true) := by
  refine ⟨?_, ?_, ?_⟩ <;> decide

/-- C20, amended: with the timer as an armed flag per control block, for every
operation of the file that returns and every block `q`: a timer that is armed
stays armed (the file never cancels it, also not on the transitions that leave
the codec state), and a timer that is armed afterwards was armed before, or
the operation leaves the machine in the codec state, or the operation is a
direct call of `bta_ag_codec_negotiate` on `q`. -/
theorem timer_armed_on_entering_codec_never_cancelled (cfg : Cfg) (ctl : Ctl) (w : World)
    (op : Op) (q : Nat) (w1 : World) (hr : applyOp cfg ctl w op = some w1) :
    ((w.scb q).codec_negotiation_timer = true → (w1.scb q).codec_negotiation_timer = true) ∧
    ((w1.scb q).codec_negotiation_timer = true →
      (w.scb q).codec_negotiation_timer = true ∨ w1.sco.state = BTA_AG_SCO_CODEC_ST ∨
        op = Op.codec_negotiate q) := by
  have h : TimerIs (w.scb q).codec_negotiation_timer (w.scb q) := rfl
  have key : WhenSome
      (fun w2 => ArmedInCodec (w.scb q).codec_negotiation_timer q w2 ∨
        (op = Op.codec_negotiate q ∧ TimerIs true (w2.scb q)))
      (applyOp cfg ctl w op) := by
    cases op with
    | sco_listen p => exact whenSome_mono _ _ _ (sco_event_armed cfg ctl _ q w p _ h) (fun _ => Or.inl)
    | sco_open p =>
      simp only [applyOp, bta_ag_sco_open]
      split_ifs <;>
        exact whenSome_mono _ _ _ (sco_event_armed cfg ctl _ q w p _ h) (fun _ => Or.inl)
    | ci_sco_open_continue p result =>
      exact whenSome_mono _ _ _ (sco_event_armed cfg ctl _ q _ p _ h) (fun _ => Or.inl)
    | sco_close p =>
      simp only [applyOp, bta_ag_sco_close]
      split_ifs
      · exact whenSome_mono _ _ _ (sco_event_armed cfg ctl _ q w p _ h) (fun _ => Or.inl)
      · exact Or.inl (Or.inl h)
    | sco_codec_nego p result =>
      exact whenSome_mono _ _ _ (sco_codec_nego_armed cfg ctl _ q w p result h) (fun _ => Or.inl)
    | sco_shutdown p =>
      exact whenSome_mono _ _ _ (sco_event_armed cfg ctl _ q w p _ h) (fun _ => Or.inl)
    | sco_conn_open p =>
      exact whenSome_mono _ _ _ (conn_open_armed cfg ctl _ q w p h) (fun _ => Or.inl)
    | sco_conn_close p =>
      exact whenSome_mono _ _ _ (conn_close_armed cfg ctl _ q w p h) (fun _ => Or.inl)
    | sco_conn_rsp p d => exact Or.inl (Or.inl (conn_rsp_keeps_timer cfg w p d _ q h))
    | ci_sco_data p => exact Or.inl (Or.inl h)
    | codec_negotiate p =>
      simp only [applyOp, bta_ag_codec_negotiate, codec_negotiate_via]
      split_ifs
      · simp only [World.setScb, World.emit, World.setCurr, whenSome_some]
        by_cases hq : q = p
        · subst hq
          right
          exact ⟨rfl, by simp [TimerIs]⟩
        · left
          left
          simp [TimerIs, Function.update_noteq hq]
      · exact whenSome_mono _ _ _
          (sco_codec_nego_armed cfg ctl _ q (w.setCurr (some p)) p true h) (fun _ => Or.inl)
    | codec_negotiation_timer_cback p =>
      simp only [applyOp, bta_ag_codec_negotiation_timer_cback]
      refine whenSome_mono _ _ _
        (armedInCodec_map _ q _ _ (sco_codec_nego_armed cfg ctl _ q w p false h) ?_)
        (fun _ => Or.inl)
      intro w2
      simp [bta_ag_cback_sco]
    | sco_conn_cback i =>
      refine Or.inl (Or.inl ?_)
      show TimerIs _ ((bta_ag_sco_conn_cback cfg ctl w i).scb q)
      rw [conn_cback_scb]
      exact h
    | sco_disc_cback i => exact Or.inl (Or.inl (disc_cback_keeps_timer cfg w i _ q h))
    | esco_connreq_cback e d =>
      exact Or.inl (Or.inl (connreq_cback_keeps_timer cfg ctl w e d _ q h))
    | sco_event p e =>
      exact whenSome_mono _ _ _ (sco_event_armed cfg ctl _ q w p e h) (fun _ => Or.inl)
    | create_sco p o => exact Or.inl (Or.inl (create_sco_keeps_timer cfg ctl w p o _ q h))
    | create_pending_sco p l =>
      exact Or.inl (Or.inl (create_pending_sco_keeps_timer cfg ctl w p l _ q h))
    | remove_sco p a => exact Or.inl (Or.inl (remove_sco_keeps_timer _ w p a _ q h))
  rw [hr] at key
  have k : ArmedInCodec (w.scb q).codec_negotiation_timer q w1 ∨
      (op = Op.codec_negotiate q ∧ TimerIs true (w1.scb q)) := key
  unfold ArmedInCodec TimerIs at k
  constructor
  · intro hb
    rcases k with (k | k) | k
    · rw [k, hb]
    · exact k.1
    · exact k.2
  · intro ha
    rcases k with (k | k) | k
    · left; rw [← k]; exact ha
    · right; left; exact k.2
    · right; right; exact k.1

/-- Witness for C20: the open request on block 0 of the pool whose blocks have
`codec_updated` set arms the timer of block 0 and leaves the machine in the
codec state. -/
theorem timer_armed_on_entering_codec_never_cancelled_witness :
    ∃ w1, applyOp exampleCfg (ctlGone 5) worldListenUpdated (Op.sco_open 0) = some w1 ∧
      (w1.scb 0).codec_negotiation_timer = true ∧
      ((worldListenUpdated.scb 0).codec_negotiation_timer = true ∨
        w1.sco.state = BTA_AG_SCO_CODEC_ST ∨ Op.sco_open 0 = Op.codec_negotiate 0) := by
  have hs : (applyOp exampleCfg (ctlGone 5) worldListenUpdated (Op.sco_open 0)).isSome =
      true := by decide
  obtain ⟨w1, hr⟩ := Option.isSome_iff_exists.1 hs
  have hm : (applyOp exampleCfg (ctlGone 5) worldListenUpdated (Op.sco_open 0)).map
      (fun w => (w.scb 0).codec_negotiation_timer) = some true := by decide
  rw [hr] at hm
  have ht : (w1.scb 0).codec_negotiation_timer = true := by simpa using hm
  exact ⟨w1, hr, ht,
    (timer_armed_on_entering_codec_never_cancelled exampleCfg (ctlGone 5) worldListenUpdated
      (Op.sco_open 0) 0 w1 hr).2 ht⟩

/-! ## Calls of the application callback -/

/-- Nothing added is no call of the callback. -/
theorem grows_refl (l : List Action) : Grows l l :=
  ⟨[], by simp, rfl⟩

/-- Calls that are no calls of the callback may follow one another. -/
theorem grows_trans {a b c : List Action} (h1 : Grows a b) (h2 : Grows b c) : Grows a c := by
  obtain ⟨l1, e1, f1⟩ := h1
  obtain ⟨l2, e2, f2⟩ := h2
  exact ⟨l1 ++ l2, by rw [e2, e1, List.append_assoc], by simp [f1, f2]⟩

/-- One more call that is no call of the callback. -/
theorem grows_snoc {base l : List Action} (a : Action) (h : Grows base l)
    (ha : IsCback a = false) : Grows base (l ++ [a]) :=
  grows_trans h ⟨[a], rfl, by simp [ha]⟩

/-- The callbacks among calls that grew without the callback are those made
before. -/
theorem grows_filter {base l : List Action} (h : Grows base l) :
    l.filter IsCback = base.filter IsCback := by
  obtain ⟨l2, e, f⟩ := h
  rw [e, List.filter_append, f, List.append_nil]

/-- `bta_ag_create_sco` does not call the application callback. -/
theorem create_sco_grows (cfg : Cfg) (ctl : Ctl) (w : World) (p : Nat) (o : Bool)
    (base : List Action) (h : Grows base w.out) :
    Grows base (bta_ag_create_sco cfg ctl w p o).out := by
  refine grows_trans h ?_
  by_cases hi : (w.scb p).sco_idx = BTM_INVALID_SCO_INDEX
  · cases o
    · rw [create_sco_listen_out]
      simp only [hi, ne_eq, not_true_eq_false, ↓reduceIte]
      split_ifs
      · exact ⟨_, rfl, rfl⟩
      · exact ⟨_, rfl, rfl⟩
    · rw [(create_sco_orig_out cfg ctl w p hi).1]
      exact ⟨_, rfl, rfl⟩
  · rw [create_sco_in_use cfg ctl w p o hi]
    exact grows_refl _

/-- `bta_ag_remove_sco` does not call the application callback. -/
theorem remove_sco_grows (st : tBTM_STATUS) (w : World) (p : Nat) (a : Bool)
    (base : List Action) (h : Grows base w.out) :
    Grows base (bta_ag_remove_sco st w p a).1.out := by
  refine grows_trans h ?_
  rw [remove_sco_out]
  split_ifs
  · exact ⟨_, rfl, rfl⟩
  · exact grows_refl _

/-- `bta_ag_sco_conn_rsp` does not call the application callback. -/
theorem conn_rsp_grows (cfg : Cfg) (w : World) (p : Nat) (d : tBTM_ESCO_CONN_REQ_EVT_DATA)
    (base : List Action) (h : Grows base w.out) :
    Grows base (bta_ag_sco_conn_rsp cfg w p d).out := by
  unfold bta_ag_sco_conn_rsp
  simp only [World.emit, World.setScb]
  split_ifs <;> first | exact h | exact grows_snoc _ (grows_snoc _ h rfl) rfl

/-- `bta_ag_create_pending_sco` does not call the application callback. -/
theorem create_pending_sco_grows (cfg : Cfg) (ctl : Ctl) (w : World) (p : Nat) (l : Bool)
    (base : List Action) (h : Grows base w.out) :
    Grows base (bta_ag_create_pending_sco cfg ctl w p l).out := by
  unfold bta_ag_create_pending_sco
  simp only [World.emit, World.setScb, World.setState]
  split_ifs <;>
    first
    | exact h
    | exact grows_snoc _ h rfl
    | exact grows_snoc _ (grows_snoc _ h rfl) rfl
    | exact create_sco_grows cfg ctl _ p false base h

/-- The switch of `bta_ag_sco_event` does not call the application callback. -/
theorem sco_event_switch_grows (cfg : Cfg) (ctl : Ctl) (w : World) (p : Nat)
    (event : ScoEvent) (base : List Action) (h : Grows base w.out) :
    WhenSwitched (fun w1 => Grows base w1.out) (sco_event_switch cfg ctl w p event) := by
  unfold sco_event_switch
  cases hs : w.sco.state <;> simp only [hs] <;> cases event <;>
    simp [sco_shutdown_st, sco_listen_st, sco_codec_st, sco_opening_st, sco_open_cl_st,
      sco_open_xfer_st, sco_open_st, sco_closing_st, sco_close_op_st, sco_close_xfer_st,
      sco_shutting_st, sco_ignore, sco_shutdown_listening, sco_shutdown_or_remove,
      sco_shutting_next, sco_shutting_clear, sco_listen_additional, h]
  all_goals
    repeat' (first
      | exact h
      | trivial
      | apply create_sco_grows
      | apply remove_sco_grows
      | apply conn_rsp_grows
      | apply create_pending_sco_grows
      | split
      | intro _)

/-- The trace at the head of `bta_ag_sco_event` calls nothing. -/
theorem sco_event_head_out (w : World) (p : Nat) (event : ScoEvent) :
    (sco_event_head w p event).out = w.out := by
  unfold sco_event_head
  split_ifs <;> rfl

/-- The trace at the head of `bta_ag_sco_event` leaves the SCO control block
alone. -/
theorem sco_event_head_sco (w : World) (p : Nat) (event : ScoEvent) :
    (sco_event_head w p event).sco = w.sco := by
  unfold sco_event_head
  split_ifs <;> rfl

/-- The nested delivery does not call the application callback. -/
theorem sco_event_nested_grows (cfg : Cfg) (ctl : Ctl) (w : World) (p : Nat)
    (event : ScoEvent) (base : List Action) (h : Grows base w.out) :
    WhenSome (fun w1 => Grows base w1.out) (sco_event_nested cfg ctl w p event) := by
  have hh : Grows base (sco_event_head w p event).out := by
    rw [sco_event_head_out]; exact h
  have := sco_event_switch_grows cfg ctl (sco_event_head w p event) p event base hh
  unfold sco_event_nested
  cases hr : sco_event_switch cfg ctl (sco_event_head w p event) p event with
  | none => trivial
  | some r =>
    rw [hr] at this
    exact this

/-- `bta_ag_sco_event` does not call the application callback. -/
theorem sco_event_grows (cfg : Cfg) (ctl : Ctl) (base : List Action) (w : World) (p : Nat)
    (event : ScoEvent) (h : Grows base w.out) :
    WhenSome (fun w1 => Grows base w1.out) (bta_ag_sco_event cfg ctl w p event) := by
  have hh : Grows base (sco_event_head w p event).out := by
    rw [sco_event_head_out]; exact h
  have := sco_event_switch_grows cfg ctl (sco_event_head w p event) p event base hh
  unfold bta_ag_sco_event
  cases hr : sco_event_switch cfg ctl (sco_event_head w p event) p event with
  | none => trivial
  | some r =>
    rw [hr] at this
    obtain ⟨w1, cn⟩ := r
    cases cn with
    | none => exact this
    | some c =>
      have h1 : Grows base w1.out := this
      show WhenSome _ (codec_negotiate_via (sco_event_nested cfg ctl) cfg w1 c)
      unfold codec_negotiate_via
      simp only []
      split_ifs
      · simp only [World.setScb, World.emit, World.setCurr, whenSome_some]
        exact grows_snoc _ (grows_snoc _ (grows_snoc _ h1 rfl) rfl) rfl
      · unfold sco_codec_nego_via
        simp only [↓reduceIte]
        exact sco_event_nested_grows cfg ctl _ c _ base h1

/-- `bta_ag_sco_codec_nego` does not call the application callback. -/
theorem sco_codec_nego_grows (cfg : Cfg) (ctl : Ctl) (base : List Action) (w : World)
    (p : Nat) (result : Bool) (h : Grows base w.out) :
    WhenSome (fun w1 => Grows base w1.out) (bta_ag_sco_codec_nego cfg ctl w p result) := by
  unfold bta_ag_sco_codec_nego sco_codec_nego_via
  split_ifs
  · exact sco_event_grows cfg ctl base _ p _ h
  · exact sco_event_grows cfg ctl base w p _ h

/-- The switch of `bta_ag_sco_event` returns unless it reads through a slot that
is `NULL`: the transfer slot on a connection close in the transfer states, the
current slot on a transfer request in the open state. -/
theorem sco_event_switch_returns (cfg : Cfg) (ctl : Ctl) (w : World) (p : Nat)
    (event : ScoEvent)
    (hx : event = BTA_AG_SCO_CONN_CLOSE_E →
      (w.sco.state = BTA_AG_SCO_OPEN_XFER_ST ∨ w.sco.state = BTA_AG_SCO_CLOSE_XFER_ST) →
      w.sco.p_xfer_scb ≠ none)
    (hc : event = BTA_AG_SCO_XFER_E → w.sco.state = BTA_AG_SCO_OPEN_ST →
      w.sco.p_curr_scb ≠ none) :
    ∃ r, sco_event_switch cfg ctl w p event = some r := by
  unfold sco_event_switch
  cases hw : cfg.BTM_WBS_INCLUDED <;> cases hs : w.sco.state <;> simp only [hs] <;>
    cases event <;>
    simp [sco_shutdown_st, sco_listen_st, sco_codec_st, sco_opening_st, sco_open_cl_st,
      sco_open_xfer_st, sco_open_st, sco_closing_st, sco_close_op_st, sco_close_xfer_st,
      sco_shutting_st, sco_ignore, hw, hs] at hx hc ⊢
  all_goals
    first
    | (split_ifs <;> simp; done)
    | (cases hq : w.sco.p_xfer_scb <;> simp [hq] at hx ⊢; done)
    | (cases hq : w.sco.p_curr_scb <;> simp [hq] at hc ⊢; done)

/-- `bta_ag_sco_event` returns unless it reads through a slot that is `NULL`. -/
theorem sco_event_returns (cfg : Cfg) (ctl : Ctl) (w : World) (p : Nat) (event : ScoEvent)
    (hx : event = BTA_AG_SCO_CONN_CLOSE_E →
      (w.sco.state = BTA_AG_SCO_OPEN_XFER_ST ∨ w.sco.state = BTA_AG_SCO_CLOSE_XFER_ST) →
      w.sco.p_xfer_scb ≠ none)
    (hc : event = BTA_AG_SCO_XFER_E → w.sco.state = BTA_AG_SCO_OPEN_ST →
      w.sco.p_curr_scb ≠ none) :
    ∃ w1, bta_ag_sco_event cfg ctl w p event = some w1 := by
  obtain ⟨r, hr⟩ := sco_event_switch_returns cfg ctl (sco_event_head w p event) p event
    (by rw [sco_event_head_sco]; exact hx) (by rw [sco_event_head_sco]; exact hc)
  obtain ⟨w1, cn⟩ := r
  unfold bta_ag_sco_event
  rw [hr]
  cases cn with
  | none => exact ⟨w1, rfl⟩
  | some c =>
    show ∃ w2, codec_negotiate_via (sco_event_nested cfg ctl) cfg w1 c = some w2
    unfold codec_negotiate_via
    simp only []
    split_ifs
    · exact ⟨_, rfl⟩
    · unfold sco_codec_nego_via sco_event_nested
      simp only [↓reduceIte]
      obtain ⟨r2, hr2⟩ := sco_event_switch_returns cfg ctl
        (sco_event_head ((w1.setCurr (some c)).setScb c
          { (w1.setCurr (some c)).scb c with codec_updated := false }) c BTA_AG_SCO_CN_DONE_E)
        c BTA_AG_SCO_CN_DONE_E (by simp) (by simp)
      rw [hr2]
      exact ⟨_, rfl⟩

/-! ## Fields of the control blocks that the file never writes -/

/-- `bta_ag_create_sco` leaves the static fields alone. -/
theorem create_sco_keeps_static (cfg : Cfg) (ctl : Ctl) (w : World) (p : Nat) (o : Bool)
    (s : tBTA_AG_SCB) (q : Nat) (h : SameStatic s (w.scb q)) :
    SameStatic s ((bta_ag_create_sco cfg ctl w p o).scb q) := by
  unfold SameStatic at *
  simpa using h

/-- `bta_ag_remove_sco` leaves the static fields alone. -/
theorem remove_sco_keeps_static (st : tBTM_STATUS) (w : World) (p : Nat) (a : Bool)
    (s : tBTA_AG_SCB) (q : Nat) (h : SameStatic s (w.scb q)) :
    SameStatic s ((bta_ag_remove_sco st w p a).1.scb q) := by
  unfold SameStatic at *
  simpa using h

/-- `bta_ag_sco_conn_rsp` leaves the static fields alone. -/
theorem conn_rsp_keeps_static (cfg : Cfg) (w : World) (p : Nat)
    (d : tBTM_ESCO_CONN_REQ_EVT_DATA) (s : tBTA_AG_SCB) (q : Nat)
    (h : SameStatic s (w.scb q)) : SameStatic s ((bta_ag_sco_conn_rsp cfg w p d).scb q) := by
  unfold SameStatic at *
  simpa using h

/-- `bta_ag_create_pending_sco` leaves the static fields alone. -/
theorem create_pending_sco_keeps_static (cfg : Cfg) (ctl : Ctl) (w : World) (p : Nat)
    (l : Bool) (s : tBTA_AG_SCB) (q : Nat) (h : SameStatic s (w.scb q)) :
    SameStatic s ((bta_ag_create_pending_sco cfg ctl w p l).scb q) := by
  unfold SameStatic at *
  simpa using h

/-- Writing a control block without touching its static fields. -/
theorem sameStatic_update (f : Nat → tBTA_AG_SCB) (p : Nat) (s : tBTA_AG_SCB) (q : Nat)
    (t : tBTA_AG_SCB) (ht : SameStatic s (f p) → SameStatic s t) (h : SameStatic s (f q)) :
    SameStatic s (Function.update f p t q) := by
  by_cases hq : q = p
  · subst hq
    simpa using ht h
  · simpa [Function.update_noteq hq] using h

/-- The switch of `bta_ag_sco_event` leaves the static fields alone. -/
theorem sco_event_switch_keeps_static (cfg : Cfg) (ctl : Ctl) (w : World) (p : Nat)
    (event : ScoEvent) (s : tBTA_AG_SCB) (q : Nat) (h : SameStatic s (w.scb q)) :
    WhenSwitched (fun w1 => SameStatic s (w1.scb q)) (sco_event_switch cfg ctl w p event) := by
  unfold sco_event_switch
  cases hs : w.sco.state <;> simp only [hs] <;> cases event <;>
    simp [sco_shutdown_st, sco_listen_st, sco_codec_st, sco_opening_st, sco_open_cl_st,
      sco_open_xfer_st, sco_open_st, sco_closing_st, sco_close_op_st, sco_close_xfer_st,
      sco_shutting_st, sco_ignore, sco_shutdown_listening, sco_shutdown_or_remove,
      sco_shutting_next, sco_shutting_clear, sco_listen_additional, h]
  all_goals
    repeat' (first
      | exact h
      | trivial
      | apply create_sco_keeps_static
      | apply remove_sco_keeps_static
      | apply conn_rsp_keeps_static
      | apply create_pending_sco_keeps_static
      | refine sameStatic_update _ _ _ _ _ ?_ ?_
      | (intro hb; simpa [SameStatic] using hb)
      | split
      | intro _)

/-- The nested delivery leaves the static fields alone. -/
theorem sco_event_nested_keeps_static (cfg : Cfg) (ctl : Ctl) (w : World) (p : Nat)
    (event : ScoEvent) (s : tBTA_AG_SCB) (q : Nat) (h : SameStatic s (w.scb q)) :
    WhenSome (fun w1 => SameStatic s (w1.scb q)) (sco_event_nested cfg ctl w p event) := by
  have hh : SameStatic s ((sco_event_head w p event).scb q) := by
    rw [sco_event_head_scb]; exact h
  have := sco_event_switch_keeps_static cfg ctl (sco_event_head w p event) p event s q hh
  unfold sco_event_nested
  cases hr : sco_event_switch cfg ctl (sco_event_head w p event) p event with
  | none => trivial
  | some r =>
    rw [hr] at this
    exact this

/-- `bta_ag_sco_event` leaves the static fields alone. -/
theorem sco_event_keeps_static (cfg : Cfg) (ctl : Ctl) (s : tBTA_AG_SCB) (q : Nat) (w : World)
    (p : Nat) (event : ScoEvent) (h : SameStatic s (w.scb q)) :
    WhenSome (fun w1 => SameStatic s (w1.scb q)) (bta_ag_sco_event cfg ctl w p event) := by
  have hh : SameStatic s ((sco_event_head w p event).scb q) := by
    rw [sco_event_head_scb]; exact h
  have := sco_event_switch_keeps_static cfg ctl (sco_event_head w p event) p event s q hh
  unfold bta_ag_sco_event
  cases hr : sco_event_switch cfg ctl (sco_event_head w p event) p event with
  | none => trivial
  | some r =>
    rw [hr] at this
    obtain ⟨w1, cn⟩ := r
    cases cn with
    | none => exact this
    | some c =>
      have h1 : SameStatic s (w1.scb q) := this
      show WhenSome _ (codec_negotiate_via (sco_event_nested cfg ctl) cfg w1 c)
      unfold codec_negotiate_via
      simp only []
      split_ifs
      · simp only [World.setScb, World.emit, World.setCurr, whenSome_some]
        exact sameStatic_update _ _ _ _ _ (fun hb => by simpa [SameStatic] using hb) h1
      · unfold sco_codec_nego_via
        simp only [↓reduceIte]
        refine sco_event_nested_keeps_static cfg ctl _ c _ s q ?_
        simp only [World.setScb, World.setCurr]
        exact sameStatic_update _ _ _ _ _ (fun hb => by simpa [SameStatic] using hb) h1

/-- Every control block has its own static fields. -/
theorem sameStatic_refl (s : tBTA_AG_SCB) : SameStatic s s := by
  simp [SameStatic]

/-! ## C21, C22, C23: the entry points of the connection events -/

/-- What `WhenSome` says of an operation that returns. -/
theorem whenSome_of_eq {P : World → Prop} {r : Option World} {w : World} (h : WhenSome P r)
    (hr : r = some w) : P w := by
  subst hr
  exact h

/-- The reporting branch of `bta_ag_sco_conn_close` returns when the event
does, calls the application callback exactly once, with
`BTA_AG_AUDIO_CLOSE_EVT`, the handle and the `app_id` of the block, and resets
the mSBC settings to T2 when wideband is built in. -/
theorem conn_close_report_emits (cfg : Cfg) (ctl : Ctl) (w : World) (p : Nat)
    (hx : (w.sco.state = BTA_AG_SCO_OPEN_XFER_ST ∨ w.sco.state = BTA_AG_SCO_CLOSE_XFER_ST) →
      w.sco.p_xfer_scb ≠ none) :
    ∃ w2, sco_conn_close_report cfg ctl w p = some w2 ∧
      (∃ l, w2.out = w.out ++ l ∧
        l.filter IsCback =
          [Action.p_cback BTA_AG_AUDIO_CLOSE_EVT (bta_ag_scb_to_idx p) (w.scb p).app_id]) ∧
      (cfg.BTM_WBS_INCLUDED = true →
        (w2.scb p).codec_msbc_settings = BTA_AG_SCO_MSBC_SETTINGS_T2) := by
  have key : ∀ wa : World, wa.scb = w.scb → wa.sco = w.sco →
      (∃ a, wa.out = w.out ++ [a] ∧ IsCback a = false) →
      ∃ w1, bta_ag_sco_event cfg ctl wa p BTA_AG_SCO_CONN_CLOSE_E = some w1 ∧
        Grows w.out w1.out ∧ SameStatic (w.scb p) (w1.scb p) := by
    intro wa hscb hsco hout
    obtain ⟨w1, h1⟩ := sco_event_returns cfg ctl wa p BTA_AG_SCO_CONN_CLOSE_E
      (fun _ => by rw [hsco]; exact hx) (by simp)
    obtain ⟨a, ha, hc⟩ := hout
    have hg := whenSome_of_eq (sco_event_grows cfg ctl w.out wa p BTA_AG_SCO_CONN_CLOSE_E
      (by rw [ha]; exact grows_snoc a (grows_refl w.out) hc)) h1
    have hs := whenSome_of_eq (sco_event_keeps_static cfg ctl (w.scb p) p wa p
      BTA_AG_SCO_CONN_CLOSE_E (by rw [hscb]; exact sameStatic_refl _)) h1
    exact ⟨w1, h1, hg, hs⟩
  unfold sco_conn_close_report
  simp only []
  obtain ⟨w1, h1, ⟨l2, e2, f2⟩, hs⟩ := key
    (w.emit (Action.bta_ag_co_audio_state (bta_ag_scb_to_idx p) (w.scb p).app_id
      (if w.sco.p_xfer_scb ≠ none then SCO_STATE_OFF_TRANSFER else SCO_STATE_OFF)
      (co_codec cfg (w.scb p).inuse_codec))) rfl rfl ⟨_, rfl, rfl⟩
  rw [h1]
  refine ⟨_, rfl, ?_, ?_⟩
  · simp only [World.setScb, World.emit, bta_ag_cback_sco]
    split_ifs <;> simp [e2, f2, hs.2.2.1, List.filter_append, IsCback]
  · intro hw
    simp [hw]

/-- C21: `bta_ag_sco_conn_close` (wideband built in) first clears `p_curr_scb`
and sets the index of the block to invalid, then runs the retry policy on the
world so prepared, and clears `retry_with_sco_only` at the end.  If
`codec_fallback` and `svc_conn` are set, or `svc_conn` is set with `sco_codec`
mSBC and settings T1, it delivers `BTA_AG_SCO_REOPEN_E`; else if
`retry_with_sco_only` and `svc_conn` are set it starts a new originate; else it
runs the reporting branch, which delivers `BTA_AG_SCO_CONN_CLOSE_E`, calls the
application callback exactly once with `BTA_AG_AUDIO_CLOSE_EVT`, the handle and
the `app_id` of the block, and resets the settings to T2.  The first two cases
return without any call of the application callback. -/
theorem conn_close_retry_policy (cfg : Cfg) (ctl : Ctl) (w : World) (p : Nat)
    (hwbs : cfg.BTM_WBS_INCLUDED = true) :
    ((((w.scb p).codec_fallback = true ∧ (w.scb p).svc_conn = true) ∨
        ((w.scb p).svc_conn = true ∧ (w.scb p).sco_codec = BTA_AG_CODEC_MSBC ∧
          (w.scb p).codec_msbc_settings = BTA_AG_SCO_MSBC_SETTINGS_T1)) →
      bta_ag_sco_conn_close cfg ctl w p =
        (bta_ag_sco_event cfg ctl
          ((w.setCurr none).setScb p { w.scb p with sco_idx := BTM_INVALID_SCO_INDEX }) p
          BTA_AG_SCO_REOPEN_E).map
          (fun w2 => w2.setScb p { w2.scb p with retry_with_sco_only := false }) ∧
      ∃ w2, bta_ag_sco_conn_close cfg ctl w p = some w2 ∧ Grows w.out w2.out) ∧
    (¬(((w.scb p).codec_fallback = true ∧ (w.scb p).svc_conn = true) ∨
        ((w.scb p).svc_conn = true ∧ (w.scb p).sco_codec = BTA_AG_CODEC_MSBC ∧
          (w.scb p).codec_msbc_settings = BTA_AG_SCO_MSBC_SETTINGS_T1)) →
      ((w.scb p).retry_with_sco_only = true ∧ (w.scb p).svc_conn = true →
        ∃ w2, bta_ag_sco_conn_close cfg ctl w p = some w2 ∧
          w2 = (fun w3 : World => w3.setScb p { w3.scb p with retry_with_sco_only := false })
            (bta_ag_create_sco cfg ctl
              ((w.setCurr none).setScb p { w.scb p with sco_idx := BTM_INVALID_SCO_INDEX })
              p true) ∧
          w2.sco.p_curr_scb = some p ∧ (w2.scb p).sco_idx = BTM_INVALID_SCO_INDEX ∧
          w2.log = w.log ∧ Grows w.out w2.out) ∧
      (¬((w.scb p).retry_with_sco_only = true ∧ (w.scb p).svc_conn = true) →
        bta_ag_sco_conn_close cfg ctl w p =
          (sco_conn_close_report cfg ctl
            ((w.setCurr none).setScb p { w.scb p with sco_idx := BTM_INVALID_SCO_INDEX })
            p).map
            (fun w2 => w2.setScb p { w2.scb p with retry_with_sco_only := false }) ∧
        (((w.sco.state = BTA_AG_SCO_OPEN_XFER_ST ∨ w.sco.state = BTA_AG_SCO_CLOSE_XFER_ST) →
            w.sco.p_xfer_scb ≠ none) →
          ∃ w2, bta_ag_sco_conn_close cfg ctl w p = some w2 ∧
            (∃ l, w2.out = w.out ++ l ∧
              l.filter IsCback =
                [Action.p_cback BTA_AG_AUDIO_CLOSE_EVT (bta_ag_scb_to_idx p)
                  (w.scb p).app_id]) ∧
            (w2.scb p).codec_msbc_settings = BTA_AG_SCO_MSBC_SETTINGS_T2 ∧
            (w2.scb p).retry_with_sco_only = false))) := by
  refine ⟨?_, ?_⟩
  · intro h
    have e : bta_ag_sco_conn_close cfg ctl w p =
        (bta_ag_sco_event cfg ctl
          ((w.setCurr none).setScb p { w.scb p with sco_idx := BTM_INVALID_SCO_INDEX }) p
          BTA_AG_SCO_REOPEN_E).map
          (fun w2 => w2.setScb p { w2.scb p with retry_with_sco_only := false }) := by
      unfold bta_ag_sco_conn_close
      simp only [World.setScb, World.setCurr, Function.update_same]
      rw [if_pos]
      rcases h with h | h
      · exact ⟨hwbs, Or.inl h⟩
      · exact ⟨hwbs, Or.inr (by simp [bta_ag_attempt_msbc_safe_settings, h])⟩
    refine ⟨e, ?_⟩
    obtain ⟨w1, h1⟩ := sco_event_returns cfg ctl
      ((w.setCurr none).setScb p { w.scb p with sco_idx := BTM_INVALID_SCO_INDEX }) p
      BTA_AG_SCO_REOPEN_E (by simp) (by simp)
    have hg := whenSome_of_eq (sco_event_grows cfg ctl w.out
      ((w.setCurr none).setScb p { w.scb p with sco_idx := BTM_INVALID_SCO_INDEX }) p
      BTA_AG_SCO_REOPEN_E (grows_refl w.out)) h1
    rw [e, h1]
    exact ⟨_, rfl, hg⟩
  · intro h
    have hn : ¬(cfg.BTM_WBS_INCLUDED = true ∧
        (((w.scb p).codec_fallback = true ∧ (w.scb p).svc_conn = true) ∨
          bta_ag_attempt_msbc_safe_settings
            { w.scb p with sco_idx := BTM_INVALID_SCO_INDEX } = true)) := by
      rintro ⟨_, h1 | h1⟩
      · exact h (Or.inl h1)
      · exact h (Or.inr (by simpa [bta_ag_attempt_msbc_safe_settings, and_assoc] using h1))
    refine ⟨?_, ?_⟩
    · intro hr
      have e : bta_ag_sco_conn_close cfg ctl w p =
          some ((fun w3 : World =>
              w3.setScb p { w3.scb p with retry_with_sco_only := false })
            (bta_ag_create_sco cfg ctl
              ((w.setCurr none).setScb p { w.scb p with sco_idx := BTM_INVALID_SCO_INDEX })
              p true)) := by
        unfold bta_ag_sco_conn_close
        simp only [World.setScb, World.setCurr, Function.update_same]
        rw [if_neg hn, if_pos hr]
        rfl
      refine ⟨_, e, rfl, ?_, ?_, ?_, ?_⟩
      · simp [(create_sco_sco _ _ _ _ _).2.2.2.2.2.1]
      · simp [(create_sco_orig_scb _ _ _ _ _).1]
      · simp [(create_sco_orig_out cfg ctl _ p _).2]
      · simp only [World.setScb]
        exact create_sco_grows cfg ctl _ p true w.out (grows_refl w.out)
    · intro hr
      have e : bta_ag_sco_conn_close cfg ctl w p =
          (sco_conn_close_report cfg ctl
            ((w.setCurr none).setScb p { w.scb p with sco_idx := BTM_INVALID_SCO_INDEX })
            p).map
            (fun w2 => w2.setScb p { w2.scb p with retry_with_sco_only := false }) := by
        unfold bta_ag_sco_conn_close
        simp only [World.setScb, World.setCurr, Function.update_same]
        rw [if_neg hn, if_neg hr]
      refine ⟨e, ?_⟩
      intro hx
      obtain ⟨w2, h2, ⟨l, hl, fl⟩, t2⟩ := conn_close_report_emits cfg ctl
        ((w.setCurr none).setScb p { w.scb p with sco_idx := BTM_INVALID_SCO_INDEX }) p hx
      rw [e, h2]
      refine ⟨_, rfl, ⟨l, by simpa using hl, by simpa using fl⟩, ?_, ?_⟩
      · simpa using t2 hwbs
      · simp

/-- Witness for C21: the link of block 0 of the closing pool was open; its
closing is reported. -/
theorem conn_close_retry_policy_witness :
    ∃ w2, bta_ag_sco_conn_close exampleCfg (ctlStarted 8) worldOpenClosing 0 = some w2 ∧
      (∃ l, w2.out = worldOpenClosing.out ++ l ∧
        l.filter IsCback = [Action.p_cback BTA_AG_AUDIO_CLOSE_EVT 1 1]) ∧
      (w2.scb 0).codec_msbc_settings = BTA_AG_SCO_MSBC_SETTINGS_T2 := by
  obtain ⟨w2, h, l, t, _⟩ :=
    (((conn_close_retry_policy exampleCfg (ctlStarted 8) worldOpenClosing 0 rfl).2
      (by decide)).2 (by decide)).2 (by decide)
  exact ⟨w2, h, l, t⟩

/-- The event `BTA_AG_SCO_CONN_OPEN_E`: it is always handled without reading a
slot, never ends in the opening state, and writes no retry flag. -/
theorem conn_open_event (cfg : Cfg) (ctl : Ctl) (w : World) (p : Nat) :
    ∃ w1, bta_ag_sco_event cfg ctl w p BTA_AG_SCO_CONN_OPEN_E = some w1 ∧
      (∀ q, (w1.scb q).codec_fallback = (w.scb q).codec_fallback ∧
        (w1.scb q).retry_with_sco_only = (w.scb q).retry_with_sco_only ∧
        (w1.scb q).codec_msbc_settings = (w.scb q).codec_msbc_settings ∧
        (w1.scb q).inuse_codec = (w.scb q).inuse_codec ∧
        SameStatic (w.scb q) (w1.scb q)) ∧
      w1.sco.p_xfer_scb = w.sco.p_xfer_scb ∧ w1.sco.state ≠ BTA_AG_SCO_OPENING_ST ∧
      (w1.sco.state = w.sco.state ∨
        (w.sco.state = BTA_AG_SCO_OPENING_ST ∧ w1.sco.state = BTA_AG_SCO_OPEN_ST) ∨
        (w.sco.state = BTA_AG_SCO_OPEN_CL_ST ∧ w1.sco.state = BTA_AG_SCO_CLOSING_ST)) ∧
      Grows w.out w1.out := by
  obtain ⟨w1, h1⟩ := sco_event_returns cfg ctl w p BTA_AG_SCO_CONN_OPEN_E (by simp) (by simp)
  have hg := whenSome_of_eq (sco_event_grows cfg ctl w.out w p BTA_AG_SCO_CONN_OPEN_E
    (grows_refl w.out)) h1
  have hst := fun q => whenSome_of_eq (sco_event_keeps_static cfg ctl (w.scb q) q w p
    BTA_AG_SCO_CONN_OPEN_E (sameStatic_refl _)) h1
  refine ⟨w1, h1, ?_, ?_, ?_, ?_, hg⟩
  · intro q
    refine ⟨?_, ?_, ?_, ?_, hst q⟩ <;>
    · cases hw : cfg.BTM_WBS_INCLUDED <;> cases hs : w.sco.state <;>
        simp [bta_ag_sco_event, sco_event_switch, sco_event_head, hs, hw,
          sco_shutdown_st, sco_listen_st, sco_codec_st, sco_opening_st, sco_open_cl_st,
          sco_open_xfer_st, sco_open_st, sco_closing_st, sco_close_op_st, sco_close_xfer_st,
          sco_shutting_st, sco_ignore] at h1 <;>
        subst h1 <;> simp
  all_goals
    cases hw : cfg.BTM_WBS_INCLUDED <;> cases hs : w.sco.state <;>
      simp [bta_ag_sco_event, sco_event_switch, sco_event_head, hs, hw,
        sco_shutdown_st, sco_listen_st, sco_codec_st, sco_opening_st, sco_open_cl_st,
        sco_open_xfer_st, sco_open_st, sco_closing_st, sco_close_op_st, sco_close_xfer_st,
        sco_shutting_st, sco_ignore] at h1 <;>
      subst h1 <;> simp [hs]

/-- What `bta_ag_sco_conn_open` does: it always returns, calls the application
callback exactly once, with `BTA_AG_AUDIO_OPEN_EVT`, the handle and the
`app_id` of the block, clears `retry_with_sco_only` of the block and resets its
settings to T2 when wideband is built in; it writes `codec_fallback` of no
block, keeps the transfer slot, and never ends in the opening state. -/
theorem conn_open_result (cfg : Cfg) (ctl : Ctl) (w : World) (p : Nat) :
    ∃ w1, bta_ag_sco_conn_open cfg ctl w p = some w1 ∧
      (∃ l, w1.out = w.out ++ l ∧
        l.filter IsCback =
          [Action.p_cback BTA_AG_AUDIO_OPEN_EVT (bta_ag_scb_to_idx p) (w.scb p).app_id]) ∧
      (w1.scb p).retry_with_sco_only = false ∧
      (cfg.BTM_WBS_INCLUDED = true →
        (w1.scb p).codec_msbc_settings = BTA_AG_SCO_MSBC_SETTINGS_T2) ∧
      (cfg.BTM_WBS_INCLUDED = false →
        (w1.scb p).codec_msbc_settings = (w.scb p).codec_msbc_settings) ∧
      (∀ q, (w1.scb q).codec_fallback = (w.scb q).codec_fallback) ∧
      (∀ q, SameStatic (w.scb q) (w1.scb q)) ∧
      w1.sco.p_xfer_scb = w.sco.p_xfer_scb ∧ w1.sco.state ≠ BTA_AG_SCO_OPENING_ST ∧
      (w1.sco.state = w.sco.state ∨ w1.sco.state = BTA_AG_SCO_OPEN_ST ∨
        w1.sco.state = BTA_AG_SCO_CLOSING_ST) := by
  obtain ⟨w0, h0, hq, hxf, hno, hst, l2, e2, f2⟩ := conn_open_event cfg ctl w p
  unfold bta_ag_sco_conn_open
  rw [h0]
  refine ⟨_, rfl, ?_, ?_, ?_, ?_, ?_, ?_, ?_, ?_, ?_⟩
  · refine ⟨l2 ++ [Action.bta_sys_sco_open (w0.scb p).app_id (w0.scb p).peer_addr,
      Action.bta_ag_co_audio_state (bta_ag_scb_to_idx p) (w0.scb p).app_id SCO_STATE_ON
        (co_codec cfg (w0.scb p).inuse_codec),
      Action.p_cback BTA_AG_AUDIO_OPEN_EVT (bta_ag_scb_to_idx p) (w0.scb p).app_id], ?_, ?_⟩
    · cases hw : cfg.BTM_WBS_INCLUDED <;>
        simp [World.setScb, World.emit, bta_ag_cback_sco, e2]
    · have ha := (hq p).2.2.2.2.2.2.1
      simp [List.filter_append, f2, IsCback, ha]
  · cases hw : cfg.BTM_WBS_INCLUDED <;> simp [World.setScb, World.emit, bta_ag_cback_sco]
  · intro hw
    simp [World.setScb, World.emit, bta_ag_cback_sco, hw]
  · intro hw
    simp [World.setScb, World.emit, bta_ag_cback_sco, hw, (hq p).2.2.1]
  · intro q
    rw [← (hq q).1]
    cases hw : cfg.BTM_WBS_INCLUDED <;>
      by_cases hqp : q = p <;> simp [World.setScb, World.emit, bta_ag_cback_sco, hqp]
  · intro q
    have hs := (hq q).2.2.2.2
    cases hw : cfg.BTM_WBS_INCLUDED <;>
      by_cases hqp : q = p <;>
      simp [World.setScb, World.emit, bta_ag_cback_sco, hqp] <;>
      first
        | exact hs
        | (subst hqp; simpa [SameStatic] using hs)
  · cases hw : cfg.BTM_WBS_INCLUDED <;>
      simp [World.setScb, World.emit, bta_ag_cback_sco, hxf]
  · cases hw : cfg.BTM_WBS_INCLUDED <;>
      simpa [World.setScb, World.emit, bta_ag_cback_sco] using hno
  · cases hw : cfg.BTM_WBS_INCLUDED <;>
      simp only [World.setScb, World.emit, bta_ag_cback_sco, Bool.false_eq_true, if_false,
        if_true] <;>
      rcases hst with h | h | h
    all_goals first
      | exact Or.inl h
      | exact Or.inr (Or.inl h.2)
      | exact Or.inr (Or.inr h.2)

/-- A disconnect reported outside the opening state: `bta_ag_sco_disc_cback`
writes no retry flag and no setting, keeps the transfer slot, calls no
application callback, and leaves the state as it is or at shutdown. -/
theorem disc_cback_outside_opening (cfg : Cfg) (w : World) (idx : Nat)
    (h : w.sco.state ≠ BTA_AG_SCO_OPENING_ST) :
    (∀ q, ((bta_ag_sco_disc_cback cfg w idx).scb q).codec_fallback = (w.scb q).codec_fallback ∧
      ((bta_ag_sco_disc_cback cfg w idx).scb q).retry_with_sco_only =
        (w.scb q).retry_with_sco_only ∧
      ((bta_ag_sco_disc_cback cfg w idx).scb q).codec_msbc_settings =
        (w.scb q).codec_msbc_settings ∧
      SameStatic (w.scb q) ((bta_ag_sco_disc_cback cfg w idx).scb q)) ∧
    (bta_ag_sco_disc_cback cfg w idx).sco.p_xfer_scb = w.sco.p_xfer_scb ∧
    ((bta_ag_sco_disc_cback cfg w idx).sco.state = w.sco.state ∨
      (bta_ag_sco_disc_cback cfg w idx).sco.state = BTA_AG_SCO_SHUTDOWN_ST) ∧
    Grows w.out (bta_ag_sco_disc_cback cfg w idx).out := by
  unfold bta_ag_sco_disc_cback
  cases hh : sco_disc_cback_handle w idx with
  | none => exact ⟨fun q => ⟨rfl, rfl, rfl, sameStatic_refl _⟩, rfl, Or.inl rfl, grows_refl _⟩
  | some handle =>
    simp only []
    by_cases h0 : handle = 0
    · subst h0
      simp only [ne_eq, not_true_eq_false, if_false]
      cases hc : w.sco.p_curr_scb with
      | none => exact ⟨fun q => ⟨rfl, rfl, rfl, sameStatic_refl _⟩, rfl, Or.inl rfl, grows_refl _⟩
      | some c =>
        refine ⟨fun q => ?_, rfl, Or.inr rfl, grows_refl _⟩
        by_cases hqc : q = c
        · subst hqc
          simp [World.setScb, World.setCurr, World.setState, SameStatic]
        · simp [World.setScb, World.setCurr, World.setState, hqc, sameStatic_refl]
    · simp only [ne_eq, h0, not_false_eq_true, if_true]
      cases hc : w.sco.p_curr_scb with
      | none => exact ⟨fun q => ⟨rfl, rfl, rfl, sameStatic_refl _⟩, rfl, Or.inl rfl, grows_refl _⟩
      | some c =>
        cases hw : cfg.BTM_WBS_INCLUDED
        · simp only [Bool.false_eq_true, if_false]
          exact ⟨fun q => ⟨rfl, rfl, rfl, sameStatic_refl _⟩, rfl, Or.inl rfl,
            grows_snoc _ (grows_refl _) rfl⟩
        · have hw1 : bta_ag_sco_is_opening
              (if cfg.supports_enhanced_setup_synchronous_connection = false then
                w.emit (Action.BTM_WriteVoiceSettings BTM_VOICE_SETTING_CVSD)
              else w) c = false := by
            split_ifs <;> simp [bta_ag_sco_is_opening, World.emit, h]
          simp only [if_true, sco_disc_cback_restore, hw1, Bool.false_eq_true, if_false]
          refine ⟨fun q => ?_, ?_, ?_, ?_⟩
          · by_cases hqc : q = c
            · subst hqc
              split_ifs <;> simp [World.setScb, World.emit, SameStatic]
            · split_ifs <;> simp [World.setScb, World.emit, hqc, sameStatic_refl]
          · split_ifs <;> rfl
          · split_ifs <;> exact Or.inl rfl
          · split_ifs
            · exact grows_snoc _ (grows_snoc _ (grows_refl _) rfl) rfl
            · exact grows_snoc _ (grows_refl _) rfl
            · exact grows_snoc _ (grows_refl _) rfl

/-- The facts of `disc_cback_outside_opening` for an optional disconnect. -/
theorem discThen_outside_opening (cfg : Cfg) (w : World) (d : Option Nat)
    (h : w.sco.state ≠ BTA_AG_SCO_OPENING_ST) :
    (∀ q, ((discThen cfg w d).scb q).codec_fallback = (w.scb q).codec_fallback ∧
      ((discThen cfg w d).scb q).retry_with_sco_only = (w.scb q).retry_with_sco_only ∧
      ((discThen cfg w d).scb q).codec_msbc_settings = (w.scb q).codec_msbc_settings ∧
      SameStatic (w.scb q) ((discThen cfg w d).scb q)) ∧
    (discThen cfg w d).sco.p_xfer_scb = w.sco.p_xfer_scb ∧
    ((discThen cfg w d).sco.state = w.sco.state ∨
      (discThen cfg w d).sco.state = BTA_AG_SCO_SHUTDOWN_ST) ∧
    Grows w.out (discThen cfg w d).out := by
  cases d with
  | none => exact ⟨fun q => ⟨rfl, rfl, rfl, sameStatic_refl _⟩, rfl, Or.inl rfl, grows_refl _⟩
  | some idx => exact disc_cback_outside_opening cfg w idx h

/-- When neither retry applies, `bta_ag_sco_conn_close` returns (in the
transfer states: when the transfer slot is set) and calls the application
callback exactly once, with `BTA_AG_AUDIO_CLOSE_EVT`, the handle and the
`app_id` of the block. -/
theorem conn_close_reports (cfg : Cfg) (ctl : Ctl) (w : World) (p : Nat)
    (hn : ¬(cfg.BTM_WBS_INCLUDED = true ∧
        (((w.scb p).codec_fallback = true ∧ (w.scb p).svc_conn = true) ∨
          bta_ag_attempt_msbc_safe_settings (w.scb p) = true)))
    (hr : ¬((w.scb p).retry_with_sco_only = true ∧ (w.scb p).svc_conn = true))
    (hx : (w.sco.state = BTA_AG_SCO_OPEN_XFER_ST ∨ w.sco.state = BTA_AG_SCO_CLOSE_XFER_ST) →
      w.sco.p_xfer_scb ≠ none) :
    ∃ w2, bta_ag_sco_conn_close cfg ctl w p = some w2 ∧
      ∃ l, w2.out = w.out ++ l ∧
        l.filter IsCback =
          [Action.p_cback BTA_AG_AUDIO_CLOSE_EVT (bta_ag_scb_to_idx p) (w.scb p).app_id] := by
  have e : bta_ag_sco_conn_close cfg ctl w p =
      (sco_conn_close_report cfg ctl
        ((w.setCurr none).setScb p { w.scb p with sco_idx := BTM_INVALID_SCO_INDEX })
        p).map
        (fun w2 => w2.setScb p { w2.scb p with retry_with_sco_only := false }) := by
    unfold bta_ag_sco_conn_close
    simp only [World.setScb, World.setCurr, Function.update_same]
    rw [if_neg, if_neg hr]
    simpa [bta_ag_attempt_msbc_safe_settings] using hn
  obtain ⟨w2, h2, ⟨l, el, fl⟩, _⟩ := conn_close_report_emits cfg ctl
    ((w.setCurr none).setScb p { w.scb p with sco_idx := BTM_INVALID_SCO_INDEX }) p hx
  rw [e, h2]
  refine ⟨_, rfl, l, ?_, ?_⟩
  · simpa [World.setScb, World.setCurr] using el
  · simpa [World.setScb, World.setCurr] using fl

/-- When `codec_fallback` and `svc_conn` are set (wideband built in),
`bta_ag_sco_conn_close` returns without a call of the application callback. -/
theorem conn_close_reopens (cfg : Cfg) (ctl : Ctl) (w : World) (p : Nat)
    (h : cfg.BTM_WBS_INCLUDED = true ∧ (w.scb p).codec_fallback = true ∧
      (w.scb p).svc_conn = true) :
    ∃ w2, bta_ag_sco_conn_close cfg ctl w p = some w2 ∧ Grows w.out w2.out := by
  have e : bta_ag_sco_conn_close cfg ctl w p =
      (bta_ag_sco_event cfg ctl
        ((w.setCurr none).setScb p { w.scb p with sco_idx := BTM_INVALID_SCO_INDEX }) p
        BTA_AG_SCO_REOPEN_E).map
        (fun w2 => w2.setScb p { w2.scb p with retry_with_sco_only := false }) := by
    unfold bta_ag_sco_conn_close
    simp only [World.setScb, World.setCurr, Function.update_same]
    rw [if_pos]
    exact ⟨h.1, Or.inl h.2⟩
  obtain ⟨w1, h1⟩ := sco_event_returns cfg ctl
    ((w.setCurr none).setScb p { w.scb p with sco_idx := BTM_INVALID_SCO_INDEX }) p
    BTA_AG_SCO_REOPEN_E (by simp) (by simp)
  have hg := whenSome_of_eq (sco_event_grows cfg ctl w.out
    ((w.setCurr none).setScb p { w.scb p with sco_idx := BTM_INVALID_SCO_INDEX }) p
    BTA_AG_SCO_REOPEN_E (grows_refl w.out)) h1
  rw [e, h1]
  exact ⟨_, rfl, hg⟩

/-- C22, evaluated: block 0 of the example pool originates with mSBC; the T2
attempt fails, the T1 attempt is reported connected and then lost before the
connection is handled, which sets `codec_fallback`.  `bta_ag_sco_conn_open`
then calls the callback with `BTA_AG_AUDIO_OPEN_EVT` for handle 1, and the
`bta_ag_sco_conn_close` that follows makes no call at all, where the claim has
one call with `BTA_AG_AUDIO_CLOSE_EVT`: the reopen event it delivers is ignored
in the open state, and the machine stays there without a current block. -/
theorem conn_close_after_open_emits_no_audio_close :
    producedBy exampleCfg examplePool runConnectedThenLost
        [(ctlStarted 7, Op.sco_conn_open 0)] =
      some ([Action.bta_sys_sco_open 1 0xA0,
          Action.bta_ag_co_audio_state 1 1 SCO_STATE_ON (some BTA_AG_CODEC_NONE),
          Action.p_cback BTA_AG_AUDIO_OPEN_EVT 1 1],
        [LogEntry.sco_evt 7 BTA_AG_SCO_OPENING_ST BTA_AG_SCO_CONN_OPEN_E]) ∧
    (producedBy exampleCfg examplePool
        (runConnectedThenLost ++ [(ctlStarted 7, Op.sco_conn_open 0)])
        [(ctlStarted 7, Op.sco_conn_close 0)]).map (fun r => r.1) = some [] ∧
    observeSco (runOps exampleCfg (initialWorld examplePool)
        (runConnectedThenLost ++
          [(ctlStarted 7, Op.sco_conn_open 0), (ctlStarted 7, Op.sco_conn_close 0)])) =
      some (BTA_AG_SCO_OPEN_ST, none, none) := by
  refine ⟨?_, ?_, ?_⟩ <;> decide

/-- Where the code reports the closing of an opened link:
`bta_ag_sco_conn_open` always returns and calls the application callback
exactly once, with `BTA_AG_AUDIO_OPEN_EVT` and the handle of the block.  The
`bta_ag_sco_conn_close` that follows it, directly or after the disconnect
callback, returns (in the transfer states: when the transfer slot is set) and
calls the callback exactly once, with `BTA_AG_AUDIO_CLOSE_EVT` and the same
handle, unless `codec_fallback` and `svc_conn` of the block were set when the
connection was handled (wideband built in); then it makes no call of the
callback. -/
theorem audio_close_once_unless_fallback (cfg : Cfg) (ctl1 ctl2 : Ctl) (w : World) (p : Nat)
    (d : Option Nat)
    (hx : (w.sco.state = BTA_AG_SCO_OPEN_XFER_ST ∨ w.sco.state = BTA_AG_SCO_CLOSE_XFER_ST) →
      w.sco.p_xfer_scb ≠ none) :
    ∃ w1, bta_ag_sco_conn_open cfg ctl1 w p = some w1 ∧
      (∃ l, w1.out = w.out ++ l ∧
        l.filter IsCback =
          [Action.p_cback BTA_AG_AUDIO_OPEN_EVT (bta_ag_scb_to_idx p) (w.scb p).app_id]) ∧
      ∃ w2, bta_ag_sco_conn_close cfg ctl2 (discThen cfg w1 d) p = some w2 ∧
        ∃ l, w2.out = (discThen cfg w1 d).out ++ l ∧
          l.filter IsCback =
            if cfg.BTM_WBS_INCLUDED = true ∧ (w.scb p).codec_fallback = true ∧
                (w.scb p).svc_conn = true then []
            else [Action.p_cback BTA_AG_AUDIO_CLOSE_EVT (bta_ag_scb_to_idx p)
              (w.scb p).app_id] := by
  obtain ⟨w1, h1, ho, hr, ht2, _, hf, hs, hxf, hno, hst⟩ := conn_open_result cfg ctl1 w p
  obtain ⟨hq, hxd, hsd, _⟩ := discThen_outside_opening cfg w1 d hno
  refine ⟨w1, h1, ho, ?_⟩
  have hfb : ((discThen cfg w1 d).scb p).codec_fallback = (w.scb p).codec_fallback := by
    rw [(hq p).1, hf p]
  have hsv : ((discThen cfg w1 d).scb p).svc_conn = (w.scb p).svc_conn := by
    rw [(hq p).2.2.2.2.1, (hs p).2.1]
  have hap : ((discThen cfg w1 d).scb p).app_id = (w.scb p).app_id := by
    rw [(hq p).2.2.2.2.2.1, (hs p).2.2.1]
  by_cases hc : cfg.BTM_WBS_INCLUDED = true ∧ (w.scb p).codec_fallback = true ∧
      (w.scb p).svc_conn = true
  · obtain ⟨w2, h2, l, el, fl⟩ := conn_close_reopens cfg ctl2 (discThen cfg w1 d) p
      ⟨hc.1, by rw [hfb]; exact hc.2.1, by rw [hsv]; exact hc.2.2⟩
    exact ⟨w2, h2, l, el, by rw [if_pos hc]; exact fl⟩
  · obtain ⟨w2, h2, l, el, fl⟩ := conn_close_reports cfg ctl2 (discThen cfg w1 d) p
      (by
        rintro ⟨hw, hh | hh⟩
        · exact hc ⟨hw, by rw [← hfb]; exact hh.1, by rw [← hsv]; exact hh.2⟩
        · have h3 := (hq p).2.2.1
          rw [ht2 hw] at h3
          simp [bta_ag_attempt_msbc_safe_settings, h3] at hh)
      (by
        rintro ⟨hh, _⟩
        rw [(hq p).2.1, hr] at hh
        cases hh)
      (by
        intro hstate
        rw [hxd, hxf]
        apply hx
        rcases hsd with e | e
        · rw [e] at hstate
          rcases hst with e1 | e1 | e1
          · rw [e1] at hstate
            exact hstate
          · rw [e1] at hstate
            simp at hstate
          · rw [e1] at hstate
            simp at hstate
        · rw [e] at hstate
          simp at hstate)
    exact ⟨w2, h2, l, el, by rw [if_neg hc, fl, hap]⟩

/-- The link of block 0 of the example pool is connected (no fallback is
pending) and then closed: one call for the opening, one for the closing. -/
theorem audio_close_once_after_plain_open :
    ∃ w1, bta_ag_sco_conn_open exampleCfg (ctlStarted 6) worldOpeningMsbc 0 = some w1 ∧
      (∃ l, w1.out = worldOpeningMsbc.out ++ l ∧
        l.filter IsCback = [Action.p_cback BTA_AG_AUDIO_OPEN_EVT 1 1]) ∧
      ∃ w2, bta_ag_sco_conn_close exampleCfg (ctlStarted 6)
          (discThen exampleCfg w1 (some 6)) 0 = some w2 ∧
        ∃ l, w2.out = (discThen exampleCfg w1 (some 6)).out ++ l ∧
          l.filter IsCback = [Action.p_cback BTA_AG_AUDIO_CLOSE_EVT 1 1] :=
  audio_close_once_unless_fallback exampleCfg (ctlStarted 6) (ctlStarted 6) worldOpeningMsbc 0
    (some 6) (by decide)

/-- C23, the claim as stated fails: in the run in which the link is reported
connected and at once lost, `codec_fallback` of block 0 is set when the
connection is handled, and it is still set after
`bta_ag_sco_conn_open` (the settings are back to T2, `retry_with_sco_only` is
clear). -/
theorem conn_open_leaves_codec_fallback_set :
    observeScb (runOps exampleCfg (initialWorld examplePool) runConnectedThenLost) 0 =
      some (2, BTA_AG_CODEC_NONE, BTA_AG_SCO_MSBC_SETTINGS_T1, true, false) ∧
    observeScb (runOps exampleCfg (initialWorld examplePool)
        (runConnectedThenLost ++ [(ctlStarted 7, Op.sco_conn_open 0)])) 0 =
      some (2, BTA_AG_CODEC_NONE, BTA_AG_SCO_MSBC_SETTINGS_T2, true, false) := by
  refine ⟨?_, ?_⟩ <;> decide

/-- C23, amended: `bta_ag_sco_conn_open` returns from every state; afterwards
`retry_with_sco_only` of the block is false and, wideband built in, its
`codec_msbc_settings` is T2 (without wideband the setting is not written);
`codec_fallback` of every block is what it was before the call. -/
theorem conn_open_clears_retry_and_settings (cfg : Cfg) (ctl : Ctl) (w : World) (p : Nat) :
    ∃ w1, bta_ag_sco_conn_open cfg ctl w p = some w1 ∧
      (w1.scb p).retry_with_sco_only = false ∧
      (cfg.BTM_WBS_INCLUDED = true →
        (w1.scb p).codec_msbc_settings = BTA_AG_SCO_MSBC_SETTINGS_T2) ∧
      (cfg.BTM_WBS_INCLUDED = false →
        (w1.scb p).codec_msbc_settings = (w.scb p).codec_msbc_settings) ∧
      ∀ q, (w1.scb q).codec_fallback = (w.scb q).codec_fallback := by
  obtain ⟨w1, h1, _, hr, ht2, hn, hf, _⟩ := conn_open_result cfg ctl w p
  exact ⟨w1, h1, hr, ht2, hn, hf⟩

/-! ## C24, C25: the disconnect callback -/

/-- C24, the claim as stated fails: block 0 of the example pool listens (no
block is current); a disconnect is reported, and the machine stays in the
listen state instead of going to shutdown. -/
theorem disc_without_current_keeps_state :
    observeSco (runOps exampleCfg (initialWorld examplePool)
        [(ctlStarted 5, Op.sco_listen 0)]) =
      some (BTA_AG_SCO_LISTEN_ST, none, none) ∧
    observeSco (runOps exampleCfg (initialWorld examplePool)
        [(ctlStarted 5, Op.sco_listen 0), (ctlStarted 5, Op.sco_disc_cback 5)]) =
      some (BTA_AG_SCO_LISTEN_ST, none, none) := by
  refine ⟨?_, ?_⟩ <;> decide

/-- C24, amended: when `bta_ag_sco_disc_cback` finds no matching block because
the current block is not in use, it sets the index of that block to invalid,
clears `p_curr_scb` and sets the state to shutdown, and does nothing else;
when there is no current block it changes nothing, the state included. -/
theorem disc_cback_recovers_only_with_current (cfg : Cfg) (w : World) (idx : Nat) :
    (∀ c, w.sco.p_curr_scb = some c → (w.scb c).in_use = false →
      bta_ag_sco_disc_cback cfg w idx =
          ((w.setScb c { w.scb c with sco_idx := BTM_INVALID_SCO_INDEX }).setCurr
            none).setState BTA_AG_SCO_SHUTDOWN_ST ∧
        (bta_ag_sco_disc_cback cfg w idx).sco.p_curr_scb = none ∧
        (bta_ag_sco_disc_cback cfg w idx).sco.state = BTA_AG_SCO_SHUTDOWN_ST ∧
        ((bta_ag_sco_disc_cback cfg w idx).scb c).sco_idx = BTM_INVALID_SCO_INDEX ∧
        (bta_ag_sco_disc_cback cfg w idx).out = w.out) ∧
    (w.sco.p_curr_scb = none → bta_ag_sco_disc_cback cfg w idx = w) := by
  refine ⟨?_, ?_⟩
  · intro c hc hu
    have e : bta_ag_sco_disc_cback cfg w idx =
        ((w.setScb c { w.scb c with sco_idx := BTM_INVALID_SCO_INDEX }).setCurr
          none).setState BTA_AG_SCO_SHUTDOWN_ST := by
      simp [bta_ag_sco_disc_cback, sco_disc_cback_handle, hc, hu]
    rw [e]
    exact ⟨rfl, rfl, rfl, by simp [World.setScb, World.setCurr, World.setState], rfl⟩
  · intro hc
    simp [bta_ag_sco_disc_cback, sco_disc_cback_handle, hc]

/-- Witness for C24: the current block 0 has been deallocated; and no block is
current at start-up. -/
theorem disc_cback_recovers_only_with_current_witness :
    ((bta_ag_sco_disc_cback exampleCfg worldCurrentFreed 6).sco.p_curr_scb = none ∧
      (bta_ag_sco_disc_cback exampleCfg worldCurrentFreed 6).sco.state =
        BTA_AG_SCO_SHUTDOWN_ST) ∧
    bta_ag_sco_disc_cback exampleCfg (initialWorld examplePool) 6 = initialWorld examplePool :=
  ⟨⟨((disc_cback_recovers_only_with_current exampleCfg worldCurrentFreed 6).1 0 rfl rfl).2.1,
      ((disc_cback_recovers_only_with_current exampleCfg worldCurrentFreed 6).1 0 rfl
        rfl).2.2.1⟩,
    (disc_cback_recovers_only_with_current exampleCfg (initialWorld examplePool) 6).2 rfl⟩

/-- C25: with the current block `c` in use, `bta_ag_sco_disc_cback` attributes
the disconnect of `idx` to `c` exactly when the index of `c` is `idx` or
`0xFFFF`; then the close message for the handle of `c` is the last thing
posted.  When the index of `c` is valid and differs from `idx`, the callback
returns the world unchanged: no field of any block, no state, nothing posted. -/
theorem disc_cback_attribution (cfg : Cfg) (w : World) (idx c : Nat)
    (hcur : w.sco.p_curr_scb = some c) (hin : (w.scb c).in_use = true) :
    (sco_disc_cback_handle w idx = some (bta_ag_scb_to_idx c) ↔
      ((w.scb c).sco_idx = idx ∨ (w.scb c).sco_idx = 0xFFFF)) ∧
    (((w.scb c).sco_idx = idx ∨ (w.scb c).sco_idx = 0xFFFF) →
      (bta_ag_sco_disc_cback cfg w idx).out.getLast? =
          some (Action.bta_sys_sendmsg BTA_AG_SCO_CLOSE_EVT (bta_ag_scb_to_idx c)) ∧
        (bta_ag_sco_disc_cback cfg w idx).sco = w.sco) ∧
    (¬((w.scb c).sco_idx = idx ∨ (w.scb c).sco_idx = 0xFFFF) →
      sco_disc_cback_handle w idx = none ∧ bta_ag_sco_disc_cback cfg w idx = w) := by
  have hno : ¬((w.scb c).sco_idx = idx ∨ (w.scb c).sco_idx = 0xFFFF) →
      sco_disc_cback_handle w idx = none := by
    intro h
    push_neg at h
    simp [sco_disc_cback_handle, hcur, hin, h.1, h.2]
  refine ⟨⟨?_, sco_disc_cback_handle_matched w idx c hcur hin⟩, ?_, ?_⟩
  · intro h
    by_contra hn
    rw [hno hn] at h
    cases h
  · intro h
    unfold bta_ag_sco_disc_cback
    rw [sco_disc_cback_handle_matched w idx c hcur hin h]
    cases hw : cfg.BTM_WBS_INCLUDED
    · simp [bta_ag_scb_to_idx, hcur, World.emit]
    · simp only [bta_ag_scb_to_idx, hcur, sco_disc_cback_restore]
      refine ⟨?_, ?_⟩
      · simp [World.emit]
      · simp only [ne_eq, Nat.add_eq_zero, one_ne_zero, and_false, not_false_eq_true, if_true]
        split_ifs <;> rfl
  · intro h
    refine ⟨hno h, ?_⟩
    unfold bta_ag_sco_disc_cback
    rw [hno h]

/-- Witness for C25: block 0 is current with index 6; the disconnect of
index 6 is attributed to it, the disconnect of index 9 changes nothing. -/
theorem disc_cback_attribution_witness :
    (bta_ag_sco_disc_cback exampleCfg worldOpeningMsbc 6).out.getLast? =
        some (Action.bta_sys_sendmsg BTA_AG_SCO_CLOSE_EVT 1) ∧
      bta_ag_sco_disc_cback exampleCfg worldOpeningMsbc 9 = worldOpeningMsbc :=
  ⟨((disc_cback_attribution exampleCfg worldOpeningMsbc 6 0 rfl rfl).2.1 (Or.inl rfl)).1,
    ((disc_cback_attribution exampleCfg worldOpeningMsbc 9 0 rfl rfl).2.2 (by decide)).2⟩

/-! ## C27, C28, C29: the entry points of the requests -/

/-- C27: `bta_ag_sco_open` behaves as `bta_ag_sco_event` with the transfer
event when there is a current block other than `p`, and as `bta_ag_sco_event`
with the open event when there is no current block or the current block is
`p`. -/
theorem sco_open_delivers_open_or_xfer (cfg : Cfg) (ctl : Ctl) (w : World) (p : Nat) :
    (∀ c, w.sco.p_curr_scb = some c → c ≠ p →
      bta_ag_sco_open cfg ctl w p = bta_ag_sco_event cfg ctl w p BTA_AG_SCO_XFER_E) ∧
    ((w.sco.p_curr_scb = none ∨ w.sco.p_curr_scb = some p) →
      bta_ag_sco_open cfg ctl w p = bta_ag_sco_event cfg ctl w p BTA_AG_SCO_OPEN_E) := by
  refine ⟨?_, ?_⟩
  · intro c hc hne
    simp [bta_ag_sco_open, hc, hne]
  · intro h
    rcases h with h | h <;> simp [bta_ag_sco_open, h]

/-- Witness for C27: block 0 is current; an open for block 1 is a transfer, an
open for block 0 is an open. -/
theorem sco_open_delivers_open_or_xfer_witness :
    bta_ag_sco_open exampleCfg (ctlStarted 5) worldOpeningMsbc 1 =
        bta_ag_sco_event exampleCfg (ctlStarted 5) worldOpeningMsbc 1 BTA_AG_SCO_XFER_E ∧
      bta_ag_sco_open exampleCfg (ctlStarted 5) worldOpeningMsbc 0 =
        bta_ag_sco_event exampleCfg (ctlStarted 5) worldOpeningMsbc 0 BTA_AG_SCO_OPEN_E :=
  ⟨(sco_open_delivers_open_or_xfer exampleCfg (ctlStarted 5) worldOpeningMsbc 1).1 0 rfl
      (by decide),
    (sco_open_delivers_open_or_xfer exampleCfg (ctlStarted 5) worldOpeningMsbc 0).2
      (Or.inr rfl)⟩

/-- C28: `bta_ag_sco_close` behaves as `bta_ag_sco_event` with the close event
when the index of the block is valid or (wideband built in) the machine is in
the codec state; in every other case it returns the world unchanged. -/
theorem sco_close_delivers_close_iff (cfg : Cfg) (ctl : Ctl) (w : World) (p : Nat) :
    (((w.scb p).sco_idx ≠ BTM_INVALID_SCO_INDEX ∨
        (cfg.BTM_WBS_INCLUDED = true ∧ w.sco.state = BTA_AG_SCO_CODEC_ST)) →
      bta_ag_sco_close cfg ctl w p = bta_ag_sco_event cfg ctl w p BTA_AG_SCO_CLOSE_E) ∧
    (¬((w.scb p).sco_idx ≠ BTM_INVALID_SCO_INDEX ∨
        (cfg.BTM_WBS_INCLUDED = true ∧ w.sco.state = BTA_AG_SCO_CODEC_ST)) →
      bta_ag_sco_close cfg ctl w p = some w) := by
  refine ⟨?_, ?_⟩
  · intro h
    unfold bta_ag_sco_close
    rw [if_pos h]
  · intro h
    unfold bta_ag_sco_close
    rw [if_neg h]

/-- Witness for C28: block 0 has the valid index 6, block 1 has none and the
machine is not in the codec state. -/
theorem sco_close_delivers_close_iff_witness :
    bta_ag_sco_close exampleCfg (ctlStarted 5) worldOpeningMsbc 0 =
        bta_ag_sco_event exampleCfg (ctlStarted 5) worldOpeningMsbc 0 BTA_AG_SCO_CLOSE_E ∧
      bta_ag_sco_close exampleCfg (ctlStarted 5) worldOpeningMsbc 1 = some worldOpeningMsbc :=
  ⟨(sco_close_delivers_close_iff exampleCfg (ctlStarted 5) worldOpeningMsbc 0).1
      (Or.inl (by decide)),
    (sco_close_delivers_close_iff exampleCfg (ctlStarted 5) worldOpeningMsbc 1).2 (by decide)⟩

/-! ## C26: the index of a control block -/

/-- The index of an originating connection can stay in a block that no slot
refers to as well: `bta_ag_sco_conn_close` clears `p_curr_scb` whatever block it
points to.  When it runs for block 1 while block 0 is opening with the index 6
of its originating connection, block 0 keeps the index 6 and `p_curr_scb` is
`NULL`; block 1 gets the listening connection 8. -/
theorem originating_index_outlives_reference :
    (runOps exampleCfg (initialWorld examplePool)
        (runToOpening ++ [(ctlStarted 8, Op.sco_conn_close 1)])).map
      (fun w => (w.sco.state, w.sco.p_curr_scb, w.sco.p_xfer_scb, (w.scb 0).sco_idx,
        (w.scb 1).sco_idx)) =
      some (BTA_AG_SCO_LISTEN_ST, none, none, 6, 8) := by
  decide

/-- In the opening state `bta_ag_ci_sco_open_continue` is
`bta_ag_create_pending_sco` on the world with the result stored and the event
traced. -/
theorem ci_sco_open_continue_opening (cfg : Cfg) (ctl : Ctl) (w : World) (p : Nat)
    (result : Nat) (hs : w.sco.state = BTA_AG_SCO_OPENING_ST) :
    bta_ag_ci_sco_open_continue cfg ctl w p result =
      some (bta_ag_create_pending_sco cfg ctl
        (({ w with sco := { w.sco with set_audio_status := result } } : World).trace
          (LogEntry.sco_evt (w.scb p).sco_idx BTA_AG_SCO_OPENING_ST BTA_AG_SCO_OPEN_PENDING_E))
        p w.sco.is_local) := by
  unfold bta_ag_ci_sco_open_continue bta_ag_sco_event sco_event_head sco_event_switch
  cases hw : cfg.BTM_WBS_INCLUDED <;> simp [hs, sco_opening_st, World.trace]

/-- C29: `bta_ag_ci_sco_open_continue` stores the result in `set_audio_status`
and delivers `BTA_AG_SCO_OPEN_PENDING_E`.  In the opening state it returns with
`p` the current block and: for an attempt of the peer (`is_local` false) the
request is answered with `BTM_EScoConnRsp`, `HCI_SUCCESS` when the result is
`BTA_AG_SUCCESS` and `HCI_ERR_HOST_REJECT_RESOURCES` otherwise, the state
staying opening; for a local attempt and the result `BTA_AG_SUCCESS` the
originating `BTM_CreateSco` is the last call made, the state staying opening;
for a local attempt and any other result no originating connection is created,
the state is listen and `bta_ag_create_sco` is called for a listen, which
creates the listening connection when the index of the block is invalid. -/
theorem ci_sco_open_continue_by_initiator (cfg : Cfg) (ctl : Ctl) (w : World) (p : Nat)
    (result : Nat) (hs : w.sco.state = BTA_AG_SCO_OPENING_ST) :
    bta_ag_ci_sco_open_continue cfg ctl w p result =
      bta_ag_sco_event cfg ctl { w with sco := { w.sco with set_audio_status := result } } p
        BTA_AG_SCO_OPEN_PENDING_E ∧
    ∃ w1, bta_ag_ci_sco_open_continue cfg ctl w p result = some w1 ∧
      w1.sco.set_audio_status = result ∧ w1.sco.p_curr_scb = some p ∧
      (w.sco.is_local = false →
        w1.sco.state = BTA_AG_SCO_OPENING_ST ∧
        w1.out = w.out ++ [Action.BTM_EScoConnRsp (w.scb p).sco_idx
          (if result = cfg.BTA_AG_SUCCESS then HCI_SUCCESS else HCI_ERR_HOST_REJECT_RESOURCES)
          (some (limit_for_sco cfg (w.scb p)
            (cfg.esco_parameters_for_codec ESCO_CODEC_CVSD)))]) ∧
      (w.sco.is_local = true → result = cfg.BTA_AG_SUCCESS →
        w1.sco.state = BTA_AG_SCO_OPENING_ST ∧
        (∃ pre pt, w1.out = w.out ++ (pre ++
            [Action.BTM_CreateSco (w.scb p).peer_addr true pt]) ∧
          ∀ a ∈ pre, ∃ v, a = Action.BTM_WriteVoiceSettings v) ∧
        (w1.scb p).sco_idx = ctl.create_idx) ∧
      (w.sco.is_local = true → result ≠ cfg.BTA_AG_SUCCESS →
        w1.sco.state = BTA_AG_SCO_LISTEN_ST ∧
        w1.out =
          (if (w.scb p).sco_idx ≠ BTM_INVALID_SCO_INDEX then w.out
            else if ctl.create_status = BTM_CMD_STARTED then
              w.out ++ [Action.BTM_CreateSco (w.scb p).peer_addr false
                  (create_sco_params cfg (create_sco_fallback cfg (w.scb p))
                    (create_sco_codec cfg (w.scb p))).packet_types,
                Action.BTM_RegForEScoEvts ctl.create_idx]
            else
              w.out ++ [Action.BTM_CreateSco (w.scb p).peer_addr false
                  (create_sco_params cfg (create_sco_fallback cfg (w.scb p))
                    (create_sco_codec cfg (w.scb p))).packet_types]) ∧
        ((w.scb p).sco_idx = BTM_INVALID_SCO_INDEX → (w1.scb p).sco_idx = ctl.create_idx)) := by
  refine ⟨rfl, ?_⟩
  rw [ci_sco_open_continue_opening cfg ctl w p result hs]
  refine ⟨_, rfl, ?_, ?_, ?_, ?_, ?_⟩
  · simp [World.trace]
  · simp
  · intro hl
    refine ⟨?_, ?_⟩
    · simp [hl, World.trace, hs]
    · unfold bta_ag_create_pending_sco
      simp only [hl, World.trace, World.emit, Bool.false_eq_true, if_false]
      split_ifs <;> rfl
  · intro hl hr
    refine ⟨?_, ?_, ?_⟩
    · simp [hl, World.trace, hs, hr]
    · unfold bta_ag_create_pending_sco
      simp only [hl, hr, World.trace, World.emit, World.setScb, if_true]
      split_ifs <;> simp only [List.append_assoc] <;>
        first
          | exact ⟨[_], _, rfl, by simp⟩
          | exact ⟨[], _, rfl, by simp⟩
    · unfold bta_ag_create_pending_sco
      simp only [hl, hr, World.trace, World.emit, World.setScb, if_true]
      split_ifs <;> simp
  · intro hl hr
    have e : bta_ag_create_pending_sco cfg ctl
        (({ w with sco := { w.sco with set_audio_status := result } } : World).trace
          (LogEntry.sco_evt (w.scb p).sco_idx BTA_AG_SCO_OPENING_ST BTA_AG_SCO_OPEN_PENDING_E))
        p w.sco.is_local =
        bta_ag_create_sco cfg ctl
          ({ scb := w.scb
             sco := { w.sco with
               set_audio_status := result, p_curr_scb := some p,
               cur_idx := (w.scb p).sco_idx, state := BTA_AG_SCO_LISTEN_ST }
             out := w.out
             log := w.log ++ [LogEntry.sco_evt (w.scb p).sco_idx BTA_AG_SCO_OPENING_ST
               BTA_AG_SCO_OPEN_PENDING_E] } : World) p false := by
      unfold bta_ag_create_pending_sco
      simp [hl, hr, World.trace, World.setState]
    refine ⟨?_, ?_, ?_⟩
    · simp [hl, World.trace, hr]
    · rw [e, create_sco_listen_out]
    · intro hi
      rw [e, (create_sco_listen_scb _ _ _ _ _).2.1]
      simp [hi]

/-- Witness for C29: the pre-SCO set-up of the local attempt of block 0
succeeds, and the originating connection is created with the index given by
the controller. -/
theorem ci_sco_open_continue_by_initiator_witness :
    ∃ w1, bta_ag_ci_sco_open_continue exampleCfg (ctlStarted 7) worldOpeningMsbc 0 0 = some w1 ∧
      w1.sco.state = BTA_AG_SCO_OPENING_ST ∧ (w1.scb 0).sco_idx = 7 := by
  obtain ⟨w1, h, _, _, _, hl, _⟩ :=
    (ci_sco_open_continue_by_initiator exampleCfg (ctlStarted 7) worldOpeningMsbc 0 0 rfl).2
  exact ⟨w1, h, (hl rfl rfl).1, (hl rfl rfl).2.2⟩

/-! ## C30: the basic open -/

/-- A listen request in the shutdown state: the machine goes to the listen
state and the current block is kept. -/
theorem listen_in_shutdown (cfg : Cfg) (ctl : Ctl) (w : World) (p : Nat)
    (hs : w.sco.state = BTA_AG_SCO_SHUTDOWN_ST) :
    ∃ w1, bta_ag_sco_listen cfg ctl w p = some w1 ∧ w1.sco.state = BTA_AG_SCO_LISTEN_ST ∧
      w1.sco.p_curr_scb = w.sco.p_curr_scb := by
  refine ⟨(bta_ag_create_sco cfg ctl (sco_event_head w p BTA_AG_SCO_LISTEN_E) p
    false).setState BTA_AG_SCO_LISTEN_ST, ?_, ?_, ?_⟩
  · simp [bta_ag_sco_listen, bta_ag_sco_event, sco_event_switch, sco_event_head, hs,
      sco_shutdown_st]
  · simp
  · simp [sco_event_head]

/-- An open request in the listen state for a peer that does not support codec
negotiation (wideband built in): the switch leaves the codec state and asks for
codec negotiation for `p`; `bta_ag_codec_negotiate` has nothing to negotiate and
reports success through `bta_ag_sco_codec_nego`, which delivers
`BTA_AG_SCO_CN_DONE_E` in the codec state; the machine is then opening. -/
theorem open_in_listen_skips_negotiation (cfg : Cfg) (ctl : Ctl) (w : World) (p : Nat)
    (hwbs : cfg.BTM_WBS_INCLUDED = true) (hs : w.sco.state = BTA_AG_SCO_LISTEN_ST)
    (hc : w.sco.p_curr_scb = none ∨ w.sco.p_curr_scb = some p)
    (hpeer : (w.scb p).peer_features &&& cfg.BTA_AG_PEER_FEAT_CODEC = 0) :
    ∃ w2 w3,
      sco_event_switch cfg ctl (sco_event_head w p BTA_AG_SCO_OPEN_E) p BTA_AG_SCO_OPEN_E =
        some (w2, some p) ∧
      w2.sco.state = BTA_AG_SCO_CODEC_ST ∧
      bta_ag_codec_negotiate cfg ctl w2 p =
        bta_ag_sco_codec_nego cfg ctl (w2.setCurr (some p)) p true ∧
      bta_ag_sco_codec_nego cfg ctl (w2.setCurr (some p)) p true = some w3 ∧
      w3.sco.state = BTA_AG_SCO_OPENING_ST ∧
      bta_ag_sco_open cfg ctl w p = some w3 := by
  have hsw : sco_event_switch cfg ctl (sco_event_head w p BTA_AG_SCO_OPEN_E) p
      BTA_AG_SCO_OPEN_E =
      some ((bta_ag_remove_sco ctl.remove_status (sco_event_head w p BTA_AG_SCO_OPEN_E) p
        false).1.setState BTA_AG_SCO_CODEC_ST, some p) := by
    simp [sco_event_switch, sco_event_head, hs, sco_listen_st, hwbs]
  have hneg : bta_ag_codec_negotiate cfg ctl
      ((bta_ag_remove_sco ctl.remove_status (sco_event_head w p BTA_AG_SCO_OPEN_E) p
        false).1.setState BTA_AG_SCO_CODEC_ST) p =
      bta_ag_sco_codec_nego cfg ctl
        (((bta_ag_remove_sco ctl.remove_status (sco_event_head w p BTA_AG_SCO_OPEN_E) p
          false).1.setState BTA_AG_SCO_CODEC_ST).setCurr (some p)) p true := by
    unfold bta_ag_codec_negotiate codec_negotiate_via bta_ag_sco_codec_nego
    rw [if_neg]
    simp [codec_nego_needed, sco_event_head, hpeer]
  have hdone : ∃ w3, bta_ag_sco_codec_nego cfg ctl
        (((bta_ag_remove_sco ctl.remove_status (sco_event_head w p BTA_AG_SCO_OPEN_E) p
          false).1.setState BTA_AG_SCO_CODEC_ST).setCurr (some p)) p true = some w3 ∧
      w3.sco.state = BTA_AG_SCO_OPENING_ST := by
    unfold bta_ag_sco_codec_nego sco_codec_nego_via
    rw [if_pos rfl, cn_done_event]
    refine ⟨_, rfl, ?_⟩
    simp [hwbs]
  obtain ⟨w3, h3, hst⟩ := hdone
  refine ⟨_, w3, hsw, by simp, hneg, h3, hst, ?_⟩
  have ho : bta_ag_sco_open cfg ctl w p = bta_ag_sco_event cfg ctl w p BTA_AG_SCO_OPEN_E := by
    rcases hc with h | h <;> simp [bta_ag_sco_open, h]
  rw [ho, bta_ag_sco_event_body, hsw]
  simp only []
  rw [hneg, h3]

/-- The connection event in the opening state: the machine is open afterwards. -/
theorem conn_open_in_opening (cfg : Cfg) (ctl : Ctl) (w : World) (p : Nat) (w1 : World)
    (hs : w.sco.state = BTA_AG_SCO_OPENING_ST)
    (h : bta_ag_sco_conn_open cfg ctl w p = some w1) : w1.sco.state = BTA_AG_SCO_OPEN_ST := by
  unfold bta_ag_sco_conn_open at h
  have e : bta_ag_sco_event cfg ctl w p BTA_AG_SCO_CONN_OPEN_E =
      some ((sco_event_head w p BTA_AG_SCO_CONN_OPEN_E).setState BTA_AG_SCO_OPEN_ST) := by
    cases hw : cfg.BTM_WBS_INCLUDED <;>
      simp [bta_ag_sco_event, sco_event_switch, sco_event_head, hs, sco_opening_st]
  rw [e] at h
  simp only [Option.map_some', Option.some.injEq] at h
  subst h
  cases hw : cfg.BTM_WBS_INCLUDED <;> simp [bta_ag_cback_sco, World.emit]

/-- C30 (scenario 1): for a block `p` whose peer does not support codec
negotiation (an HFP 1.5 peer without wideband speech), wideband built in, from
the shutdown state: the listen request leaves the listen state; the switch of
the open request leaves the codec state and asks for codec negotiation, which
reports success at once (`bta_ag_sco_codec_nego` with true, delivered by the
tail of the open request itself), leaving the opening state, in which the open
request returns; the pre-SCO set-up completing with success leaves the opening
state; the connection event leaves the open state.  In the whole run the
application callback is called exactly once, with `BTA_AG_AUDIO_OPEN_EVT` and
the handle of `p`. -/
theorem basic_open_scenario (cfg : Cfg) (c1 c2 c3 c4 : Ctl) (w : World) (p : Nat)
    (hwbs : cfg.BTM_WBS_INCLUDED = true) (hs : w.sco.state = BTA_AG_SCO_SHUTDOWN_ST)
    (hc : w.sco.p_curr_scb = none ∨ w.sco.p_curr_scb = some p)
    (hpeer : (w.scb p).peer_features &&& cfg.BTA_AG_PEER_FEAT_CODEC = 0) :
    ∃ w1 w2 w3 w4 w5,
      bta_ag_sco_listen cfg c1 w p = some w1 ∧ w1.sco.state = BTA_AG_SCO_LISTEN_ST ∧
      sco_event_switch cfg c2 (sco_event_head w1 p BTA_AG_SCO_OPEN_E) p BTA_AG_SCO_OPEN_E =
        some (w2, some p) ∧
      w2.sco.state = BTA_AG_SCO_CODEC_ST ∧
      bta_ag_codec_negotiate cfg c2 w2 p =
        bta_ag_sco_codec_nego cfg c2 (w2.setCurr (some p)) p true ∧
      bta_ag_sco_codec_nego cfg c2 (w2.setCurr (some p)) p true = some w3 ∧
      w3.sco.state = BTA_AG_SCO_OPENING_ST ∧
      bta_ag_sco_open cfg c2 w1 p = some w3 ∧
      bta_ag_ci_sco_open_continue cfg c3 w3 p cfg.BTA_AG_SUCCESS = some w4 ∧
      w4.sco.state = BTA_AG_SCO_OPENING_ST ∧
      bta_ag_sco_conn_open cfg c4 w4 p = some w5 ∧ w5.sco.state = BTA_AG_SCO_OPEN_ST ∧
      ∃ l, w5.out = w.out ++ l ∧
        l.filter IsCback =
          [Action.p_cback BTA_AG_AUDIO_OPEN_EVT (bta_ag_scb_to_idx p) (w.scb p).app_id] := by
  obtain ⟨w1, h1, s1, k1⟩ := listen_in_shutdown cfg c1 w p hs
  have g1 : Grows w.out w1.out :=
    whenSome_of_eq (sco_event_grows cfg c1 w.out w p BTA_AG_SCO_LISTEN_E (grows_refl _)) h1
  have t1 : SameStatic (w.scb p) (w1.scb p) :=
    whenSome_of_eq (sco_event_keeps_static cfg c1 (w.scb p) p w p BTA_AG_SCO_LISTEN_E
      (sameStatic_refl _)) h1
  obtain ⟨w2, w3, hsw, s2, hneg, h3, s3, ho⟩ := open_in_listen_skips_negotiation cfg c2 w1 p
    hwbs s1 (by rw [k1]; exact hc) (by rw [t1.2.2.2.2.2.2.2.1]; exact hpeer)
  have ho2 : bta_ag_sco_event cfg c2 w1 p BTA_AG_SCO_OPEN_E = some w3 := by
    rw [← ho]
    rcases hc with h | h <;> simp [bta_ag_sco_open, h, k1]
  have g3 : Grows w.out w3.out :=
    whenSome_of_eq (sco_event_grows cfg c2 w.out w1 p BTA_AG_SCO_OPEN_E g1) ho2
  have t3 : SameStatic (w.scb p) (w3.scb p) :=
    whenSome_of_eq (sco_event_keeps_static cfg c2 (w.scb p) p w1 p BTA_AG_SCO_OPEN_E t1) ho2
  have h4 := ci_sco_open_continue_opening cfg c3 w3 p cfg.BTA_AG_SUCCESS s3
  have g4 : Grows w.out (bta_ag_create_pending_sco cfg c3
      (({ w3 with sco := { w3.sco with set_audio_status := cfg.BTA_AG_SUCCESS } } : World).trace
        (LogEntry.sco_evt (w3.scb p).sco_idx BTA_AG_SCO_OPENING_ST BTA_AG_SCO_OPEN_PENDING_E))
      p w3.sco.is_local).out :=
    whenSome_of_eq (sco_event_grows cfg c3 w.out
      { w3 with sco := { w3.sco with set_audio_status := cfg.BTA_AG_SUCCESS } } p
      BTA_AG_SCO_OPEN_PENDING_E g3) h4
  have t4 : SameStatic (w.scb p) ((bta_ag_create_pending_sco cfg c3
      (({ w3 with sco := { w3.sco with set_audio_status := cfg.BTA_AG_SUCCESS } } : World).trace
        (LogEntry.sco_evt (w3.scb p).sco_idx BTA_AG_SCO_OPENING_ST BTA_AG_SCO_OPEN_PENDING_E))
      p w3.sco.is_local).scb p) :=
    whenSome_of_eq (sco_event_keeps_static cfg c3 (w.scb p) p
      { w3 with sco := { w3.sco with set_audio_status := cfg.BTA_AG_SUCCESS } } p
      BTA_AG_SCO_OPEN_PENDING_E t3) h4
  have s4 : (bta_ag_create_pending_sco cfg c3
      (({ w3 with sco := { w3.sco with set_audio_status := cfg.BTA_AG_SUCCESS } } : World).trace
        (LogEntry.sco_evt (w3.scb p).sco_idx BTA_AG_SCO_OPENING_ST BTA_AG_SCO_OPEN_PENDING_E))
      p w3.sco.is_local).sco.state = BTA_AG_SCO_OPENING_ST := by
    simp [s3]
  obtain ⟨w5, h5, ⟨l5, e5, f5⟩, _⟩ := conn_open_result cfg c4 (bta_ag_create_pending_sco cfg c3
    (({ w3 with sco := { w3.sco with set_audio_status := cfg.BTA_AG_SUCCESS } } : World).trace
      (LogEntry.sco_evt (w3.scb p).sco_idx BTA_AG_SCO_OPENING_ST BTA_AG_SCO_OPEN_PENDING_E))
    p w3.sco.is_local) p
  obtain ⟨l4, e4, f4⟩ := g4
  refine ⟨w1, w2, w3, _, w5, h1, s1, hsw, s2, hneg, h3, s3, ho, h4, s4, h5,
    conn_open_in_opening cfg c4 _ p w5 s4 h5, l4 ++ l5, ?_, ?_⟩
  · rw [e5, e4, List.append_assoc]
  · rw [List.filter_append, f4, f5, t4.2.2.1]
    rfl

/-- Witness for C30: block 0 of the pool of HFP 1.5 peers, from start-up. -/
theorem basic_open_scenario_witness :
    ∃ w1 w3 w4 w5,
      bta_ag_sco_listen exampleCfg (ctlStarted 5) (initialWorld hfp15Pool) 0 = some w1 ∧
      w1.sco.state = BTA_AG_SCO_LISTEN_ST ∧
      bta_ag_sco_open exampleCfg (ctlGone 5) w1 0 = some w3 ∧
      w3.sco.state = BTA_AG_SCO_OPENING_ST ∧
      bta_ag_ci_sco_open_continue exampleCfg (ctlStarted 6) w3 0 0 = some w4 ∧
      w4.sco.state = BTA_AG_SCO_OPENING_ST ∧
      bta_ag_sco_conn_open exampleCfg (ctlStarted 6) w4 0 = some w5 ∧
      w5.sco.state = BTA_AG_SCO_OPEN_ST ∧
      ∃ l, w5.out = [] ++ l ∧ l.filter IsCback = [Action.p_cback BTA_AG_AUDIO_OPEN_EVT 1 1] := by
  obtain ⟨w1, _, w3, w4, w5, h1, s1, _, _, _, _, s3, h3, h4, s4, h5, s5, hl⟩ :=
    basic_open_scenario exampleCfg (ctlStarted 5) (ctlGone 5) (ctlStarted 6) (ctlStarted 6)
      (initialWorld hfp15Pool) 0 rfl rfl (Or.inl rfl) (by decide)
  exact ⟨w1, w3, w4, w5, h1, s1, h3, s3, h4, s4, h5, s5, hl⟩

/-! ## C32, C33: the parameters of an attempt -/

/-- The test of `bta_ag_create_sco` and `bta_ag_create_pending_sco` for "either
side lacks eSCO", spelled out. -/
theorem lacks_esco_iff (cfg : Cfg) (s : tBTA_AG_SCB) :
    lacks_esco cfg s = true ↔
      (s.features &&& cfg.BTA_AG_FEAT_ESCO = 0 ∨
        s.peer_features &&& cfg.BTA_AG_PEER_FEAT_ESCO = 0) := by
  simp [lacks_esco]

/-- The block `if (p_scb->codec_fallback)` writes none of the fields that the
parameters are built from. -/
theorem create_sco_fallback_fields (cfg : Cfg) (s : tBTA_AG_SCB) :
    (create_sco_fallback cfg s).features = s.features ∧
    (create_sco_fallback cfg s).peer_features = s.peer_features ∧
    (create_sco_fallback cfg s).codec_msbc_settings = s.codec_msbc_settings := by
  unfold create_sco_fallback
  split_ifs <;> simp

/-- C32: the parameters that `bta_ag_create_sco` builds (index invalid on
entry) are passed to `BTM_SetEScoMode` by an originate, and their packet types
to `BTM_CreateSco` by a listen.  When the chosen codec is CVSD they are the
CVSD parameter set with `packet_types` replaced by
`sco_pkt_types | ESCO_PKT_TYPES_MASK_NO_3_EV3`, and with `max_latency_ms` 10
and `retransmission_effort` `ESCO_RETRANSMISSION_POWER` exactly when the local
features or the peer features lack the eSCO bit (both are those of the set
otherwise).  When the chosen codec is mSBC they are the mSBC parameter set of
the settings of the block, T2 or T1, unmodified. -/
theorem create_sco_parameter_selection (cfg : Cfg) (ctl : Ctl) (w : World) (p : Nat)
    (hidx : (w.scb p).sco_idx = BTM_INVALID_SCO_INDEX) :
    ∃ params : enh_esco_params_t,
      (bta_ag_create_sco cfg ctl w p true).out =
        w.out ++ [Action.BTM_SetEScoMode params,
          Action.bta_sys_sco_use (w.scb p).app_id (w.scb p).peer_addr,
          Action.bta_ag_co_audio_state (bta_ag_scb_to_idx p) (w.scb p).app_id SCO_STATE_SETUP
            (co_codec cfg (create_sco_codec cfg (w.scb p)))] ∧
      (bta_ag_create_sco cfg ctl w p false).out =
        (if ctl.create_status = BTM_CMD_STARTED then
          w.out ++ [Action.BTM_CreateSco (w.scb p).peer_addr false params.packet_types,
            Action.BTM_RegForEScoEvts ctl.create_idx]
        else w.out ++ [Action.BTM_CreateSco (w.scb p).peer_addr false params.packet_types]) ∧
      (create_sco_codec cfg (w.scb p) = BTA_AG_CODEC_CVSD →
        params.packet_types = cfg.sco_pkt_types ||| cfg.ESCO_PKT_TYPES_MASK_NO_3_EV3 ∧
        params.input_data_path =
          (cfg.esco_parameters_for_codec ESCO_CODEC_CVSD).input_data_path ∧
        (((w.scb p).features &&& cfg.BTA_AG_FEAT_ESCO = 0 ∨
            (w.scb p).peer_features &&& cfg.BTA_AG_PEER_FEAT_ESCO = 0) →
          params.max_latency_ms = 10 ∧
            params.retransmission_effort = ESCO_RETRANSMISSION_POWER) ∧
        (¬((w.scb p).features &&& cfg.BTA_AG_FEAT_ESCO = 0 ∨
            (w.scb p).peer_features &&& cfg.BTA_AG_PEER_FEAT_ESCO = 0) →
          params.max_latency_ms =
              (cfg.esco_parameters_for_codec ESCO_CODEC_CVSD).max_latency_ms ∧
            params.retransmission_effort =
              (cfg.esco_parameters_for_codec ESCO_CODEC_CVSD).retransmission_effort)) ∧
      (create_sco_codec cfg (w.scb p) = BTA_AG_CODEC_MSBC →
        params =
          cfg.esco_parameters_for_codec
            (if (w.scb p).codec_msbc_settings = BTA_AG_SCO_MSBC_SETTINGS_T2 then
              ESCO_CODEC_MSBC_T2
            else ESCO_CODEC_MSBC_T1)) := by
  obtain ⟨hf, hpf, hms⟩ := create_sco_fallback_fields cfg (w.scb p)
  refine ⟨create_sco_params cfg (create_sco_fallback cfg (w.scb p))
    (create_sco_codec cfg (w.scb p)), (create_sco_orig_out cfg ctl w p hidx).1, ?_, ?_, ?_⟩
  · rw [create_sco_listen_out]
    simp [hidx]
  · intro hc
    rw [hc]
    have hl : lacks_esco cfg (create_sco_fallback cfg (w.scb p)) = lacks_esco cfg (w.scb p) := by
      simp [lacks_esco, hf, hpf]
    refine ⟨create_sco_params_cvsd cfg _, ?_, ?_, ?_⟩
    · unfold create_sco_params limit_for_sco create_sco_codec_index
      simp only [if_true]
      split_ifs <;> first | contradiction | simp
    · intro h
      have hl2 := (lacks_esco_iff cfg (w.scb p)).2 h
      unfold create_sco_params limit_for_sco
      simp [hl, hl2]
    · intro h
      have hl2 : lacks_esco cfg (w.scb p) = false := by
        cases hb : lacks_esco cfg (w.scb p)
        · rfl
        · exact absurd ((lacks_esco_iff cfg (w.scb p)).1 hb) h
      unfold create_sco_params limit_for_sco create_sco_codec_index
      simp [hl, hl2]
  · intro hc
    rw [hc]
    unfold create_sco_params create_sco_codec_index
    simp [hms]

/-- Witness for C32: block 0 of the example pool originates with the mSBC T2
parameter set, unmodified. -/
theorem create_sco_parameter_selection_witness :
    ∃ params : enh_esco_params_t,
      (bta_ag_create_sco exampleCfg (ctlStarted 6) (initialWorld examplePool) 0 true).out =
        [] ++ [Action.BTM_SetEScoMode params, Action.bta_sys_sco_use 1 0xA0,
          Action.bta_ag_co_audio_state 1 1 SCO_STATE_SETUP (some BTA_AG_CODEC_MSBC)] ∧
      params = exampleCfg.esco_parameters_for_codec ESCO_CODEC_MSBC_T2 := by
  obtain ⟨params, h1, _, _, h4⟩ :=
    create_sco_parameter_selection exampleCfg (ctlStarted 6) (initialWorld examplePool) 0 rfl
  exact ⟨params, h1, h4 (by decide)⟩

/-- The connection that `bta_ag_create_pending_sco` originates after a
successful set-up is requested with the packet types of the parameter set of
the codec in use, as the table has them: for CVSD they are those of the CVSD
set, not the configured ones. -/
theorem create_pending_sco_packet_types (cfg : Cfg) (ctl : Ctl) (w : World) (p : Nat)
    (hs : w.sco.set_audio_status = cfg.BTA_AG_SUCCESS)
    (hc : (w.scb p).inuse_codec ≠ BTA_AG_CODEC_MSBC) :
    (bta_ag_create_pending_sco cfg ctl w p true).out.getLast? =
      some (Action.BTM_CreateSco (w.scb p).peer_addr true
        (cfg.esco_parameters_for_codec ESCO_CODEC_CVSD).packet_types) := by
  unfold bta_ag_create_pending_sco limit_for_sco
  simp only [hs, hc, if_true, if_false, World.emit, World.setScb]
  split_ifs <;> simp

/-- C33, evaluated: in the build whose configured packet types are `0x0387`,
block 0 of the pool of CVSD peers listens, opens and completes the pre-SCO
set-up.  The originate policy of `bta_ag_create_sco` selects the packet types
`0x0387` (configured, with 3-EV3 excluded) and passes them to
`BTM_SetEScoMode`; `bta_ag_create_pending_sco` then calls `BTM_CreateSco` as
originator with `0x03BF`, the packet types of the CVSD parameter set, where the
claim has the selected ones. -/
theorem pending_originate_passes_table_packet_types :
    edrOnlyCfg.sco_pkt_types ||| edrOnlyCfg.ESCO_PKT_TYPES_MASK_NO_3_EV3 = 0x0387 ∧
    (producedBy edrOnlyCfg cvsdPool [(ctlStarted 5, Op.sco_listen 0)]
        [(ctlGone 5, Op.sco_open 0), (ctlStarted 6, Op.ci_sco_open_continue 0 0)]).map
        (fun r => r.1) =
      some [Action.BTM_RemoveSco 5,
        Action.BTM_SetEScoMode
          { packet_types := 0x0387, max_latency_ms := 12,
            retransmission_effort := ESCO_RETRANSMISSION_OFF, input_data_path := 1 },
        Action.bta_sys_sco_use 1 0xA0,
        Action.bta_ag_co_audio_state 1 1 SCO_STATE_SETUP (some BTA_AG_CODEC_CVSD),
        Action.BTM_CreateSco 0xA0 true 0x03BF] := by
  refine ⟨?_, ?_⟩ <;> decide

/-! ## C31 and C35: the shutting state -/

/-- The connection-close event in the shutting state, as written in the
source: the next state by whether another block is open, the listen for a
block that is still open, and the clearing of the current block. -/
theorem conn_close_in_shutting (cfg : Cfg) (ctl : Ctl) (w : World) (p : Nat)
    (hs : w.sco.state = BTA_AG_SCO_SHUTTING_ST) :
    bta_ag_sco_event cfg ctl w p BTA_AG_SCO_CONN_CLOSE_E =
      some (sco_shutting_clear
        (if bta_ag_scb_open cfg w.scb p = true then
          (bta_ag_create_sco cfg ctl
            (sco_shutting_next cfg (sco_event_head w p BTA_AG_SCO_CONN_CLOSE_E) p) p
            false).setState BTA_AG_SCO_LISTEN_ST
        else sco_shutting_next cfg (sco_event_head w p BTA_AG_SCO_CONN_CLOSE_E) p) p) := by
  have h1 : bta_ag_scb_open cfg
      (sco_shutting_next cfg (sco_event_head w p BTA_AG_SCO_CONN_CLOSE_E) p).scb p =
      bta_ag_scb_open cfg w.scb p := by
    unfold sco_shutting_next
    split_ifs <;> simp [sco_event_head]
  simp only [bta_ag_sco_event, sco_event_switch, sco_event_head_sco, hs, sco_shutting_st, h1]

/-- When neither retry applies, `bta_ag_sco_conn_close` is its reporting branch
on the world with the current block cleared and the index invalid, followed by
the clearing of `retry_with_sco_only`. -/
theorem conn_close_eq_report (cfg : Cfg) (ctl : Ctl) (w : World) (p : Nat)
    (hn : ¬(cfg.BTM_WBS_INCLUDED = true ∧
        (((w.scb p).codec_fallback = true ∧ (w.scb p).svc_conn = true) ∨
          bta_ag_attempt_msbc_safe_settings (w.scb p) = true)))
    (hr : ¬((w.scb p).retry_with_sco_only = true ∧ (w.scb p).svc_conn = true)) :
    bta_ag_sco_conn_close cfg ctl w p =
      (sco_conn_close_report cfg ctl
        ((w.setCurr none).setScb p { w.scb p with sco_idx := BTM_INVALID_SCO_INDEX })
        p).map
        (fun w2 => w2.setScb p { w2.scb p with retry_with_sco_only := false }) := by
  unfold bta_ag_sco_conn_close
  simp only [World.setScb, World.setCurr, Function.update_same]
  rw [if_neg, if_neg hr]
  simpa [bta_ag_attempt_msbc_safe_settings] using hn

/-- In the shutting state, when neither retry applies, no other block is open
and the block itself is no longer open, `bta_ag_sco_conn_close` ends in the
shutdown state without a current block. -/
theorem conn_close_shutting_last (cfg : Cfg) (ctl : Ctl) (w : World) (p : Nat)
    (hs : w.sco.state = BTA_AG_SCO_SHUTTING_ST)
    (hother : bta_ag_other_scb_open cfg w.scb p = false)
    (hopen : bta_ag_scb_open cfg w.scb p = false)
    (hn : ¬(cfg.BTM_WBS_INCLUDED = true ∧
        (((w.scb p).codec_fallback = true ∧ (w.scb p).svc_conn = true) ∨
          bta_ag_attempt_msbc_safe_settings (w.scb p) = true)))
    (hr : ¬((w.scb p).retry_with_sco_only = true ∧ (w.scb p).svc_conn = true)) :
    ∃ w3, bta_ag_sco_conn_close cfg ctl w p = some w3 ∧
      w3.sco.state = BTA_AG_SCO_SHUTDOWN_ST ∧ w3.sco.p_curr_scb = none := by
  rw [conn_close_eq_report cfg ctl w p hn hr]
  unfold sco_conn_close_report
  simp only []
  rw [conn_close_in_shutting _ _ _ _ (by simpa [World.emit] using hs)]
  have ho : bta_ag_other_scb_open cfg
      (Function.update w.scb p { w.scb p with sco_idx := BTM_INVALID_SCO_INDEX }) p = false := by
    exact (other_scb_open_update cfg w.scb p
      { w.scb p with sco_idx := BTM_INVALID_SCO_INDEX } p rfl rfl).trans hother
  have hp : bta_ag_scb_open cfg
      (Function.update w.scb p { w.scb p with sco_idx := BTM_INVALID_SCO_INDEX }) p = false := by
    exact (scb_open_update cfg w.scb p
      { w.scb p with sco_idx := BTM_INVALID_SCO_INDEX } p rfl rfl).trans hopen
  refine ⟨_, rfl, ?_, ?_⟩ <;>
    cases hw : cfg.BTM_WBS_INCLUDED <;>
    simp [World.emit, World.setScb, World.setCurr, bta_ag_cback_sco, sco_shutting_clear,
      sco_shutting_next, sco_event_head, ho, hp] <;>
    split_ifs <;> simp

/-- A shutdown request for the current block in the opening state: the machine
is shutting, nothing else changes but the trace. -/
theorem shutdown_current_in_opening (cfg : Cfg) (ctl : Ctl) (w : World) (p : Nat)
    (hs : w.sco.state = BTA_AG_SCO_OPENING_ST) (hc : w.sco.p_curr_scb = some p) :
    bta_ag_sco_shutdown cfg ctl w p =
      some ((sco_event_head w p BTA_AG_SCO_SHUTDOWN_E).setState BTA_AG_SCO_SHUTTING_ST) := by
  simp [bta_ag_sco_shutdown, bta_ag_sco_event, sco_event_switch, sco_event_head, hs,
    sco_opening_st, sco_shutdown_or_remove, hc]

/-- The connection event in the shutting state: the removal of the link is
requested when it is the active one, the state stays shutting, and no block
changes `in_use`, `state` or `svc_conn`. -/
theorem conn_open_in_shutting (cfg : Cfg) (ctl : Ctl) (w : World) (p : Nat)
    (hs : w.sco.state = BTA_AG_SCO_SHUTTING_ST) :
    ∃ w2, bta_ag_sco_conn_open cfg ctl w p = some w2 ∧
      w2.sco.state = BTA_AG_SCO_SHUTTING_ST ∧
      (∀ q, (w2.scb q).in_use = (w.scb q).in_use ∧ (w2.scb q).state = (w.scb q).state) ∧
      ((w.scb p).sco_idx ≠ BTM_INVALID_SCO_INDEX → (w.scb p).sco_idx = w.sco.cur_idx →
        ∃ rest, w2.out = w.out ++ Action.BTM_RemoveSco (w.scb p).sco_idx :: rest) := by
  have e : bta_ag_sco_event cfg ctl w p BTA_AG_SCO_CONN_OPEN_E =
      some (bta_ag_remove_sco ctl.remove_status (sco_event_head w p BTA_AG_SCO_CONN_OPEN_E) p
        true).1 := by
    simp [bta_ag_sco_event, sco_event_switch, sco_event_head, hs, sco_shutting_st]
  unfold bta_ag_sco_conn_open
  rw [e]
  refine ⟨_, rfl, ?_, ?_, ?_⟩
  · cases hw : cfg.BTM_WBS_INCLUDED <;>
      simp [World.emit, World.setScb, bta_ag_cback_sco, sco_event_head, hs]
  · intro q
    cases hw : cfg.BTM_WBS_INCLUDED <;>
      by_cases hq : q = p <;>
      simp [World.emit, World.setScb, bta_ag_cback_sco, sco_event_head, hq]
  · intro h1 h2
    have ho : (bta_ag_remove_sco ctl.remove_status (sco_event_head w p BTA_AG_SCO_CONN_OPEN_E) p
        true).1.out = w.out ++ [Action.BTM_RemoveSco (w.scb p).sco_idx] := by
      rw [remove_sco_out]
      rw [if_pos]
      · simp [sco_event_head]
      · exact ⟨by simpa [sco_event_head] using h1, Or.inr (by simpa [sco_event_head] using h2)⟩
    cases hw : cfg.BTM_WBS_INCLUDED <;>
      simp [World.emit, World.setScb, bta_ag_cback_sco, ho]

/-- Scenario 4 where the code completes it: with `A` the current block in the
opening state, no other block open and `A` itself no longer open, and no
fallback pending for `A` (`codec_fallback` and `svc_conn` not both set, wideband
built in), the shutdown request leaves the shutting state; the connection event
requests the removal of the link of `A` when it is the active one and leaves
the shutting state; `bta_ag_sco_conn_close` then ends in the shutdown state
without a current block. -/
theorem shutdown_while_opening (cfg : Cfg) (c1 c2 c3 : Ctl) (w : World) (A : Nat)
    (hs : w.sco.state = BTA_AG_SCO_OPENING_ST) (hc : w.sco.p_curr_scb = some A)
    (hother : bta_ag_other_scb_open cfg w.scb A = false)
    (hopen : bta_ag_scb_open cfg w.scb A = false)
    (hf : ¬(cfg.BTM_WBS_INCLUDED = true ∧ (w.scb A).codec_fallback = true ∧
      (w.scb A).svc_conn = true)) :
    ∃ w1 w2 w3,
      bta_ag_sco_shutdown cfg c1 w A = some w1 ∧ w1.sco.state = BTA_AG_SCO_SHUTTING_ST ∧
      bta_ag_sco_conn_open cfg c2 w1 A = some w2 ∧ w2.sco.state = BTA_AG_SCO_SHUTTING_ST ∧
      ((w.scb A).sco_idx ≠ BTM_INVALID_SCO_INDEX → (w.scb A).sco_idx = w.sco.cur_idx →
        ∃ rest, w2.out = w.out ++ Action.BTM_RemoveSco (w.scb A).sco_idx :: rest) ∧
      bta_ag_sco_conn_close cfg c3 w2 A = some w3 ∧
      w3.sco.state = BTA_AG_SCO_SHUTDOWN_ST ∧ w3.sco.p_curr_scb = none := by
  have h1 := shutdown_current_in_opening cfg c1 w A hs hc
  have s1 : ((sco_event_head w A BTA_AG_SCO_SHUTDOWN_E).setState
      BTA_AG_SCO_SHUTTING_ST).sco.state = BTA_AG_SCO_SHUTTING_ST := rfl
  have b1 : ((sco_event_head w A BTA_AG_SCO_SHUTDOWN_E).setState
      BTA_AG_SCO_SHUTTING_ST).scb = w.scb := by
    simp [sco_event_head]
  have o1 : ((sco_event_head w A BTA_AG_SCO_SHUTDOWN_E).setState
      BTA_AG_SCO_SHUTTING_ST).out = w.out := by
    simp [sco_event_head]
  have k1 : ((sco_event_head w A BTA_AG_SCO_SHUTDOWN_E).setState
      BTA_AG_SCO_SHUTTING_ST).sco.cur_idx = w.sco.cur_idx := by
    simp [sco_event_head]
  obtain ⟨w2, h2, s2, hq, hrem⟩ := conn_open_in_shutting cfg c2 _ A s1
  obtain ⟨w2b, h2b, _, hr, ht2, _, hfb, hst, _⟩ := conn_open_result cfg c2
    ((sco_event_head w A BTA_AG_SCO_SHUTDOWN_E).setState BTA_AG_SCO_SHUTTING_ST) A
  have e2 : w2b = w2 := by
    rw [h2] at h2b
    exact (Option.some.inj h2b).symm
  subst e2
  rw [b1] at hq hfb hst hrem
  rw [o1, k1] at hrem
  obtain ⟨w3, h3, s3, k3⟩ := conn_close_shutting_last cfg c3 w2b A s2
    (by
      rw [other_scb_open_congr cfg w.scb w2b.scb A hq]
      exact hother)
    (by
      rw [scb_open_congr cfg w.scb w2b.scb A (hq A)]
      exact hopen)
    (by
      rintro ⟨hw, hh | hh⟩
      · exact hf ⟨hw, by rw [← hfb A]; exact hh.1, by rw [← (hst A).2.1]; exact hh.2⟩
      · simp [bta_ag_attempt_msbc_safe_settings, ht2 hw] at hh)
    (by
      rintro ⟨hh, _⟩
      rw [hr] at hh
      cases hh)
  exact ⟨_, w2b, w3, h1, s1, h2, s2, hrem, h3, s3, k3⟩

/-- The plain run of scenario 4: the link of block 0 of the closing pool is
being opened when the shutdown is requested. -/
theorem shutdown_while_opening_plain :
    ∃ w1 w2 w3,
      bta_ag_sco_shutdown exampleCfg (ctlStarted 6)
        (worldOpenClosing.setState BTA_AG_SCO_OPENING_ST) 0 = some w1 ∧
      w1.sco.state = BTA_AG_SCO_SHUTTING_ST ∧
      bta_ag_sco_conn_open exampleCfg (ctlStarted 6) w1 0 = some w2 ∧
      w2.sco.state = BTA_AG_SCO_SHUTTING_ST ∧
      bta_ag_sco_conn_close exampleCfg (ctlStarted 6) w2 0 = some w3 ∧
      w3.sco.state = BTA_AG_SCO_SHUTDOWN_ST ∧ w3.sco.p_curr_scb = none := by
  obtain ⟨w1, w2, w3, h1, s1, h2, s2, _, h3, s3, k3⟩ :=
    shutdown_while_opening exampleCfg (ctlStarted 6) (ctlStarted 6) (ctlStarted 6)
      (worldOpenClosing.setState BTA_AG_SCO_OPENING_ST) 0 rfl rfl (by decide) (by decide)
      (by decide)
  exact ⟨w1, w2, w3, h1, s1, h2, s2, h3, s3, k3⟩

/-- C31, evaluated: block 0 is the current block in the opening state with a
fallback pending (its T1 attempt was reported connected and at once lost: the
SCO control block and the retry settings are those that `runConnectedThenLost`
leaves), no block is open any more.  The shutdown request leaves the shutting state;
`bta_ag_sco_conn_open` requests the removal of link 7 and leaves the shutting
state; `bta_ag_sco_conn_close` then delivers the reopen event, which is ignored
in the shutting state: the machine stays shutting without a current block,
where the claim has the shutdown state. -/
theorem shutdown_while_opening_stays_shutting :
    observeSco (runOps exampleCfg (initialWorld examplePool) runConnectedThenLost) =
      observeSco (some worldOpeningFallback) ∧
    observeRetry (runOps exampleCfg (initialWorld examplePool) runConnectedThenLost) 0 =
      observeRetry (some worldOpeningFallback) 0 ∧
    observeSco (some worldOpeningFallback) = some (BTA_AG_SCO_OPENING_ST, some 0, none) ∧
    bta_ag_scb_open exampleCfg worldOpeningFallback.scb 0 = false ∧
    bta_ag_other_scb_open exampleCfg worldOpeningFallback.scb 0 = false ∧
    observeSco (runOps exampleCfg worldOpeningFallback [(ctlStarted 7, Op.sco_shutdown 0)]) =
      some (BTA_AG_SCO_SHUTTING_ST, some 0, none) ∧
    (runOps exampleCfg worldOpeningFallback
        [(ctlStarted 7, Op.sco_shutdown 0), (ctlStarted 7, Op.sco_conn_open 0)]).map
        (fun w => (w.sco.state, w.out.head?)) =
      some (BTA_AG_SCO_SHUTTING_ST, some (Action.BTM_RemoveSco 7)) ∧
    (runOps exampleCfg worldOpeningFallback
        [(ctlStarted 7, Op.sco_shutdown 0), (ctlStarted 7, Op.sco_conn_open 0),
          (ctlStarted 7, Op.sco_conn_close 0)]).map
        (fun w => (w.sco.state, w.sco.p_curr_scb, w.log.getLast?)) =
      some (BTA_AG_SCO_SHUTTING_ST, none,
        some (LogEntry.ignoring BTA_AG_SCO_SHUTTING_ST BTA_AG_SCO_REOPEN_E)) := by
  refine ⟨?_, ?_, ?_, ?_, ?_, ?_, ?_, ?_⟩ <;> decide

/-- What the choice of the next state in the shutting state leaves: the pool,
the calls and the current block as they are, and the shutdown state when no
other block is open, the listen state otherwise. -/
theorem shutting_next_fields (cfg : Cfg) (w : World) (p : Nat) :
    (sco_shutting_next cfg (sco_event_head w p BTA_AG_SCO_CONN_CLOSE_E) p).scb = w.scb ∧
    (sco_shutting_next cfg (sco_event_head w p BTA_AG_SCO_CONN_CLOSE_E) p).out = w.out ∧
    (sco_shutting_next cfg (sco_event_head w p BTA_AG_SCO_CONN_CLOSE_E) p).sco.p_curr_scb =
      w.sco.p_curr_scb ∧
    (sco_shutting_next cfg (sco_event_head w p BTA_AG_SCO_CONN_CLOSE_E) p).sco.state =
      (if bta_ag_other_scb_open cfg w.scb p = false then BTA_AG_SCO_SHUTDOWN_ST
        else BTA_AG_SCO_LISTEN_ST) := by
  unfold sco_shutting_next
  simp only [sco_event_head_scb]
  refine ⟨?_, ?_, ?_, ?_⟩ <;> split_ifs <;> simp [sco_event_head]

/-- What the clearing of the current block in the shutting state leaves. -/
theorem shutting_clear_fields (u : World) (p : Nat) :
    (sco_shutting_clear u p).sco.state = u.sco.state ∧
    (sco_shutting_clear u p).out = u.out ∧
    (sco_shutting_clear u p).sco.p_curr_scb =
      (if u.sco.p_curr_scb = some p then none else u.sco.p_curr_scb) ∧
    ((sco_shutting_clear u p).scb p).sco_idx =
      (if u.sco.p_curr_scb = some p then BTM_INVALID_SCO_INDEX else (u.scb p).sco_idx) := by
  unfold sco_shutting_clear
  refine ⟨?_, ?_, ?_, ?_⟩ <;> split_ifs <;> simp

/-- C35: in the shutting state the connection-close event for `p` returns and
ends in the listen state if `p` is still open or another block is open, and in
the shutdown state otherwise.  If `p` is still open `bta_ag_create_sco` is
called for a listen on it: when the index of `p` is invalid (as it is when
`bta_ag_sco_conn_close` delivers the event) the listening connection is created
with `BTM_CreateSco` and, when the controller starts it, registered for eSCO
events, and its index is stored in `p` unless `p` is the current block; when
the index of `p` is valid no call is made.  If `p` is not open no call is made.
If `p` is the current block its index is set to invalid and `p_curr_scb` is
cleared, otherwise `p_curr_scb` is unchanged. -/
theorem shutting_conn_close_outcome (cfg : Cfg) (ctl : Ctl) (w : World) (p : Nat)
    (hs : w.sco.state = BTA_AG_SCO_SHUTTING_ST) :
    ∃ w1, bta_ag_sco_event cfg ctl w p BTA_AG_SCO_CONN_CLOSE_E = some w1 ∧
      ((bta_ag_scb_open cfg w.scb p = true ∨ bta_ag_other_scb_open cfg w.scb p = true) →
        w1.sco.state = BTA_AG_SCO_LISTEN_ST) ∧
      ((bta_ag_scb_open cfg w.scb p = false ∧ bta_ag_other_scb_open cfg w.scb p = false) →
        w1.sco.state = BTA_AG_SCO_SHUTDOWN_ST) ∧
      (bta_ag_scb_open cfg w.scb p = true →
        w1.out =
          (if (w.scb p).sco_idx ≠ BTM_INVALID_SCO_INDEX then w.out
            else if ctl.create_status = BTM_CMD_STARTED then
              w.out ++ [Action.BTM_CreateSco (w.scb p).peer_addr false
                  (create_sco_params cfg (create_sco_fallback cfg (w.scb p))
                    (create_sco_codec cfg (w.scb p))).packet_types,
                Action.BTM_RegForEScoEvts ctl.create_idx]
            else
              w.out ++ [Action.BTM_CreateSco (w.scb p).peer_addr false
                  (create_sco_params cfg (create_sco_fallback cfg (w.scb p))
                    (create_sco_codec cfg (w.scb p))).packet_types]) ∧
        (w.sco.p_curr_scb ≠ some p → (w.scb p).sco_idx = BTM_INVALID_SCO_INDEX →
          (w1.scb p).sco_idx = ctl.create_idx)) ∧
      (bta_ag_scb_open cfg w.scb p = false → w1.out = w.out) ∧
      (w.sco.p_curr_scb = some p →
        w1.sco.p_curr_scb = none ∧ (w1.scb p).sco_idx = BTM_INVALID_SCO_INDEX) ∧
      (w.sco.p_curr_scb ≠ some p → w1.sco.p_curr_scb = w.sco.p_curr_scb) := by
  rw [conn_close_in_shutting cfg ctl w p hs]
  obtain ⟨nb, no, nc, ns⟩ := shutting_next_fields cfg w p
  cases ho : bta_ag_scb_open cfg w.scb p
  · simp only [Bool.false_eq_true, if_false]
    obtain ⟨cs, co, cc, ci⟩ := shutting_clear_fields
      (sco_shutting_next cfg (sco_event_head w p BTA_AG_SCO_CONN_CLOSE_E) p) p
    refine ⟨_, rfl, ?_, ?_, ?_, ?_, ?_, ?_⟩
    · intro h
      rcases h with h | h
      · cases h
      · rw [cs, ns, if_neg (by simp [h])]
    · rintro ⟨_, h⟩
      rw [cs, ns, if_pos h]
    · intro h
      cases h
    · intro _
      rw [co, no]
    · intro hc
      rw [cc, ci, nc, if_pos hc, if_pos hc]
      exact ⟨rfl, rfl⟩
    · intro hc
      rw [cc, nc, if_neg hc]
  · simp only [if_true]
    obtain ⟨cs, co, cc, ci⟩ := shutting_clear_fields
      ((bta_ag_create_sco cfg ctl
        (sco_shutting_next cfg (sco_event_head w p BTA_AG_SCO_CONN_CLOSE_E) p) p
        false).setState BTA_AG_SCO_LISTEN_ST) p
    have hcur : ((bta_ag_create_sco cfg ctl
        (sco_shutting_next cfg (sco_event_head w p BTA_AG_SCO_CONN_CLOSE_E) p) p
        false).setState BTA_AG_SCO_LISTEN_ST).sco.p_curr_scb = w.sco.p_curr_scb := by
      simp only [World.setState]
      rw [(create_sco_sco _ _ _ _ _).2.2.2.2.2.1, nc]
      simp
    have hout : ((bta_ag_create_sco cfg ctl
        (sco_shutting_next cfg (sco_event_head w p BTA_AG_SCO_CONN_CLOSE_E) p) p
        false).setState BTA_AG_SCO_LISTEN_ST).out = (bta_ag_create_sco cfg ctl w p false).out := by
      simp only [World.setState]
      rw [create_sco_listen_out, create_sco_listen_out, nb, no]
    have hidx : (((bta_ag_create_sco cfg ctl
        (sco_shutting_next cfg (sco_event_head w p BTA_AG_SCO_CONN_CLOSE_E) p) p
        false).setState BTA_AG_SCO_LISTEN_ST).scb p).sco_idx =
        (if (w.scb p).sco_idx = BTM_INVALID_SCO_INDEX then ctl.create_idx
          else (w.scb p).sco_idx) := by
      simp only [World.setState]
      rw [(create_sco_listen_scb _ _ _ _ _).2.1, nb]
      simp
    refine ⟨_, rfl, ?_, ?_, ?_, ?_, ?_, ?_⟩
    · intro _
      rw [cs]
      rfl
    · rintro ⟨h, _⟩
      cases h
    · intro _
      refine ⟨?_, ?_⟩
      · rw [co, hout, create_sco_listen_out]
      · intro hc hi
        rw [ci, hcur, if_neg hc, hidx, if_pos hi]
    · intro h
      cases h
    · intro hc
      rw [cc, ci, hcur, if_pos hc, if_pos hc]
      exact ⟨rfl, rfl⟩
    · intro hc
      rw [cc, hcur, if_neg hc]

/-- Witness for C35: the link of block 0 of the example pool is closed while
the machine is shutting and block 0 is still open: the machine returns to the
listen state and the listening connection of block 0 is created, with index 6. -/
theorem shutting_conn_close_outcome_witness :
    ∃ w1, bta_ag_sco_event exampleCfg (ctlStarted 6) worldShuttingOpen 0
        BTA_AG_SCO_CONN_CLOSE_E = some w1 ∧
      w1.sco.state = BTA_AG_SCO_LISTEN_ST ∧
      w1.out = [Action.BTM_CreateSco 0xA0 false 0x0388, Action.BTM_RegForEScoEvts 6] ∧
      (w1.scb 0).sco_idx = 6 ∧ w1.sco.p_curr_scb = none := by
  obtain ⟨w1, h, hl, _, ho, _, _, hc⟩ := shutting_conn_close_outcome exampleCfg (ctlStarted 6)
    worldShuttingOpen 0 rfl
  exact ⟨w1, h, hl (Or.inl (by decide)), (ho (by decide)).1.trans (by decide),
    (ho (by decide)).2 (by decide) (by decide), hc (by decide)⟩

/-! ## C34: the connection-close event in the close-transfer state -/

/-- What the first two calls of the connection-close event in the
close-transfer state leave: the calls of the listen for `p` followed by the
removal request for the index of `x`, made whenever that index is valid; the
state and the transfer slot are not written. -/
theorem close_xfer_handover_effect (cfg : Cfg) (ctl : Ctl) (w : World) (p x : Nat) :
    (close_xfer_handover cfg ctl w p x).out =
      (bta_ag_create_sco cfg ctl w p false).out ++
        (if ((bta_ag_create_sco cfg ctl w p false).scb x).sco_idx ≠ BTM_INVALID_SCO_INDEX then
          [Action.BTM_RemoveSco ((bta_ag_create_sco cfg ctl w p false).scb x).sco_idx]
        else []) ∧
    (close_xfer_handover cfg ctl w p x).sco.state = w.sco.state ∧
    (close_xfer_handover cfg ctl w p x).sco.p_xfer_scb = w.sco.p_xfer_scb := by
  have hb : ∀ q, ((bta_ag_create_sco cfg ctl (sco_event_head w p BTA_AG_SCO_CONN_CLOSE_E) p
      false).scb q).sco_idx = ((bta_ag_create_sco cfg ctl w p false).scb q).sco_idx := by
    intro q
    rw [(create_sco_listen_scb _ _ _ _ _).2.1, (create_sco_listen_scb _ _ _ _ _).2.1]
    simp [sco_event_head]
  have ho : (bta_ag_create_sco cfg ctl (sco_event_head w p BTA_AG_SCO_CONN_CLOSE_E) p
      false).out = (bta_ag_create_sco cfg ctl w p false).out := by
    rw [create_sco_listen_out, create_sco_listen_out]
    simp [sco_event_head]
  unfold close_xfer_handover
  refine ⟨?_, ?_, ?_⟩
  · rw [remove_sco_out, hb, ho]
    split_ifs <;> simp_all
  · simp [sco_event_head]
  · simp [sco_event_head]

/-- The codec and the parameters that `bta_ag_create_sco` chooses are read from
the fields `sco_codec`, `codec_fallback`, `retry_with_sco_only`,
`codec_msbc_settings`, `features` and `peer_features` of the block. -/
theorem create_sco_choice_congr (cfg : Cfg) (s t : tBTA_AG_SCB)
    (h1 : t.sco_codec = s.sco_codec) (h2 : t.codec_fallback = s.codec_fallback)
    (h3 : t.retry_with_sco_only = s.retry_with_sco_only)
    (h4 : t.codec_msbc_settings = s.codec_msbc_settings) (h5 : t.features = s.features)
    (h6 : t.peer_features = s.peer_features) :
    create_sco_codec cfg t = create_sco_codec cfg s ∧
    create_sco_params cfg (create_sco_fallback cfg t) (create_sco_codec cfg t) =
      create_sco_params cfg (create_sco_fallback cfg s) (create_sco_codec cfg s) := by
  have hc : create_sco_codec cfg t = create_sco_codec cfg s := by
    unfold create_sco_codec
    rw [h1, h2, h3]
  obtain ⟨f1, f2, f3⟩ := create_sco_fallback_fields cfg s
  obtain ⟨g1, g2, g3⟩ := create_sco_fallback_fields cfg t
  refine ⟨hc, ?_⟩
  rw [hc]
  unfold create_sco_params create_sco_codec_index limit_for_sco lacks_esco
  simp only [f1, f2, f3, g1, g2, g3, h4, h5, h6]

/-- What `bta_ag_create_sco` does for an originate on the block `x`: when the
index of `x` is invalid it makes the three set-up calls and `x` becomes the
current block; when the index is valid it makes no call and writes no slot. -/
theorem create_sco_orig_result (cfg : Cfg) (ctl : Ctl) (u : World) (x : Nat) :
    ((u.scb x).sco_idx = BTM_INVALID_SCO_INDEX →
      (bta_ag_create_sco cfg ctl u x true).out =
        u.out ++
          [Action.BTM_SetEScoMode
              (create_sco_params cfg (create_sco_fallback cfg (u.scb x))
                (create_sco_codec cfg (u.scb x))),
            Action.bta_sys_sco_use (u.scb x).app_id (u.scb x).peer_addr,
            Action.bta_ag_co_audio_state (bta_ag_scb_to_idx x) (u.scb x).app_id SCO_STATE_SETUP
              (co_codec cfg (create_sco_codec cfg (u.scb x)))] ∧
      (bta_ag_create_sco cfg ctl u x true).sco.p_curr_scb = some x) ∧
    ((u.scb x).sco_idx ≠ BTM_INVALID_SCO_INDEX →
      (bta_ag_create_sco cfg ctl u x true).out = u.out ∧
      (bta_ag_create_sco cfg ctl u x true).sco.p_curr_scb = u.sco.p_curr_scb) := by
  refine ⟨fun hi => ⟨(create_sco_orig_out cfg ctl u x hi).1, ?_⟩, fun hi => ?_⟩
  · rw [(create_sco_sco cfg ctl u x true).2.2.2.2.2.1, if_pos ⟨rfl, hi⟩]
  · rw [create_sco_in_use cfg ctl u x true hi]
    exact ⟨rfl, rfl⟩

/-- The block `x` after the first two calls of the connection-close event in
the close-transfer state, for `x` other than `p`: its index is invalid when it
was invalid or the controller reports the connection gone or its address
unknown, and as it was otherwise; the fields that the following steps read are
as they were. -/
theorem close_xfer_handover_block (cfg : Cfg) (ctl : Ctl) (w : World) (p x : Nat)
    (hpx : p ≠ x) :
    ((close_xfer_handover cfg ctl w p x).scb x).sco_idx =
      (if (w.scb x).sco_idx = BTM_INVALID_SCO_INDEX ∨ ctl.remove_status = BTM_SUCCESS ∨
          ctl.remove_status = BTM_UNKNOWN_ADDR then BTM_INVALID_SCO_INDEX
        else (w.scb x).sco_idx) ∧
    ((close_xfer_handover cfg ctl w p x).scb x).app_id = (w.scb x).app_id ∧
    ((close_xfer_handover cfg ctl w p x).scb x).peer_addr = (w.scb x).peer_addr ∧
    ((close_xfer_handover cfg ctl w p x).scb x).peer_features = (w.scb x).peer_features ∧
    ((close_xfer_handover cfg ctl w p x).scb x).features = (w.scb x).features ∧
    ((close_xfer_handover cfg ctl w p x).scb x).sco_codec = (w.scb x).sco_codec ∧
    ((close_xfer_handover cfg ctl w p x).scb x).codec_updated = (w.scb x).codec_updated ∧
    ((close_xfer_handover cfg ctl w p x).scb x).codec_fallback = (w.scb x).codec_fallback ∧
    ((close_xfer_handover cfg ctl w p x).scb x).codec_msbc_settings =
      (w.scb x).codec_msbc_settings ∧
    ((close_xfer_handover cfg ctl w p x).scb x).retry_with_sco_only =
      (w.scb x).retry_with_sco_only := by
  have hb : (bta_ag_create_sco cfg ctl (sco_event_head w p BTA_AG_SCO_CONN_CLOSE_E) p
      false).scb x = w.scb x := by
    rw [create_sco_scb_ne _ _ _ _ _ _ (Ne.symm hpx), sco_event_head_scb]
  unfold close_xfer_handover
  refine ⟨?_, ?_, ?_, ?_, ?_, ?_, ?_, ?_, ?_, ?_⟩
  · rw [remove_sco_sco_idx, hb]
    by_cases hi : (w.scb x).sco_idx = BTM_INVALID_SCO_INDEX
    · simp [hi]
    · simp [hi]
  all_goals simp [hb]

/-- The current block after the first two calls of the connection-close event
in the close-transfer state: `x` when the removal of its connection was
started, and as it was otherwise. -/
theorem close_xfer_handover_curr (cfg : Cfg) (ctl : Ctl) (w : World) (p x : Nat)
    (hpx : p ≠ x) :
    (close_xfer_handover cfg ctl w p x).sco.p_curr_scb =
      (if (w.scb x).sco_idx ≠ BTM_INVALID_SCO_INDEX ∧ ctl.remove_status = BTM_CMD_STARTED
        then some x else w.sco.p_curr_scb) := by
  have hb : (bta_ag_create_sco cfg ctl (sco_event_head w p BTA_AG_SCO_CONN_CLOSE_E) p
      false).scb x = w.scb x := by
    rw [create_sco_scb_ne _ _ _ _ _ _ (Ne.symm hpx), sco_event_head_scb]
  unfold close_xfer_handover
  rw [(remove_sco_sco _ _ _ _).2.2.2.2.2.2.1]
  have hs := remove_sco_started ctl.remove_status
    (bta_ag_create_sco cfg ctl (sco_event_head w p BTA_AG_SCO_CONN_CLOSE_E) p false) x false
  rw [hb] at hs
  have hc : (bta_ag_create_sco cfg ctl (sco_event_head w p BTA_AG_SCO_CONN_CLOSE_E) p
      false).sco.p_curr_scb = w.sco.p_curr_scb := by
    rw [(create_sco_sco _ _ _ _ _).2.2.2.2.2.1, sco_event_head_sco]
    simp
  rw [hc]
  by_cases hr : (w.scb x).sco_idx ≠ BTM_INVALID_SCO_INDEX ∧ ctl.remove_status = BTM_CMD_STARTED
  · rw [if_pos hr, if_pos (hs.2 ⟨hr.1, Or.inl rfl, hr.2⟩)]
  · rw [if_neg hr, if_neg]
    intro h
    exact hr ⟨(hs.1 h).1, (hs.1 h).2.2⟩

/-- The calls made by the first two calls of the connection-close event in the
close-transfer state, for `x` other than `p`. -/
theorem close_xfer_handover_calls (cfg : Cfg) (ctl : Ctl) (w : World) (p x : Nat)
    (hpx : p ≠ x) :
    (close_xfer_handover cfg ctl w p x).out =
      (w.out ++
        (if (w.scb p).sco_idx ≠ BTM_INVALID_SCO_INDEX then []
          else if ctl.create_status = BTM_CMD_STARTED then
            [Action.BTM_CreateSco (w.scb p).peer_addr false
                (create_sco_params cfg (create_sco_fallback cfg (w.scb p))
                  (create_sco_codec cfg (w.scb p))).packet_types,
              Action.BTM_RegForEScoEvts ctl.create_idx]
          else
            [Action.BTM_CreateSco (w.scb p).peer_addr false
                (create_sco_params cfg (create_sco_fallback cfg (w.scb p))
                  (create_sco_codec cfg (w.scb p))).packet_types])) ++
        (if (w.scb x).sco_idx ≠ BTM_INVALID_SCO_INDEX then
          [Action.BTM_RemoveSco (w.scb x).sco_idx]
        else []) := by
  rw [(close_xfer_handover_effect cfg ctl w p x).1,
    create_sco_scb_ne _ _ _ _ _ _ (Ne.symm hpx), create_sco_listen_out]
  split_ifs <;> simp

/-- The event `BTA_AG_SCO_CN_DONE_E` in the codec state (wideband built in):
the machine moves to the opening state, and `bta_ag_create_sco` sets up the
originate when the index of the block is invalid and declines otherwise. -/
theorem cn_done_in_codec (cfg : Cfg) (ctl : Ctl) (v : World) (x : Nat)
    (hw : cfg.BTM_WBS_INCLUDED = true) (hs : v.sco.state = BTA_AG_SCO_CODEC_ST) :
    ∃ w3, bta_ag_sco_event cfg ctl v x BTA_AG_SCO_CN_DONE_E = some w3 ∧
      w3.sco.state = BTA_AG_SCO_OPENING_ST ∧ w3.sco.p_xfer_scb = v.sco.p_xfer_scb ∧
      ((v.scb x).sco_idx = BTM_INVALID_SCO_INDEX →
        w3.out =
          v.out ++
            [Action.BTM_SetEScoMode
                (create_sco_params cfg (create_sco_fallback cfg (v.scb x))
                  (create_sco_codec cfg (v.scb x))),
              Action.bta_sys_sco_use (v.scb x).app_id (v.scb x).peer_addr,
              Action.bta_ag_co_audio_state (bta_ag_scb_to_idx x) (v.scb x).app_id
                SCO_STATE_SETUP (co_codec cfg (create_sco_codec cfg (v.scb x)))] ∧
        w3.sco.p_curr_scb = some x) ∧
      ((v.scb x).sco_idx ≠ BTM_INVALID_SCO_INDEX →
        w3.out = v.out ∧ w3.sco.p_curr_scb = v.sco.p_curr_scb) := by
  rw [cn_done_event, if_pos hs, if_pos hw]
  obtain ⟨r1, r2⟩ := create_sco_orig_result cfg ctl
    (v.trace (LogEntry.sco_evt (v.scb x).sco_idx v.sco.state BTA_AG_SCO_CN_DONE_E)) x
  refine ⟨_, rfl, rfl, ?_, fun hi => r1 hi, fun hi => r2 hi⟩
  simp

/-- A codec negotiation that is skipped in the codec state (wideband built
in): `bta_ag_codec_negotiate` returns in the opening state with `x` the current
block; the originate is set up when the index of `x` is invalid, and no call is
made otherwise. -/
theorem codec_negotiate_skipped (cfg : Cfg) (ctl : Ctl) (u : World) (x : Nat)
    (hw : cfg.BTM_WBS_INCLUDED = true) (hs : u.sco.state = BTA_AG_SCO_CODEC_ST)
    (hn : codec_nego_needed cfg (u.scb x) = false) :
    ∃ w3, bta_ag_codec_negotiate cfg ctl u x = some w3 ∧
      w3.sco.state = BTA_AG_SCO_OPENING_ST ∧ w3.sco.p_xfer_scb = u.sco.p_xfer_scb ∧
      w3.sco.p_curr_scb = some x ∧
      ((u.scb x).sco_idx = BTM_INVALID_SCO_INDEX →
        w3.out =
          u.out ++
            [Action.BTM_SetEScoMode
                (create_sco_params cfg (create_sco_fallback cfg (u.scb x))
                  (create_sco_codec cfg (u.scb x))),
              Action.bta_sys_sco_use (u.scb x).app_id (u.scb x).peer_addr,
              Action.bta_ag_co_audio_state (bta_ag_scb_to_idx x) (u.scb x).app_id
                SCO_STATE_SETUP (co_codec cfg (create_sco_codec cfg (u.scb x)))]) ∧
      ((u.scb x).sco_idx ≠ BTM_INVALID_SCO_INDEX → w3.out = u.out) := by
  have e : bta_ag_codec_negotiate cfg ctl u x =
      bta_ag_sco_event cfg ctl
        ((u.setCurr (some x)).setScb x { u.scb x with codec_updated := false }) x
        BTA_AG_SCO_CN_DONE_E := by
    unfold bta_ag_codec_negotiate codec_negotiate_via sco_codec_nego_via
    simp [hn]
  have hv : ((u.setCurr (some x)).setScb x { u.scb x with codec_updated := false }).scb x =
      { u.scb x with codec_updated := false } := by
    simp
  obtain ⟨w3, h3, s3, x3, g1, g2⟩ := cn_done_in_codec cfg ctl
    ((u.setCurr (some x)).setScb x { u.scb x with codec_updated := false }) x hw
    (by simpa using hs)
  obtain ⟨k1, k2⟩ := create_sco_choice_congr cfg (u.scb x)
    { u.scb x with codec_updated := false } rfl rfl rfl rfl rfl rfl
  rw [hv] at g1 g2
  rw [k2, k1] at g1
  refine ⟨w3, e.trans h3, s3, ?_, ?_, ?_, ?_⟩
  · rw [x3]
    simp
  · by_cases hi : (u.scb x).sco_idx = BTM_INVALID_SCO_INDEX
    · exact (g1 hi).2
    · rw [(g2 hi).2]
      simp
  · intro hi
    exact (g1 hi).1
  · intro hi
    exact (g2 hi).1

/-- C34, the claim as stated fails: in the build without wideband, in the
close-transfer state with the transfer to block 1, whose listening connection
has the index 5, the controller answers the removal of that connection with
`BTM_CMD_STARTED`.  The connection-close event for block 0 creates the listen
for block 0 and asks for the removal, but the index of block 1 is still valid
and `bta_ag_create_sco` declines the originate: no `BTM_SetEScoMode` is called,
the warning "already in use" is written, and the state is opening. -/
theorem close_xfer_originate_declined :
    (bta_ag_sco_event narrowbandCfg (ctlStarted 6) worldCloseXfer 0
        BTA_AG_SCO_CONN_CLOSE_E).map
      (fun w => (w.sco.state, w.sco.p_curr_scb, w.sco.p_xfer_scb, (w.scb 1).sco_idx, w.out,
        w.log.getLast?)) =
      some (BTA_AG_SCO_OPENING_ST, some 1, none, 5,
        [Action.BTM_CreateSco 0xA0 false 0x03BF, Action.BTM_RegForEScoEvts 6,
          Action.BTM_RemoveSco 5],
        some (LogEntry.already_in_use 5)) ∧
    worldCloseXfer.sco.state = BTA_AG_SCO_CLOSE_XFER_ST ∧
    worldCloseXfer.sco.p_xfer_scb = some 1 ∧
    narrowbandCfg.BTM_WBS_INCLUDED = false := by
  refine ⟨?_, ?_, ?_, ?_⟩ <;> rfl

/-- C34, amended: in the close-transfer state with transfer block `x` other
than `p`, the connection-close event for `p` returns with `p_xfer_scb`
cleared.  It first calls `bta_ag_create_sco` for a listen on `p`, which creates
the listening connection when the index of `p` is invalid, and asks the
controller to remove the connection of `x` whenever the index of `x` is valid,
whatever the active index (`pre` is the calls made up to there).  With wideband
built in `x` is the current block and codec negotiation is started for it: the
machine is in the codec state with "busy" signalled, `+BCS` sent and the timer
armed, or in the opening state when negotiation is skipped.  Without wideband
the machine is in the opening state.  The originate for `x` (the calls `orig`),
made without wideband or when negotiation is skipped, is set up exactly when
the index of `x` is invalid after the removal: `x` had no connection, or the
controller answered `BTM_SUCCESS` or `BTM_UNKNOWN_ADDR`.  Otherwise
`bta_ag_create_sco` declines and no further call is made; without wideband `x`
is then the current block only if the removal was started
(`BTM_CMD_STARTED`). -/
theorem close_xfer_conn_close_hands_over (cfg : Cfg) (ctl : Ctl) (w : World) (p x : Nat)
    (hs : w.sco.state = BTA_AG_SCO_CLOSE_XFER_ST) (hx : w.sco.p_xfer_scb = some x)
    (hpx : p ≠ x) :
    ∃ w3 pre orig, bta_ag_sco_event cfg ctl w p BTA_AG_SCO_CONN_CLOSE_E = some w3 ∧
      pre =
        (w.out ++
          (if (w.scb p).sco_idx ≠ BTM_INVALID_SCO_INDEX then []
            else if ctl.create_status = BTM_CMD_STARTED then
              [Action.BTM_CreateSco (w.scb p).peer_addr false
                  (create_sco_params cfg (create_sco_fallback cfg (w.scb p))
                    (create_sco_codec cfg (w.scb p))).packet_types,
                Action.BTM_RegForEScoEvts ctl.create_idx]
            else
              [Action.BTM_CreateSco (w.scb p).peer_addr false
                  (create_sco_params cfg (create_sco_fallback cfg (w.scb p))
                    (create_sco_codec cfg (w.scb p))).packet_types])) ++
          (if (w.scb x).sco_idx ≠ BTM_INVALID_SCO_INDEX then
            [Action.BTM_RemoveSco (w.scb x).sco_idx]
          else []) ∧
      orig =
        [Action.BTM_SetEScoMode
            (create_sco_params cfg (create_sco_fallback cfg (w.scb x))
              (create_sco_codec cfg (w.scb x))),
          Action.bta_sys_sco_use (w.scb x).app_id (w.scb x).peer_addr,
          Action.bta_ag_co_audio_state (bta_ag_scb_to_idx x) (w.scb x).app_id SCO_STATE_SETUP
            (co_codec cfg (create_sco_codec cfg (w.scb x)))] ∧
      w3.sco.p_xfer_scb = none ∧
      (cfg.BTM_WBS_INCLUDED = true →
        w3.sco.p_curr_scb = some x ∧
        (codec_nego_needed cfg (w.scb x) = true →
          w3.sco.state = BTA_AG_SCO_CODEC_ST ∧ (w3.scb x).codec_negotiation_timer = true ∧
          w3.out = pre ++
            [Action.bta_sys_busy (w.scb x).app_id (w.scb x).peer_addr,
              Action.bta_ag_send_bcs (bta_ag_scb_to_idx x),
              Action.alarm_set_on_queue (bta_ag_scb_to_idx x) 3000]) ∧
        (codec_nego_needed cfg (w.scb x) = false →
          w3.sco.state = BTA_AG_SCO_OPENING_ST ∧
          (((w.scb x).sco_idx = BTM_INVALID_SCO_INDEX ∨ ctl.remove_status = BTM_SUCCESS ∨
              ctl.remove_status = BTM_UNKNOWN_ADDR) → w3.out = pre ++ orig) ∧
          (¬((w.scb x).sco_idx = BTM_INVALID_SCO_INDEX ∨ ctl.remove_status = BTM_SUCCESS ∨
              ctl.remove_status = BTM_UNKNOWN_ADDR) → w3.out = pre))) ∧
      (cfg.BTM_WBS_INCLUDED = false →
        w3.sco.state = BTA_AG_SCO_OPENING_ST ∧
        (((w.scb x).sco_idx = BTM_INVALID_SCO_INDEX ∨ ctl.remove_status = BTM_SUCCESS ∨
            ctl.remove_status = BTM_UNKNOWN_ADDR) →
          w3.out = pre ++ orig ∧ w3.sco.p_curr_scb = some x) ∧
        (¬((w.scb x).sco_idx = BTM_INVALID_SCO_INDEX ∨ ctl.remove_status = BTM_SUCCESS ∨
            ctl.remove_status = BTM_UNKNOWN_ADDR) →
          w3.out = pre ∧
          w3.sco.p_curr_scb =
            (if ctl.remove_status = BTM_CMD_STARTED then some x else w.sco.p_curr_scb))) := by
  obtain ⟨_, hst, hxf⟩ := close_xfer_handover_effect cfg ctl w p x
  obtain ⟨bi, ba, bp, bpf, bf, bc, bu, bfb, bm, br⟩ := close_xfer_handover_block cfg ctl w p x hpx
  have hcur := close_xfer_handover_curr cfg ctl w p x hpx
  have hout := close_xfer_handover_calls cfg ctl w p x hpx
  have hx0 : (sco_event_head w p BTA_AG_SCO_CONN_CLOSE_E).sco.p_xfer_scb = some x := by
    rw [sco_event_head_sco]
    exact hx
  have hx1 : (bta_ag_create_sco cfg ctl (sco_event_head w p BTA_AG_SCO_CONN_CLOSE_E) p
      false).sco.p_xfer_scb = some x := by
    rw [(create_sco_sco _ _ _ _ _).2.1]
    exact hx0
  have hx2 : (close_xfer_handover cfg ctl w p x).sco.p_xfer_scb = some x := by
    rw [hxf, hx]
  have hneed : codec_nego_needed cfg ((close_xfer_handover cfg ctl w p x).scb x) =
      codec_nego_needed cfg (w.scb x) := by
    unfold codec_nego_needed
    rw [bu, bfb, bpf]
  cases hw : cfg.BTM_WBS_INCLUDED
  · -- without wideband
    have e : bta_ag_sco_event cfg ctl w p BTA_AG_SCO_CONN_CLOSE_E =
        some (((bta_ag_create_sco cfg ctl (close_xfer_handover cfg ctl w p x) x true).setXfer
          none).setState BTA_AG_SCO_OPENING_ST) := by
      have hx3 := hx2
      unfold close_xfer_handover at hx3
      simp only [bta_ag_sco_event, sco_event_switch, sco_event_head_sco, hs, sco_close_xfer_st,
        hx1, hw, Bool.false_eq_true, if_false, hx3]
      rfl
    obtain ⟨r1, r2⟩ := create_sco_orig_result cfg ctl (close_xfer_handover cfg ctl w p x) x
    obtain ⟨k1, k2⟩ := create_sco_choice_congr cfg (w.scb x)
      ((close_xfer_handover cfg ctl w p x).scb x) bc bfb br bm bf bpf
    refine ⟨_, _, _, e, rfl, rfl, rfl, ?_, ?_⟩
    · intro h
      cases h
    · intro _
      refine ⟨rfl, ?_, ?_⟩
      · intro hg
        have hi : ((close_xfer_handover cfg ctl w p x).scb x).sco_idx =
            BTM_INVALID_SCO_INDEX := by
          rw [bi, if_pos hg]
        obtain ⟨o1, o2⟩ := r1 hi
        refine ⟨?_, ?_⟩
        · show (bta_ag_create_sco cfg ctl (close_xfer_handover cfg ctl w p x) x true).out = _
          rw [o1, hout, k2, k1, ba, bp]
        · exact o2
      · intro hg
        have hi : ((close_xfer_handover cfg ctl w p x).scb x).sco_idx ≠
            BTM_INVALID_SCO_INDEX := by
          rw [bi, if_neg hg]
          exact fun h => hg (Or.inl h)
        obtain ⟨o1, o2⟩ := r2 hi
        refine ⟨?_, ?_⟩
        · show (bta_ag_create_sco cfg ctl (close_xfer_handover cfg ctl w p x) x true).out = _
          rw [o1, hout]
        · show (bta_ag_create_sco cfg ctl (close_xfer_handover cfg ctl w p x) x
            true).sco.p_curr_scb = _
          rw [o2, hcur]
          have hv : (w.scb x).sco_idx ≠ BTM_INVALID_SCO_INDEX := fun h => hg (Or.inl h)
          by_cases hc : ctl.remove_status = BTM_CMD_STARTED
          · rw [if_pos ⟨hv, hc⟩, if_pos hc]
          · rw [if_neg (fun h => hc h.2), if_neg hc]
  · -- with wideband
    have hsw : sco_event_switch cfg ctl (sco_event_head w p BTA_AG_SCO_CONN_CLOSE_E) p
        BTA_AG_SCO_CONN_CLOSE_E =
        some (((close_xfer_handover cfg ctl w p x).setState BTA_AG_SCO_CODEC_ST).setXfer none,
          some x) := by
      simp only [sco_event_switch, sco_event_head_sco, hs, sco_close_xfer_st, hx1, hw, if_true]
      have hx3 := hx2
      unfold close_xfer_handover at hx3 ⊢
      rw [hx3]
    have e : bta_ag_sco_event cfg ctl w p BTA_AG_SCO_CONN_CLOSE_E =
        bta_ag_codec_negotiate cfg ctl
          (((close_xfer_handover cfg ctl w p x).setState BTA_AG_SCO_CODEC_ST).setXfer none)
          x := by
      rw [bta_ag_sco_event_body, hsw]
    rw [e]
    cases hn : codec_nego_needed cfg (w.scb x)
    · obtain ⟨w3, h3, s3, x3, c3, g1, g2⟩ := codec_negotiate_skipped cfg ctl
        (((close_xfer_handover cfg ctl w p x).setState BTA_AG_SCO_CODEC_ST).setXfer none) x hw
        rfl (hneed.trans hn)
      obtain ⟨k1, k2⟩ := create_sco_choice_congr cfg (w.scb x)
        ((close_xfer_handover cfg ctl w p x).scb x) bc bfb br bm bf bpf
      simp only [World.setState, World.setXfer] at x3 g1 g2
      refine ⟨w3, _, _, h3, rfl, rfl, x3, ?_, ?_⟩
      · intro _
        refine ⟨c3, ?_, ?_⟩
        · intro h
          cases h
        · intro _
          refine ⟨s3, ?_, ?_⟩
          · intro hg
            have hi : ((close_xfer_handover cfg ctl w p x).scb x).sco_idx =
                BTM_INVALID_SCO_INDEX := by
              rw [bi, if_pos hg]
            rw [g1 hi, hout, k2, k1, ba, bp]
          · intro hg
            have hi : ((close_xfer_handover cfg ctl w p x).scb x).sco_idx ≠
                BTM_INVALID_SCO_INDEX := by
              rw [bi, if_neg hg]
              exact fun h => hg (Or.inl h)
            rw [g2 hi, hout]
      · intro h
        cases h
    · unfold bta_ag_codec_negotiate codec_negotiate_via
      simp only [World.setCurr, World.setState, World.setXfer]
      rw [hneed, hn]
      simp only [if_true]
      refine ⟨_, _, _, rfl, rfl, rfl, ?_, ?_, ?_⟩
      · simp [World.emit, World.setScb]
      · intro _
        refine ⟨by simp [World.emit, World.setScb], ?_, ?_⟩
        · intro _
          refine ⟨by simp [World.emit, World.setScb], by simp [World.emit, World.setScb], ?_⟩
          simp only [World.emit, World.setScb, List.append_assoc, List.singleton_append]
          rw [hout, ba, bp]
          simp [BTA_AG_CODEC_NEGOTIATION_TIMEOUT_MS]
        · intro h
          cases h
      · intro h
        cases h

/-- Witness for C34: the link of block 0 has been closed for a transfer to
block 1, whose listening connection 5 the controller reports gone; the listen
for block 0 is created, codec negotiation is skipped and the originate for
block 1 is set up with the mSBC T2 parameters. -/
theorem close_xfer_conn_close_hands_over_witness :
    ∃ w3, bta_ag_sco_event exampleCfg (ctlGone 7) worldCloseXfer 0 BTA_AG_SCO_CONN_CLOSE_E =
        some w3 ∧
      w3.sco.p_xfer_scb = none ∧ w3.sco.p_curr_scb = some 1 ∧
      w3.sco.state = BTA_AG_SCO_OPENING_ST ∧
      w3.out =
        [Action.BTM_CreateSco 0xA0 false 0x0388, Action.BTM_RegForEScoEvts 7,
          Action.BTM_RemoveSco 5,
          Action.BTM_SetEScoMode (exampleCfg.esco_parameters_for_codec ESCO_CODEC_MSBC_T2),
          Action.bta_sys_sco_use 2 0xB0,
          Action.bta_ag_co_audio_state 2 2 SCO_STATE_SETUP (some BTA_AG_CODEC_MSBC)] := by
  obtain ⟨w3, pre, orig, h, hp, ho, hxf, hwb, _⟩ :=
    close_xfer_conn_close_hands_over exampleCfg (ctlGone 7) worldCloseXfer 0 1 rfl rfl
      (by decide)
  obtain ⟨hc, _, hsk⟩ := hwb rfl
  obtain ⟨hst, hg, _⟩ := hsk (by decide)
  refine ⟨w3, h, hxf, hc, hst, ?_⟩
  rw [hg (Or.inr (Or.inl rfl)), hp, ho]
  rfl

/-! ## C36, C37, C38, C39: removal, refused originate, and the retries of the close -/

/-- C36: `bta_ag_remove_sco` starts a removal when the index of `p` is valid,
`only_active` is false or the index is the active one, and the controller
answers `BTM_CMD_STARTED`; it then returns true and makes `p` the current
block, whatever block was current, and leaves the index.  In every other case
it returns false and leaves `p_curr_scb` unchanged.  The index of `p` is reset
to invalid exactly when the controller was asked and answered `BTM_SUCCESS` or
`BTM_UNKNOWN_ADDR`; no other index is written.  Consequently a shutdown
request in the open state for a block `p` that is not current, whose index is
valid, with the controller starting the removal, makes `p` the current block
and leaves the shutting state. -/
theorem remove_sco_contract (cfg : Cfg) (ctl : Ctl) (w : World) (p : Nat) (only_active : Bool) :
    (((w.scb p).sco_idx ≠ BTM_INVALID_SCO_INDEX ∧
        (only_active = false ∨ (w.scb p).sco_idx = w.sco.cur_idx) ∧
        ctl.remove_status = BTM_CMD_STARTED) →
      (bta_ag_remove_sco ctl.remove_status w p only_active).2 = true ∧
        (bta_ag_remove_sco ctl.remove_status w p only_active).1.sco.p_curr_scb = some p ∧
        ((bta_ag_remove_sco ctl.remove_status w p only_active).1.scb p).sco_idx =
          (w.scb p).sco_idx) ∧
    (¬((w.scb p).sco_idx ≠ BTM_INVALID_SCO_INDEX ∧
        (only_active = false ∨ (w.scb p).sco_idx = w.sco.cur_idx) ∧
        ctl.remove_status = BTM_CMD_STARTED) →
      (bta_ag_remove_sco ctl.remove_status w p only_active).2 = false ∧
        (bta_ag_remove_sco ctl.remove_status w p only_active).1.sco.p_curr_scb =
          w.sco.p_curr_scb) ∧
    (∀ q, ((bta_ag_remove_sco ctl.remove_status w p only_active).1.scb q).sco_idx =
      (if q = p ∧ (w.scb p).sco_idx ≠ BTM_INVALID_SCO_INDEX ∧
          (only_active = false ∨ (w.scb p).sco_idx = w.sco.cur_idx) ∧
          (ctl.remove_status = BTM_SUCCESS ∨ ctl.remove_status = BTM_UNKNOWN_ADDR)
        then BTM_INVALID_SCO_INDEX else (w.scb q).sco_idx)) ∧
    (w.sco.state = BTA_AG_SCO_OPEN_ST → w.sco.p_curr_scb ≠ some p →
      (w.scb p).sco_idx ≠ BTM_INVALID_SCO_INDEX → ctl.remove_status = BTM_CMD_STARTED →
      ∃ w1, bta_ag_sco_shutdown cfg ctl w p = some w1 ∧ w1.sco.p_curr_scb = some p ∧
        w1.sco.state = BTA_AG_SCO_SHUTTING_ST ∧
        w1.out = w.out ++ [Action.BTM_RemoveSco (w.scb p).sco_idx]) := by
  refine ⟨?_, ?_, fun q => remove_sco_sco_idx _ w p only_active q, ?_⟩
  · intro h
    have hs := (remove_sco_started ctl.remove_status w p only_active).2 h
    refine ⟨hs, ?_, ?_⟩
    · rw [(remove_sco_sco _ w p only_active).2.2.2.2.2.2.1, if_pos hs]
    · rw [remove_sco_sco_idx, if_neg]
      rintro ⟨_, _, _, h4⟩
      rw [h.2.2] at h4
      rcases h4 with h4 | h4 <;> cases h4
  · intro h
    have hs : (bta_ag_remove_sco ctl.remove_status w p only_active).2 = false := by
      cases hb : (bta_ag_remove_sco ctl.remove_status w p only_active).2
      · rfl
      · exact absurd ((remove_sco_started ctl.remove_status w p only_active).1 hb) h
    refine ⟨hs, ?_⟩
    rw [(remove_sco_sco _ w p only_active).2.2.2.2.2.2.1, hs]
    simp
  · intro hst hc hi hr
    have hs : (bta_ag_remove_sco ctl.remove_status (sco_event_head w p BTA_AG_SCO_SHUTDOWN_E) p
        false).2 = true := by
      rw [remove_sco_started]
      exact ⟨by simpa [sco_event_head] using hi, Or.inl rfl, hr⟩
    have hcur : (bta_ag_remove_sco ctl.remove_status
        (sco_event_head w p BTA_AG_SCO_SHUTDOWN_E) p false).1.sco.p_curr_scb = some p := by
      rw [(remove_sco_sco _ _ p false).2.2.2.2.2.2.1, if_pos hs]
    have e : bta_ag_sco_shutdown cfg ctl w p =
        some ((bta_ag_remove_sco ctl.remove_status (sco_event_head w p BTA_AG_SCO_SHUTDOWN_E) p
          false).1.setState BTA_AG_SCO_SHUTTING_ST) := by
      simp only [bta_ag_sco_shutdown, bta_ag_sco_event, sco_event_switch, sco_event_head_sco, hst,
        sco_open_st, hcur, if_true]
    refine ⟨_, e, ?_, rfl, ?_⟩
    · simpa [World.setState] using hcur
    · simp only [World.setState]
      rw [remove_sco_out, if_pos]
      · simp [sco_event_head]
      · exact ⟨by simpa [sco_event_head] using hi, Or.inl rfl⟩

/-- Witness for C36: a shutdown request for block 1, which only listens, while
the link of block 0 is open. -/
theorem remove_sco_contract_witness :
    ∃ w1, bta_ag_sco_shutdown exampleCfg (ctlStarted 8) worldOpenListening 1 = some w1 ∧
      w1.sco.p_curr_scb = some 1 ∧ w1.sco.state = BTA_AG_SCO_SHUTTING_ST ∧
      w1.out = [] ++ [Action.BTM_RemoveSco 5] :=
  (remove_sco_contract exampleCfg (ctlStarted 8) worldOpenListening 1 false).2.2.2 rfl
    (by decide) (by decide) rfl

/-- C37: whenever `bta_ag_sco_conn_close` returns, `retry_with_sco_only` of the
block is false, whatever the retry policy did before, the originate it may have
set up included; and the call returns from every state (in the transfer
states: when the transfer slot is set). -/
theorem conn_close_discards_sco_only_retry (cfg : Cfg) (ctl : Ctl) (w : World) (p : Nat) :
    (∀ w1, bta_ag_sco_conn_close cfg ctl w p = some w1 →
      (w1.scb p).retry_with_sco_only = false) ∧
    (((w.sco.state = BTA_AG_SCO_OPEN_XFER_ST ∨ w.sco.state = BTA_AG_SCO_CLOSE_XFER_ST) →
        w.sco.p_xfer_scb ≠ none) →
      ∃ w1, bta_ag_sco_conn_close cfg ctl w p = some w1) := by
  refine ⟨?_, ?_⟩
  · intro w1 h
    unfold bta_ag_sco_conn_close at h
    simp only [Option.map_eq_some'] at h
    obtain ⟨w2, _, h2⟩ := h
    rw [← h2]
    simp [World.setScb]
  · intro hx
    unfold bta_ag_sco_conn_close
    simp only []
    split_ifs
    · obtain ⟨w1, h1⟩ := sco_event_returns cfg ctl
        ((w.setCurr none).setScb p
          { (w.setCurr none).scb p with sco_idx := BTM_INVALID_SCO_INDEX }) p
        BTA_AG_SCO_REOPEN_E (by simp) (by simp)
      rw [h1]
      exact ⟨_, rfl⟩
    · exact ⟨_, rfl⟩
    · obtain ⟨w1, h1, _⟩ := conn_close_report_emits cfg ctl
        ((w.setCurr none).setScb p
          { (w.setCurr none).scb p with sco_idx := BTM_INVALID_SCO_INDEX }) p hx
      rw [h1]
      exact ⟨_, rfl⟩

/-- Witness for C37: the attempt of block 0 has failed with the fallback
pending and a peer without codec negotiation.  The reopen event that
`bta_ag_sco_conn_close` delivers originates the CVSD attempt at once and sets
`retry_with_sco_only`; the flag is clear when `bta_ag_sco_conn_close` returns. -/
theorem conn_close_discards_sco_only_retry_witness :
    observeRetry (bta_ag_sco_event exampleCfg (ctlStarted 8)
        ((worldFallbackSkipped.setCurr none).setScb 0
          { worldFallbackSkipped.scb 0 with sco_idx := BTM_INVALID_SCO_INDEX }) 0
        BTA_AG_SCO_REOPEN_E) 0 =
      some (BTA_AG_CODEC_CVSD, BTA_AG_SCO_MSBC_SETTINGS_T1, false, true, true) ∧
    ∃ w1, bta_ag_sco_conn_close exampleCfg (ctlStarted 8) worldFallbackSkipped 0 = some w1 ∧
      (w1.scb 0).retry_with_sco_only = false := by
  refine ⟨by decide, ?_⟩
  obtain ⟨w1, h1⟩ := (conn_close_discards_sco_only_retry exampleCfg (ctlStarted 8)
    worldFallbackSkipped 0).2 (by decide)
  exact ⟨w1, h1, (conn_close_discards_sco_only_retry exampleCfg (ctlStarted 8)
    worldFallbackSkipped 0).1 w1 h1⟩

/-- C38: when the index of the block is valid on entry, `bta_ag_create_sco`
writes a warning and nothing else: no control block, no field of the SCO
control block, no call.  The event `BTA_AG_SCO_CN_DONE_E` in the codec state
(wideband built in) then still leaves the opening state, with no call made and
nothing else written. -/
theorem create_sco_declines_valid_index (cfg : Cfg) (ctl : Ctl) (w : World) (p : Nat)
    (is_orig : Bool) (hidx : (w.scb p).sco_idx ≠ BTM_INVALID_SCO_INDEX) :
    (bta_ag_create_sco cfg ctl w p is_orig).scb = w.scb ∧
    (bta_ag_create_sco cfg ctl w p is_orig).sco = w.sco ∧
    (bta_ag_create_sco cfg ctl w p is_orig).out = w.out ∧
    (bta_ag_create_sco cfg ctl w p is_orig).log =
      w.log ++ [LogEntry.already_in_use (w.scb p).sco_idx] ∧
    (cfg.BTM_WBS_INCLUDED = true → w.sco.state = BTA_AG_SCO_CODEC_ST →
      ∃ w1, bta_ag_sco_event cfg ctl w p BTA_AG_SCO_CN_DONE_E = some w1 ∧
        w1.sco = { w.sco with state := BTA_AG_SCO_OPENING_ST } ∧
        w1.scb = w.scb ∧ w1.out = w.out) := by
  rw [create_sco_in_use cfg ctl w p is_orig hidx]
  refine ⟨rfl, rfl, rfl, rfl, ?_⟩
  intro hw hs
  rw [cn_done_event, if_pos hs, if_pos hw, create_sco_in_use _ _ _ _ _ (by simpa using hidx)]
  exact ⟨_, rfl, by simp [hs], rfl, rfl⟩

/-- Witness for C38: block 1 of the close-transfer world still has its
listening connection 5 when codec negotiation reports success for it. -/
theorem create_sco_declines_valid_index_witness :
    (bta_ag_create_sco exampleCfg (ctlStarted 8) worldCloseXfer 1 true).out = worldCloseXfer.out ∧
    ∃ w1, bta_ag_sco_event exampleCfg (ctlStarted 8)
        (worldCloseXfer.setState BTA_AG_SCO_CODEC_ST) 1 BTA_AG_SCO_CN_DONE_E = some w1 ∧
      w1.sco = { (worldCloseXfer.setState BTA_AG_SCO_CODEC_ST).sco with
        state := BTA_AG_SCO_OPENING_ST } ∧
      w1.out = [] := by
  refine ⟨(create_sco_declines_valid_index exampleCfg (ctlStarted 8) worldCloseXfer 1 true
    (by decide)).2.2.1, ?_⟩
  obtain ⟨w1, h, hs, _, ho⟩ :=
    (create_sco_declines_valid_index exampleCfg (ctlStarted 8)
      (worldCloseXfer.setState BTA_AG_SCO_CODEC_ST) 1 true (by decide)).2.2.2.2 rfl rfl
  exact ⟨w1, h, hs, ho⟩

/-- C39: in the shutting state, for a block with `svc_conn` set.  When
`retry_with_sco_only` is set and no reopen condition holds,
`bta_ag_sco_conn_close` delivers no event (the trace is unchanged) and makes no
call of the application callback: it sets up a fresh originate (the calls are
those of the set-up), which makes the block the current one again, and the
state stays shutting.  When a reopen condition holds (wideband built in), the
reopen event it delivers is ignored: no call is made, no block is current and
the state stays shutting. -/
theorem conn_close_retries_in_shutting (cfg : Cfg) (ctl : Ctl) (w : World) (p : Nat)
    (hs : w.sco.state = BTA_AG_SCO_SHUTTING_ST) (hsvc : (w.scb p).svc_conn = true) :
    (¬(cfg.BTM_WBS_INCLUDED = true ∧ ((w.scb p).codec_fallback = true ∨
          bta_ag_attempt_msbc_safe_settings (w.scb p) = true)) →
      (w.scb p).retry_with_sco_only = true →
      ∃ w1, bta_ag_sco_conn_close cfg ctl w p = some w1 ∧
        w1.sco.state = BTA_AG_SCO_SHUTTING_ST ∧ w1.sco.p_curr_scb = some p ∧
        w1.log = w.log ∧
        w1.out = w.out ++
          [Action.BTM_SetEScoMode
              (create_sco_params cfg (create_sco_fallback cfg (w.scb p))
                (create_sco_codec cfg (w.scb p))),
            Action.bta_sys_sco_use (w.scb p).app_id (w.scb p).peer_addr,
            Action.bta_ag_co_audio_state (bta_ag_scb_to_idx p) (w.scb p).app_id
              SCO_STATE_SETUP (co_codec cfg (create_sco_codec cfg (w.scb p)))]) ∧
    (cfg.BTM_WBS_INCLUDED = true →
      ((w.scb p).codec_fallback = true ∨
        bta_ag_attempt_msbc_safe_settings (w.scb p) = true) →
      ∃ w1, bta_ag_sco_conn_close cfg ctl w p = some w1 ∧
        w1.sco.state = BTA_AG_SCO_SHUTTING_ST ∧ w1.sco.p_curr_scb = none ∧
        w1.out = w.out ∧
        w1.log = w.log ++
          [LogEntry.sco_evt BTM_INVALID_SCO_INDEX BTA_AG_SCO_SHUTTING_ST BTA_AG_SCO_REOPEN_E,
            LogEntry.ignoring BTA_AG_SCO_SHUTTING_ST BTA_AG_SCO_REOPEN_E]) := by
  refine ⟨?_, ?_⟩
  · intro hn hr
    have e : bta_ag_sco_conn_close cfg ctl w p =
        some ((fun w3 : World =>
            w3.setScb p { w3.scb p with retry_with_sco_only := false })
          (bta_ag_create_sco cfg ctl
            ((w.setCurr none).setScb p { w.scb p with sco_idx := BTM_INVALID_SCO_INDEX })
            p true)) := by
      unfold bta_ag_sco_conn_close
      simp only [World.setScb, World.setCurr, Function.update_same]
      rw [if_neg, if_pos ⟨hr, hsvc⟩]
      · rfl
      · rintro ⟨hw, h | h⟩
        · exact hn ⟨hw, Or.inl h.1⟩
        · exact hn ⟨hw, Or.inr (by simpa [bta_ag_attempt_msbc_safe_settings] using h)⟩
    have hi : (((w.setCurr none).setScb p
        { w.scb p with sco_idx := BTM_INVALID_SCO_INDEX }).scb p).sco_idx =
        BTM_INVALID_SCO_INDEX := by
      simp [World.setScb]
    have hout := create_sco_orig_out cfg ctl
      ((w.setCurr none).setScb p { w.scb p with sco_idx := BTM_INVALID_SCO_INDEX }) p hi
    have hcur := (create_sco_sco cfg ctl
      ((w.setCurr none).setScb p { w.scb p with sco_idx := BTM_INVALID_SCO_INDEX }) p
      true).2.2.2.2.2.1
    rw [if_pos ⟨rfl, hi⟩] at hcur
    refine ⟨_, e, ?_, ?_, ?_, ?_⟩
    · simp [World.setScb, World.setCurr, hs]
    · exact hcur
    · exact hout.2
    · have h1 := hout.1
      simp only [World.setScb, World.setCurr, Function.update_same] at h1 ⊢
      rw [h1]
      simp [create_sco_codec, create_sco_fallback, create_sco_params,
        create_sco_codec_index, limit_for_sco, lacks_esco]
  · intro hw h
    have e : bta_ag_sco_conn_close cfg ctl w p =
        (bta_ag_sco_event cfg ctl
          ((w.setCurr none).setScb p { w.scb p with sco_idx := BTM_INVALID_SCO_INDEX }) p
          BTA_AG_SCO_REOPEN_E).map
          (fun w2 => w2.setScb p { w2.scb p with retry_with_sco_only := false }) := by
      unfold bta_ag_sco_conn_close
      simp only [World.setScb, World.setCurr, Function.update_same]
      rw [if_pos]
      refine ⟨hw, ?_⟩
      rcases h with h | h
      · exact Or.inl ⟨h, hsvc⟩
      · exact Or.inr (by simpa [bta_ag_attempt_msbc_safe_settings] using h)
    rw [e]
    simp [bta_ag_sco_event, sco_event_switch, sco_event_head, sco_shutting_st, sco_ignore, hs,
      World.setScb, World.setCurr]

/-- Witness for C39: the failure of the CVSD attempt of block 0 is handled
while the machine is shutting; the SCO-only retry is set up, block 0 is current
again and the state stays shutting. -/
theorem conn_close_retries_in_shutting_witness :
    ∃ w1, bta_ag_sco_conn_close exampleCfg (ctlStarted 8) worldShuttingRetry 0 = some w1 ∧
      w1.sco.state = BTA_AG_SCO_SHUTTING_ST ∧ w1.sco.p_curr_scb = some 0 ∧
      w1.log = worldShuttingRetry.log := by
  obtain ⟨w1, h, hs, hc, hl, _⟩ :=
    (conn_close_retries_in_shutting exampleCfg (ctlStarted 8) worldShuttingRetry 0 rfl rfl).1
      (by decide) rfl
  exact ⟨w1, h, hs, hc, hl⟩

end BtaAgSco
